import Mathlib

/-!
# NativeMessageBox: a shallow embedding of the native runtime

The C/C++ sources embedded here are

* `include/native_message_box.h`, `include/native_message_box_test.h` (data contract),
* `src/shared/nmb_alloc.h`, `src/shared/nmb_runtime.c` (allocator adapter, log sink),
* `src/native/linux/message_box.cpp`, `src/native/windows/message_box.cpp`,
  `src/native/android/MessageBox.cpp` (the backends),
* `src/native/web/wasm_message_box.cpp` (the web backend; the JavaScript side of a
  dispatch is a field of `World`).

Conventions of the embedding.

* A nullable pointer to a struct or to a string is an `Option`; `none` is `NULL`.
* A non-null `const char*` is a `CString`: the address it holds together with the bytes
  stored from that address on, so that both pointer identity and content are visible.
* Raw addresses (`void*`, function pointers that are only compared or forwarded) are
  natural numbers, `0` being `NULL`.
* Enumerations and `nmb_bool` are natural numbers with the values of the header.
* Everything the platform decides (what the heap returns, whether GTK comes up, which
  button the user presses) is a field of `World`; every call the runtime makes to the
  outside is appended to `World.trace`.
-/

namespace NativeMessageBox

/-! ## Data contract (`native_message_box.h`) -/

/-- A non-null `const char*`: its address and the bytes stored from that address on. -/
structure CString where
  addr : Nat
  bytes : List Nat
deriving DecidableEq, Repr

/-- The bytes of a string literal, terminator included. -/
def lit (addr : Nat) (s : String) : CString :=
  { addr := addr, bytes := s.toList.map Char.toNat ++ [0] }

/-- The function `strlen`: the number of bytes before the first zero byte. -/
def strlen (s : CString) : Nat :=
  (s.bytes.takeWhile (fun b => b != 0)).length

/-- The text of a C string: the bytes before the terminator. -/
def CString.text (s : CString) : List Nat :=
  s.bytes.takeWhile (fun b => b != 0)

/-- A string is null-terminated when a zero byte occurs in its storage. -/
def CString.terminated (s : CString) : Prop := 0 ∈ s.bytes

instance (s : CString) : Decidable s.terminated := by
  unfold CString.terminated; infer_instance

def NMB_FALSE : Nat := 0
def NMB_TRUE : Nat := 1

/-- The macro `NMB_MAKE_VERSION(major, minor, patch)`. -/
def NMB_MAKE_VERSION (major minor patch : Nat) : Nat :=
  (((major &&& 0xFF) <<< 16) ||| ((minor &&& 0xFF) <<< 8)) ||| (patch &&& 0xFF)

def NMB_ABI_VERSION : Nat := NMB_MAKE_VERSION 0 1 0

/-- The struct `NmbAllocator`: `allocate` and `deallocate` are nullable function pointers. The
allocate function maps `(user_data, size, alignment)` to the address it returns. -/
structure NmbAllocator where
  allocate : Option (Nat → Nat → Nat → Nat)
  deallocate : Option (Nat → Nat → Unit)
  user_data : Nat

/-! `NmbResultCode` -/
def NMB_OK : Nat := 0
def NMB_E_INVALID_ARGUMENT : Nat := 1
def NMB_E_UNINITIALIZED : Nat := 2
def NMB_E_NOT_SUPPORTED : Nat := 3
def NMB_E_PLATFORM_FAILURE : Nat := 4
def NMB_E_CANCELLED : Nat := 5
def NMB_E_OUT_OF_MEMORY : Nat := 6
def NMB_E_UNKNOWN : Nat := 0xFFFFFFFF

/-! `NmbButtonKind` -/
def NMB_BUTTON_KIND_DEFAULT : Nat := 0
def NMB_BUTTON_KIND_PRIMARY : Nat := 1
def NMB_BUTTON_KIND_SECONDARY : Nat := 2
def NMB_BUTTON_KIND_DESTRUCTIVE : Nat := 3
def NMB_BUTTON_KIND_HELP : Nat := 4

/-! `NmbIcon` -/
def NMB_ICON_NONE : Nat := 0
def NMB_ICON_INFORMATION : Nat := 1
def NMB_ICON_WARNING : Nat := 2
def NMB_ICON_ERROR : Nat := 3
def NMB_ICON_QUESTION : Nat := 4
def NMB_ICON_SHIELD : Nat := 5

/-! `NmbSeverity` -/
def NMB_SEVERITY_INFO : Nat := 0
def NMB_SEVERITY_WARNING : Nat := 1
def NMB_SEVERITY_ERROR : Nat := 2
def NMB_SEVERITY_CRITICAL : Nat := 3

/-! `NmbDialogModality` -/
def NMB_MODALITY_APP : Nat := 0
def NMB_MODALITY_WINDOW : Nat := 1
def NMB_MODALITY_SYSTEM : Nat := 2

/-! `NmbInputMode` -/
def NMB_INPUT_NONE : Nat := 0
def NMB_INPUT_CHECKBOX : Nat := 1
def NMB_INPUT_TEXT : Nat := 2
def NMB_INPUT_PASSWORD : Nat := 3
def NMB_INPUT_COMBO : Nat := 4

/-! `NmbButtonId` -/
def NMB_BUTTON_ID_NONE : Nat := 0
def NMB_BUTTON_ID_OK : Nat := 1
def NMB_BUTTON_ID_CANCEL : Nat := 2
def NMB_BUTTON_ID_YES : Nat := 3
def NMB_BUTTON_ID_NO : Nat := 4
def NMB_BUTTON_ID_RETRY : Nat := 5
def NMB_BUTTON_ID_CONTINUE : Nat := 6
def NMB_BUTTON_ID_IGNORE : Nat := 7
def NMB_BUTTON_ID_ABORT : Nat := 8
def NMB_BUTTON_ID_CLOSE : Nat := 9
def NMB_BUTTON_ID_HELP : Nat := 10
def NMB_BUTTON_ID_TRY_AGAIN : Nat := 11
def NMB_BUTTON_ID_CUSTOM_BASE : Nat := 1000

structure NmbButtonOption where
  struct_size : Nat
  id : Nat
  label_utf8 : Option CString
  description_utf8 : Option CString
  kind : Nat
  is_default : Nat
  is_cancel : Nat
deriving DecidableEq, Repr

structure NmbInputOption where
  struct_size : Nat
  mode : Nat
  prompt_utf8 : Option CString
  placeholder_utf8 : Option CString
  default_value_utf8 : Option CString
  combo_items_utf8 : Option (List CString)
deriving DecidableEq, Repr

structure NmbSecondaryContentOption where
  struct_size : Nat
  informative_text_utf8 : Option CString
  expanded_text_utf8 : Option CString
  footer_text_utf8 : Option CString
  help_link_utf8 : Option CString
deriving DecidableEq, Repr

/-- The struct `NmbTestHarness` (`native_message_box_test.h`). -/
structure NmbTestHarness where
  struct_size : Nat
  magic : Nat
  scripted_button : Nat
  checkbox_checked : Nat
  simulate_timeout : Nat
  result_code : Nat
  input_value_utf8 : Option CString
deriving DecidableEq, Repr

def NMB_TEST_HARNESS_MAGIC : Nat := 0x4E4D4254

/-- The struct `NmbMessageBoxOptions`. `buttons` is the pointer to the button array (`none` is
`NULL`), `button_count` the separately declared element count. `user_context` is a
`void*`; the object it points to is read as an `NmbTestHarness` by the test builds. -/
structure NmbMessageBoxOptions where
  struct_size : Nat
  abi_version : Nat
  title_utf8 : Option CString
  message_utf8 : Option CString
  buttons : Option (List NmbButtonOption)
  button_count : Nat
  icon : Nat
  severity : Nat
  modality : Nat
  parent_window : Nat
  input : Option NmbInputOption
  secondary : Option NmbSecondaryContentOption
  verification_text_utf8 : Option CString
  allow_cancel_via_escape : Nat
  show_suppress_checkbox : Nat
  requires_explicit_ack : Nat
  timeout_milliseconds : Nat
  timeout_button_id : Nat
  locale_utf8 : Option CString
  allocator : Option NmbAllocator
  user_context : Option NmbTestHarness

structure NmbMessageBoxResult where
  struct_size : Nat
  button : Nat
  checkbox_checked : Nat
  input_value_utf8 : Option CString
  was_timeout : Nat
  result_code : Nat
deriving DecidableEq, Repr

structure NmbInitializeOptions where
  struct_size : Nat
  abi_version : Nat
  runtime_name_utf8 : Option CString
  allocator : Option NmbAllocator
  enable_async_dispatch : Nat
  log_callback : Nat
  log_user_data : Nat

/-! ## The build and the outside world -/

/-- What the compiler fixes for one artifact: whether `NMB_TESTING` is defined, and the
`sizeof` / `offsetof` constants the sources use. -/
structure Build where
  testing : Bool
  sizeof_NmbTestHarness : Nat
  sizeof_NmbMessageBoxResult : Nat
  kInitializeOptionsMinSize : Nat
  kMessageBoxOptionsMinSize : Nat
  kMessageBoxResultMinSize : Nat
  /-- the value of `sizeof(NmbInitializeOptions)`, which the web backend compares with -/
  sizeof_NmbInitializeOptions : Nat
  /-- the value of `sizeof(NmbMessageBoxOptions)`, which the web backend compares with -/
  sizeof_NmbMessageBoxOptions : Nat
deriving DecidableEq, Repr

/-- The constants of a 64-bit test build (8-byte pointers, natural alignment). -/
def Build.lp64 : Build :=
  { testing := true
    sizeof_NmbTestHarness := 32
    sizeof_NmbMessageBoxResult := 32
    kInitializeOptionsMinSize := 48
    kMessageBoxOptionsMinSize := 128
    kMessageBoxResultMinSize := 32
    sizeof_NmbInitializeOptions := 48
    sizeof_NmbMessageBoxOptions := 128 }

/-- The constants of a 32-bit WebAssembly build (4-byte pointers and `size_t`), which is
not a test build. -/
def Build.wasm32 : Build :=
  { testing := false
    sizeof_NmbTestHarness := 24
    sizeof_NmbMessageBoxResult := 24
    kInitializeOptionsMinSize := 28
    kMessageBoxOptionsMinSize := 76
    kMessageBoxResultMinSize := 24
    sizeof_NmbInitializeOptions := 28
    sizeof_NmbMessageBoxOptions := 76 }

/-- A call the runtime makes to something outside itself. -/
inductive Call where
  /-- the log callback `cb` invoked with `(user_data, message)` -/
  | log (cb user_data : Nat) (message : String)
  /-- call of `allocator->allocate(user_data, size, alignment)` -/
  | allocate (user_data size alignment : Nat)
  /-- call of `malloc(size)` / `CoTaskMemAlloc(size)` -/
  | heap_alloc (size : Nat)
  /-- call of `gtk_init_check` -/
  | gtk_init_check
  /-- call of `g_find_program_in_path("zenity")` -/
  | find_zenity
  /-- call of `g_spawn_sync` with the argument vector after the program path -/
  | spawn_zenity (args : List String)
  /-- call of `g_timeout_add(ms, TimeoutCallback, &info)` arming the response `response` -/
  | g_timeout_add (ms : Nat) (response : Int)
  /-- call of `gtk_dialog_run` -/
  | gtk_dialog_run
  /-- call of `gtk_dialog_response(dialog, response)` -/
  | gtk_dialog_response (response : Int)
  /-- call of `LoadLibraryW(L"comctl32.dll")` and `GetProcAddress` -/
  | load_task_dialog
  /-- call of `TaskDialogIndirect` -/
  | task_dialog
  /-- call of `MessageBoxW` with the composed flags -/
  | message_box (flags : Nat)
  /-- call of `__android_log_print` with the message -/
  | android_log (message : String)
  /-- call of the named JNI function -/
  | jni (function : String)
  /-- call of the JavaScript function `nmb_wasm_set_runtime_name` with the name -/
  | wasm_set_runtime_name (name : String)
  /-- call of the JavaScript function `nmb_wasm_shutdown` -/
  | wasm_shutdown
  /-- call of the JavaScript function `nmb_wasm_dispatch_message_box` with a request of
  `button_count` marshalled buttons -/
  | wasm_dispatch (button_count : Nat)
deriving DecidableEq, Repr

/-- What the user and GTK do with one dialog (`gtk_dialog_run` and the widget reads). -/
structure GtkSession where
  /-- the response the user produces; `none` when the user leaves the dialog alone -/
  user_response : Option Int
  /-- state of the verification check button when the dialog closes -/
  verification_active : Bool
  /-- value of `gtk_entry_get_text` -/
  entry_text : Option CString
  /-- value of `gtk_combo_box_text_get_active_text` -/
  combo_active_text : Option CString
  /-- state of the input check button when the dialog closes -/
  checkbox_active : Bool
deriving DecidableEq, Repr

/-- What Windows does with one dialog. -/
structure WinSession where
  /-- value of `FAILED(hr)` of `TaskDialogIndirect` -/
  task_dialog_failed : Bool
  /-- value of `buttonPressed` written by `TaskDialogIndirect` -/
  button_pressed : Int
  /-- value of `verificationChecked` written by `TaskDialogIndirect` -/
  verification_checked : Bool
  /-- whether a `TDN_TIMER` notification arrives with `elapsed >= timeout_ms` -/
  timer_elapsed : Bool
  /-- return value of `MessageBoxW` -/
  message_box_response : Int
  /-- value of `GetLastError()` after a failed `MessageBoxW` -/
  last_error : Nat
deriving DecidableEq, Repr

/-- How the Java bridge completes one Android dialog. -/
inductive AndroidCompletion where
  /-- the callback `nativeOnDialogCompleted(handle, buttonId, cancelled)` -/
  | completed (buttonId : Int) (cancelled : Bool)
  /-- the callback `nativeOnDialogError(handle, errorCode)` -/
  | error (errorCode : Int)
deriving DecidableEq, Repr

/-- The Android process: the JNI globals of `MessageBox.cpp` and what the Java side does. -/
structure AndroidHost where
  /-- the global `g_javaVm` is set -/
  g_javaVm : Bool
  /-- the global `g_bridgeClass` is set -/
  g_bridgeClass : Bool
  /-- the global `g_showDialogMethod` is set -/
  g_showDialogMethod : Bool
  /-- value of `GetEnv`: `JNI_OK` is 0, `JNI_EDETACHED` is -2 -/
  get_env_result : Int
  /-- whether `AttachCurrentThread` returns `JNI_OK` -/
  attach_ok : Bool
  /-- whether `FindClass` finds the bridge class -/
  find_bridge_class_ok : Bool
  /-- whether `NewGlobalRef` succeeds -/
  new_global_ref_ok : Bool
  /-- whether `GetStaticMethodID` finds `showMessageDialog` -/
  get_method_ok : Bool
  /-- whether `NewLocalRef(activity)` is non-null -/
  new_local_ref_ok : Bool
  /-- whether `FindClass("java/lang/String")` succeeds -/
  find_string_class_ok : Bool
  /-- whether `NewObjectArray` succeeds -/
  new_object_array_ok : Bool
  /-- whether `NewLongArray` succeeds -/
  new_long_array_ok : Bool
  /-- index of the button whose `NewStringUTF` fails, if any -/
  failing_label : Option Nat
  /-- value of `ExceptionCheck` after the bridge call -/
  exception_pending : Bool
  /-- how the dialog completes; `none` when no callback ever arrives -/
  completion : Option AndroidCompletion
deriving DecidableEq, Repr

/-- What the JavaScript side does with one dispatched request of the web backend. -/
structure WebSession where
  /-- return value of `nmb_wasm_dispatch_message_box` -/
  dispatch_rc : Int
  /-- the field `result_code` of the `NmbWasmResponse` -/
  result_code : Nat
  /-- the field `button_id` of the `NmbWasmResponse` -/
  button_id : Nat
  /-- the field `checkbox_checked` of the `NmbWasmResponse` -/
  checkbox_checked : Nat
  /-- the field `was_timeout` of the `NmbWasmResponse` -/
  was_timeout : Nat
  /-- the string at `input_ptr` of the `NmbWasmResponse`; `none` when `input_ptr` is 0 -/
  input : Option CString
deriving DecidableEq, Repr

/-- Process state and platform behaviour. -/
structure World where
  build : Build
  /-- the static `s_log_callback` of `nmb_runtime.c` (`0` is `NULL`) -/
  s_log_callback : Nat
  /-- the static `s_log_user_data` of `nmb_runtime.c` -/
  s_log_user_data : Nat
  /-- the default heap: the address `malloc(size)` returns (`0` is `NULL`) -/
  malloc : Nat → Nat
  /-- the calls made so far, oldest first -/
  trace : List Call
  /-- Linux: the function statics of `EnsureGtkInitialized` -/
  gtk_initialized : Bool
  gtk_available : Bool
  /-- Linux: what `gtk_init_check` returns -/
  gtk_init_result : Bool
  /-- Linux: `g_find_program_in_path("zenity")` is non-null -/
  zenity_found : Bool
  /-- Linux: `g_spawn_sync` succeeded, and the `GError` message when it did not -/
  spawn_ok : Bool
  spawn_error : Option String
  /-- Linux: `WIFEXITED` and `WEXITSTATUS` of the zenity exit status -/
  wifexited : Bool
  wexitstatus : Nat
  /-- Linux: the GTK dialog session -/
  gtk : GtkSession
  /-- Windows: the function statics of `LoadTaskDialog` (`proc` non-null, `attempted`) -/
  task_dialog_proc : Bool
  task_dialog_attempted : Bool
  /-- Windows: comctl32 exports `TaskDialogIndirect` -/
  task_dialog_exported : Bool
  /-- Windows: the dialog session -/
  win : WinSession
  /-- Android: JNI globals and the Java side -/
  android : AndroidHost
  /-- Web: the JavaScript side of one dispatch -/
  web : WebSession

/-- Append a call to the trace. -/
def World.record (w : World) (c : Call) : World :=
  { w with trace := w.trace ++ [c] }

/-! ## `nmb_runtime.c` -/

def nmb_runtime_set_log_callback (w : World) (log_callback user_data : Nat) : World :=
  { w with s_log_callback := log_callback, s_log_user_data := user_data }

/-- The function `nmb_runtime_log`; `message` is `none` for a null message. -/
def nmb_runtime_log (w : World) (message : Option String) : World :=
  match message with
  | some m =>
    if w.s_log_callback != 0 then w.record (.log w.s_log_callback w.s_log_user_data m)
    else w
  | none => w

def nmb_runtime_reset_log (w : World) : World :=
  { w with s_log_callback := 0, s_log_user_data := 0 }

/-! ## `nmb_alloc.h` -/

/-- The function `nmb_default_alloc`: a zero size returns `NULL` without touching the heap. -/
def nmb_default_alloc (w : World) (size : Nat) : Nat × World :=
  if size = 0 then (0, w)
  else (w.malloc size, w.record (.heap_alloc size))

/-- The function `nmb_allocate`. -/
def nmb_allocate (w : World) (allocator : Option NmbAllocator) (size alignment : Nat) :
    Nat × World :=
  match allocator with
  | some a =>
    match a.allocate with
    | some f => (f a.user_data size alignment, w.record (.allocate a.user_data size alignment))
    | none => nmb_default_alloc w size
  | none => nmb_default_alloc w size

/-- The call `memcpy(buffer, source, len)` into a fresh object at `buffer`: the first `len` bytes
of the source. -/
def memcpy (buffer : Nat) (source : CString) (len : Nat) : CString :=
  { addr := buffer, bytes := source.bytes.take len }

/-- The function `nmb_copy_string_to_allocator`. `target` is `none` for a null `const char**`, and
`some v` for a slot currently holding `v`; the second component of the value is the slot
after the call. -/
def nmb_copy_string_to_allocator (w : World) (allocator : Option NmbAllocator)
    (source : Option CString) (target : Option (Option CString)) :
    Nat × Option (Option CString) × World :=
  match target with
  | none => (NMB_E_INVALID_ARGUMENT, none, w)
  | some old =>
    match source with
    | none => (NMB_OK, some none, w)
    | some s =>
      let len := strlen s + 1
      let (buffer, w1) := nmb_allocate w allocator len 1
      if buffer = 0 then (NMB_E_OUT_OF_MEMORY, some old, w1)
      else (NMB_OK, some (some (memcpy buffer s len)), w1)

/-! ## Outcomes of a backend call -/

/-- Why a call does not return: it reads an array element that does not exist (a null or
too short button array), or it waits for a dialog nobody and nothing ever closes. -/
inductive Stop where
  | invalid_read
  | blocked
deriving DecidableEq, Repr

/-- Store what `nmb_copy_string_to_allocator` left in the slot `&out_result->input_value_utf8`
back into the result struct. -/
def storeInput (r : NmbMessageBoxResult) (slot : Option (Option CString)) :
    NmbMessageBoxResult :=
  match slot with
  | some v => { r with input_value_utf8 := v }
  | none => r

/-- The conversion `static_cast<Enum>(value)` of a signed integer to a 32-bit enumeration
value. -/
def enumOfInt (value : Int) : Nat :=
  (value % 4294967296).toNat

/-- The text of a C string as a Lean string, for `printf`-style formatting. -/
def CString.toString (s : CString) : String :=
  String.mk (s.text.map Char.ofNat)

/-- The result struct as every backend resets it once validation has passed. -/
def baseline (b : Build) : NmbMessageBoxResult :=
  { struct_size := b.sizeof_NmbMessageBoxResult
    button := NMB_BUTTON_ID_NONE
    checkbox_checked := NMB_FALSE
    input_value_utf8 := none
    was_timeout := NMB_FALSE
    result_code := NMB_OK }

/-! ## Linux backend (`src/native/linux/message_box.cpp`) -/

namespace Linux

def GTK_RESPONSE_NONE : Int := -1
def GTK_RESPONSE_REJECT : Int := -2
def GTK_RESPONSE_ACCEPT : Int := -3
def GTK_RESPONSE_DELETE_EVENT : Int := -4
def GTK_RESPONSE_OK : Int := -5
def GTK_RESPONSE_CANCEL : Int := -6
def GTK_RESPONSE_CLOSE : Int := -7
def GTK_RESPONSE_YES : Int := -8
def GTK_RESPONSE_NO : Int := -9
def GTK_RESPONSE_APPLY : Int := -10
def GTK_RESPONSE_HELP : Int := -11

def LogInvalid (w : World) (message : String) : Nat × World :=
  (NMB_E_INVALID_ARGUMENT, nmb_runtime_log w (some message))

/-- The function `ApplyTestHarness` (compiled under `NMB_TESTING`). Returns whether the
harness applied, the result struct after the call, and the world. -/
def ApplyTestHarness (w : World) (options : Option NmbMessageBoxOptions)
    (out_result : Option NmbMessageBoxResult) : Bool × Option NmbMessageBoxResult × World :=
  match options, out_result with
  | some o, some r =>
    match o.user_context with
    | none => (false, out_result, w)
    | some harness =>
      if harness.magic != NMB_TEST_HARNESS_MAGIC
          || harness.struct_size != w.build.sizeof_NmbTestHarness then
        (false, out_result, w)
      else
        let r := { r with
          button := harness.scripted_button
          checkbox_checked := harness.checkbox_checked
          was_timeout := harness.simulate_timeout
          result_code := harness.result_code
          input_value_utf8 := none }
        match harness.input_value_utf8 with
        | some text =>
          match o.allocator with
          | some allocator =>
            let (copy_rc, slot, w1) :=
              nmb_copy_string_to_allocator w (some allocator) (some text)
                (some r.input_value_utf8)
            let r := storeInput r slot
            if copy_rc != NMB_OK then
              (true, some { r with result_code := copy_rc }, w1)
            else
              (true, some r, w1)
          | none => (true, some { r with input_value_utf8 := some text }, w)
        | none => (true, some r, w)
  | _, _ => (false, out_result, w)

def ValidateMessageBoxOptions (w : World) (options : Option NmbMessageBoxOptions) :
    Nat × World :=
  match options with
  | none => (NMB_E_INVALID_ARGUMENT, w)
  | some o =>
    if o.struct_size < w.build.kMessageBoxOptionsMinSize then
      LogInvalid w "Linux: NmbMessageBoxOptions.struct_size is smaller than expected."
    else if o.abi_version != NMB_ABI_VERSION then
      LogInvalid w "Linux: NmbMessageBoxOptions.abi_version mismatch."
    else
      (NMB_OK, w)

def ValidateMessageBoxResult (w : World) (result : Option NmbMessageBoxResult) :
    Nat × World :=
  match result with
  | none => (NMB_E_INVALID_ARGUMENT, w)
  | some r =>
    if r.struct_size < w.build.kMessageBoxResultMinSize then
      LogInvalid w "Linux: NmbMessageBoxResult.struct_size is smaller than expected."
    else
      (NMB_OK, w)

/-- The struct `GtkDialogInfo`; a widget pointer is represented by whether it is set. -/
structure GtkDialogInfo where
  dialog : Bool := false
  verification : Bool := false
  inputWidget : Bool := false
  inputCheckbox : Bool := false
  inputMode : Nat := NMB_INPUT_NONE
  buttonMap : List (Int × Nat) := []
  timeoutResponse : Int := 0
  timedOut : Bool := false
  allowClose : Bool := true
  requiresExplicitAck : Bool := false
deriving DecidableEq, Repr

def EnsureGtkInitialized (w : World) : Bool × World :=
  if !w.gtk_initialized then
    let w1 := { w with gtk_initialized := true, gtk_available := w.gtk_init_result }
    (w1.gtk_available, w1.record Call.gtk_init_check)
  else
    (w.gtk_available, w)

def CopyInputValue (w : World) (options : NmbMessageBoxOptions) (info : Option GtkDialogInfo)
    (out_result : NmbMessageBoxResult) : Nat × NmbMessageBoxResult × World :=
  match info with
  | none => (NMB_OK, { out_result with input_value_utf8 := none }, w)
  | some info =>
    if !info.inputWidget then
      (NMB_OK, { out_result with input_value_utf8 := none }, w)
    else if info.inputMode = NMB_INPUT_TEXT ∨ info.inputMode = NMB_INPUT_PASSWORD then
      let (rc, slot, w1) :=
        nmb_copy_string_to_allocator w options.allocator w.gtk.entry_text
          (some out_result.input_value_utf8)
      (rc, storeInput out_result slot, w1)
    else if info.inputMode = NMB_INPUT_COMBO then
      match w.gtk.combo_active_text with
      | none => (NMB_OK, { out_result with input_value_utf8 := none }, w)
      | some active =>
        let (rc, slot, w1) :=
          nmb_copy_string_to_allocator w options.allocator (some active)
            (some out_result.input_value_utf8)
        (rc, storeInput out_result slot, w1)
    else if info.inputMode = NMB_INPUT_CHECKBOX then
      let r :=
        if info.inputCheckbox then
          { out_result with
            checkbox_checked := if w.gtk.checkbox_active then NMB_TRUE else NMB_FALSE }
        else out_result
      (NMB_OK, { r with input_value_utf8 := none }, w)
    else
      (NMB_OK, { out_result with input_value_utf8 := none }, w)

/-- The function `MapButtonId`: the id of the first pair whose response code matches. -/
def MapButtonId (info : GtkDialogInfo) (response : Int) : Option Nat :=
  match info.buttonMap.find? (fun pair => pair.1 == response) with
  | some pair => some pair.2
  | none => none

def G_SOURCE_REMOVE : Bool := false

def GDK_KEY_Escape : Nat := 0xff1b

/-- The function `TimeoutCallback`; `data` is `none` for a null pointer. The value is the
returned `gboolean` (whether GLib keeps the source), the dialog info after the call and
the world. -/
def TimeoutCallback (w : World) (data : Option GtkDialogInfo) :
    Bool × Option GtkDialogInfo × World :=
  match data with
  | none => (G_SOURCE_REMOVE, none, w)
  | some info =>
    if !info.dialog then (G_SOURCE_REMOVE, some info, w)
    else
      (G_SOURCE_REMOVE, some { info with timedOut := true },
        w.record (Call.gtk_dialog_response info.timeoutResponse))

/-- The function `OnDeleteEvent`; the value `true` stops the event, so that the dialog
does not close. -/
def OnDeleteEvent (data : Option GtkDialogInfo) : Bool :=
  match data with
  | none => false
  | some info => if info.allowClose then false else true

/-- The function `OnKeyPress`; `event` is the `keyval` of the key event, `none` for a null
event. The value `true` stops the event, so that the key reaches nothing else. -/
def OnKeyPress (data : Option GtkDialogInfo) (event : Option Nat) : Bool :=
  match data, event with
  | some info, some keyval =>
    if keyval = GDK_KEY_Escape then
      if !info.allowClose || info.requiresExplicitAck then true
      else false
    else false
  | _, _ => false

/-- The function `RunZenityFallback`; `out_result` is only reached past the null check of
`options`, where the caller has passed a non-null result. -/
def RunZenityFallback (w : World) (options : Option NmbMessageBoxOptions)
    (out_result : NmbMessageBoxResult) : Bool × NmbMessageBoxResult × World :=
  match options with
  | none => (false, out_result, w)
  | some o =>
    if o.input.isSome || (o.buttons.isSome && decide (o.button_count > 1)) then
      (false, out_result, w)
    else
      let w1 := w.record Call.find_zenity
      if !w1.zenity_found then (false, out_result, w1)
      else
        let iconArg :=
          if o.icon = NMB_ICON_WARNING then "--warning"
          else if o.icon = NMB_ICON_ERROR then "--error"
          else if o.icon = NMB_ICON_QUESTION then "--question"
          else "--info"
        let titleArg :=
          match o.title_utf8 with
          | some t => ["--title=" ++ t.toString]
          | none => []
        let textArg :=
          match o.message_utf8 with
          | some m => ["--text=" ++ m.toString]
          | none => []
        let args := [iconArg, "--no-wrap"] ++ titleArg ++ textArg
        let w2 := w1.record (Call.spawn_zenity args)
        if !w2.spawn_ok then
          match w2.spawn_error with
          | some message => (false, out_result, nmb_runtime_log w2 (some message))
          | none => (false, out_result, w2)
        else if !w2.wifexited then
          (false, out_result,
            nmb_runtime_log w2 (some "Linux: zenity terminated without exit status."))
        else
          let exitCode := w2.wexitstatus
          (true,
            { out_result with
              button := if exitCode = 0 then NMB_BUTTON_ID_OK else NMB_BUTTON_ID_CANCEL
              checkbox_checked := NMB_FALSE
              input_value_utf8 := none
              was_timeout := NMB_FALSE
              result_code := NMB_OK },
            w2)

/-- The button loop of `ShowGtkDialog`: `remaining` iterations from index `i` on, each
reading `buttons[i]` and appending `(GTK_RESPONSE_NONE - i - 1, button.id)`. -/
def addButtons (buttons : List NmbButtonOption) :
    Nat → Nat → List (Int × Nat) → Except Stop (List (Int × Nat))
  | 0, _, buttonMap => .ok buttonMap
  | remaining + 1, i, buttonMap =>
    match buttons.get? i with
    | none => .error Stop.invalid_read
    | some button =>
      addButtons buttons remaining (i + 1)
        (buttonMap ++ [(GTK_RESPONSE_NONE - (i : Int) - 1, button.id)])

/-- The timeout lookup of `ShowGtkDialog`: the response of the first pair whose id is the
timeout button id, `0` when there is none. -/
def timeoutLookup (buttonMap : List (Int × Nat)) (timeout_button_id : Nat) : Int :=
  match buttonMap.find? (fun pair => pair.2 == timeout_button_id) with
  | some pair => pair.1
  | none => 0

/-- The construction phase of `ShowGtkDialog`, from `GtkDialogInfo info = {}` to the
decision to arm the timer. Widget construction is reduced to what the control flow reads
back: which widgets exist, the button map, the close policy, the timeout response. The
value is the dialog info and whether `g_timeout_add` is called. -/
def ShowGtkDialog.build (options : NmbMessageBoxOptions) :
    Except Stop (GtkDialogInfo × Bool) :=
  let info : GtkDialogInfo := { dialog := true }
  let info :=
    if options.show_suppress_checkbox = NMB_TRUE ∧ options.verification_text_utf8.isSome then
      { info with verification := true }
    else info
  let info :=
    match options.input with
    | some input =>
      let info := { info with inputMode := input.mode }
      if input.mode = NMB_INPUT_TEXT ∨ input.mode = NMB_INPUT_PASSWORD then
        { info with inputWidget := true }
      else if input.mode = NMB_INPUT_COMBO then
        { info with inputWidget := true }
      else if input.mode = NMB_INPUT_CHECKBOX then
        { info with inputCheckbox := true }
      else info
    | none => info
  let built : Except Stop (List (Int × Nat)) :=
    match options.buttons with
    | some buttons =>
      if options.button_count > 0 then addButtons buttons options.button_count 0 info.buttonMap
      else .ok (info.buttonMap ++ [(GTK_RESPONSE_OK, NMB_BUTTON_ID_OK)])
    | none => .ok (info.buttonMap ++ [(GTK_RESPONSE_OK, NMB_BUTTON_ID_OK)])
  match built with
  | .error e => .error e
  | .ok buttonMap =>
    let info := { info with buttonMap := buttonMap }
    let info := { info with requiresExplicitAck := options.requires_explicit_ack = NMB_TRUE }
    let info := { info with
      allowClose := options.allow_cancel_via_escape = NMB_TRUE && !info.requiresExplicitAck }
    let mappedResponse :=
      if options.timeout_milliseconds > 0 ∧ options.timeout_button_id ≠ NMB_BUTTON_ID_NONE then
        timeoutLookup info.buttonMap options.timeout_button_id
      else 0
    let armed : Bool :=
      options.timeout_milliseconds > 0 ∧ options.timeout_button_id ≠ NMB_BUTTON_ID_NONE
        ∧ mappedResponse ≠ 0
    let info := if armed then { info with timeoutResponse := mappedResponse } else info
    .ok (info, armed)

/-- The phase of `ShowGtkDialog` after `gtk_dialog_run` has returned `response`: the
mapping of the response and the writes to the result struct. -/
def ShowGtkDialog.finish (w : World) (options : NmbMessageBoxOptions) (info : GtkDialogInfo)
    (response : Int) (out_result : NmbMessageBoxResult) :
    Nat × NmbMessageBoxResult × World :=
  let mapped := MapButtonId info response
  let button := mapped.getD NMB_BUTTON_ID_NONE
  let r :=
    if info.verification then
      { out_result with
        checkbox_checked := if w.gtk.verification_active then NMB_TRUE else NMB_FALSE }
    else out_result
  let r := { r with was_timeout := if info.timedOut then NMB_TRUE else NMB_FALSE }
  if mapped.isNone ∧
      (response = GTK_RESPONSE_DELETE_EVENT ∨ response = GTK_RESPONSE_CANCEL
        ∨ response = GTK_RESPONSE_CLOSE ∨ response = GTK_RESPONSE_REJECT
        ∨ response = GTK_RESPONSE_NONE) then
    (NMB_E_CANCELLED,
      { r with
        button := NMB_BUTTON_ID_CANCEL
        input_value_utf8 := none
        result_code := NMB_E_CANCELLED },
      w)
  else
    let r := { r with button := button }
    let (rc, r, w3) := CopyInputValue w options (some info) r
    if rc != NMB_OK then
      (rc, { r with result_code := rc }, w3)
    else
      (NMB_OK, { r with result_code := NMB_OK }, w3)

/-- The function `ShowGtkDialog`: construction, the timer, `gtk_dialog_run`, and the
writes to the result. The dialog returns the user's response; when the user leaves it
alone, the main loop runs the callback of an armed timer, `TimeoutCallback`, whose call of
`gtk_dialog_response` makes the dialog return `timeoutResponse`; with no timer armed the
dialog never returns. -/
def ShowGtkDialog (w : World) (options : NmbMessageBoxOptions)
    (out_result : NmbMessageBoxResult) : Except Stop (Nat × NmbMessageBoxResult × World) :=
  match ShowGtkDialog.build options with
  | .error e => .error e
  | .ok (info, armed) =>
    let w1 :=
      if armed then
        w.record (Call.g_timeout_add options.timeout_milliseconds info.timeoutResponse)
      else w
    let w2 := w1.record Call.gtk_dialog_run
    match w2.gtk.user_response with
    | some response => .ok (ShowGtkDialog.finish w2 options info response out_result)
    | none =>
      if armed then
        let (_, data, w3) := TimeoutCallback w2 (some info)
        .ok (ShowGtkDialog.finish w3 options (data.getD info) info.timeoutResponse out_result)
      else .error Stop.blocked

/-- The part of `nmb_show_message_box` that follows the reset of the result struct: the
harness under `NMB_TESTING`, then GTK, then the zenity fallback. -/
def nmb_show_message_box.tiers (w : World) (o : NmbMessageBoxOptions)
    (r : NmbMessageBoxResult) : Except Stop (Nat × Option NmbMessageBoxResult × World) :=
  let (applied, after, w3) :=
    if w.build.testing then ApplyTestHarness w (some o) (some r)
    else (false, some r, w)
  let r := after.getD r
  if applied then .ok (r.result_code, some r, w3)
  else
    let (available, w4) := EnsureGtkInitialized w3
    if !available then
      let w5 := nmb_runtime_log w4
        (some "Linux: GTK unavailable, attempting zenity fallback.")
      let (ok, r1, w6) := RunZenityFallback w5 (some o) r
      if ok then .ok (NMB_OK, some r1, w6)
      else
        .ok (NMB_E_PLATFORM_FAILURE, some r1,
          nmb_runtime_log w6 (some "Linux: No GUI backend available for message box."))
    else
      match ShowGtkDialog w4 o r with
      | .error e => .error e
      | .ok (rc, r1, w5) => .ok (rc, some r1, w5)

/-- The exported `nmb_show_message_box` of the Linux backend. The value is the returned
status, the result struct after the call (`none` for a null `out_result`) and the world. -/
def nmb_show_message_box (w : World) (options : Option NmbMessageBoxOptions)
    (out_result : Option NmbMessageBoxResult) :
    Except Stop (Nat × Option NmbMessageBoxResult × World) :=
  match options, out_result with
  | some o, some r =>
    if o.message_utf8.isNone then .ok (NMB_E_INVALID_ARGUMENT, out_result, w)
    else
      let (validation, w1) := ValidateMessageBoxOptions w options
      if validation != NMB_OK then .ok (validation, out_result, w1)
      else
        let (validation, w2) := ValidateMessageBoxResult w1 out_result
        if validation != NMB_OK then .ok (validation, out_result, w2)
        else
          let r := { r with
            struct_size := w2.build.sizeof_NmbMessageBoxResult
            button := NMB_BUTTON_ID_NONE
            checkbox_checked := NMB_FALSE
            input_value_utf8 := none
            was_timeout := NMB_FALSE
            result_code := NMB_OK }
          nmb_show_message_box.tiers w2 o r
  | _, _ => .ok (NMB_E_INVALID_ARGUMENT, out_result, w)

def ValidateInitializeOptions (w : World) (options : Option NmbInitializeOptions) :
    Nat × World :=
  match options with
  | none => (NMB_OK, w)
  | some o =>
    if o.struct_size < w.build.kInitializeOptionsMinSize then
      LogInvalid w "Linux: NmbInitializeOptions.struct_size is smaller than expected."
    else if o.abi_version != NMB_ABI_VERSION then
      LogInvalid w "Linux: NmbInitializeOptions.abi_version mismatch."
    else
      (NMB_OK, w)

/-- The exported `nmb_initialize` of the Linux backend: the returned status and the
world. -/
def nmb_initialize (w : World) (options : Option NmbInitializeOptions) : Nat × World :=
  let (validation, w1) := ValidateInitializeOptions w options
  if validation != NMB_OK then (validation, w1)
  else
    let w2 :=
      match options with
      | some o => nmb_runtime_set_log_callback w1 o.log_callback o.log_user_data
      | none => nmb_runtime_set_log_callback w1 0 0
    let (available, w3) := EnsureGtkInitialized w2
    if !available then
      (NMB_E_PLATFORM_FAILURE,
        nmb_runtime_log w3
          (some "Linux: GTK initialization failed; will rely on fallback strategies."))
    else
      (NMB_OK, w3)

def nmb_shutdown (w : World) : World :=
  nmb_runtime_reset_log w

/-- The exported `nmb_get_abi_version`: it takes no argument and reads nothing of the
process; the world is a parameter only so that its value can be stated at every state. -/
def nmb_get_abi_version (_w : World) : Nat :=
  NMB_ABI_VERSION

def nmb_set_log_callback (w : World) (log_callback user_data : Nat) : World :=
  nmb_runtime_set_log_callback w log_callback user_data

end Linux

/-! ## Windows backend (`src/native/windows/message_box.cpp`) -/

namespace Windows

/-! Constants of the Windows SDK headers (`winuser.h`, `winerror.h`). -/
def MB_OK : Nat := 0x0
def MB_OKCANCEL : Nat := 0x1
def MB_ABORTRETRYIGNORE : Nat := 0x2
def MB_YESNOCANCEL : Nat := 0x3
def MB_YESNO : Nat := 0x4
def MB_RETRYCANCEL : Nat := 0x5
def MB_ICONERROR : Nat := 0x10
def MB_ICONQUESTION : Nat := 0x20
def MB_ICONWARNING : Nat := 0x30
def MB_ICONINFORMATION : Nat := 0x40
def MB_DEFBUTTON1 : Nat := 0x0
def MB_DEFBUTTON2 : Nat := 0x100
def MB_DEFBUTTON3 : Nat := 0x200
def MB_APPLMODAL : Nat := 0x0
def MB_SYSTEMMODAL : Nat := 0x1000
def MB_TASKMODAL : Nat := 0x2000
def IDOK : Int := 1
def IDCANCEL : Int := 2
def IDABORT : Int := 3
def IDRETRY : Int := 4
def IDIGNORE : Int := 5
def IDYES : Int := 6
def IDNO : Int := 7
def IDCLOSE : Int := 8
def IDHELP : Int := 9
def IDTRYAGAIN : Int := 10
def IDCONTINUE : Int := 11
def ERROR_CANCELLED : Nat := 1223

def LogInvalid (w : World) (message : String) : Nat × World :=
  (NMB_E_INVALID_ARGUMENT, nmb_runtime_log w (some message))

/-- The function `ApplyTestHarness` (compiled under `NMB_TESTING`). Returns whether the
harness applied, the result struct after the call, and the world. -/
def ApplyTestHarness (w : World) (options : Option NmbMessageBoxOptions)
    (out_result : Option NmbMessageBoxResult) : Bool × Option NmbMessageBoxResult × World :=
  match options, out_result with
  | some o, some r =>
    match o.user_context with
    | none => (false, out_result, w)
    | some harness =>
      if harness.magic != NMB_TEST_HARNESS_MAGIC
          || harness.struct_size != w.build.sizeof_NmbTestHarness then
        (false, out_result, w)
      else
        let r := { r with
          button := harness.scripted_button
          checkbox_checked := harness.checkbox_checked
          was_timeout := harness.simulate_timeout
          result_code := harness.result_code }
        let r := { r with input_value_utf8 := none }
        match harness.input_value_utf8 with
        | some text =>
          match o.allocator with
          | some allocator =>
            let (copy_rc, slot, w1) :=
              nmb_copy_string_to_allocator w (some allocator) (some text)
                (some r.input_value_utf8)
            let r := storeInput r slot
            if copy_rc != NMB_OK then
              (true, some { r with result_code := copy_rc }, w1)
            else
              (true, some r, w1)
          | none => (true, some { r with input_value_utf8 := some text }, w)
        | none => (true, some r, w)
  | _, _ => (false, out_result, w)

/-- The function `std::tolower` on an `unsigned char` in the "C" locale. -/
def tolower (c : Nat) : Nat :=
  if 65 ≤ c ∧ c ≤ 90 then c + 32 else c

/-- The loop of `EqualsIgnoreCase` over the bytes at `lhs` and `rhs`; storage that ends
counts as terminated there. -/
def EqualsIgnoreCase.loop : List Nat → List Nat → Bool
  | a :: lhs, b :: rhs =>
    if a != 0 && b != 0 then
      if tolower a != tolower b then false else EqualsIgnoreCase.loop lhs rhs
    else a == 0 && b == 0
  | [], b :: _ => b == 0
  | a :: _, [] => a == 0
  | [], [] => true

/-- The function `EqualsIgnoreCase`. Two pointers are equal when they are the same
`CString` (the same address, hence the same storage). -/
def EqualsIgnoreCase (lhs rhs : Option CString) : Bool :=
  if lhs = rhs then true
  else
    match lhs, rhs with
    | some l, some r => EqualsIgnoreCase.loop l.bytes r.bytes
    | _, _ => false

/-- The function `DefaultLabelForButton`; the literals live at fixed addresses of the
image. -/
def DefaultLabelForButton (id : Nat) : Option CString :=
  if id = NMB_BUTTON_ID_OK then some (lit 0x7000 "OK")
  else if id = NMB_BUTTON_ID_CANCEL then some (lit 0x7010 "Cancel")
  else if id = NMB_BUTTON_ID_YES then some (lit 0x7020 "Yes")
  else if id = NMB_BUTTON_ID_NO then some (lit 0x7030 "No")
  else if id = NMB_BUTTON_ID_RETRY then some (lit 0x7040 "Retry")
  else if id = NMB_BUTTON_ID_ABORT then some (lit 0x7050 "Abort")
  else if id = NMB_BUTTON_ID_IGNORE then some (lit 0x7060 "Ignore")
  else none

def MatchesDefaultLabel (id : Nat) (label : Option CString) : Bool :=
  match label with
  | none => (DefaultLabelForButton id).isSome
  | some _ =>
    match DefaultLabelForButton id with
    | none => false
    | some expected => EqualsIgnoreCase label (some expected)

/-- The seven counters of `ButtonsSupportedByMessageBox`. -/
structure ButtonCounts where
  okCount : Nat := 0
  cancelCount : Nat := 0
  yesCount : Nat := 0
  noCount : Nat := 0
  retryCount : Nat := 0
  abortCount : Nat := 0
  ignoreCount : Nat := 0
deriving DecidableEq, Repr

/-- The `switch (button.id)` of `ButtonsSupportedByMessageBox`: the counter of the id is
incremented; `none` for the `default:` case, which returns false. -/
def ButtonsSupportedByMessageBox.tally (id : Nat) (c : ButtonCounts) : Option ButtonCounts :=
  if id = NMB_BUTTON_ID_OK then some { c with okCount := c.okCount + 1 }
  else if id = NMB_BUTTON_ID_CANCEL then some { c with cancelCount := c.cancelCount + 1 }
  else if id = NMB_BUTTON_ID_YES then some { c with yesCount := c.yesCount + 1 }
  else if id = NMB_BUTTON_ID_NO then some { c with noCount := c.noCount + 1 }
  else if id = NMB_BUTTON_ID_RETRY then some { c with retryCount := c.retryCount + 1 }
  else if id = NMB_BUTTON_ID_ABORT then some { c with abortCount := c.abortCount + 1 }
  else if id = NMB_BUTTON_ID_IGNORE then some { c with ignoreCount := c.ignoreCount + 1 }
  else none

/-- The body of the loop of `ButtonsSupportedByMessageBox` for one button: `none` when
the body returns false, the updated counters otherwise. -/
def ButtonsSupportedByMessageBox.step (button : NmbButtonOption) (c : ButtonCounts) :
    Option ButtonCounts :=
  if button.description_utf8.isSome then none
  else if button.kind ≠ NMB_BUTTON_KIND_DEFAULT then none
  else
    match ButtonsSupportedByMessageBox.tally button.id c with
    | none => none
    | some c1 => if !MatchesDefaultLabel button.id button.label_utf8 then none else some c1

/-- The loop of `ButtonsSupportedByMessageBox`: `remaining` iterations from index `i` on,
each reading `buttons[i]`. -/
def ButtonsSupportedByMessageBox.loop (buttons : List NmbButtonOption) :
    Nat → Nat → ButtonCounts → Except Stop (Option ButtonCounts)
  | 0, _, c => .ok (some c)
  | remaining + 1, i, c =>
    match buttons.get? i with
    | none => .error Stop.invalid_read
    | some button =>
      match ButtonsSupportedByMessageBox.step button c with
      | none => .ok none
      | some c1 => ButtonsSupportedByMessageBox.loop buttons remaining (i + 1) c1

/-- The tail of `ButtonsSupportedByMessageBox` after the loop: the verdict on the
counters for `count` buttons. -/
def ButtonsSupportedByMessageBox.verdict (count : Nat) (c : ButtonCounts) : Bool :=
  if count = 1 then c.okCount == 1
  else if count = 2 then
    if c.okCount = 1 ∧ c.cancelCount = 1 then true
    else if c.yesCount = 1 ∧ c.noCount = 1 then true
    else if c.retryCount = 1 ∧ c.cancelCount = 1 then true
    else false
  else if count = 3 then
    if c.yesCount = 1 ∧ c.noCount = 1 ∧ c.cancelCount = 1 then true
    else if c.abortCount = 1 ∧ c.retryCount = 1 ∧ c.ignoreCount = 1 then true
    else false
  else false

def ButtonsSupportedByMessageBox (options : Option NmbMessageBoxOptions) :
    Except Stop Bool :=
  match options with
  | none => .ok true
  | some o =>
    match o.buttons with
    | none => .ok true
    | some buttons =>
      if o.button_count = 0 then .ok true
      else if o.button_count > 3 then .ok false
      else
        match ButtonsSupportedByMessageBox.loop buttons o.button_count 0 {} with
        | .error e => .error e
        | .ok none => .ok false
        | .ok (some c) => .ok (ButtonsSupportedByMessageBox.verdict o.button_count c)

def ValidateMessageBoxOptions (w : World) (options : Option NmbMessageBoxOptions) :
    Nat × World :=
  match options with
  | none => (NMB_E_INVALID_ARGUMENT, w)
  | some o =>
    if o.struct_size < w.build.kMessageBoxOptionsMinSize then
      LogInvalid w "Windows: NmbMessageBoxOptions.struct_size is smaller than expected."
    else if o.abi_version != NMB_ABI_VERSION then
      LogInvalid w "Windows: NmbMessageBoxOptions.abi_version mismatch."
    else
      (NMB_OK, w)

def ValidateMessageBoxResult (w : World) (result : Option NmbMessageBoxResult) :
    Nat × World :=
  match result with
  | none => (NMB_E_INVALID_ARGUMENT, w)
  | some r =>
    if r.struct_size < w.build.kMessageBoxResultMinSize then
      LogInvalid w "Windows: NmbMessageBoxResult.struct_size is smaller than expected."
    else
      (NMB_OK, w)

/-- The function `LoadTaskDialog`: whether the cached `proc` is non-null. -/
def LoadTaskDialog (w : World) : Bool × World :=
  if !w.task_dialog_attempted then
    let w1 := { w with task_dialog_attempted := true }
    let w2 := w1.record Call.load_task_dialog
    let w3 := { w2 with task_dialog_proc := w2.task_dialog_exported }
    (w3.task_dialog_proc, w3)
  else
    (w.task_dialog_proc, w)

def MapMessageBoxIcon (icon : Nat) : Nat :=
  if icon = NMB_ICON_INFORMATION then MB_ICONINFORMATION
  else if icon = NMB_ICON_WARNING ∨ icon = NMB_ICON_SHIELD then MB_ICONWARNING
  else if icon = NMB_ICON_ERROR then MB_ICONERROR
  else if icon = NMB_ICON_QUESTION then MB_ICONQUESTION
  else 0

/-- The flags of `ComposeButtonFlags`. -/
structure ButtonFlags where
  hasOk : Bool := false
  hasCancel : Bool := false
  hasYes : Bool := false
  hasNo : Bool := false
  hasRetry : Bool := false
  hasContinue : Bool := false
  hasAbort : Bool := false
  hasIgnore : Bool := false
deriving DecidableEq, Repr

/-- The loop of `ComposeButtonFlags`: `remaining` iterations from index `i` on, carrying
`*default_button` and the flags. -/
def ComposeButtonFlags.loop (buttons : List NmbButtonOption) :
    Nat → Nat → Nat → ButtonFlags → Except Stop (Nat × ButtonFlags)
  | 0, _, default_button, f => .ok (default_button, f)
  | remaining + 1, i, default_button, f =>
    match buttons.get? i with
    | none => .error Stop.invalid_read
    | some button =>
      let default_button := if button.is_default ≠ 0 then button.id else default_button
      let f :=
        if button.id = NMB_BUTTON_ID_OK then { f with hasOk := true }
        else if button.id = NMB_BUTTON_ID_CANCEL then { f with hasCancel := true }
        else if button.id = NMB_BUTTON_ID_YES then { f with hasYes := true }
        else if button.id = NMB_BUTTON_ID_NO then { f with hasNo := true }
        else if button.id = NMB_BUTTON_ID_RETRY then { f with hasRetry := true }
        else if button.id = NMB_BUTTON_ID_CONTINUE then { f with hasContinue := true }
        else if button.id = NMB_BUTTON_ID_ABORT then { f with hasAbort := true }
        else if button.id = NMB_BUTTON_ID_IGNORE then { f with hasIgnore := true }
        else f
      ComposeButtonFlags.loop buttons remaining (i + 1) default_button f

/-- The function `ComposeButtonFlags`, called with a non-null `default_button`: the
composed `MB_*` button flag and the value left in `*default_button`. -/
def ComposeButtonFlags (options : Option NmbMessageBoxOptions) : Except Stop (Nat × Nat) :=
  let default_button := NMB_BUTTON_ID_NONE
  match options with
  | none => .ok (MB_OK, default_button)
  | some o =>
    match o.buttons with
    | none => .ok (MB_OK, default_button)
    | some buttons =>
      if o.button_count = 0 then .ok (MB_OK, default_button)
      else
        match ComposeButtonFlags.loop buttons o.button_count 0 default_button {} with
        | .error e => .error e
        | .ok (default_button, f) =>
          if f.hasAbort && f.hasRetry && f.hasIgnore then .ok (MB_ABORTRETRYIGNORE, default_button)
          else if f.hasRetry && f.hasCancel then .ok (MB_RETRYCANCEL, default_button)
          else if f.hasYes && f.hasNo && f.hasCancel then .ok (MB_YESNOCANCEL, default_button)
          else if f.hasYes && f.hasNo then .ok (MB_YESNO, default_button)
          else if f.hasOk && f.hasCancel then .ok (MB_OKCANCEL, default_button)
          else if f.hasContinue && f.hasCancel then .ok (MB_OKCANCEL, default_button)
          else .ok (MB_OK, default_button)

def MapMessageBoxResult (result : Int) : Nat :=
  if result = IDOK then NMB_BUTTON_ID_OK
  else if result = IDCANCEL then NMB_BUTTON_ID_CANCEL
  else if result = IDYES then NMB_BUTTON_ID_YES
  else if result = IDNO then NMB_BUTTON_ID_NO
  else if result = IDABORT then NMB_BUTTON_ID_ABORT
  else if result = IDRETRY then NMB_BUTTON_ID_RETRY
  else if result = IDIGNORE then NMB_BUTTON_ID_IGNORE
  else if result = IDTRYAGAIN then NMB_BUTTON_ID_TRY_AGAIN
  else if result = IDCONTINUE then NMB_BUTTON_ID_CONTINUE
  else if result = IDCLOSE then NMB_BUTTON_ID_CLOSE
  else if result = IDHELP then NMB_BUTTON_ID_HELP
  else NMB_BUTTON_ID_NONE

def RequiresTaskDialog (options : Option NmbMessageBoxOptions) : Except Stop Bool :=
  match options with
  | none => .ok false
  | some o =>
    match ButtonsSupportedByMessageBox options with
    | .error e => .error e
    | .ok supported =>
      if !supported then .ok true
      else if o.button_count > 3 then .ok true
      else if o.verification_text_utf8.isSome || o.secondary.isSome
          || o.allow_cancel_via_escape == NMB_FALSE || o.show_suppress_checkbox == NMB_TRUE
          || decide (o.timeout_milliseconds > 0) || o.icon == NMB_ICON_SHIELD then .ok true
      else
        match o.input with
        | some input => if input.mode = NMB_INPUT_CHECKBOX then .ok true else .ok false
        | none => .ok false

/-- The button loop of `ShowTaskDialog`: `remaining` iterations from index `i` on, each
reading `options->buttons[i]` through the unchecked `buttons` pointer. -/
def ShowTaskDialog.readButtons (buttons : Option (List NmbButtonOption)) :
    Nat → Nat → Except Stop Unit
  | 0, _ => .ok ()
  | remaining + 1, i =>
    match buttons with
    | none => .error Stop.invalid_read
    | some arr =>
      match arr.get? i with
      | none => .error Stop.invalid_read
      | some _ => ShowTaskDialog.readButtons buttons remaining (i + 1)

/-- The function `ShowTaskDialog`. The marshalling of texts into the dialog configuration
is reduced to the reads it performs; the dialog itself is `World.win`. -/
def ShowTaskDialog (w : World) (options : NmbMessageBoxOptions)
    (out_result : NmbMessageBoxResult) : Except Stop (Nat × NmbMessageBoxResult × World) :=
  let (taskDialog, w1) := LoadTaskDialog w
  if !taskDialog then .ok (NMB_E_NOT_SUPPORTED, out_result, w1)
  else
    let w2 :=
      if options.verification_text_utf8.isSome ∧ options.show_suppress_checkbox ≠ NMB_TRUE then
        nmb_runtime_log w1 (some
          "Windows: Verification text provided but show_suppress_checkbox is false; suppressing checkbox.")
      else w1
    match ShowTaskDialog.readButtons options.buttons options.button_count 0 with
    | .error e => .error e
    | .ok _ =>
      let w3 := w2.record Call.task_dialog
      if w3.win.task_dialog_failed then .ok (NMB_E_PLATFORM_FAILURE, out_result, w3)
      else
        let timed_out : Bool :=
          options.timeout_milliseconds > 0 ∧ options.timeout_button_id ≠ NMB_BUTTON_ID_NONE
            ∧ w3.win.timer_elapsed = true
        .ok (NMB_OK,
          { out_result with
            button := enumOfInt w3.win.button_pressed
            checkbox_checked := if w3.win.verification_checked then NMB_TRUE else NMB_FALSE
            input_value_utf8 := none
            was_timeout := if timed_out then NMB_TRUE else NMB_FALSE
            result_code := NMB_OK },
          w3)

/-- The flag word `ShowMessageBoxSimple` passes to `MessageBoxW`: the button flag of
`ComposeButtonFlags`, the icon, the modality, and the `MB_DEFBUTTONn` flag chosen from
the default button id. -/
def ShowMessageBoxSimple.flags (options : NmbMessageBoxOptions)
    (buttonFlags defaultButton : Nat) : Nat :=
  let flags := buttonFlags ||| MapMessageBoxIcon options.icon
  let flags :=
    if options.modality = NMB_MODALITY_SYSTEM then flags ||| MB_SYSTEMMODAL
    else if options.modality = NMB_MODALITY_WINDOW then flags ||| MB_TASKMODAL
    else flags ||| MB_APPLMODAL
  if defaultButton ≠ NMB_BUTTON_ID_NONE then
    let defFlag :=
      if defaultButton = NMB_BUTTON_ID_CANCEL then MB_DEFBUTTON2
      else if defaultButton = NMB_BUTTON_ID_YES ∨ defaultButton = NMB_BUTTON_ID_NO
          ∨ defaultButton = NMB_BUTTON_ID_RETRY ∨ defaultButton = NMB_BUTTON_ID_IGNORE then
        MB_DEFBUTTON3
      else MB_DEFBUTTON1
    flags ||| defFlag
  else flags

def ShowMessageBoxSimple (w : World) (options : NmbMessageBoxOptions)
    (out_result : NmbMessageBoxResult) : Except Stop (Nat × NmbMessageBoxResult × World) :=
  match ComposeButtonFlags (some options) with
  | .error e => .error e
  | .ok (buttonFlags, defaultButton) =>
    let flags := ShowMessageBoxSimple.flags options buttonFlags defaultButton
    let w1 := w.record (Call.message_box flags)
    let response := w1.win.message_box_response
    if response = 0 then
      let error := w1.win.last_error
      let r := { out_result with
        result_code := if error = ERROR_CANCELLED then NMB_E_CANCELLED else NMB_E_PLATFORM_FAILURE }
      let r := { r with
        button := NMB_BUTTON_ID_NONE
        checkbox_checked := NMB_FALSE
        input_value_utf8 := none
        was_timeout := NMB_FALSE }
      .ok (r.result_code, r, w1)
    else
      .ok (NMB_OK,
        { out_result with
          button := MapMessageBoxResult response
          checkbox_checked := NMB_FALSE
          input_value_utf8 := none
          was_timeout := NMB_FALSE
          result_code := NMB_OK },
        w1)

/-- The part of `nmb_show_message_box` that follows the reset of the result struct: the
harness under `NMB_TESTING`, then the task dialog and the simple message box. -/
def nmb_show_message_box.tiers (w : World) (o : NmbMessageBoxOptions)
    (buttonsSupportedByFallback : Bool) (r : NmbMessageBoxResult) :
    Except Stop (Nat × Option NmbMessageBoxResult × World) :=
  let (applied, after, w3) :=
    if w.build.testing then ApplyTestHarness w (some o) (some r)
    else (false, some r, w)
  let r := after.getD r
  if applied then .ok (r.result_code, some r, w3)
  else if (match o.input with
      | some input => input.mode != NMB_INPUT_CHECKBOX
      | none => false) then
    .ok (NMB_E_NOT_SUPPORTED, some { r with result_code := NMB_E_NOT_SUPPORTED },
      nmb_runtime_log w3
        (some "Windows: Input mode not supported in simple MessageBox fallback."))
  else
    match RequiresTaskDialog (some o) with
    | .error e => .error e
    | .ok true =>
      match ShowTaskDialog w3 o r with
      | .error e => .error e
      | .ok (rc, r1, w4) =>
        if rc = NMB_OK then .ok (rc, some r1, w4)
        else if rc ≠ NMB_E_NOT_SUPPORTED then .ok (rc, some r1, w4)
        else if !buttonsSupportedByFallback then
          .ok (NMB_E_NOT_SUPPORTED,
            some { r1 with result_code := NMB_E_NOT_SUPPORTED },
            nmb_runtime_log w4 (some
              "Windows: TaskDialogIndirect unavailable and button configuration requires Task Dialog."))
        else
          match ShowMessageBoxSimple
              (nmb_runtime_log w4 (some
                "Windows: TaskDialogIndirect unavailable, falling back to MessageBox."))
              o r1 with
          | .error e => .error e
          | .ok (rc1, r2, w5) => .ok (rc1, some r2, w5)
    | .ok false =>
      match ShowMessageBoxSimple w3 o r with
      | .error e => .error e
      | .ok (rc, r1, w4) => .ok (rc, some r1, w4)

/-- The exported `nmb_show_message_box` of the Windows backend. The value is the returned
status, the result struct after the call (`none` for a null `out_result`) and the world. -/
def nmb_show_message_box (w : World) (options : Option NmbMessageBoxOptions)
    (out_result : Option NmbMessageBoxResult) :
    Except Stop (Nat × Option NmbMessageBoxResult × World) :=
  match options, out_result with
  | some o, some r =>
    if o.message_utf8.isNone then .ok (NMB_E_INVALID_ARGUMENT, out_result, w)
    else
      let (validation, w1) := ValidateMessageBoxOptions w options
      if validation != NMB_OK then .ok (validation, out_result, w1)
      else
        let (validation, w2) := ValidateMessageBoxResult w1 out_result
        if validation != NMB_OK then .ok (validation, out_result, w2)
        else
          match ButtonsSupportedByMessageBox options with
          | .error e => .error e
          | .ok buttonsSupportedByFallback =>
            let r := { r with
              struct_size := w2.build.sizeof_NmbMessageBoxResult
              button := NMB_BUTTON_ID_NONE
              checkbox_checked := NMB_FALSE
              input_value_utf8 := none
              was_timeout := NMB_FALSE
              result_code := NMB_OK }
            nmb_show_message_box.tiers w2 o buttonsSupportedByFallback r
  | _, _ => .ok (NMB_E_INVALID_ARGUMENT, out_result, w)

def ValidateInitializeOptions (w : World) (options : Option NmbInitializeOptions) :
    Nat × World :=
  match options with
  | none => (NMB_OK, w)
  | some o =>
    if o.struct_size < w.build.kInitializeOptionsMinSize then
      LogInvalid w "Windows: NmbInitializeOptions.struct_size is smaller than expected."
    else if o.abi_version != NMB_ABI_VERSION then
      LogInvalid w "Windows: NmbInitializeOptions.abi_version mismatch."
    else
      (NMB_OK, w)

/-- The exported `nmb_initialize` of the Windows backend: the returned status and the
world. -/
def nmb_initialize (w : World) (options : Option NmbInitializeOptions) : Nat × World :=
  let (validation, w1) := ValidateInitializeOptions w options
  if validation != NMB_OK then (validation, w1)
  else
    match options with
    | some o => (NMB_OK, nmb_runtime_set_log_callback w1 o.log_callback o.log_user_data)
    | none => (NMB_OK, nmb_runtime_set_log_callback w1 0 0)

def nmb_shutdown (w : World) : World :=
  nmb_runtime_reset_log w

/-- The exported `nmb_get_abi_version`: it takes no argument and reads nothing of the
process; the world is a parameter only so that its value can be stated at every state. -/
def nmb_get_abi_version (_w : World) : Nat :=
  NMB_ABI_VERSION

def nmb_set_log_callback (w : World) (log_callback user_data : Nat) : World :=
  nmb_runtime_set_log_callback w log_callback user_data

end Windows

/-! ## Android backend (`src/native/android/MessageBox.cpp`) -/

namespace Android

def JNI_OK : Int := 0
def JNI_EDETACHED : Int := -2

/-- The function `AndroidLog`: `__android_log_print` for a non-null message, then
`nmb_runtime_log`. -/
def AndroidLog (w : World) (message : Option String) : World :=
  let w1 :=
    match message with
    | some m => w.record (Call.android_log m)
    | none => w
  nmb_runtime_log w1 message

/-- The function `AcquireEnv`: whether an environment was obtained, and `didAttach`. -/
def AcquireEnv (w : World) : Bool × Bool × World :=
  if !w.android.g_javaVm then
    (false, false, AndroidLog w (some "Android: JavaVM not initialized."))
  else
    let w1 := w.record (Call.jni "GetEnv")
    if w1.android.get_env_result = JNI_OK then (true, false, w1)
    else if w1.android.get_env_result = JNI_EDETACHED then
      let w2 := w1.record (Call.jni "AttachCurrentThread")
      if !w2.android.attach_ok then
        (false, false, AndroidLog w2 (some "Android: Failed to attach current thread to JVM."))
      else (true, true, w2)
    else
      (false, false, AndroidLog w1 (some "Android: GetEnv returned unexpected result."))

def ReleaseEnv (w : World) (didAttach : Bool) : World :=
  if didAttach && w.android.g_javaVm then w.record (Call.jni "DetachCurrentThread")
  else w

/-- The function `EnsureBridge`, called with a non-null environment. -/
def EnsureBridge (w : World) : Bool × World :=
  if w.android.g_bridgeClass && w.android.g_showDialogMethod then (true, w)
  else
    let w1 := w.record (Call.jni "FindClass")
    if !w1.android.find_bridge_class_ok then
      (false, AndroidLog w1 (some
        "Android: Unable to find NativeMessageBoxBridge class. Ensure the helper Java source is bundled."))
    else
      let w2 := w1.record (Call.jni "NewGlobalRef")
      let w3 := { w2 with android := { w2.android with
        g_bridgeClass := w2.android.new_global_ref_ok } }
      if !w3.android.g_bridgeClass then
        (false, AndroidLog w3 (some
          "Android: Failed to create global reference for NativeMessageBoxBridge."))
      else
        let w4 := w3.record (Call.jni "GetStaticMethodID")
        let w5 := { w4 with android := { w4.android with
          g_showDialogMethod := w4.android.get_method_ok } }
        if !w5.android.g_showDialogMethod then
          (false, AndroidLog w5 (some
            "Android: Unable to locate showMessageDialog method on NativeMessageBoxBridge."))
        else (true, w5)

def ValidateMessageBoxOptions (w : World) (options : Option NmbMessageBoxOptions) :
    Nat × World :=
  match options with
  | none => (NMB_E_INVALID_ARGUMENT, w)
  | some o =>
    if o.struct_size < w.build.kMessageBoxOptionsMinSize then
      (NMB_E_INVALID_ARGUMENT,
        AndroidLog w (some "Android: NmbMessageBoxOptions.struct_size is smaller than expected."))
    else if o.abi_version != NMB_ABI_VERSION then
      (NMB_E_INVALID_ARGUMENT,
        AndroidLog w (some "Android: NmbMessageBoxOptions.abi_version mismatch."))
    else if o.message_utf8.isNone then
      (NMB_E_INVALID_ARGUMENT, AndroidLog w (some "Android: message_utf8 is required."))
    else
      (NMB_OK, w)

def ValidateMessageBoxResult (w : World) (result : Option NmbMessageBoxResult) :
    Nat × World :=
  match result with
  | none => (NMB_E_INVALID_ARGUMENT, w)
  | some r =>
    if r.struct_size < w.build.kMessageBoxResultMinSize then
      (NMB_E_INVALID_ARGUMENT,
        AndroidLog w (some "Android: NmbMessageBoxResult.struct_size is smaller than expected."))
    else
      (NMB_OK, w)

def LogUnsupportedFeatures (w : World) (options : Option NmbMessageBoxOptions) : World :=
  match options with
  | none => w
  | some o =>
    let w1 :=
      match o.secondary with
      | some secondary =>
        if secondary.informative_text_utf8.isSome || secondary.expanded_text_utf8.isSome
            || secondary.footer_text_utf8.isSome || secondary.help_link_utf8.isSome then
          AndroidLog w (some "Android: Secondary content is not supported and will be ignored.")
        else w
      | none => w
    let w2 :=
      if o.verification_text_utf8.isSome || o.show_suppress_checkbox == NMB_TRUE then
        AndroidLog w1 (some "Android: Verification checkboxes are not supported.")
      else w1
    let w3 :=
      match o.input with
      | some input =>
        if input.mode != NMB_INPUT_NONE then
          AndroidLog w2 (some "Android: Input controls are not supported.")
        else w2
      | none => w2
    let w4 :=
      if o.icon != NMB_ICON_NONE then
        AndroidLog w3 (some "Android: Icon hints are not currently supported.")
      else w3
    if o.button_count > 3 then
      AndroidLog w4 (some
        "Android: Only the first three buttons are supported (positive, negative, neutral).")
    else w4

/-- The static `defaultButton` of `CollectButtons` (its `struct_size` is the 64-bit
`sizeof(NmbButtonOption)`; nothing reads it). -/
def defaultButton : NmbButtonOption :=
  { struct_size := 32
    id := NMB_BUTTON_ID_OK
    label_utf8 := some (lit 0x7100 "OK")
    description_utf8 := none
    kind := NMB_BUTTON_KIND_PRIMARY
    is_default := NMB_TRUE
    is_cancel := NMB_FALSE }

/-- The function `CollectButtons`. Each collected pointer `&options->buttons[i]` is kept
as the element it points to, `none` when the array has no such element (the pointer is
formed here and only read later). -/
def CollectButtons (options : Option NmbMessageBoxOptions) : List (Option NmbButtonOption) :=
  match options with
  | none => [some defaultButton]
  | some o =>
    match o.buttons with
    | none => [some defaultButton]
    | some buttons =>
      if o.button_count = 0 then [some defaultButton]
      else
        let limit := if o.button_count > 3 then 3 else o.button_count
        (List.range limit).map (fun i => buttons.get? i)

/-- The loop of `FindCancelIndex`; an entry that does not exist cannot be read. -/
def FindCancelIndex.loop : List (Option NmbButtonOption) → Nat → Except Stop Int
  | [], _ => .ok (-1)
  | none :: _, _ => .error Stop.invalid_read
  | some button :: rest, i =>
    if button.is_cancel = NMB_TRUE then .ok (i : Int)
    else FindCancelIndex.loop rest (i + 1)

def FindCancelIndex (buttons : List (Option NmbButtonOption)) : Except Stop Int :=
  FindCancelIndex.loop buttons 0

/-- The function `ApplyTestHarness` (compiled under `NMB_TESTING`). Returns whether the
harness applied, the result struct after the call, and the world. -/
def ApplyTestHarness (w : World) (options : Option NmbMessageBoxOptions)
    (out_result : Option NmbMessageBoxResult) : Bool × Option NmbMessageBoxResult × World :=
  match options, out_result with
  | some o, some r =>
    match o.user_context with
    | none => (false, out_result, w)
    | some harness =>
      if harness.magic != NMB_TEST_HARNESS_MAGIC
          || harness.struct_size != w.build.sizeof_NmbTestHarness then
        (false, out_result, w)
      else
        let r := { r with
          button := harness.scripted_button
          checkbox_checked := harness.checkbox_checked
          was_timeout := harness.simulate_timeout
          result_code := harness.result_code
          input_value_utf8 := none }
        match harness.input_value_utf8 with
        | some text =>
          if harness.result_code = NMB_OK then
            match o.allocator with
            | some allocator =>
              let (copy_rc, slot, w1) :=
                nmb_copy_string_to_allocator w (some allocator) (some text)
                  (some r.input_value_utf8)
              let r := storeInput r slot
              if copy_rc != NMB_OK then
                (true, some { r with result_code := copy_rc }, w1)
              else
                (true, some r, w1)
            | none => (true, some { r with input_value_utf8 := some text }, w)
          else (true, some r, w)
        | none => (true, some r, w)
  | _, _ => (false, out_result, w)

/-- The label loop of `ShowDialogInternal` from index `i` on: the collected ids, or the
index at which `NewStringUTF` failed. -/
def ShowDialogInternal.labels (failing : Option Nat) :
    List (Option NmbButtonOption) → Nat → List Int → Except Stop (Option (List Int))
  | [], _, buttonIds => .ok (some buttonIds)
  | none :: _, _, _ => .error Stop.invalid_read
  | some button :: rest, i, buttonIds =>
    if failing = some i then .ok none
    else ShowDialogInternal.labels failing rest (i + 1) (buttonIds ++ [(button.id : Int)])

/-- What the JNI phase of `ShowDialogInternal` hands to the wait for the dialog. -/
structure Shown where
  didAttach : Bool
  buttonIds : List Int
  cancelIndex : Int
  world : World

/-- The JNI phase of `ShowDialogInternal`, from `AcquireEnv` to the `ExceptionCheck` after
the bridge call. None of its early returns writes to the result struct: the value is
either the status of an early return with the world at that point, or the shown dialog. -/
def ShowDialogInternal.show (w0 : World) (options : NmbMessageBoxOptions) :
    Except Stop (Sum (Nat × World) Shown) :=
  let (env, didAttach, w1) := AcquireEnv w0
  if !env then .ok (.inl (NMB_E_PLATFORM_FAILURE, w1))
  else
    let (bridge, w2) := EnsureBridge w1
    if !bridge then .ok (.inl (NMB_E_PLATFORM_FAILURE, ReleaseEnv w2 didAttach))
    else
      let w3 := w2.record (Call.jni "NewLocalRef")
      if !w3.android.new_local_ref_ok then
        .ok (.inl (NMB_E_INVALID_ARGUMENT,
          ReleaseEnv
            (AndroidLog w3 (some "Android: Invalid Activity reference provided via parent_window."))
            didAttach))
      else
        let buttons := CollectButtons (some options)
        let w4 := w3.record (Call.jni "FindClass")
        if !w4.android.find_string_class_ok then
          .ok (.inl (NMB_E_PLATFORM_FAILURE,
            AndroidLog (ReleaseEnv w4 didAttach)
              (some "Android: Unable to find java/lang/String class.")))
        else
          let w5 := w4.record (Call.jni "NewObjectArray")
          if !w5.android.new_object_array_ok then
            .ok (.inl (NMB_E_PLATFORM_FAILURE,
              AndroidLog (ReleaseEnv w5 didAttach)
                (some "Android: Unable to allocate button label array.")))
          else
            let w6 := w5.record (Call.jni "NewLongArray")
            if !w6.android.new_long_array_ok then
              .ok (.inl (NMB_E_PLATFORM_FAILURE,
                AndroidLog (ReleaseEnv w6 didAttach)
                  (some "Android: Unable to allocate button id array.")))
            else
              match ShowDialogInternal.labels w6.android.failing_label buttons 0 [] with
              | .error e => .error e
              | .ok none =>
                .ok (.inl (NMB_E_OUT_OF_MEMORY,
                  AndroidLog (ReleaseEnv w6 didAttach)
                    (some "Android: Failed to allocate button label string.")))
              | .ok (some buttonIds) =>
                match FindCancelIndex buttons with
                | .error e => .error e
                | .ok cancelIndex =>
                  let w7 := w6.record (Call.jni "CallStaticVoidMethod")
                  if w7.android.exception_pending then
                    .ok (.inl (NMB_E_PLATFORM_FAILURE,
                      AndroidLog (ReleaseEnv w7 didAttach)
                        (some "Android: Exception thrown while displaying dialog.")))
                  else
                    .ok (.inr
                      { didAttach := didAttach, buttonIds := buttonIds,
                        cancelIndex := cancelIndex, world := w7 })

/-- The phase of `ShowDialogInternal` after the wait on `state.cv`: the dialog state the
Java side left, written to the result. -/
def ShowDialogInternal.complete (shown : Shown) (completion : AndroidCompletion)
    (out_result : NmbMessageBoxResult) : Nat × NmbMessageBoxResult × World :=
  let w8 := ReleaseEnv shown.world shown.didAttach
  match completion with
  | AndroidCompletion.error errorCode => (enumOfInt errorCode, out_result, w8)
  | AndroidCompletion.completed buttonId cancelled =>
    let button := enumOfInt buttonId
    let r := { out_result with
      checkbox_checked := NMB_FALSE
      input_value_utf8 := none
      was_timeout := NMB_FALSE }
    if cancelled then
      let r :=
        if button ≠ NMB_BUTTON_ID_NONE then { r with button := button }
        else if shown.cancelIndex ≥ 0 ∧ shown.cancelIndex.toNat < shown.buttonIds.length then
          { r with button := enumOfInt (shown.buttonIds.getD shown.cancelIndex.toNat 0) }
        else { r with button := NMB_BUTTON_ID_CANCEL }
      (NMB_E_CANCELLED, { r with result_code := NMB_E_CANCELLED }, w8)
    else
      (NMB_OK, { r with button := button, result_code := NMB_OK }, w8)

/-- The function `ShowDialogInternal`, called with non-null `options` and `out_result`:
the harness under `NMB_TESTING`, the Activity check, the JNI phase, the wait for the
dialog (which never ends when no callback arrives), and the writes to the result. -/
def ShowDialogInternal (w : World) (options : NmbMessageBoxOptions)
    (out_result : NmbMessageBoxResult) : Except Stop (Nat × NmbMessageBoxResult × World) :=
  let (applied, after, w0) :=
    if w.build.testing then ApplyTestHarness w (some options) (some out_result)
    else (false, some out_result, w)
  let out_result := after.getD out_result
  if applied then .ok (out_result.result_code, out_result, w0)
  else if options.parent_window = 0 then
    .ok (NMB_E_INVALID_ARGUMENT, out_result,
      AndroidLog w0 (some "Android: parent_window must provide an Activity jobject handle."))
  else
    match ShowDialogInternal.show w0 options with
    | .error e => .error e
    | .ok (.inl (rc, w1)) => .ok (rc, out_result, w1)
    | .ok (.inr shown) =>
      match shown.world.android.completion with
      | none => .error Stop.blocked
      | some completion => .ok (ShowDialogInternal.complete shown completion out_result)

/-- The part of `nmb_show_message_box` that follows the reset of the result struct:
`LogUnsupportedFeatures`, then `ShowDialogInternal`. -/
def nmb_show_message_box.tiers (w : World) (o : NmbMessageBoxOptions)
    (r : NmbMessageBoxResult) : Except Stop (Nat × Option NmbMessageBoxResult × World) :=
  let w3 := LogUnsupportedFeatures w (some o)
  match ShowDialogInternal w3 o r with
  | .error e => .error e
  | .ok (result, r1, w4) => .ok (result, some r1, w4)

/-- The exported `nmb_show_message_box` of the Android backend. The value is the returned
status, the result struct after the call (`none` for a null `out_result`) and the world. -/
def nmb_show_message_box (w : World) (options : Option NmbMessageBoxOptions)
    (out_result : Option NmbMessageBoxResult) :
    Except Stop (Nat × Option NmbMessageBoxResult × World) :=
  match options, out_result with
  | some o, some r =>
    let (validation, w1) := ValidateMessageBoxOptions w options
    if validation != NMB_OK then .ok (validation, out_result, w1)
    else
      let (validation, w2) := ValidateMessageBoxResult w1 out_result
      if validation != NMB_OK then .ok (validation, out_result, w2)
      else
        let r := { r with
          struct_size := w2.build.sizeof_NmbMessageBoxResult
          button := NMB_BUTTON_ID_NONE
          checkbox_checked := NMB_FALSE
          input_value_utf8 := none
          was_timeout := NMB_FALSE
          result_code := NMB_OK }
        nmb_show_message_box.tiers w2 o r
  | _, _ => .ok (NMB_E_INVALID_ARGUMENT, out_result, w)

/-- The exported `nmb_initialize` of the Android backend: the returned status and the
world. The function reads `log_callback` and `log_user_data` of non-null options without
looking at `struct_size` or `abi_version`. -/
def nmb_initialize (w : World) (options : Option NmbInitializeOptions) : Nat × World :=
  match options with
  | some o => (NMB_OK, nmb_runtime_set_log_callback w o.log_callback o.log_user_data)
  | none => (NMB_OK, nmb_runtime_set_log_callback w 0 0)

def nmb_shutdown (w : World) : World :=
  nmb_runtime_reset_log w

/-- The exported `nmb_get_abi_version`: it takes no argument and reads nothing of the
process; the world is a parameter only so that its value can be stated at every state. -/
def nmb_get_abi_version (_w : World) : Nat :=
  NMB_ABI_VERSION

def nmb_set_log_callback (w : World) (log_callback user_data : Nat) : World :=
  nmb_runtime_set_log_callback w log_callback user_data

end Android

/-! ## Web backend (`src/native/web/wasm_message_box.cpp`) -/

namespace Web

def ApplyLogCallback (w : World) (options : Option NmbInitializeOptions) : World :=
  match options with
  | some o =>
    if o.log_callback != 0 then
      nmb_runtime_set_log_callback w o.log_callback o.log_user_data
    else
      nmb_runtime_reset_log w
  | none => nmb_runtime_reset_log w

/-- The exported `nmb_initialize` of the web backend: the returned status and the
world. -/
def nmb_initialize (w : World) (options : Option NmbInitializeOptions) : Nat × World :=
  match options with
  | some o =>
    if o.struct_size < w.build.sizeof_NmbInitializeOptions then (NMB_E_INVALID_ARGUMENT, w)
    else if o.abi_version != NMB_ABI_VERSION then (NMB_E_INVALID_ARGUMENT, w)
    else
      let w1 := ApplyLogCallback w options
      match o.runtime_name_utf8 with
      | some name => (NMB_OK, w1.record (Call.wasm_set_runtime_name name.toString))
      | none => (NMB_OK, w1)
  | none => (NMB_OK, ApplyLogCallback w options)

def nmb_shutdown (w : World) : World :=
  (nmb_runtime_reset_log w).record Call.wasm_shutdown

/-- The exported `nmb_get_abi_version`: it takes no argument and reads nothing of the
process; the world is a parameter only so that its value can be stated at every state. -/
def nmb_get_abi_version (_w : World) : Nat :=
  NMB_ABI_VERSION

def nmb_set_log_callback (w : World) (log_callback user_data : Nat) : World :=
  nmb_runtime_set_log_callback w log_callback user_data

def ValidateMessageBoxOptions (w : World) (options : Option NmbMessageBoxOptions) : Nat :=
  match options with
  | none => NMB_E_INVALID_ARGUMENT
  | some o =>
    if o.struct_size < w.build.sizeof_NmbMessageBoxOptions then NMB_E_INVALID_ARGUMENT
    else if o.abi_version != NMB_ABI_VERSION then NMB_E_INVALID_ARGUMENT
    else if o.message_utf8.isNone then NMB_E_INVALID_ARGUMENT
    else if decide (o.button_count > 0) && o.buttons.isNone then NMB_E_INVALID_ARGUMENT
    else NMB_OK

def ValidateMessageBoxResult (w : World) (result : Option NmbMessageBoxResult) : Nat :=
  match result with
  | none => NMB_E_INVALID_ARGUMENT
  | some r =>
    if r.struct_size < w.build.sizeof_NmbMessageBoxResult then NMB_E_INVALID_ARGUMENT
    else NMB_OK

/-- The button loop of `nmb_show_message_box`: `remaining` iterations from index `i` on,
each reading `options->buttons[i]` and pushing one `NmbWasmButton`; the value is the
number of marshalled buttons. -/
def marshalButtons (buttons : List NmbButtonOption) : Nat → Nat → Nat → Except Stop Nat
  | 0, _, pushed => .ok pushed
  | remaining + 1, i, pushed =>
    match buttons.get? i with
    | none => .error Stop.invalid_read
    | some _ => marshalButtons buttons remaining (i + 1) (pushed + 1)

/-- The exported `nmb_show_message_box` of the web backend. The marshalling of the
request is reduced to the reads of the button array; the JavaScript side is
`World.web`. The value is the returned status, the result struct after the call (`none`
for a null `out_result`) and the world. -/
def nmb_show_message_box (w : World) (options : Option NmbMessageBoxOptions)
    (out_result : Option NmbMessageBoxResult) :
    Except Stop (Nat × Option NmbMessageBoxResult × World) :=
  match options, out_result with
  | some o, some r =>
    let validation := ValidateMessageBoxOptions w options
    if validation != NMB_OK then .ok (validation, out_result, w)
    else
      let validation := ValidateMessageBoxResult w out_result
      if validation != NMB_OK then .ok (validation, out_result, w)
      else
        let r := { r with
          struct_size := w.build.sizeof_NmbMessageBoxResult
          button := NMB_BUTTON_ID_NONE
          checkbox_checked := NMB_FALSE
          input_value_utf8 := none
          was_timeout := NMB_FALSE
          result_code := NMB_OK }
        let marshalled : Except Stop Nat :=
          match o.buttons with
          | some buttons =>
            if o.button_count > 0 then marshalButtons buttons o.button_count 0 0
            else .ok 0
          | none => .ok 0
        match marshalled with
        | .error e => .error e
        | .ok count =>
          let w1 := w.record (Call.wasm_dispatch count)
          let response := w1.web
          if response.dispatch_rc ≠ 0 then
            .ok (NMB_E_PLATFORM_FAILURE, some { r with result_code := NMB_E_PLATFORM_FAILURE },
              w1)
          else
            let r := { r with
              result_code := response.result_code
              button := response.button_id
              checkbox_checked := if response.checkbox_checked ≠ 0 then NMB_TRUE else NMB_FALSE
              was_timeout := if response.was_timeout ≠ 0 then NMB_TRUE else NMB_FALSE }
            match response.input with
            | some input_utf8 =>
              let (copy_rc, slot, w2) :=
                nmb_copy_string_to_allocator w1 o.allocator (some input_utf8)
                  (some r.input_value_utf8)
              let r := storeInput r slot
              if copy_rc != NMB_OK then .ok (copy_rc, some { r with result_code := copy_rc }, w2)
              else .ok (r.result_code, some r, w2)
            | none => .ok (r.result_code, some r, w1)
  | _, _ => .ok (NMB_E_INVALID_ARGUMENT, out_result, w)

end Web

/-! ## Sequences of calls of the configuration surface -/

/-- The four backends; one of them is compiled into an artifact. -/
inductive Backend where
  | linux
  | windows
  | android
  | web
deriving DecidableEq, Repr

/-- One call of `nmb_initialize(options)`, of `nmb_set_log_callback(log_callback,
user_data)` or of `nmb_shutdown()`. -/
inductive ApiCall where
  | init (options : Option NmbInitializeOptions)
  | set_log (log_callback user_data : Nat)
  | shutdown

/-- The call as the backend executes it: the status the function returns (`none` for the
two `void` functions) and the world after it. -/
def Backend.call (b : Backend) (w : World) (c : ApiCall) : Option Nat × World :=
  match b, c with
  | .linux, .init options =>
    (some (Linux.nmb_initialize w options).1, (Linux.nmb_initialize w options).2)
  | .windows, .init options =>
    (some (Windows.nmb_initialize w options).1, (Windows.nmb_initialize w options).2)
  | .android, .init options =>
    (some (Android.nmb_initialize w options).1, (Android.nmb_initialize w options).2)
  | .web, .init options =>
    (some (Web.nmb_initialize w options).1, (Web.nmb_initialize w options).2)
  | .linux, .set_log log_callback user_data =>
    (none, Linux.nmb_set_log_callback w log_callback user_data)
  | .windows, .set_log log_callback user_data =>
    (none, Windows.nmb_set_log_callback w log_callback user_data)
  | .android, .set_log log_callback user_data =>
    (none, Android.nmb_set_log_callback w log_callback user_data)
  | .web, .set_log log_callback user_data =>
    (none, Web.nmb_set_log_callback w log_callback user_data)
  | .linux, .shutdown => (none, Linux.nmb_shutdown w)
  | .windows, .shutdown => (none, Windows.nmb_shutdown w)
  | .android, .shutdown => (none, Android.nmb_shutdown w)
  | .web, .shutdown => (none, Web.nmb_shutdown w)

/-- The world after a sequence of calls, made one after the other. -/
def Backend.run (b : Backend) : World → List ApiCall → World
  | w, [] => w
  | w, c :: rest => Backend.run b (b.call w c).2 rest

/-- Whether every call of the sequence that returns a status returns ok. -/
def Backend.succeeds (b : Backend) : World → List ApiCall → Bool
  | _, [] => true
  | w, c :: rest =>
    (match (b.call w c).1 with
      | some rc => rc == NMB_OK
      | none => true) && Backend.succeeds b (b.call w c).2 rest

/-- The log sink of the process: the callback and the user pointer. -/
def World.sink (w : World) : Nat × Nat :=
  (w.s_log_callback, w.s_log_user_data)

/-- The pair a call names, in the words of the specification: the callback and the user
pointer of an initialize or a set_log_callback, the empty sink for a shutdown (and for an
initialize without options, which names no pair). -/
def ApiCall.named : ApiCall → Nat × Nat
  | .init (some o) => (o.log_callback, o.log_user_data)
  | .init none => (0, 0)
  | .set_log log_callback user_data => (log_callback, user_data)
  | .shutdown => (0, 0)

/-- The sink under "last write wins": the pair the most recent call names, the initial
sink when no call was made. -/
def lastWrite (sink : Nat × Nat) (calls : List ApiCall) : Nat × Nat :=
  match calls.getLast? with
  | some c => c.named
  | none => sink

/-- The pair a call installs on a backend: the pair it names, except that the web
backend installs the empty sink for an initialize whose callback is null. -/
def ApiCall.installed (b : Backend) (c : ApiCall) : Nat × Nat :=
  match b, c with
  | .web, .init (some o) => if o.log_callback = 0 then (0, 0) else c.named
  | _, _ => c.named

/-! ## The catalogue of `MessageBoxW` (`winuser.h`) -/

/-- The button combinations of `MessageBoxW`: the button ids a combination renders and
the flag that selects it. A request without buttons is shown with the single OK button. -/
def Windows.catalogue : List (List Nat × Nat) :=
  [([], Windows.MB_OK),
   ([NMB_BUTTON_ID_OK], Windows.MB_OK),
   ([NMB_BUTTON_ID_OK, NMB_BUTTON_ID_CANCEL], Windows.MB_OKCANCEL),
   ([NMB_BUTTON_ID_YES, NMB_BUTTON_ID_NO], Windows.MB_YESNO),
   ([NMB_BUTTON_ID_RETRY, NMB_BUTTON_ID_CANCEL], Windows.MB_RETRYCANCEL),
   ([NMB_BUTTON_ID_YES, NMB_BUTTON_ID_NO, NMB_BUTTON_ID_CANCEL], Windows.MB_YESNOCANCEL),
   ([NMB_BUTTON_ID_ABORT, NMB_BUTTON_ID_RETRY, NMB_BUTTON_ID_IGNORE],
     Windows.MB_ABORTRETRYIGNORE)]

/-- The ids of the buttons a request asks for: those of the `button_count` elements of
the button array, none when the array is null. -/
def requestedIds (o : NmbMessageBoxOptions) : List Nat :=
  match o.buttons with
  | some buttons => (buttons.take o.button_count).map (fun b => b.id)
  | none => []

/-- The buttons the Android dialog renders: the first three of the request (fewer when
it has fewer), the built-in OK button when it has none. -/
def Android.rendered (o : NmbMessageBoxOptions) : List NmbButtonOption :=
  match o.buttons with
  | none => [Android.defaultButton]
  | some buttons =>
    if o.button_count = 0 then [Android.defaultButton]
    else buttons.take (min o.button_count 3)

/-- Whether a call is a probe of a native facility or the display of a dialog: anything
but a log line and an allocation. -/
def Call.isNative : Call → Bool
  | .log _ _ _ => false
  | .android_log _ => false
  | .allocate _ _ _ => false
  | .heap_alloc _ => false
  | _ => true

/-- Whether a call is a line written to the log sink or to the Android system log. -/
def Call.isLogLine : Call → Bool
  | .log _ _ _ => true
  | .android_log _ => true
  | _ => false

/-- The number of timeout sources attached to the GLib main loop after a sequence of
calls. The call `g_timeout_add` attaches one; the backend has no call that removes one,
so a source goes only when the main loop has run its callback and the callback has
returned `G_SOURCE_REMOVE`, which `TimeoutCallback` does after its call of
`gtk_dialog_response`. -/
def armedTimers (trace : List Call) : Nat :=
  trace.foldl
    (fun n c =>
      match c with
      | .g_timeout_add _ _ => n + 1
      | .gtk_dialog_response _ => n - 1
      | _ => n)
    0

/-! ## Concrete inputs used for evaluation -/

/-- Initialization options with the given size stamp, version stamp and log sink. -/
def sampleInitOptions (struct_size abi_version log_callback log_user_data : Nat) :
    NmbInitializeOptions :=
  { struct_size := struct_size
    abi_version := abi_version
    runtime_name_utf8 := none
    allocator := none
    enable_async_dispatch := NMB_FALSE
    log_callback := log_callback
    log_user_data := log_user_data }

/-- A quiescent 64-bit test build: no log sink installed, a default heap that hands out
address `4096`, GTK and the task dialog available, a user who presses nothing. -/
def World.sample : World :=
  { build := Build.lp64
    s_log_callback := 0
    s_log_user_data := 0
    malloc := fun _ => 4096
    trace := []
    gtk_initialized := false
    gtk_available := false
    gtk_init_result := true
    zenity_found := false
    spawn_ok := false
    spawn_error := none
    wifexited := false
    wexitstatus := 0
    gtk :=
      { user_response := none
        verification_active := false
        entry_text := none
        combo_active_text := none
        checkbox_active := false }
    task_dialog_proc := false
    task_dialog_attempted := false
    task_dialog_exported := true
    win :=
      { task_dialog_failed := false
        button_pressed := 0
        verification_checked := false
        timer_elapsed := false
        message_box_response := 0
        last_error := 0 }
    android :=
      { g_javaVm := true
        g_bridgeClass := true
        g_showDialogMethod := true
        get_env_result := 0
        attach_ok := true
        find_bridge_class_ok := true
        new_global_ref_ok := true
        get_method_ok := true
        new_local_ref_ok := true
        find_string_class_ok := true
        new_object_array_ok := true
        new_long_array_ok := true
        failing_label := none
        exception_pending := false
        completion := none }
    web :=
      { dispatch_rc := 0
        result_code := 0
        button_id := 0
        checkbox_checked := 0
        was_timeout := 0
        input := none } }

/-- A custom allocator whose allocate function always fails. -/
def failingAllocator : NmbAllocator :=
  { allocate := some (fun _ _ _ => 0), deallocate := none, user_data := 7 }

/-- A custom allocator whose allocate function hands out address `8192`. -/
def bumpAllocator : NmbAllocator :=
  { allocate := some (fun _ _ _ => 8192), deallocate := none, user_data := 7 }

/-- A well-formed button as `init_button_option` of the sanity test builds it. -/
def sampleButton (id : Nat) (label : String) (is_default is_cancel : Nat) : NmbButtonOption :=
  { struct_size := 32
    id := id
    label_utf8 := some (lit 0x5000 label)
    description_utf8 := none
    kind := NMB_BUTTON_KIND_DEFAULT
    is_default := is_default
    is_cancel := is_cancel }

/-- A request as `init_options` of the sanity test builds it, with the given buttons,
allocator and user context. -/
def sampleOptions (buttons : List NmbButtonOption) (allocator : Option NmbAllocator)
    (user_context : Option NmbTestHarness) : NmbMessageBoxOptions :=
  { struct_size := 128
    abi_version := NMB_ABI_VERSION
    title_utf8 := some (lit 0x6000 "Test")
    message_utf8 := some (lit 0x6010 "Test message")
    buttons := some buttons
    button_count := buttons.length
    icon := NMB_ICON_NONE
    severity := NMB_SEVERITY_INFO
    modality := NMB_MODALITY_APP
    parent_window := 0
    input := none
    secondary := none
    verification_text_utf8 := none
    allow_cancel_via_escape := NMB_TRUE
    show_suppress_checkbox := NMB_FALSE
    requires_explicit_ack := NMB_FALSE
    timeout_milliseconds := 0
    timeout_button_id := NMB_BUTTON_ID_NONE
    locale_utf8 := none
    allocator := allocator
    user_context := user_context }

/-- The sample request with a timeout of `ms` milliseconds that resolves to the button
id `id`. -/
def sampleTimedOptions (buttons : List NmbButtonOption) (ms id : Nat) :
    NmbMessageBoxOptions :=
  { sampleOptions buttons none none with
    timeout_milliseconds := ms
    timeout_button_id := id }

/-- The sample request with the buttons Yes (the default) and No, and a timeout of five
seconds that resolves to No. -/
def yesNoTimedOptions : NmbMessageBoxOptions :=
  sampleTimedOptions
    [sampleButton NMB_BUTTON_ID_YES "Yes" 1 0, sampleButton NMB_BUTTON_ID_NO "No" 0 0]
    5000 NMB_BUTTON_ID_NO

/-- The sample request with the buttons Yes (the default), No and Help. -/
def yesNoHelpOptions : NmbMessageBoxOptions :=
  sampleOptions
    [sampleButton NMB_BUTTON_ID_YES "Yes" 1 0, sampleButton NMB_BUTTON_ID_NO "No" 0 0,
      sampleButton NMB_BUTTON_ID_HELP "Help" 0 0]
    none none

/-- The sample world with a user who ends the GTK dialog with the given response. -/
def World.gtkAnswers (response : Int) : World :=
  { World.sample with gtk := { World.sample.gtk with user_response := some response } }

/-- The sample world in which `MessageBoxW` returns the given value. -/
def World.messageBoxReturns (response : Int) : World :=
  { World.sample with win := { World.sample.win with message_box_response := response } }

/-- A zeroed result struct with its size stamped, as the sanity test passes it. -/
def sampleResult : NmbMessageBoxResult :=
  { struct_size := 32
    button := 0
    checkbox_checked := 0
    input_value_utf8 := none
    was_timeout := 0
    result_code := 0 }

/-- A valid harness of the 64-bit build scripting the given values. -/
def sampleHarness (button checkbox timeout result_code : Nat) (input : Option CString) :
    NmbTestHarness :=
  { struct_size := 32
    magic := NMB_TEST_HARNESS_MAGIC
    scripted_button := button
    checkbox_checked := checkbox
    simulate_timeout := timeout
    result_code := result_code
    input_value_utf8 := input }

/-- The status and the result struct of a finished call, without the world. -/
def observable (run : Except Stop (Nat × Option NmbMessageBoxResult × World)) :
    Option (Nat × Option NmbMessageBoxResult) :=
  match run with
  | .ok (rc, r, _) => some (rc, r)
  | .error _ => none

/-- The trace of a finished call. -/
def finalTrace (run : Except Stop (Nat × Option NmbMessageBoxResult × World)) :
    Option (List Call) :=
  match run with
  | .ok (_, _, W) => some W.trace
  | .error _ => none

/-! ## Theorems: the allocator adapter -/

theorem take_strlen_succ (bs : List Nat) (h : 0 ∈ bs) :
    bs.take ((bs.takeWhile (fun b => b != 0)).length + 1)
      = bs.takeWhile (fun b => b != 0) ++ [0] := by
  induction bs with
  | nil => simp at h
  | cons b rest ih =>
    by_cases hb : b = 0
    · subst hb
      simp [List.takeWhile]
    · have hrest : 0 ∈ rest := by
        rcases List.mem_cons.mp h with h0 | h0
        · exact absurd h0.symm hb
        · exact h0
      have hne : (b != 0) = true := by simp [hb]
      simp [List.takeWhile, hne, ih hrest]

theorem memcpy_terminated (buffer : Nat) (s : CString) (h : s.terminated) :
    memcpy buffer s (strlen s + 1) = { addr := buffer, bytes := s.text ++ [0] } := by
  unfold memcpy strlen CString.text
  rw [take_strlen_succ s.bytes h]

/-- C5: copying a non-null, null-terminated source into a non-null target slot issues
exactly one allocation request, of `strlen(s) + 1` bytes: through the custom allocate
function when the allocator and its allocate function are non-null, through the default
heap otherwise. With `buffer` the address that request returned, the call either returns
ok with the slot pointing at `buffer`, which holds the text of `s` followed by its
terminator, or returns out-of-memory when `buffer` is null; nothing else happens. -/
theorem copy_string_single_allocation (w : World) (allocator : Option NmbAllocator)
    (s : CString) (old : Option CString) (hs : s.terminated) :
    ∃ (request : Call) (buffer : Nat),
      ((∃ a f, allocator = some a ∧ a.allocate = some f ∧
            request = Call.allocate a.user_data (strlen s + 1) 1 ∧
            buffer = f a.user_data (strlen s + 1) 1) ∨
        ((allocator = none ∨ ∃ a, allocator = some a ∧ a.allocate = none) ∧
            request = Call.heap_alloc (strlen s + 1) ∧
            buffer = w.malloc (strlen s + 1))) ∧
      (nmb_copy_string_to_allocator w allocator (some s) (some old)).2.2 = w.record request ∧
      ((buffer ≠ 0 ∧
          (nmb_copy_string_to_allocator w allocator (some s) (some old)).1 = NMB_OK ∧
          (nmb_copy_string_to_allocator w allocator (some s) (some old)).2.1
            = some (some { addr := buffer, bytes := s.text ++ [0] })) ∨
        (buffer = 0 ∧
          (nmb_copy_string_to_allocator w allocator (some s) (some old)).1
            = NMB_E_OUT_OF_MEMORY)) := by
  have hm := memcpy_terminated
  cases allocator with
  | none =>
    refine ⟨Call.heap_alloc (strlen s + 1), w.malloc (strlen s + 1), Or.inr ⟨Or.inl rfl, rfl, rfl⟩, ?_⟩
    by_cases hb : w.malloc (strlen s + 1) = 0
    · simp [nmb_copy_string_to_allocator, nmb_allocate, nmb_default_alloc, hb]
    · simp [nmb_copy_string_to_allocator, nmb_allocate, nmb_default_alloc, hb, hm _ s hs]
  | some a =>
    cases hf : a.allocate with
    | none =>
      refine ⟨Call.heap_alloc (strlen s + 1), w.malloc (strlen s + 1),
        Or.inr ⟨Or.inr ⟨a, rfl, hf⟩, rfl, rfl⟩, ?_⟩
      by_cases hb : w.malloc (strlen s + 1) = 0
      · simp [nmb_copy_string_to_allocator, nmb_allocate, nmb_default_alloc, hb, hf]
      · simp [nmb_copy_string_to_allocator, nmb_allocate, nmb_default_alloc, hb, hf, hm _ s hs]
    | some f =>
      refine ⟨Call.allocate a.user_data (strlen s + 1) 1, f a.user_data (strlen s + 1) 1,
        Or.inl ⟨a, f, rfl, hf, rfl, rfl⟩, ?_⟩
      by_cases hb : f a.user_data (strlen s + 1) 1 = 0
      · simp [nmb_copy_string_to_allocator, nmb_allocate, hb, hf]
      · simp [nmb_copy_string_to_allocator, nmb_allocate, hb, hf, hm _ s hs]

theorem copy_string_single_allocation_witness :
    (lit 100 "hi").terminated ∧
      (nmb_copy_string_to_allocator World.sample (some bumpAllocator)
          (some (lit 100 "hi")) (some none)).2.1
        = some (some { addr := 8192, bytes := [104, 105, 0] }) ∧
      (nmb_copy_string_to_allocator World.sample (some bumpAllocator)
          (some (lit 100 "hi")) (some none)).2.2.trace = [Call.allocate 7 3 1] := by
  have hs : (lit 100 "hi").terminated := by decide
  obtain ⟨request, buffer, hchan, hworld, hres⟩ :=
    copy_string_single_allocation World.sample (some bumpAllocator) (lit 100 "hi") none hs
  have hlen : strlen (lit 100 "hi") = 2 := by decide
  have htext : (lit 100 "hi").text = [104, 105] := by decide
  have hreq : request = Call.allocate 7 3 1 ∧ buffer = 8192 := by
    rcases hchan with ⟨a, f, ha, hf, hr, hb⟩ | ⟨hnone, _, _⟩
    · have ha2 : a = bumpAllocator := (Option.some.inj ha).symm
      subst ha2
      have hf2 : f = fun _ _ _ => 8192 := (Option.some.inj hf).symm
      subst hf2
      rw [hlen] at hr
      exact ⟨hr, hb⟩
    · rcases hnone with h | ⟨a, ha, hf⟩
      · cases h
      · have ha2 : a = bumpAllocator := (Option.some.inj ha).symm
        subst ha2
        cases hf
  obtain ⟨hr, hb⟩ := hreq
  subst hr hb
  refine ⟨hs, ?_, ?_⟩
  · rcases hres with ⟨_, _, hslot⟩ | ⟨h0, _⟩
    · rw [hslot, htext]; rfl
    · cases h0
  · rw [hworld]; rfl

/-- C6 (as the code has it): when the allocation for a non-null source fails, the call
returns out-of-memory and leaves the target slot exactly as it was, so the slot holds
null afterwards precisely when it held null before the call. -/
theorem copy_string_oom_leaves_target (w : World) (allocator : Option NmbAllocator)
    (s : CString) (old : Option CString)
    (hfail : (nmb_allocate w allocator (strlen s + 1) 1).1 = 0) :
    (nmb_copy_string_to_allocator w allocator (some s) (some old)).1 = NMB_E_OUT_OF_MEMORY ∧
      (nmb_copy_string_to_allocator w allocator (some s) (some old)).2.1 = some old ∧
      ((nmb_copy_string_to_allocator w allocator (some s) (some old)).2.1 = some none
        ↔ old = none) := by
  simp [nmb_copy_string_to_allocator, hfail]

theorem copy_string_oom_leaves_target_witness :
    (nmb_allocate World.sample (some failingAllocator) (strlen (lit 100 "hi") + 1) 1).1 = 0 ∧
      (nmb_copy_string_to_allocator World.sample (some failingAllocator)
          (some (lit 100 "hi")) (some none)).2.1 = some none :=
  ⟨by decide,
    (copy_string_oom_leaves_target World.sample (some failingAllocator) (lit 100 "hi") none
      (by decide)).2.1⟩

/-- C6 fails as stated: with a failing allocator and a slot that held a non-null pointer
before the call, the call returns out-of-memory and the slot still holds that pointer,
not null. -/
theorem copy_string_oom_target_not_null :
    (nmb_copy_string_to_allocator World.sample (some failingAllocator)
        (some (lit 100 "hi")) (some (some (lit 200 "old")))).1 = NMB_E_OUT_OF_MEMORY ∧
      (nmb_copy_string_to_allocator World.sample (some failingAllocator)
        (some (lit 100 "hi")) (some (some (lit 200 "old")))).2.1 = some (some (lit 200 "old")) ∧
      (nmb_copy_string_to_allocator World.sample (some failingAllocator)
        (some (lit 100 "hi")) (some (some (lit 200 "old")))).2.1 ≠ some none := by
  decide

/-- C7: with a null source and a non-null target slot the call returns ok, stores null
in the slot and leaves the world untouched, whatever the allocator: the trace gains no
call, so neither the allocate function nor the default heap is invoked. -/
theorem copy_string_null_source (w : World) (allocator : Option NmbAllocator)
    (old : Option CString) :
    nmb_copy_string_to_allocator w allocator none (some old) = (NMB_OK, some none, w) ∧
      (nmb_copy_string_to_allocator w allocator none (some old)).2.2.trace = w.trace := by
  simp [nmb_copy_string_to_allocator]

/-! ## Theorems: validation and the harness -/

theorem linux_validate_options_ok (w : World) (o : NmbMessageBoxOptions)
    (hsize : w.build.kMessageBoxOptionsMinSize ≤ o.struct_size)
    (habi : o.abi_version = NMB_ABI_VERSION) :
    Linux.ValidateMessageBoxOptions w (some o) = (NMB_OK, w) := by
  simp [Linux.ValidateMessageBoxOptions, Nat.not_lt.mpr hsize, habi]

theorem linux_validate_result_ok (w : World) (r : NmbMessageBoxResult)
    (hres : w.build.kMessageBoxResultMinSize ≤ r.struct_size) :
    Linux.ValidateMessageBoxResult w (some r) = (NMB_OK, w) := by
  simp [Linux.ValidateMessageBoxResult, Nat.not_lt.mpr hres]

/-- Past validation the Linux entry point continues from the baseline result, whatever
the result struct held. -/
theorem linux_show_validated (w : World) (o : NmbMessageBoxOptions) (r : NmbMessageBoxResult)
    (hmsg : o.message_utf8.isSome = true)
    (hsize : w.build.kMessageBoxOptionsMinSize ≤ o.struct_size)
    (habi : o.abi_version = NMB_ABI_VERSION)
    (hres : w.build.kMessageBoxResultMinSize ≤ r.struct_size) :
    Linux.nmb_show_message_box w (some o) (some r)
      = Linux.nmb_show_message_box.tiers w o (baseline w.build) := by
  have hnone : o.message_utf8.isNone = false := by
    cases hm : o.message_utf8 with
    | none => simp [hm] at hmsg
    | some _ => rfl
  unfold Linux.nmb_show_message_box
  simp only [hnone, linux_validate_options_ok w o hsize habi,
    linux_validate_result_ok w r hres]
  rfl

/-- What the Linux harness writes, by cases on the scripted input text and the allocator. -/
theorem linux_harness_applied (w : World) (o : NmbMessageBoxOptions) (r : NmbMessageBoxResult)
    (h : NmbTestHarness) (hctx : o.user_context = some h)
    (hmagic : h.magic = NMB_TEST_HARNESS_MAGIC)
    (hhsize : h.struct_size = w.build.sizeof_NmbTestHarness) :
    Linux.ApplyTestHarness w (some o) (some r)
      = match h.input_value_utf8, o.allocator with
        | none, _ =>
          (true, some { r with
            button := h.scripted_button, checkbox_checked := h.checkbox_checked,
            was_timeout := h.simulate_timeout, result_code := h.result_code,
            input_value_utf8 := none }, w)
        | some text, none =>
          (true, some { r with
            button := h.scripted_button, checkbox_checked := h.checkbox_checked,
            was_timeout := h.simulate_timeout, result_code := h.result_code,
            input_value_utf8 := some text }, w)
        | some text, some a =>
          if (nmb_allocate w (some a) (strlen text + 1) 1).1 = 0 then
            (true, some { r with
              button := h.scripted_button, checkbox_checked := h.checkbox_checked,
              was_timeout := h.simulate_timeout, result_code := NMB_E_OUT_OF_MEMORY,
              input_value_utf8 := none }, (nmb_allocate w (some a) (strlen text + 1) 1).2)
          else
            (true, some { r with
              button := h.scripted_button, checkbox_checked := h.checkbox_checked,
              was_timeout := h.simulate_timeout, result_code := h.result_code,
              input_value_utf8 := some (memcpy (nmb_allocate w (some a) (strlen text + 1) 1).1
                text (strlen text + 1)) },
              (nmb_allocate w (some a) (strlen text + 1) 1).2) := by
  unfold Linux.ApplyTestHarness
  simp only [hctx, hmagic, hhsize]
  cases hin : h.input_value_utf8 with
  | none => simp
  | some text =>
    cases hal : o.allocator with
    | none => simp
    | some a =>
      by_cases hb : (nmb_allocate w (some a) (strlen text + 1) 1).1 = 0
      · simp [nmb_copy_string_to_allocator, hb, storeInput, NMB_E_OUT_OF_MEMORY, NMB_OK]
      · simp [nmb_copy_string_to_allocator, hb, storeInput, NMB_OK]

/-- When the harness applies in a test build, the Linux tiers return what it wrote. -/
theorem linux_tiers_harnessed (w W : World) (o : NmbMessageBoxOptions)
    (r R : NmbMessageBoxResult) (htest : w.build.testing = true)
    (happ : Linux.ApplyTestHarness w (some o) (some r) = (true, some R, W)) :
    Linux.nmb_show_message_box.tiers w o r = .ok (R.result_code, some R, W) := by
  simp [Linux.nmb_show_message_box.tiers, htest, happ]

theorem windows_validate_options_ok (w : World) (o : NmbMessageBoxOptions)
    (hsize : w.build.kMessageBoxOptionsMinSize ≤ o.struct_size)
    (habi : o.abi_version = NMB_ABI_VERSION) :
    Windows.ValidateMessageBoxOptions w (some o) = (NMB_OK, w) := by
  simp [Windows.ValidateMessageBoxOptions, Nat.not_lt.mpr hsize, habi]

theorem windows_validate_result_ok (w : World) (r : NmbMessageBoxResult)
    (hres : w.build.kMessageBoxResultMinSize ≤ r.struct_size) :
    Windows.ValidateMessageBoxResult w (some r) = (NMB_OK, w) := by
  simp [Windows.ValidateMessageBoxResult, Nat.not_lt.mpr hres]

/-- The loop of `ButtonsSupportedByMessageBox` reads only existing elements when the
array holds the elements it is asked to visit. -/
theorem windows_supported_loop_ok (bs : List NmbButtonOption) (n : Nat) :
    ∀ (i : Nat) (c : Windows.ButtonCounts), i + n ≤ bs.length →
      ∃ res, Windows.ButtonsSupportedByMessageBox.loop bs n i c = .ok res := by
  induction n with
  | zero => intro i c _; exact ⟨some c, rfl⟩
  | succ k ih =>
    intro i c hlen
    have hi : i < bs.length := by omega
    have hget : bs.get? i = some (bs.get ⟨i, hi⟩) := List.get?_eq_get hi
    unfold Windows.ButtonsSupportedByMessageBox.loop
    rw [hget]
    cases hstep : Windows.ButtonsSupportedByMessageBox.step (bs.get ⟨i, hi⟩) c with
    | none => exact ⟨none, by simp only [hstep]⟩
    | some c1 =>
      obtain ⟨res, hres⟩ := ih (i + 1) c1 (by omega)
      exact ⟨res, by simp only [hstep, hres]⟩

/-- The function `ButtonsSupportedByMessageBox` returns for every request whose button
array, when present, holds at least `button_count` elements. -/
theorem windows_supported_ok (o : NmbMessageBoxOptions)
    (harr : ∀ bs, o.buttons = some bs → o.button_count ≤ bs.length) :
    ∃ b, Windows.ButtonsSupportedByMessageBox (some o) = .ok b := by
  unfold Windows.ButtonsSupportedByMessageBox
  cases hb : o.buttons with
  | none => exact ⟨true, by simp only [hb]⟩
  | some bs =>
    by_cases h0 : o.button_count = 0
    · exact ⟨true, by simp [hb, h0]⟩
    · by_cases h3 : o.button_count > 3
      · exact ⟨false, by simp [hb, h0, h3]⟩
      · obtain ⟨res, hres⟩ :=
          windows_supported_loop_ok bs o.button_count 0 {} (by simpa using harr bs hb)
        simp only [hb, h0, h3, if_false, hres]
        cases res with
        | none => exact ⟨false, rfl⟩
        | some c => exact ⟨_, rfl⟩

/-- Past validation the Windows entry point continues from the baseline result, whatever
the result struct held. -/
theorem windows_show_validated (w : World) (o : NmbMessageBoxOptions)
    (r : NmbMessageBoxResult) (b : Bool)
    (hmsg : o.message_utf8.isSome = true)
    (hsize : w.build.kMessageBoxOptionsMinSize ≤ o.struct_size)
    (habi : o.abi_version = NMB_ABI_VERSION)
    (hres : w.build.kMessageBoxResultMinSize ≤ r.struct_size)
    (hsup : Windows.ButtonsSupportedByMessageBox (some o) = .ok b) :
    Windows.nmb_show_message_box w (some o) (some r)
      = Windows.nmb_show_message_box.tiers w o b (baseline w.build) := by
  have hnone : o.message_utf8.isNone = false := by
    cases hm : o.message_utf8 with
    | none => simp [hm] at hmsg
    | some _ => rfl
  unfold Windows.nmb_show_message_box
  simp only [hnone, windows_validate_options_ok w o hsize habi,
    windows_validate_result_ok w r hres, hsup]
  rfl

/-- What the Windows harness writes, by cases on the scripted input text and the
allocator. -/
theorem windows_harness_applied (w : World) (o : NmbMessageBoxOptions)
    (r : NmbMessageBoxResult)
    (h : NmbTestHarness) (hctx : o.user_context = some h)
    (hmagic : h.magic = NMB_TEST_HARNESS_MAGIC)
    (hhsize : h.struct_size = w.build.sizeof_NmbTestHarness) :
    Windows.ApplyTestHarness w (some o) (some r)
      = match h.input_value_utf8, o.allocator with
        | none, _ =>
          (true, some { r with
            button := h.scripted_button, checkbox_checked := h.checkbox_checked,
            was_timeout := h.simulate_timeout, result_code := h.result_code,
            input_value_utf8 := none }, w)
        | some text, none =>
          (true, some { r with
            button := h.scripted_button, checkbox_checked := h.checkbox_checked,
            was_timeout := h.simulate_timeout, result_code := h.result_code,
            input_value_utf8 := some text }, w)
        | some text, some a =>
          if (nmb_allocate w (some a) (strlen text + 1) 1).1 = 0 then
            (true, some { r with
              button := h.scripted_button, checkbox_checked := h.checkbox_checked,
              was_timeout := h.simulate_timeout, result_code := NMB_E_OUT_OF_MEMORY,
              input_value_utf8 := none }, (nmb_allocate w (some a) (strlen text + 1) 1).2)
          else
            (true, some { r with
              button := h.scripted_button, checkbox_checked := h.checkbox_checked,
              was_timeout := h.simulate_timeout, result_code := h.result_code,
              input_value_utf8 := some (memcpy (nmb_allocate w (some a) (strlen text + 1) 1).1
                text (strlen text + 1)) },
              (nmb_allocate w (some a) (strlen text + 1) 1).2) := by
  unfold Windows.ApplyTestHarness
  simp only [hctx, hmagic, hhsize]
  cases hin : h.input_value_utf8 with
  | none => simp
  | some text =>
    cases hal : o.allocator with
    | none => simp
    | some a =>
      by_cases hb : (nmb_allocate w (some a) (strlen text + 1) 1).1 = 0
      · simp [nmb_copy_string_to_allocator, hb, storeInput, NMB_E_OUT_OF_MEMORY, NMB_OK]
      · simp [nmb_copy_string_to_allocator, hb, storeInput, NMB_OK]

/-- When the harness applies in a test build, the Windows tiers return what it wrote. -/
theorem windows_tiers_harnessed (w W : World) (o : NmbMessageBoxOptions) (b : Bool)
    (r R : NmbMessageBoxResult) (htest : w.build.testing = true)
    (happ : Windows.ApplyTestHarness w (some o) (some r) = (true, some R, W)) :
    Windows.nmb_show_message_box.tiers w o b r = .ok (R.result_code, some R, W) := by
  simp [Windows.nmb_show_message_box.tiers, htest, happ]

theorem runtime_log_build (w : World) (m : Option String) :
    (nmb_runtime_log w m).build = w.build := by
  unfold nmb_runtime_log
  cases m with
  | none => rfl
  | some t => by_cases hc : w.s_log_callback != 0 <;> simp [hc, World.record]

theorem runtime_log_malloc (w : World) (m : Option String) :
    (nmb_runtime_log w m).malloc = w.malloc := by
  unfold nmb_runtime_log
  cases m with
  | none => rfl
  | some t => by_cases hc : w.s_log_callback != 0 <;> simp [hc, World.record]

theorem android_log_build (w : World) (m : Option String) :
    (Android.AndroidLog w m).build = w.build := by
  unfold Android.AndroidLog
  cases m <;> simp [runtime_log_build, World.record]

theorem android_log_malloc (w : World) (m : Option String) :
    (Android.AndroidLog w m).malloc = w.malloc := by
  unfold Android.AndroidLog
  cases m <;> simp [runtime_log_malloc, World.record]

/-- What holds of the world before the degradation report and is kept by every
`AndroidLog` holds after it. -/
theorem android_unsupported_induct (P : World → Prop) (w : World) (o : NmbMessageBoxOptions)
    (h0 : P w) (hstep : ∀ w1 m, P w1 → P (Android.AndroidLog w1 m)) :
    P (Android.LogUnsupportedFeatures w (some o)) := by
  unfold Android.LogUnsupportedFeatures
  simp only []
  repeat' split
  all_goals
    first
    | exact h0
    | (repeat' apply hstep)
      exact h0

theorem android_unsupported_build (w : World) (o : NmbMessageBoxOptions) :
    (Android.LogUnsupportedFeatures w (some o)).build = w.build :=
  android_unsupported_induct (fun w1 => w1.build = w.build) w o rfl
    (fun w1 m h => (android_log_build w1 m).trans h)

theorem android_unsupported_malloc (w : World) (o : NmbMessageBoxOptions) :
    (Android.LogUnsupportedFeatures w (some o)).malloc = w.malloc :=
  android_unsupported_induct (fun w1 => w1.malloc = w.malloc) w o rfl
    (fun w1 m h => (android_log_malloc w1 m).trans h)

/-- The address an allocation returns depends on the world only through the default heap. -/
theorem nmb_allocate_fst_congr (w1 w2 : World) (a : Option NmbAllocator) (n k : Nat)
    (hm : w1.malloc = w2.malloc) :
    (nmb_allocate w1 a n k).1 = (nmb_allocate w2 a n k).1 := by
  unfold nmb_allocate nmb_default_alloc
  cases a with
  | none => by_cases hn : n = 0 <;> simp [hn, hm]
  | some al =>
    cases hf : al.allocate with
    | none => by_cases hn : n = 0 <;> simp [hn, hm, hf]
    | some f => simp [hf]

theorem android_validate_options_ok (w : World) (o : NmbMessageBoxOptions)
    (hmsg : o.message_utf8.isSome = true)
    (hsize : w.build.kMessageBoxOptionsMinSize ≤ o.struct_size)
    (habi : o.abi_version = NMB_ABI_VERSION) :
    Android.ValidateMessageBoxOptions w (some o) = (NMB_OK, w) := by
  have hnone : o.message_utf8.isNone = false := by
    cases hm : o.message_utf8 with
    | none => simp [hm] at hmsg
    | some _ => rfl
  simp [Android.ValidateMessageBoxOptions, Nat.not_lt.mpr hsize, habi, hnone]

theorem android_validate_result_ok (w : World) (r : NmbMessageBoxResult)
    (hres : w.build.kMessageBoxResultMinSize ≤ r.struct_size) :
    Android.ValidateMessageBoxResult w (some r) = (NMB_OK, w) := by
  simp [Android.ValidateMessageBoxResult, Nat.not_lt.mpr hres]

/-- Past validation the Android entry point continues from the baseline result, whatever
the result struct held. -/
theorem android_show_validated (w : World) (o : NmbMessageBoxOptions)
    (r : NmbMessageBoxResult)
    (hmsg : o.message_utf8.isSome = true)
    (hsize : w.build.kMessageBoxOptionsMinSize ≤ o.struct_size)
    (habi : o.abi_version = NMB_ABI_VERSION)
    (hres : w.build.kMessageBoxResultMinSize ≤ r.struct_size) :
    Android.nmb_show_message_box w (some o) (some r)
      = Android.nmb_show_message_box.tiers w o (baseline w.build) := by
  unfold Android.nmb_show_message_box
  simp only [android_validate_options_ok w o hmsg hsize habi,
    android_validate_result_ok w r hres]
  rfl

/-- What the Android harness writes, by cases on the scripted input text, the scripted
status and the allocator. -/
theorem android_harness_applied (w : World) (o : NmbMessageBoxOptions)
    (r : NmbMessageBoxResult)
    (h : NmbTestHarness) (hctx : o.user_context = some h)
    (hmagic : h.magic = NMB_TEST_HARNESS_MAGIC)
    (hhsize : h.struct_size = w.build.sizeof_NmbTestHarness) :
    Android.ApplyTestHarness w (some o) (some r)
      = match h.input_value_utf8, o.allocator with
        | none, _ =>
          (true, some { r with
            button := h.scripted_button, checkbox_checked := h.checkbox_checked,
            was_timeout := h.simulate_timeout, result_code := h.result_code,
            input_value_utf8 := none }, w)
        | some text, none =>
          (true, some { r with
            button := h.scripted_button, checkbox_checked := h.checkbox_checked,
            was_timeout := h.simulate_timeout, result_code := h.result_code,
            input_value_utf8 := if h.result_code = NMB_OK then some text else none }, w)
        | some text, some a =>
          if h.result_code = NMB_OK then
            if (nmb_allocate w (some a) (strlen text + 1) 1).1 = 0 then
              (true, some { r with
                button := h.scripted_button, checkbox_checked := h.checkbox_checked,
                was_timeout := h.simulate_timeout, result_code := NMB_E_OUT_OF_MEMORY,
                input_value_utf8 := none }, (nmb_allocate w (some a) (strlen text + 1) 1).2)
            else
              (true, some { r with
                button := h.scripted_button, checkbox_checked := h.checkbox_checked,
                was_timeout := h.simulate_timeout, result_code := h.result_code,
                input_value_utf8 :=
                  some (memcpy (nmb_allocate w (some a) (strlen text + 1) 1).1
                    text (strlen text + 1)) },
                (nmb_allocate w (some a) (strlen text + 1) 1).2)
          else
            (true, some { r with
              button := h.scripted_button, checkbox_checked := h.checkbox_checked,
              was_timeout := h.simulate_timeout, result_code := h.result_code,
              input_value_utf8 := none }, w) := by
  unfold Android.ApplyTestHarness
  simp only [hctx, hmagic, hhsize]
  cases hin : h.input_value_utf8 with
  | none => simp
  | some text =>
    by_cases hok : h.result_code = NMB_OK
    · cases hal : o.allocator with
      | none => simp [hok]
      | some a =>
        by_cases hb : (nmb_allocate w (some a) (strlen text + 1) 1).1 = 0
        · simp [nmb_copy_string_to_allocator, hb, storeInput, NMB_E_OUT_OF_MEMORY, NMB_OK, hok]
        · simp [nmb_copy_string_to_allocator, hb, storeInput, NMB_OK, hok]
    · cases hal : o.allocator with
      | none => simp [hok]
      | some a => simp [hok]

/-- When the harness applies in a test build, the Android tiers return what it wrote. -/
theorem android_tiers_harnessed (w W : World) (o : NmbMessageBoxOptions)
    (r R : NmbMessageBoxResult) (htest : w.build.testing = true)
    (happ : Android.ApplyTestHarness (Android.LogUnsupportedFeatures w (some o)) (some o)
      (some r) = (true, some R, W)) :
    Android.nmb_show_message_box.tiers w o r = .ok (R.result_code, some R, W) := by
  have hb : (Android.LogUnsupportedFeatures w (some o)).build.testing = true := by
    rw [android_unsupported_build]; exact htest
  simp [Android.nmb_show_message_box.tiers, Android.ShowDialogInternal, hb, happ]

/-- The scripted fields reach the result on Linux; the status is the scripted one unless
the copy of the scripted text fails. -/
theorem linux_harness_fields (w : World) (o : NmbMessageBoxOptions) (r : NmbMessageBoxResult)
    (h : NmbTestHarness)
    (htest : w.build.testing = true)
    (hmsg : o.message_utf8.isSome = true)
    (hsize : w.build.kMessageBoxOptionsMinSize ≤ o.struct_size)
    (habi : o.abi_version = NMB_ABI_VERSION)
    (hres : w.build.kMessageBoxResultMinSize ≤ r.struct_size)
    (hctx : o.user_context = some h)
    (hmagic : h.magic = NMB_TEST_HARNESS_MAGIC)
    (hhsize : h.struct_size = w.build.sizeof_NmbTestHarness) :
    ∃ R W, Linux.nmb_show_message_box w (some o) (some r) = .ok (R.result_code, some R, W) ∧
      R.button = h.scripted_button ∧ R.checkbox_checked = h.checkbox_checked ∧
      R.was_timeout = h.simulate_timeout ∧
      (R.result_code = h.result_code ∨
        (R.result_code = NMB_E_OUT_OF_MEMORY ∧
          ∃ text a, h.input_value_utf8 = some text ∧ o.allocator = some a ∧
            (nmb_allocate w (some a) (strlen text + 1) 1).1 = 0)) ∧
      ((∀ text a, h.input_value_utf8 = some text → o.allocator = some a →
          (nmb_allocate w (some a) (strlen text + 1) 1).1 ≠ 0) →
        R.result_code = h.result_code) := by
  rw [linux_show_validated w o r hmsg hsize habi hres]
  have happ := linux_harness_applied w o (baseline w.build) h hctx hmagic hhsize
  cases hin : h.input_value_utf8 with
  | none =>
    rw [hin] at happ
    exact ⟨_, _, linux_tiers_harnessed w _ o _ _ htest happ, rfl, rfl, rfl, Or.inl rfl,
      fun _ => rfl⟩
  | some text =>
    cases hal : o.allocator with
    | none =>
      rw [hin, hal] at happ
      exact ⟨_, _, linux_tiers_harnessed w _ o _ _ htest happ, rfl, rfl, rfl, Or.inl rfl,
        fun _ => rfl⟩
    | some a =>
      rw [hin, hal] at happ
      by_cases hb : (nmb_allocate w (some a) (strlen text + 1) 1).1 = 0
      · simp only [hb, if_true] at happ
        exact ⟨_, _, linux_tiers_harnessed w _ o _ _ htest happ, rfl, rfl, rfl,
          Or.inr ⟨rfl, text, a, rfl, rfl, hb⟩, fun hok => absurd hb (hok text a rfl rfl)⟩
      · simp only [hb, if_false] at happ
        exact ⟨_, _, linux_tiers_harnessed w _ o _ _ htest happ, rfl, rfl, rfl, Or.inl rfl,
          fun _ => rfl⟩

/-- The scripted fields reach the result on Windows; the status is the scripted one
unless the copy of the scripted text fails. -/
theorem windows_harness_fields (w : World) (o : NmbMessageBoxOptions)
    (r : NmbMessageBoxResult) (h : NmbTestHarness)
    (htest : w.build.testing = true)
    (hmsg : o.message_utf8.isSome = true)
    (hsize : w.build.kMessageBoxOptionsMinSize ≤ o.struct_size)
    (habi : o.abi_version = NMB_ABI_VERSION)
    (hres : w.build.kMessageBoxResultMinSize ≤ r.struct_size)
    (harr : ∀ bs, o.buttons = some bs → o.button_count ≤ bs.length)
    (hctx : o.user_context = some h)
    (hmagic : h.magic = NMB_TEST_HARNESS_MAGIC)
    (hhsize : h.struct_size = w.build.sizeof_NmbTestHarness) :
    ∃ R W, Windows.nmb_show_message_box w (some o) (some r) = .ok (R.result_code, some R, W) ∧
      R.button = h.scripted_button ∧ R.checkbox_checked = h.checkbox_checked ∧
      R.was_timeout = h.simulate_timeout ∧
      (R.result_code = h.result_code ∨
        (R.result_code = NMB_E_OUT_OF_MEMORY ∧
          ∃ text a, h.input_value_utf8 = some text ∧ o.allocator = some a ∧
            (nmb_allocate w (some a) (strlen text + 1) 1).1 = 0)) ∧
      ((∀ text a, h.input_value_utf8 = some text → o.allocator = some a →
          (nmb_allocate w (some a) (strlen text + 1) 1).1 ≠ 0) →
        R.result_code = h.result_code) := by
  obtain ⟨b, hsup⟩ := windows_supported_ok o harr
  rw [windows_show_validated w o r b hmsg hsize habi hres hsup]
  have happ := windows_harness_applied w o (baseline w.build) h hctx hmagic hhsize
  cases hin : h.input_value_utf8 with
  | none =>
    rw [hin] at happ
    exact ⟨_, _, windows_tiers_harnessed w _ o b _ _ htest happ, rfl, rfl, rfl, Or.inl rfl,
      fun _ => rfl⟩
  | some text =>
    cases hal : o.allocator with
    | none =>
      rw [hin, hal] at happ
      exact ⟨_, _, windows_tiers_harnessed w _ o b _ _ htest happ, rfl, rfl, rfl, Or.inl rfl,
        fun _ => rfl⟩
    | some a =>
      rw [hin, hal] at happ
      by_cases hb : (nmb_allocate w (some a) (strlen text + 1) 1).1 = 0
      · simp only [hb, if_true] at happ
        exact ⟨_, _, windows_tiers_harnessed w _ o b _ _ htest happ, rfl, rfl, rfl,
          Or.inr ⟨rfl, text, a, rfl, rfl, hb⟩, fun hok => absurd hb (hok text a rfl rfl)⟩
      · simp only [hb, if_false] at happ
        exact ⟨_, _, windows_tiers_harnessed w _ o b _ _ htest happ, rfl, rfl, rfl,
          Or.inl rfl, fun _ => rfl⟩

/-- The scripted fields reach the result on Android; the status is the scripted one
unless the copy of the scripted text fails. -/
theorem android_harness_fields (w : World) (o : NmbMessageBoxOptions)
    (r : NmbMessageBoxResult) (h : NmbTestHarness)
    (htest : w.build.testing = true)
    (hmsg : o.message_utf8.isSome = true)
    (hsize : w.build.kMessageBoxOptionsMinSize ≤ o.struct_size)
    (habi : o.abi_version = NMB_ABI_VERSION)
    (hres : w.build.kMessageBoxResultMinSize ≤ r.struct_size)
    (hctx : o.user_context = some h)
    (hmagic : h.magic = NMB_TEST_HARNESS_MAGIC)
    (hhsize : h.struct_size = w.build.sizeof_NmbTestHarness) :
    ∃ R W, Android.nmb_show_message_box w (some o) (some r) = .ok (R.result_code, some R, W) ∧
      R.button = h.scripted_button ∧ R.checkbox_checked = h.checkbox_checked ∧
      R.was_timeout = h.simulate_timeout ∧
      (R.result_code = h.result_code ∨
        (R.result_code = NMB_E_OUT_OF_MEMORY ∧
          ∃ text a, h.input_value_utf8 = some text ∧ o.allocator = some a ∧
            (nmb_allocate w (some a) (strlen text + 1) 1).1 = 0)) ∧
      ((∀ text a, h.input_value_utf8 = some text → o.allocator = some a →
          (nmb_allocate w (some a) (strlen text + 1) 1).1 ≠ 0) →
        R.result_code = h.result_code) := by
  rw [android_show_validated w o r hmsg hsize habi hres]
  have hhsize2 : h.struct_size
      = (Android.LogUnsupportedFeatures w (some o)).build.sizeof_NmbTestHarness := by
    rw [android_unsupported_build]; exact hhsize
  have happ := android_harness_applied (Android.LogUnsupportedFeatures w (some o)) o
    (baseline w.build) h hctx hmagic hhsize2
  have halloc : ∀ (a : NmbAllocator) (n : Nat),
      (nmb_allocate (Android.LogUnsupportedFeatures w (some o)) (some a) n 1).1
        = (nmb_allocate w (some a) n 1).1 :=
    fun a n => nmb_allocate_fst_congr _ _ _ _ _ (android_unsupported_malloc w o)
  cases hin : h.input_value_utf8 with
  | none =>
    rw [hin] at happ
    exact ⟨_, _, android_tiers_harnessed w _ o _ _ htest happ, rfl, rfl, rfl, Or.inl rfl,
      fun _ => rfl⟩
  | some text =>
    cases hal : o.allocator with
    | none =>
      rw [hin, hal] at happ
      exact ⟨_, _, android_tiers_harnessed w _ o _ _ htest happ, rfl, rfl, rfl, Or.inl rfl,
        fun _ => rfl⟩
    | some a =>
      rw [hin, hal] at happ
      by_cases hok : h.result_code = NMB_OK
      · by_cases hb : (nmb_allocate w (some a) (strlen text + 1) 1).1 = 0
        · simp only [hok, halloc, hb, if_true] at happ
          exact ⟨_, _, android_tiers_harnessed w _ o _ _ htest happ, rfl, rfl, rfl,
            Or.inr ⟨rfl, text, a, rfl, rfl, hb⟩, fun hk => absurd hb (hk text a rfl rfl)⟩
        · simp only [hok, halloc, hb, if_true, if_false] at happ
          exact ⟨_, _, android_tiers_harnessed w _ o _ _ htest happ, rfl, rfl, rfl,
            Or.inl hok.symm, fun _ => hok.symm⟩
      · simp only [hok, if_false] at happ
        exact ⟨_, _, android_tiers_harnessed w _ o _ _ htest happ, rfl, rfl, rfl,
          Or.inl rfl, fun _ => rfl⟩

/-- On Linux, when the copy of the scripted text fails, the call returns out-of-memory,
stores it, and leaves the input value null. -/
theorem linux_harness_copy_failed (w : World) (o : NmbMessageBoxOptions)
    (r : NmbMessageBoxResult) (h : NmbTestHarness)
    (htest : w.build.testing = true)
    (hmsg : o.message_utf8.isSome = true)
    (hsize : w.build.kMessageBoxOptionsMinSize ≤ o.struct_size)
    (habi : o.abi_version = NMB_ABI_VERSION)
    (hres : w.build.kMessageBoxResultMinSize ≤ r.struct_size)
    (hctx : o.user_context = some h)
    (hmagic : h.magic = NMB_TEST_HARNESS_MAGIC)
    (hhsize : h.struct_size = w.build.sizeof_NmbTestHarness)
    (text : CString) (a : NmbAllocator)
    (hin : h.input_value_utf8 = some text) (hal : o.allocator = some a)
    (hb : (nmb_allocate w (some a) (strlen text + 1) 1).1 = 0) :
    ∃ R W, Linux.nmb_show_message_box w (some o) (some r)
        = .ok (NMB_E_OUT_OF_MEMORY, some R, W) ∧
      R.result_code = NMB_E_OUT_OF_MEMORY ∧ R.input_value_utf8 = none := by
  rw [linux_show_validated w o r hmsg hsize habi hres]
  have happ := linux_harness_applied w o (baseline w.build) h hctx hmagic hhsize
  rw [hin, hal] at happ
  simp only [hb, if_true] at happ
  exact ⟨_, _, linux_tiers_harnessed w _ o _ _ htest happ, rfl, rfl⟩

/-- On Windows, when the copy of the scripted text fails, the call returns out-of-memory,
stores it, and leaves the input value null. -/
theorem windows_harness_copy_failed (w : World) (o : NmbMessageBoxOptions)
    (r : NmbMessageBoxResult) (h : NmbTestHarness)
    (htest : w.build.testing = true)
    (hmsg : o.message_utf8.isSome = true)
    (hsize : w.build.kMessageBoxOptionsMinSize ≤ o.struct_size)
    (habi : o.abi_version = NMB_ABI_VERSION)
    (hres : w.build.kMessageBoxResultMinSize ≤ r.struct_size)
    (harr : ∀ bs, o.buttons = some bs → o.button_count ≤ bs.length)
    (hctx : o.user_context = some h)
    (hmagic : h.magic = NMB_TEST_HARNESS_MAGIC)
    (hhsize : h.struct_size = w.build.sizeof_NmbTestHarness)
    (text : CString) (a : NmbAllocator)
    (hin : h.input_value_utf8 = some text) (hal : o.allocator = some a)
    (hb : (nmb_allocate w (some a) (strlen text + 1) 1).1 = 0) :
    ∃ R W, Windows.nmb_show_message_box w (some o) (some r)
        = .ok (NMB_E_OUT_OF_MEMORY, some R, W) ∧
      R.result_code = NMB_E_OUT_OF_MEMORY ∧ R.input_value_utf8 = none := by
  obtain ⟨b, hsup⟩ := windows_supported_ok o harr
  rw [windows_show_validated w o r b hmsg hsize habi hres hsup]
  have happ := windows_harness_applied w o (baseline w.build) h hctx hmagic hhsize
  rw [hin, hal] at happ
  simp only [hb, if_true] at happ
  exact ⟨_, _, windows_tiers_harnessed w _ o b _ _ htest happ, rfl, rfl⟩

/-- On Android the scripted text is copied only when the scripted status is ok: when the
allocation for the copy returns null, the call returns and stores out-of-memory if the
scripted status is ok, and the scripted status otherwise; the input value is null. -/
theorem android_harness_copy_failed (w : World) (o : NmbMessageBoxOptions)
    (r : NmbMessageBoxResult) (h : NmbTestHarness)
    (htest : w.build.testing = true)
    (hmsg : o.message_utf8.isSome = true)
    (hsize : w.build.kMessageBoxOptionsMinSize ≤ o.struct_size)
    (habi : o.abi_version = NMB_ABI_VERSION)
    (hres : w.build.kMessageBoxResultMinSize ≤ r.struct_size)
    (hctx : o.user_context = some h)
    (hmagic : h.magic = NMB_TEST_HARNESS_MAGIC)
    (hhsize : h.struct_size = w.build.sizeof_NmbTestHarness)
    (text : CString) (a : NmbAllocator)
    (hin : h.input_value_utf8 = some text) (hal : o.allocator = some a)
    (hb : (nmb_allocate w (some a) (strlen text + 1) 1).1 = 0) :
    ∃ R W, Android.nmb_show_message_box w (some o) (some r)
        = .ok (R.result_code, some R, W) ∧
      R.result_code
        = (if h.result_code = NMB_OK then NMB_E_OUT_OF_MEMORY else h.result_code) ∧
      R.input_value_utf8 = none := by
  rw [android_show_validated w o r hmsg hsize habi hres]
  have hhsize2 : h.struct_size
      = (Android.LogUnsupportedFeatures w (some o)).build.sizeof_NmbTestHarness := by
    rw [android_unsupported_build]; exact hhsize
  have happ := android_harness_applied (Android.LogUnsupportedFeatures w (some o)) o
    (baseline w.build) h hctx hmagic hhsize2
  have halloc : ∀ (a : NmbAllocator) (n : Nat),
      (nmb_allocate (Android.LogUnsupportedFeatures w (some o)) (some a) n 1).1
        = (nmb_allocate w (some a) n 1).1 :=
    fun a n => nmb_allocate_fst_congr _ _ _ _ _ (android_unsupported_malloc w o)
  rw [hin, hal] at happ
  by_cases hok : h.result_code = NMB_OK
  · simp only [hok, halloc, hb, if_true] at happ
    exact ⟨_, _, android_tiers_harnessed w _ o _ _ htest happ, by rw [if_pos hok], rfl⟩
  · simp only [hok, if_false] at happ
    exact ⟨_, _, android_tiers_harnessed w _ o _ _ htest happ, by rw [if_neg hok], rfl⟩

/-- C1 (as the code has it): on Linux, Windows and Android, every request that passes
validation and carries a valid harness (in a test build) ends with `button`,
`checkbox_checked` and `was_timeout` equal to the scripted values, and the returned status
equal to `result_code`. That status is the scripted one whenever the harness scripts no
input text, the request has no allocator, or the allocation for the copy succeeds. When
the allocation for the copy of the scripted text through the request's allocator returns
null, Linux and Windows return and store out-of-memory and leave the input value null;
Android, which copies the text only when the scripted status is ok, returns and stores
out-of-memory when the scripted status is ok and the scripted status otherwise, and leaves
the input value null. (`harr` only excludes reading past the end of the button array,
which the Windows entry point does before it looks at the harness.) -/
theorem harness_scripted_result (w : World) (o : NmbMessageBoxOptions)
    (r : NmbMessageBoxResult) (h : NmbTestHarness)
    (htest : w.build.testing = true)
    (hmsg : o.message_utf8.isSome = true)
    (hsize : w.build.kMessageBoxOptionsMinSize ≤ o.struct_size)
    (habi : o.abi_version = NMB_ABI_VERSION)
    (hres : w.build.kMessageBoxResultMinSize ≤ r.struct_size)
    (harr : ∀ bs, o.buttons = some bs → o.button_count ≤ bs.length)
    (hctx : o.user_context = some h)
    (hmagic : h.magic = NMB_TEST_HARNESS_MAGIC)
    (hhsize : h.struct_size = w.build.sizeof_NmbTestHarness) :
    (∀ run ∈ [Linux.nmb_show_message_box w (some o) (some r),
        Windows.nmb_show_message_box w (some o) (some r),
        Android.nmb_show_message_box w (some o) (some r)],
      ∃ R W, run = .ok (R.result_code, some R, W) ∧
        R.button = h.scripted_button ∧ R.checkbox_checked = h.checkbox_checked ∧
        R.was_timeout = h.simulate_timeout ∧
        (R.result_code = h.result_code ∨
          (R.result_code = NMB_E_OUT_OF_MEMORY ∧
            ∃ text a, h.input_value_utf8 = some text ∧ o.allocator = some a ∧
              (nmb_allocate w (some a) (strlen text + 1) 1).1 = 0)) ∧
        ((∀ text a, h.input_value_utf8 = some text → o.allocator = some a →
            (nmb_allocate w (some a) (strlen text + 1) 1).1 ≠ 0) →
          R.result_code = h.result_code)) ∧
    (∀ text a, h.input_value_utf8 = some text → o.allocator = some a →
      (nmb_allocate w (some a) (strlen text + 1) 1).1 = 0 →
      (∀ run ∈ [Linux.nmb_show_message_box w (some o) (some r),
          Windows.nmb_show_message_box w (some o) (some r)],
        ∃ R W, run = .ok (NMB_E_OUT_OF_MEMORY, some R, W) ∧
          R.result_code = NMB_E_OUT_OF_MEMORY ∧ R.input_value_utf8 = none) ∧
      (∃ R W, Android.nmb_show_message_box w (some o) (some r)
          = .ok (R.result_code, some R, W) ∧
        R.result_code
          = (if h.result_code = NMB_OK then NMB_E_OUT_OF_MEMORY else h.result_code) ∧
        R.input_value_utf8 = none)) := by
  refine ⟨?_, ?_⟩
  · intro run hrun
    simp only [List.mem_cons, List.mem_singleton, List.not_mem_nil, or_false] at hrun
    rcases hrun with rfl | rfl | rfl
    · exact linux_harness_fields w o r h htest hmsg hsize habi hres hctx hmagic hhsize
    · exact windows_harness_fields w o r h htest hmsg hsize habi hres harr hctx hmagic hhsize
    · exact android_harness_fields w o r h htest hmsg hsize habi hres hctx hmagic hhsize
  · intro text a hin hal hb
    refine ⟨?_, ?_⟩
    · intro run hrun
      simp only [List.mem_cons, List.mem_singleton, List.not_mem_nil, or_false] at hrun
      rcases hrun with rfl | rfl
      · exact linux_harness_copy_failed w o r h htest hmsg hsize habi hres hctx hmagic hhsize
          text a hin hal hb
      · exact windows_harness_copy_failed w o r h htest hmsg hsize habi hres harr hctx hmagic
          hhsize text a hin hal hb
    · exact android_harness_copy_failed w o r h htest hmsg hsize habi hres hctx hmagic hhsize
        text a hin hal hb

/-- C1 (witness): three harnessed runs of the sample request. A harness that scripts
button 3, checkbox 1, timeout 1 and status 5 with no input text on Linux: the result has
those values. A harness that scripts status ok and an input text with an allocator that
returns null on Linux: the call returns and stores out-of-memory. The same with the
scripted status 5 on Android: no copy is attempted and the status is 5. -/
theorem harness_scripted_result_witness :
    (∃ R W,
      Linux.nmb_show_message_box World.sample
          (some (sampleOptions [sampleButton 3 "Yes" 1 0] none
            (some (sampleHarness 3 1 1 5 none))))
          (some sampleResult)
        = .ok (R.result_code, some R, W) ∧
      R.button = 3 ∧ R.checkbox_checked = 1 ∧ R.was_timeout = 1 ∧ R.result_code = 5) ∧
    (∃ R W,
      Linux.nmb_show_message_box World.sample
          (some (sampleOptions [sampleButton 1 "OK" 1 0] (some failingAllocator)
            (some (sampleHarness 1 0 0 NMB_OK (some (lit 0x9000 "typed"))))))
          (some sampleResult)
        = .ok (NMB_E_OUT_OF_MEMORY, some R, W) ∧
      R.result_code = NMB_E_OUT_OF_MEMORY ∧ R.input_value_utf8 = none) ∧
    (∃ R W,
      Android.nmb_show_message_box World.sample
          (some (sampleOptions [sampleButton 1 "OK" 1 0] (some failingAllocator)
            (some (sampleHarness 1 0 0 5 (some (lit 0x9000 "typed"))))))
          (some sampleResult)
        = .ok (R.result_code, some R, W) ∧
      R.result_code = 5 ∧ R.input_value_utf8 = none) := by
  refine ⟨?_, ?_, ?_⟩
  · obtain ⟨R, W, hrun, hb, hc, ht, _, hrc⟩ :=
      (harness_scripted_result World.sample
        (sampleOptions [sampleButton 3 "Yes" 1 0] none (some (sampleHarness 3 1 1 5 none)))
        sampleResult (sampleHarness 3 1 1 5 none)
        (by decide) (by decide) (by decide) (by decide) (by decide)
        (by intro bs hbs; cases hbs; decide) rfl (by decide) (by decide)).1
        _ (List.mem_cons_self _ _)
    exact ⟨R, W, hrun, hb, hc, ht, hrc (by intro text a htext; cases htext)⟩
  · exact ((harness_scripted_result World.sample
        (sampleOptions [sampleButton 1 "OK" 1 0] (some failingAllocator)
          (some (sampleHarness 1 0 0 NMB_OK (some (lit 0x9000 "typed")))))
        sampleResult (sampleHarness 1 0 0 NMB_OK (some (lit 0x9000 "typed")))
        (by decide) (by decide) (by decide) (by decide) (by decide)
        (by intro bs hbs; cases hbs; decide) rfl (by decide) (by decide)).2
        (lit 0x9000 "typed") failingAllocator rfl rfl (by decide)).1
        _ (List.mem_cons_self _ _)
  · exact ((harness_scripted_result World.sample
        (sampleOptions [sampleButton 1 "OK" 1 0] (some failingAllocator)
          (some (sampleHarness 1 0 0 5 (some (lit 0x9000 "typed")))))
        sampleResult (sampleHarness 1 0 0 5 (some (lit 0x9000 "typed")))
        (by decide) (by decide) (by decide) (by decide) (by decide)
        (by intro bs hbs; cases hbs; decide) rfl (by decide) (by decide)).2
        (lit 0x9000 "typed") failingAllocator rfl rfl (by decide)).2

/-- C1 fails as stated: a valid harness scripts status ok and an input text, the request
carries an allocator whose allocate function returns null; the call returns
out-of-memory and stores out-of-memory in `result_code`, not the scripted status. -/
theorem harness_status_overridden_by_copy_failure :
    (sampleHarness 1 0 0 NMB_OK (some (lit 0x9000 "typed"))).magic = NMB_TEST_HARNESS_MAGIC ∧
      (sampleHarness 1 0 0 NMB_OK (some (lit 0x9000 "typed"))).struct_size
        = World.sample.build.sizeof_NmbTestHarness ∧
      observable (Linux.nmb_show_message_box World.sample
          (some (sampleOptions [sampleButton 1 "OK" 1 0] (some failingAllocator)
            (some (sampleHarness 1 0 0 NMB_OK (some (lit 0x9000 "typed"))))))
          (some sampleResult))
        = some (NMB_E_OUT_OF_MEMORY,
            some { sampleResult with button := 1, result_code := NMB_E_OUT_OF_MEMORY }) ∧
      NMB_E_OUT_OF_MEMORY
        ≠ (sampleHarness 1 0 0 NMB_OK (some (lit 0x9000 "typed"))).result_code := by
  decide

/-- A rejected Linux call: invalid-argument, the result struct untouched, at most one log
line as the only effect. -/
theorem linux_invalid_rejected (w : World) (options : Option NmbMessageBoxOptions)
    (out_result : Option NmbMessageBoxResult)
    (hbad : options = none ∨ out_result = none ∨
      (∃ o, options = some o ∧ (o.message_utf8 = none
        ∨ o.struct_size < w.build.kMessageBoxOptionsMinSize
        ∨ o.abi_version ≠ NMB_ABI_VERSION)) ∨
      (∃ r, out_result = some r ∧ r.struct_size < w.build.kMessageBoxResultMinSize)) :
    ∃ m : Option String,
      (∀ ctx, Linux.nmb_show_message_box w
          (options.map (fun o => { o with user_context := ctx })) out_result
        = .ok (NMB_E_INVALID_ARGUMENT, out_result, nmb_runtime_log w m)) := by
  cases options with
  | none => exact ⟨none, fun _ => rfl⟩
  | some o =>
    cases out_result with
    | none => exact ⟨none, fun _ => rfl⟩
    | some r =>
      cases hm : o.message_utf8 with
      | none => exact ⟨none, fun _ => by simp [Linux.nmb_show_message_box, hm]; rfl⟩
      | some msg =>
        by_cases hs : o.struct_size < w.build.kMessageBoxOptionsMinSize
        · exact ⟨some "Linux: NmbMessageBoxOptions.struct_size is smaller than expected.",
            fun _ => by
              simp [Linux.nmb_show_message_box, hm, Linux.ValidateMessageBoxOptions, hs,
                Linux.LogInvalid, NMB_E_INVALID_ARGUMENT, NMB_OK]⟩
        · by_cases ha : o.abi_version = NMB_ABI_VERSION
          · have hr : r.struct_size < w.build.kMessageBoxResultMinSize := by
              rcases hbad with h | h | ⟨o', ho', h⟩ | ⟨r', hr', h⟩
              · cases h
              · cases h
              · cases ho'
                rcases h with h | h | h
                · rw [hm] at h; cases h
                · exact absurd h hs
                · exact absurd ha h
              · cases hr'; exact h
            exact ⟨some "Linux: NmbMessageBoxResult.struct_size is smaller than expected.",
              fun _ => by
                simp [Linux.nmb_show_message_box, hm, Linux.ValidateMessageBoxOptions, hs, ha,
                  Linux.ValidateMessageBoxResult, hr,
                  Linux.LogInvalid, NMB_E_INVALID_ARGUMENT, NMB_OK]⟩
          · exact ⟨some "Linux: NmbMessageBoxOptions.abi_version mismatch.",
              fun _ => by
                simp [Linux.nmb_show_message_box, hm, Linux.ValidateMessageBoxOptions, hs, ha,
                  Linux.LogInvalid, NMB_E_INVALID_ARGUMENT, NMB_OK]⟩

/-- A rejected Windows call: invalid-argument, the result struct untouched, at most one
log line as the only effect. -/
theorem windows_invalid_rejected (w : World) (options : Option NmbMessageBoxOptions)
    (out_result : Option NmbMessageBoxResult)
    (hbad : options = none ∨ out_result = none ∨
      (∃ o, options = some o ∧ (o.message_utf8 = none
        ∨ o.struct_size < w.build.kMessageBoxOptionsMinSize
        ∨ o.abi_version ≠ NMB_ABI_VERSION)) ∨
      (∃ r, out_result = some r ∧ r.struct_size < w.build.kMessageBoxResultMinSize)) :
    ∃ m : Option String,
      (∀ ctx, Windows.nmb_show_message_box w
          (options.map (fun o => { o with user_context := ctx })) out_result
        = .ok (NMB_E_INVALID_ARGUMENT, out_result, nmb_runtime_log w m)) := by
  cases options with
  | none => exact ⟨none, fun _ => rfl⟩
  | some o =>
    cases out_result with
    | none => exact ⟨none, fun _ => rfl⟩
    | some r =>
      cases hm : o.message_utf8 with
      | none => exact ⟨none, fun _ => by simp [Windows.nmb_show_message_box, hm]; rfl⟩
      | some msg =>
        by_cases hs : o.struct_size < w.build.kMessageBoxOptionsMinSize
        · exact ⟨some "Windows: NmbMessageBoxOptions.struct_size is smaller than expected.",
            fun _ => by
              simp [Windows.nmb_show_message_box, hm, Windows.ValidateMessageBoxOptions, hs,
                Windows.LogInvalid, NMB_E_INVALID_ARGUMENT, NMB_OK]⟩
        · by_cases ha : o.abi_version = NMB_ABI_VERSION
          · have hr : r.struct_size < w.build.kMessageBoxResultMinSize := by
              rcases hbad with h | h | ⟨o', ho', h⟩ | ⟨r', hr', h⟩
              · cases h
              · cases h
              · cases ho'
                rcases h with h | h | h
                · rw [hm] at h; cases h
                · exact absurd h hs
                · exact absurd ha h
              · cases hr'; exact h
            exact ⟨some "Windows: NmbMessageBoxResult.struct_size is smaller than expected.",
              fun _ => by
                simp [Windows.nmb_show_message_box, hm, Windows.ValidateMessageBoxOptions, hs,
                  ha, Windows.ValidateMessageBoxResult, hr,
                  Windows.LogInvalid, NMB_E_INVALID_ARGUMENT, NMB_OK]⟩
          · exact ⟨some "Windows: NmbMessageBoxOptions.abi_version mismatch.",
              fun _ => by
                simp [Windows.nmb_show_message_box, hm, Windows.ValidateMessageBoxOptions, hs,
                  ha, Windows.LogInvalid, NMB_E_INVALID_ARGUMENT, NMB_OK]⟩

/-- Logging adds at most a log call to the trace. -/
theorem runtime_log_trace (w : World) (m : Option String) :
    ∀ c ∈ (nmb_runtime_log w m).trace, c ∈ w.trace ∨ ∃ cb ud t, c = Call.log cb ud t := by
  intro c hc
  unfold nmb_runtime_log at hc
  cases m with
  | none => exact Or.inl hc
  | some t =>
    by_cases hcb : w.s_log_callback != 0
    · simp only [hcb, if_true, World.record, List.mem_append, List.mem_singleton] at hc
      rcases hc with hc | hc
      · exact Or.inl hc
      · exact Or.inr ⟨_, _, _, hc⟩
    · simp only [hcb] at hc
      exact Or.inl hc

/-- C2: on the Linux and the Windows backend, a call whose options pointer, message
pointer or result pointer is null, whose `options.struct_size` is below the minimum,
whose `abi_version` differs from `NMB_ABI_VERSION`, or whose `result.struct_size` is
below the minimum, returns `NMB_E_INVALID_ARGUMENT` and hands back the result struct
exactly as it was. The world afterwards is the world before plus at most one log line:
the trace gains no allocation, no GTK, zenity, task-dialog or message-box call. The
outcome is the same whatever `user_context` holds, so no harness is consulted. -/
theorem invalid_call_rejected (w : World) (options : Option NmbMessageBoxOptions)
    (out_result : Option NmbMessageBoxResult)
    (hbad : options = none ∨ out_result = none ∨
      (∃ o, options = some o ∧ (o.message_utf8 = none
        ∨ o.struct_size < w.build.kMessageBoxOptionsMinSize
        ∨ o.abi_version ≠ NMB_ABI_VERSION)) ∨
      (∃ r, out_result = some r ∧ r.struct_size < w.build.kMessageBoxResultMinSize)) :
    ∀ nmb_show ∈ [Linux.nmb_show_message_box, Windows.nmb_show_message_box],
      ∃ W, nmb_show w options out_result = .ok (NMB_E_INVALID_ARGUMENT, out_result, W) ∧
        (∃ m, W = nmb_runtime_log w m) ∧
        (∀ c ∈ W.trace, c ∈ w.trace ∨ ∃ cb ud t, c = Call.log cb ud t) ∧
        (∀ ctx, nmb_show w (options.map (fun o => { o with user_context := ctx })) out_result
          = nmb_show w options out_result) := by
  intro nmb_show hmem
  simp only [List.mem_cons, List.mem_singleton, List.not_mem_nil, or_false] at hmem
  rcases hmem with rfl | rfl
  · obtain ⟨m, hm⟩ := linux_invalid_rejected w options out_result hbad
    have h0 : Linux.nmb_show_message_box w options out_result
        = .ok (NMB_E_INVALID_ARGUMENT, out_result, nmb_runtime_log w m) := by
      cases options with
      | none => exact hm none
      | some o => exact hm o.user_context
    exact ⟨_, h0, ⟨m, rfl⟩, runtime_log_trace w m, fun ctx => by rw [hm ctx, h0]⟩
  · obtain ⟨m, hm⟩ := windows_invalid_rejected w options out_result hbad
    have h0 : Windows.nmb_show_message_box w options out_result
        = .ok (NMB_E_INVALID_ARGUMENT, out_result, nmb_runtime_log w m) := by
      cases options with
      | none => exact hm none
      | some o => exact hm o.user_context
    exact ⟨_, h0, ⟨m, rfl⟩, runtime_log_trace w m, fun ctx => by rw [hm ctx, h0]⟩

theorem invalid_call_rejected_witness :
    ∃ W, Linux.nmb_show_message_box World.sample none (some sampleResult)
        = .ok (NMB_E_INVALID_ARGUMENT, some sampleResult, W) ∧ W.trace = [] := by
  obtain ⟨W, hrun, ⟨m, hm⟩, htrace, _⟩ :=
    invalid_call_rejected World.sample none (some sampleResult) (Or.inl rfl)
      Linux.nmb_show_message_box (List.mem_cons_self _ _)
  refine ⟨W, hrun, ?_⟩
  cases htr : W.trace with
  | nil => rfl
  | cons c rest =>
    have hc := htrace c (by rw [htr]; exact List.mem_cons_self _ _)
    rcases hc with hc | ⟨cb, ud, t, hc⟩
    · exact absurd hc (List.not_mem_nil c)
    · subst hm
      cases m with
      | none => simp [nmb_runtime_log, World.sample] at htr
      | some t2 => simp [nmb_runtime_log, World.sample] at htr

/-! ## Theorems: the baseline reset -/

/-- Past validation the Windows entry point evaluates the button catalogue and continues
from the baseline result. -/
theorem windows_show_validated_any (w : World) (o : NmbMessageBoxOptions)
    (r : NmbMessageBoxResult)
    (hmsg : o.message_utf8.isSome = true)
    (hsize : w.build.kMessageBoxOptionsMinSize ≤ o.struct_size)
    (habi : o.abi_version = NMB_ABI_VERSION)
    (hres : w.build.kMessageBoxResultMinSize ≤ r.struct_size) :
    Windows.nmb_show_message_box w (some o) (some r)
      = match Windows.ButtonsSupportedByMessageBox (some o) with
        | .error e => .error e
        | .ok b => Windows.nmb_show_message_box.tiers w o b (baseline w.build) := by
  have hnone : o.message_utf8.isNone = false := by
    cases hm : o.message_utf8 with
    | none => simp [hm] at hmsg
    | some _ => rfl
  unfold Windows.nmb_show_message_box
  simp only [hnone, windows_validate_options_ok w o hsize habi,
    windows_validate_result_ok w r hres]
  rfl

/-- A zenity fallback that declines leaves the result struct as it was. -/
theorem linux_zenity_declined (w : World) (o : NmbMessageBoxOptions) (r : NmbMessageBoxResult)
    (hdecl : (Linux.RunZenityFallback w (some o) r).1 = false) :
    (Linux.RunZenityFallback w (some o) r).2.1 = r := by
  unfold Linux.RunZenityFallback at hdecl ⊢
  simp only [] at hdecl ⊢
  split_ifs at hdecl ⊢ <;> first | rfl | (split <;> rfl)

/-- C3: for a request that passes validation, every backend resets the result struct to
the baseline (size stamped, button none, checkbox false, input null, timeout false,
status ok) and only then runs the harness and the tiers, which never see what the struct
held before. Hence two calls that differ only in the initial contents of the result
struct (both of sufficient size) have the same outcome: status, result struct and world.
On Linux, when no harness applies, GTK is unavailable and the zenity fallback declines,
the result on return is exactly the baseline. -/
theorem result_reset_to_baseline (w : World) (o : NmbMessageBoxOptions)
    (r1 r2 : NmbMessageBoxResult)
    (hmsg : o.message_utf8.isSome = true)
    (hsize : w.build.kMessageBoxOptionsMinSize ≤ o.struct_size)
    (habi : o.abi_version = NMB_ABI_VERSION)
    (hres1 : w.build.kMessageBoxResultMinSize ≤ r1.struct_size)
    (hres2 : w.build.kMessageBoxResultMinSize ≤ r2.struct_size) :
    baseline w.build
        = { struct_size := w.build.sizeof_NmbMessageBoxResult, button := NMB_BUTTON_ID_NONE,
            checkbox_checked := NMB_FALSE, input_value_utf8 := none,
            was_timeout := NMB_FALSE, result_code := NMB_OK } ∧
      Linux.nmb_show_message_box w (some o) (some r1)
        = Linux.nmb_show_message_box.tiers w o (baseline w.build) ∧
      Windows.nmb_show_message_box w (some o) (some r1)
        = (match Windows.ButtonsSupportedByMessageBox (some o) with
          | .error e => .error e
          | .ok b => Windows.nmb_show_message_box.tiers w o b (baseline w.build)) ∧
      Android.nmb_show_message_box w (some o) (some r1)
        = Android.nmb_show_message_box.tiers w o (baseline w.build) ∧
      Linux.nmb_show_message_box w (some o) (some r1)
        = Linux.nmb_show_message_box w (some o) (some r2) ∧
      Windows.nmb_show_message_box w (some o) (some r1)
        = Windows.nmb_show_message_box w (some o) (some r2) ∧
      Android.nmb_show_message_box w (some o) (some r1)
        = Android.nmb_show_message_box w (some o) (some r2) ∧
      ((w.build.testing = false ∨ o.user_context = none) →
        (Linux.EnsureGtkInitialized w).1 = false →
        (Linux.RunZenityFallback
            (nmb_runtime_log (Linux.EnsureGtkInitialized w).2
              (some "Linux: GTK unavailable, attempting zenity fallback."))
            (some o) (baseline w.build)).1 = false →
        ∃ W, Linux.nmb_show_message_box w (some o) (some r1)
          = .ok (NMB_E_PLATFORM_FAILURE, some (baseline w.build), W)) := by
  have hl1 := linux_show_validated w o r1 hmsg hsize habi hres1
  have hl2 := linux_show_validated w o r2 hmsg hsize habi hres2
  have hw1 := windows_show_validated_any w o r1 hmsg hsize habi hres1
  have hw2 := windows_show_validated_any w o r2 hmsg hsize habi hres2
  have ha1 := android_show_validated w o r1 hmsg hsize habi hres1
  have ha2 := android_show_validated w o r2 hmsg hsize habi hres2
  refine ⟨rfl, hl1, hw1, ha1, hl1.trans hl2.symm, hw1.trans hw2.symm, ha1.trans ha2.symm, ?_⟩
  intro hno hgtk hzen
  have hkeep := linux_zenity_declined _ o (baseline w.build) hzen
  have happ : (if w.build.testing = true then
        Linux.ApplyTestHarness w (some o) (some (baseline w.build))
      else (false, some (baseline w.build), w)) = (false, some (baseline w.build), w) := by
    rcases hno with ht | hc
    · simp [ht]
    · by_cases ht : w.build.testing = true
      · simp [ht, Linux.ApplyTestHarness, hc]
      · simp [ht]
  rw [hl1]
  unfold Linux.nmb_show_message_box.tiers
  simp only [happ, Option.getD_some, hgtk, hzen, hkeep]
  exact ⟨_, rfl⟩

/-- C3 (witness): a result struct with stale contents (button 9, checkbox set, timeout set,
a dangling input pointer, status 7) in two runs. With the GTK dialog answered OK the outcome
is that of the run started from a clean struct, and none of the stale fields survives: the
result is the baseline with the OK button. With GTK unavailable and zenity not installed
the call returns platform failure and the result is exactly the baseline. -/
theorem result_reset_to_baseline_witness :
    (observable (Linux.nmb_show_message_box (World.gtkAnswers Linux.GTK_RESPONSE_OK)
        (some (sampleOptions [] none none))
        (some { sampleResult with
          button := 9, checkbox_checked := 1, was_timeout := 1, result_code := 7
          input_value_utf8 := some (lit 0x9000 "stale") }))
      = observable (Linux.nmb_show_message_box (World.gtkAnswers Linux.GTK_RESPONSE_OK)
        (some (sampleOptions [] none none)) (some sampleResult)) ∧
    observable (Linux.nmb_show_message_box (World.gtkAnswers Linux.GTK_RESPONSE_OK)
        (some (sampleOptions [] none none))
        (some { sampleResult with
          button := 9, checkbox_checked := 1, was_timeout := 1, result_code := 7
          input_value_utf8 := some (lit 0x9000 "stale") }))
      = some (NMB_OK, some { baseline Build.lp64 with button := NMB_BUTTON_ID_OK })) ∧
    (∃ W, Linux.nmb_show_message_box { World.sample with gtk_init_result := false }
        (some (sampleOptions [] none none))
        (some { sampleResult with
          button := 9, checkbox_checked := 1, was_timeout := 1, result_code := 7
          input_value_utf8 := some (lit 0x9000 "stale") })
      = .ok (NMB_E_PLATFORM_FAILURE, some (baseline Build.lp64), W)) :=
  ⟨⟨congrArg observable
      (result_reset_to_baseline (World.gtkAnswers Linux.GTK_RESPONSE_OK)
        (sampleOptions [] none none)
        { sampleResult with
          button := 9, checkbox_checked := 1, was_timeout := 1, result_code := 7
          input_value_utf8 := some (lit 0x9000 "stale") }
        sampleResult (by decide) (by decide) (by decide) (by decide) (by decide)).2.2.2.2.1,
      by decide⟩,
    (result_reset_to_baseline { World.sample with gtk_init_result := false }
      (sampleOptions [] none none)
      { sampleResult with
        button := 9, checkbox_checked := 1, was_timeout := 1, result_code := 7
        input_value_utf8 := some (lit 0x9000 "stale") }
      sampleResult (by decide) (by decide) (by decide) (by decide) (by decide)).2.2.2.2.2.2.2
      (Or.inr rfl) (by decide) (by decide)⟩

/-! ## Theorems: the harness round trip -/

/-- C4: for every valid harnessed request whose harness scripts no input text, on Linux,
Windows and Android, `nmb_show_message_box` returns the scripted status and leaves the
result struct at the baseline with `button`, `checkbox_checked`, `was_timeout` and
`result_code` replaced by the scripted values. The right-hand side mentions nothing of
the request, so the outcome is the same for every button list, timeout, timeout button,
suppress-checkbox flag and verification text; it holds for every scripted button id, the
eleven well-known ids included. (`harr` only excludes reading past the end of the button
array, which the Windows entry point does before it looks at the harness.) -/
theorem harness_round_trip (w : World) (o : NmbMessageBoxOptions)
    (r : NmbMessageBoxResult) (h : NmbTestHarness)
    (htest : w.build.testing = true)
    (hmsg : o.message_utf8.isSome = true)
    (hsize : w.build.kMessageBoxOptionsMinSize ≤ o.struct_size)
    (habi : o.abi_version = NMB_ABI_VERSION)
    (hres : w.build.kMessageBoxResultMinSize ≤ r.struct_size)
    (harr : ∀ bs, o.buttons = some bs → o.button_count ≤ bs.length)
    (hctx : o.user_context = some h)
    (hmagic : h.magic = NMB_TEST_HARNESS_MAGIC)
    (hhsize : h.struct_size = w.build.sizeof_NmbTestHarness)
    (hinput : h.input_value_utf8 = none) :
    ∀ run ∈ [Linux.nmb_show_message_box w (some o) (some r),
        Windows.nmb_show_message_box w (some o) (some r),
        Android.nmb_show_message_box w (some o) (some r)],
      ∃ W, run = .ok (h.result_code,
        some { struct_size := w.build.sizeof_NmbMessageBoxResult
               button := h.scripted_button
               checkbox_checked := h.checkbox_checked
               input_value_utf8 := none
               was_timeout := h.simulate_timeout
               result_code := h.result_code }, W) := by
  intro run hrun
  simp only [List.mem_cons, List.mem_singleton, List.not_mem_nil, or_false] at hrun
  rcases hrun with rfl | rfl | rfl
  · rw [linux_show_validated w o r hmsg hsize habi hres]
    have happ := linux_harness_applied w o (baseline w.build) h hctx hmagic hhsize
    rw [hinput] at happ
    exact ⟨_, linux_tiers_harnessed w _ o _ _ htest happ⟩
  · obtain ⟨b, hsup⟩ := windows_supported_ok o harr
    rw [windows_show_validated w o r b hmsg hsize habi hres hsup]
    have happ := windows_harness_applied w o (baseline w.build) h hctx hmagic hhsize
    rw [hinput] at happ
    exact ⟨_, windows_tiers_harnessed w _ o b _ _ htest happ⟩
  · rw [android_show_validated w o r hmsg hsize habi hres]
    have hhsize2 : h.struct_size
        = (Android.LogUnsupportedFeatures w (some o)).build.sizeof_NmbTestHarness := by
      rw [android_unsupported_build]; exact hhsize
    have happ := android_harness_applied (Android.LogUnsupportedFeatures w (some o)) o
      (baseline w.build) h hctx hmagic hhsize2
    rw [hinput] at happ
    exact ⟨_, android_tiers_harnessed w _ o _ _ htest happ⟩

theorem harness_round_trip_witness :
    ∃ W, Windows.nmb_show_message_box World.sample
        (some { sampleOptions [sampleButton 1 "OK" 1 0, sampleButton 2 "Cancel" 0 1] none
                  (some (sampleHarness NMB_BUTTON_ID_CANCEL 0 1 NMB_OK none)) with
                timeout_milliseconds := 250, timeout_button_id := NMB_BUTTON_ID_CANCEL })
        (some sampleResult)
      = .ok (NMB_OK,
          some { struct_size := 32, button := NMB_BUTTON_ID_CANCEL, checkbox_checked := 0,
                 input_value_utf8 := none, was_timeout := 1, result_code := NMB_OK }, W) :=
  harness_round_trip World.sample
    { sampleOptions [sampleButton 1 "OK" 1 0, sampleButton 2 "Cancel" 0 1] none
        (some (sampleHarness NMB_BUTTON_ID_CANCEL 0 1 NMB_OK none)) with
      timeout_milliseconds := 250, timeout_button_id := NMB_BUTTON_ID_CANCEL }
    sampleResult (sampleHarness NMB_BUTTON_ID_CANCEL 0 1 NMB_OK none)
    (by decide) (by decide) (by decide) (by decide) (by decide)
    (by intro bs hbs; cases hbs; decide) rfl (by decide) (by decide) rfl
    _ (List.mem_cons_of_mem _ (List.mem_cons_self _ _))

/-! ## Theorems: the Windows button catalogue -/

theorem tolower_eq_zero (a : Nat) : Windows.tolower a = 0 ↔ a = 0 := by
  unfold Windows.tolower
  by_cases h : 65 ≤ a ∧ a ≤ 90
  · rw [if_pos h]
    constructor
    · intro h1
      exact absurd h1 (Nat.succ_ne_zero _)
    · intro h1
      omega
  · rw [if_neg h]

theorem takeWhile_cons_zero (rest : List Nat) :
    (0 :: rest).takeWhile (fun b => b != 0) = [] := by
  simp [List.takeWhile]

theorem takeWhile_cons_ne (b : Nat) (rest : List Nat) (hb : b ≠ 0) :
    (b :: rest).takeWhile (fun b => b != 0) = b :: rest.takeWhile (fun b => b != 0) := by
  have h : (b != 0) = true := by simp [hb]
  simp [List.takeWhile, h]

/-- The loop of `EqualsIgnoreCase` compares the two texts byte by byte up to `tolower`. -/
theorem equals_loop_iff (l : List Nat) :
    ∀ r : List Nat, Windows.EqualsIgnoreCase.loop l r = true ↔
      (l.takeWhile (fun b => b != 0)).map Windows.tolower
        = (r.takeWhile (fun b => b != 0)).map Windows.tolower := by
  induction l with
  | nil =>
    intro r
    cases r with
    | nil => simp [Windows.EqualsIgnoreCase.loop]
    | cons b rest =>
      by_cases hb : b = 0
      · subst hb
        simp [Windows.EqualsIgnoreCase.loop, takeWhile_cons_zero]
      · simp [Windows.EqualsIgnoreCase.loop, hb, takeWhile_cons_ne b rest hb]
  | cons a l ih =>
    intro r
    cases r with
    | nil =>
      by_cases ha : a = 0
      · subst ha
        simp [Windows.EqualsIgnoreCase.loop, takeWhile_cons_zero]
      · simp [Windows.EqualsIgnoreCase.loop, ha, takeWhile_cons_ne a l ha]
    | cons b rest =>
      by_cases ha : a = 0
      · by_cases hb : b = 0
        · subst ha; subst hb
          simp [Windows.EqualsIgnoreCase.loop, takeWhile_cons_zero]
        · subst ha
          simp [Windows.EqualsIgnoreCase.loop, hb, takeWhile_cons_zero,
            takeWhile_cons_ne b rest hb]
      · by_cases hb : b = 0
        · subst hb
          simp [Windows.EqualsIgnoreCase.loop, ha, takeWhile_cons_zero,
            takeWhile_cons_ne a l ha]
        · by_cases hab : Windows.tolower a = Windows.tolower b
          · simp [Windows.EqualsIgnoreCase.loop, ha, hb, takeWhile_cons_ne a l ha,
              takeWhile_cons_ne b rest hb, hab, ih rest]
          · simp [Windows.EqualsIgnoreCase.loop, ha, hb, takeWhile_cons_ne a l ha,
              takeWhile_cons_ne b rest hb, hab]

/-- The function `EqualsIgnoreCase` on two non-null strings decides equality of the
texts up to ASCII case. -/
theorem equals_ignore_case_iff (l e : CString) :
    Windows.EqualsIgnoreCase (some l) (some e) = true ↔
      l.text.map Windows.tolower = e.text.map Windows.tolower := by
  unfold Windows.EqualsIgnoreCase CString.text
  by_cases heq : (some l : Option CString) = some e
  · have hle : l = e := Option.some.inj heq
    subst hle
    simp
  · simp only [heq, if_false]
    exact equals_loop_iff l.bytes e.bytes

/-- An id outside the seven catalogue ids hits the `default:` case of the switch. -/
theorem tally_none (x : Nat) (c : Windows.ButtonCounts)
    (hx : x ∉ [NMB_BUTTON_ID_OK, NMB_BUTTON_ID_CANCEL, NMB_BUTTON_ID_YES, NMB_BUTTON_ID_NO,
      NMB_BUTTON_ID_RETRY, NMB_BUTTON_ID_ABORT, NMB_BUTTON_ID_IGNORE]) :
    Windows.ButtonsSupportedByMessageBox.tally x c = none := by
  simp only [List.mem_cons, List.mem_singleton, List.not_mem_nil, or_false, not_or] at hx
  obtain ⟨h1, h2, h3, h4, h5, h6, h7⟩ := hx
  simp [Windows.ButtonsSupportedByMessageBox.tally, h1, h2, h3, h4, h5, h6, h7]

/-- Every id of a catalogue combination is one of the seven catalogue ids. -/
theorem catalogue_ids (x : Nat) (ids combo : List Nat)
    (hcombo : combo ∈ [[NMB_BUTTON_ID_OK], [NMB_BUTTON_ID_OK, NMB_BUTTON_ID_CANCEL],
      [NMB_BUTTON_ID_YES, NMB_BUTTON_ID_NO], [NMB_BUTTON_ID_RETRY, NMB_BUTTON_ID_CANCEL],
      [NMB_BUTTON_ID_YES, NMB_BUTTON_ID_NO, NMB_BUTTON_ID_CANCEL],
      [NMB_BUTTON_ID_ABORT, NMB_BUTTON_ID_RETRY, NMB_BUTTON_ID_IGNORE]])
    (hperm : ids.Perm combo) (hx : x ∈ ids) :
    x ∈ [NMB_BUTTON_ID_OK, NMB_BUTTON_ID_CANCEL, NMB_BUTTON_ID_YES, NMB_BUTTON_ID_NO,
      NMB_BUTTON_ID_RETRY, NMB_BUTTON_ID_ABORT, NMB_BUTTON_ID_IGNORE] := by
  have hxc : x ∈ combo := hperm.subset hx
  simp only [List.mem_cons, List.mem_singleton, List.not_mem_nil, or_false] at hcombo
  rcases hcombo with rfl | rfl | rfl | rfl | rfl | rfl <;>
    simp only [List.mem_cons, List.mem_singleton, List.not_mem_nil, or_false] at hxc ⊢ <;>
    tauto

set_option maxRecDepth 100000 in
theorem tally_one_fin : ∀ i : Fin 7,
    ((Windows.ButtonsSupportedByMessageBox.tally ([1, 2, 3, 4, 5, 8, 7].get i) {}).map
        (Windows.ButtonsSupportedByMessageBox.verdict 1) = some true) ↔
      ∃ combo ∈ [[1], [1, 2], [3, 4], [5, 2], [3, 4, 2], [8, 5, 7]],
        List.Perm [[1, 2, 3, 4, 5, 8, 7].get i] combo := by
  decide

set_option maxRecDepth 100000 in
theorem tally_two_fin : ∀ i j : Fin 7,
    ((Windows.ButtonsSupportedByMessageBox.tally ([1, 2, 3, 4, 5, 8, 7].get i) {}).bind
        (fun c1 => (Windows.ButtonsSupportedByMessageBox.tally ([1, 2, 3, 4, 5, 8, 7].get j) c1).map
          (Windows.ButtonsSupportedByMessageBox.verdict 2)) = some true) ↔
      ∃ combo ∈ [[1], [1, 2], [3, 4], [5, 2], [3, 4, 2], [8, 5, 7]],
        List.Perm [[1, 2, 3, 4, 5, 8, 7].get i, [1, 2, 3, 4, 5, 8, 7].get j] combo := by
  decide

set_option maxRecDepth 100000 in
theorem tally_three_fin : ∀ i j k : Fin 7,
    ((Windows.ButtonsSupportedByMessageBox.tally ([1, 2, 3, 4, 5, 8, 7].get i) {}).bind
        (fun c1 => (Windows.ButtonsSupportedByMessageBox.tally ([1, 2, 3, 4, 5, 8, 7].get j) c1).bind
          (fun c2 => (Windows.ButtonsSupportedByMessageBox.tally ([1, 2, 3, 4, 5, 8, 7].get k) c2).map
            (Windows.ButtonsSupportedByMessageBox.verdict 3))) = some true) ↔
      ∃ combo ∈ [[1], [1, 2], [3, 4], [5, 2], [3, 4, 2], [8, 5, 7]],
        List.Perm [[1, 2, 3, 4, 5, 8, 7].get i, [1, 2, 3, 4, 5, 8, 7].get j,
          [1, 2, 3, 4, 5, 8, 7].get k] combo := by
  decide

theorem mem_seven_get (x : Nat)
    (hx : x ∈ [NMB_BUTTON_ID_OK, NMB_BUTTON_ID_CANCEL, NMB_BUTTON_ID_YES, NMB_BUTTON_ID_NO,
      NMB_BUTTON_ID_RETRY, NMB_BUTTON_ID_ABORT, NMB_BUTTON_ID_IGNORE]) :
    ∃ i : Fin 7, x = [1, 2, 3, 4, 5, 8, 7].get i := by
  obtain ⟨i, hi⟩ := List.mem_iff_get.mp hx
  exact ⟨i, hi.symm⟩

/-- One button passes the switch and the verdict exactly when it is the OK button. -/
theorem tally_one (x : Nat) :
    ((Windows.ButtonsSupportedByMessageBox.tally x {}).map
        (Windows.ButtonsSupportedByMessageBox.verdict 1) = some true) ↔
      ∃ combo ∈ [[NMB_BUTTON_ID_OK], [NMB_BUTTON_ID_OK, NMB_BUTTON_ID_CANCEL],
          [NMB_BUTTON_ID_YES, NMB_BUTTON_ID_NO], [NMB_BUTTON_ID_RETRY, NMB_BUTTON_ID_CANCEL],
          [NMB_BUTTON_ID_YES, NMB_BUTTON_ID_NO, NMB_BUTTON_ID_CANCEL],
          [NMB_BUTTON_ID_ABORT, NMB_BUTTON_ID_RETRY, NMB_BUTTON_ID_IGNORE]],
        List.Perm [x] combo := by
  by_cases hx : x ∈ [NMB_BUTTON_ID_OK, NMB_BUTTON_ID_CANCEL, NMB_BUTTON_ID_YES,
      NMB_BUTTON_ID_NO, NMB_BUTTON_ID_RETRY, NMB_BUTTON_ID_ABORT, NMB_BUTTON_ID_IGNORE]
  · obtain ⟨i, rfl⟩ := mem_seven_get x hx
    exact tally_one_fin i
  · constructor
    · intro h
      rw [tally_none x _ hx] at h
      cases h
    · rintro ⟨combo, hcombo, hperm⟩
      exact absurd (catalogue_ids x _ combo hcombo hperm (List.mem_cons_self _ _)) hx

/-- Two buttons pass the switch and the verdict exactly when their ids form one of the
two-button combinations. -/
theorem tally_two (x y : Nat) :
    ((Windows.ButtonsSupportedByMessageBox.tally x {}).bind
        (fun c1 => (Windows.ButtonsSupportedByMessageBox.tally y c1).map
          (Windows.ButtonsSupportedByMessageBox.verdict 2)) = some true) ↔
      ∃ combo ∈ [[NMB_BUTTON_ID_OK], [NMB_BUTTON_ID_OK, NMB_BUTTON_ID_CANCEL],
          [NMB_BUTTON_ID_YES, NMB_BUTTON_ID_NO], [NMB_BUTTON_ID_RETRY, NMB_BUTTON_ID_CANCEL],
          [NMB_BUTTON_ID_YES, NMB_BUTTON_ID_NO, NMB_BUTTON_ID_CANCEL],
          [NMB_BUTTON_ID_ABORT, NMB_BUTTON_ID_RETRY, NMB_BUTTON_ID_IGNORE]],
        List.Perm [x, y] combo := by
  by_cases hx : x ∈ [NMB_BUTTON_ID_OK, NMB_BUTTON_ID_CANCEL, NMB_BUTTON_ID_YES,
      NMB_BUTTON_ID_NO, NMB_BUTTON_ID_RETRY, NMB_BUTTON_ID_ABORT, NMB_BUTTON_ID_IGNORE]
  · by_cases hy : y ∈ [NMB_BUTTON_ID_OK, NMB_BUTTON_ID_CANCEL, NMB_BUTTON_ID_YES,
        NMB_BUTTON_ID_NO, NMB_BUTTON_ID_RETRY, NMB_BUTTON_ID_ABORT, NMB_BUTTON_ID_IGNORE]
    · obtain ⟨i, rfl⟩ := mem_seven_get x hx
      obtain ⟨j, rfl⟩ := mem_seven_get y hy
      exact tally_two_fin i j
    · constructor
      · intro h
        simp [tally_none y _ hy] at h
      · rintro ⟨combo, hcombo, hperm⟩
        exact absurd (catalogue_ids y _ combo hcombo hperm (by simp)) hy
  · constructor
    · intro h
      simp [tally_none x _ hx] at h
    · rintro ⟨combo, hcombo, hperm⟩
      exact absurd (catalogue_ids x _ combo hcombo hperm (by simp)) hx

/-- Three buttons pass the switch and the verdict exactly when their ids form one of the
three-button combinations. -/
theorem tally_three (x y z : Nat) :
    ((Windows.ButtonsSupportedByMessageBox.tally x {}).bind
        (fun c1 => (Windows.ButtonsSupportedByMessageBox.tally y c1).bind
          (fun c2 => (Windows.ButtonsSupportedByMessageBox.tally z c2).map
            (Windows.ButtonsSupportedByMessageBox.verdict 3))) = some true) ↔
      ∃ combo ∈ [[NMB_BUTTON_ID_OK], [NMB_BUTTON_ID_OK, NMB_BUTTON_ID_CANCEL],
          [NMB_BUTTON_ID_YES, NMB_BUTTON_ID_NO], [NMB_BUTTON_ID_RETRY, NMB_BUTTON_ID_CANCEL],
          [NMB_BUTTON_ID_YES, NMB_BUTTON_ID_NO, NMB_BUTTON_ID_CANCEL],
          [NMB_BUTTON_ID_ABORT, NMB_BUTTON_ID_RETRY, NMB_BUTTON_ID_IGNORE]],
        List.Perm [x, y, z] combo := by
  by_cases hx : x ∈ [NMB_BUTTON_ID_OK, NMB_BUTTON_ID_CANCEL, NMB_BUTTON_ID_YES,
      NMB_BUTTON_ID_NO, NMB_BUTTON_ID_RETRY, NMB_BUTTON_ID_ABORT, NMB_BUTTON_ID_IGNORE]
  · by_cases hy : y ∈ [NMB_BUTTON_ID_OK, NMB_BUTTON_ID_CANCEL, NMB_BUTTON_ID_YES,
        NMB_BUTTON_ID_NO, NMB_BUTTON_ID_RETRY, NMB_BUTTON_ID_ABORT, NMB_BUTTON_ID_IGNORE]
    · by_cases hz : z ∈ [NMB_BUTTON_ID_OK, NMB_BUTTON_ID_CANCEL, NMB_BUTTON_ID_YES,
          NMB_BUTTON_ID_NO, NMB_BUTTON_ID_RETRY, NMB_BUTTON_ID_ABORT, NMB_BUTTON_ID_IGNORE]
      · obtain ⟨i, rfl⟩ := mem_seven_get x hx
        obtain ⟨j, rfl⟩ := mem_seven_get y hy
        obtain ⟨k, rfl⟩ := mem_seven_get z hz
        exact tally_three_fin i j k
      · constructor
        · intro h
          simp [tally_none z _ hz] at h
        · rintro ⟨combo, hcombo, hperm⟩
          exact absurd (catalogue_ids z _ combo hcombo hperm (by simp)) hz
    · constructor
      · intro h
        simp [tally_none y _ hy] at h
      · rintro ⟨combo, hcombo, hperm⟩
        exact absurd (catalogue_ids y _ combo hcombo hperm (by simp)) hy
  · constructor
    · intro h
      simp [tally_none x _ hx] at h
    · rintro ⟨combo, hcombo, hperm⟩
      exact absurd (catalogue_ids x _ combo hcombo hperm (by simp)) hx

/-- The seven catalogue ids have a canonical label. -/
theorem default_label_some (id : Nat)
    (hid : id ∈ [NMB_BUTTON_ID_OK, NMB_BUTTON_ID_CANCEL, NMB_BUTTON_ID_YES, NMB_BUTTON_ID_NO,
      NMB_BUTTON_ID_RETRY, NMB_BUTTON_ID_ABORT, NMB_BUTTON_ID_IGNORE]) :
    ∃ e, Windows.DefaultLabelForButton id = some e := by
  simp only [List.mem_cons, List.mem_singleton, List.not_mem_nil, or_false] at hid
  rcases hid with rfl | rfl | rfl | rfl | rfl | rfl | rfl <;> exact ⟨_, rfl⟩

/-- The function `MatchesDefaultLabel` holds when the id has a canonical label and the
label is null or equals it up to ASCII case. -/
theorem matches_default_label_iff (id : Nat) (label : Option CString) :
    Windows.MatchesDefaultLabel id label = true ↔
      ∃ e, Windows.DefaultLabelForButton id = some e ∧
        (label = none ∨ ∃ l, label = some l ∧
          l.text.map Windows.tolower = e.text.map Windows.tolower) := by
  unfold Windows.MatchesDefaultLabel
  cases label with
  | none =>
    cases hd : Windows.DefaultLabelForButton id with
    | none => simp
    | some e => simp
  | some l =>
    cases hd : Windows.DefaultLabelForButton id with
    | none => simp
    | some e => simp [equals_ignore_case_iff]

/-- The body of the loop is the switch, guarded by the three per-button checks. -/
theorem supported_step_eq (b : NmbButtonOption) (c : Windows.ButtonCounts) :
    Windows.ButtonsSupportedByMessageBox.step b c
      = if b.description_utf8 = none ∧ b.kind = NMB_BUTTON_KIND_DEFAULT
          ∧ Windows.MatchesDefaultLabel b.id b.label_utf8 = true then
        Windows.ButtonsSupportedByMessageBox.tally b.id c
      else none := by
  unfold Windows.ButtonsSupportedByMessageBox.step
  cases hd : b.description_utf8 with
  | some d => simp
  | none =>
    by_cases hk : b.kind = NMB_BUTTON_KIND_DEFAULT
    · cases ht : Windows.ButtonsSupportedByMessageBox.tally b.id c with
      | none => simp [hk]
      | some c1 =>
        by_cases hm : Windows.MatchesDefaultLabel b.id b.label_utf8 = true
        · simp [hk, hm]
        · simp [hk, hm]
    · simp [hk]

/-- The three checks of the loop body give the per-button condition of the catalogue. -/
theorem supported_checks_imp (b : NmbButtonOption)
    (h : b.description_utf8 = none ∧ b.kind = NMB_BUTTON_KIND_DEFAULT
      ∧ Windows.MatchesDefaultLabel b.id b.label_utf8 = true) :
    b.description_utf8 = none ∧ b.kind = NMB_BUTTON_KIND_DEFAULT ∧
      (b.label_utf8 = none ∨ ∃ l e, b.label_utf8 = some l ∧
        Windows.DefaultLabelForButton b.id = some e ∧
        l.text.map Windows.tolower = e.text.map Windows.tolower) := by
  obtain ⟨hd, hk, hm⟩ := h
  obtain ⟨e, he, hl⟩ := (matches_default_label_iff _ _).mp hm
  refine ⟨hd, hk, ?_⟩
  rcases hl with hl | ⟨l, hl, ht⟩
  · exact Or.inl hl
  · exact Or.inr ⟨l, e, hl, he, ht⟩

/-- For a catalogue id the per-button condition gives the three checks of the loop
body. -/
theorem supported_checks_of (b : NmbButtonOption)
    (hid : b.id ∈ [NMB_BUTTON_ID_OK, NMB_BUTTON_ID_CANCEL, NMB_BUTTON_ID_YES,
      NMB_BUTTON_ID_NO, NMB_BUTTON_ID_RETRY, NMB_BUTTON_ID_ABORT, NMB_BUTTON_ID_IGNORE])
    (h : b.description_utf8 = none ∧ b.kind = NMB_BUTTON_KIND_DEFAULT ∧
      (b.label_utf8 = none ∨ ∃ l e, b.label_utf8 = some l ∧
        Windows.DefaultLabelForButton b.id = some e ∧
        l.text.map Windows.tolower = e.text.map Windows.tolower)) :
    b.description_utf8 = none ∧ b.kind = NMB_BUTTON_KIND_DEFAULT
      ∧ Windows.MatchesDefaultLabel b.id b.label_utf8 = true := by
  obtain ⟨hd, hk, hl⟩ := h
  refine ⟨hd, hk, (matches_default_label_iff _ _).mpr ?_⟩
  rcases hl with hl | ⟨l, e, hl, he, ht⟩
  · obtain ⟨e, he⟩ := default_label_some b.id hid
    exact ⟨e, he, Or.inl hl⟩
  · exact ⟨e, he, Or.inr ⟨l, hl, ht⟩⟩

/-- The catalogue check on one button. -/
theorem supported_one (o : NmbMessageBoxOptions) (a : NmbButtonOption)
    (hb : o.buttons = some [a]) (hc : o.button_count = 1) :
    Windows.ButtonsSupportedByMessageBox (some o)
      = .ok (decide (((Windows.ButtonsSupportedByMessageBox.step a {}).map
          (Windows.ButtonsSupportedByMessageBox.verdict 1)) = some true)) := by
  unfold Windows.ButtonsSupportedByMessageBox
  simp only [hb, hc, Windows.ButtonsSupportedByMessageBox.loop]
  cases h1 : Windows.ButtonsSupportedByMessageBox.step a {} with
  | none => simp [h1]
  | some c1 => simp [h1]

/-- The catalogue check on two buttons. -/
theorem supported_two (o : NmbMessageBoxOptions) (a b : NmbButtonOption)
    (hb : o.buttons = some [a, b]) (hc : o.button_count = 2) :
    Windows.ButtonsSupportedByMessageBox (some o)
      = .ok (decide (((Windows.ButtonsSupportedByMessageBox.step a {}).bind
          (fun c1 => (Windows.ButtonsSupportedByMessageBox.step b c1).map
            (Windows.ButtonsSupportedByMessageBox.verdict 2))) = some true)) := by
  unfold Windows.ButtonsSupportedByMessageBox
  simp only [hb, hc, Windows.ButtonsSupportedByMessageBox.loop]
  cases h1 : Windows.ButtonsSupportedByMessageBox.step a {} with
  | none => simp [h1]
  | some c1 =>
    cases h2 : Windows.ButtonsSupportedByMessageBox.step b c1 with
    | none => simp [h1, h2]
    | some c2 => simp [h1, h2]

/-- The catalogue check on three buttons. -/
theorem supported_three (o : NmbMessageBoxOptions) (a b c : NmbButtonOption)
    (hb : o.buttons = some [a, b, c]) (hc : o.button_count = 3) :
    Windows.ButtonsSupportedByMessageBox (some o)
      = .ok (decide (((Windows.ButtonsSupportedByMessageBox.step a {}).bind
          (fun c1 => (Windows.ButtonsSupportedByMessageBox.step b c1).bind
            (fun c2 => (Windows.ButtonsSupportedByMessageBox.step c c2).map
              (Windows.ButtonsSupportedByMessageBox.verdict 3)))) = some true)) := by
  unfold Windows.ButtonsSupportedByMessageBox
  simp only [hb, hc, Windows.ButtonsSupportedByMessageBox.loop]
  cases h1 : Windows.ButtonsSupportedByMessageBox.step a {} with
  | none => simp [h1]
  | some c1 =>
    cases h2 : Windows.ButtonsSupportedByMessageBox.step b c1 with
    | none => simp [h1, h2]
    | some c2 =>
      cases h3 : Windows.ButtonsSupportedByMessageBox.step c c2 with
      | none => simp [h1, h2, h3]
      | some c3 => simp [h1, h2, h3]

theorem steps_one (a : NmbButtonOption) :
    (((Windows.ButtonsSupportedByMessageBox.step a {}).map
        (Windows.ButtonsSupportedByMessageBox.verdict 1)) = some true) ↔
      (∀ x ∈ [a], x.description_utf8 = none ∧ x.kind = NMB_BUTTON_KIND_DEFAULT ∧
        (x.label_utf8 = none ∨ ∃ l e, x.label_utf8 = some l ∧
          Windows.DefaultLabelForButton x.id = some e ∧
          l.text.map Windows.tolower = e.text.map Windows.tolower)) ∧
      ∃ combo ∈ [[NMB_BUTTON_ID_OK], [NMB_BUTTON_ID_OK, NMB_BUTTON_ID_CANCEL],
          [NMB_BUTTON_ID_YES, NMB_BUTTON_ID_NO], [NMB_BUTTON_ID_RETRY, NMB_BUTTON_ID_CANCEL],
          [NMB_BUTTON_ID_YES, NMB_BUTTON_ID_NO, NMB_BUTTON_ID_CANCEL],
          [NMB_BUTTON_ID_ABORT, NMB_BUTTON_ID_RETRY, NMB_BUTTON_ID_IGNORE]],
        List.Perm ([a].map (fun x => x.id)) combo := by
  simp only [supported_step_eq, List.map, List.forall_mem_cons, List.not_mem_nil,
    IsEmpty.forall_iff, implies_true, and_true]
  by_cases ga : a.description_utf8 = none ∧ a.kind = NMB_BUTTON_KIND_DEFAULT
      ∧ Windows.MatchesDefaultLabel a.id a.label_utf8 = true
  · rw [if_pos ga, tally_one]
    exact ⟨fun h => ⟨supported_checks_imp a ga, h⟩, fun h => h.2⟩
  · rw [if_neg ga]
    constructor
    · intro h; cases h
    · rintro ⟨ca, combo, hcombo, hperm⟩
      exact absurd (supported_checks_of a
        (catalogue_ids a.id _ combo hcombo hperm (by simp)) ca) ga

theorem steps_two (a b : NmbButtonOption) :
    (((Windows.ButtonsSupportedByMessageBox.step a {}).bind
        (fun c1 => (Windows.ButtonsSupportedByMessageBox.step b c1).map
          (Windows.ButtonsSupportedByMessageBox.verdict 2))) = some true) ↔
      (∀ x ∈ [a, b], x.description_utf8 = none ∧ x.kind = NMB_BUTTON_KIND_DEFAULT ∧
        (x.label_utf8 = none ∨ ∃ l e, x.label_utf8 = some l ∧
          Windows.DefaultLabelForButton x.id = some e ∧
          l.text.map Windows.tolower = e.text.map Windows.tolower)) ∧
      ∃ combo ∈ [[NMB_BUTTON_ID_OK], [NMB_BUTTON_ID_OK, NMB_BUTTON_ID_CANCEL],
          [NMB_BUTTON_ID_YES, NMB_BUTTON_ID_NO], [NMB_BUTTON_ID_RETRY, NMB_BUTTON_ID_CANCEL],
          [NMB_BUTTON_ID_YES, NMB_BUTTON_ID_NO, NMB_BUTTON_ID_CANCEL],
          [NMB_BUTTON_ID_ABORT, NMB_BUTTON_ID_RETRY, NMB_BUTTON_ID_IGNORE]],
        List.Perm ([a, b].map (fun x => x.id)) combo := by
  simp only [supported_step_eq, List.map, List.forall_mem_cons, List.not_mem_nil,
    IsEmpty.forall_iff, implies_true, and_true]
  by_cases ga : a.description_utf8 = none ∧ a.kind = NMB_BUTTON_KIND_DEFAULT
      ∧ Windows.MatchesDefaultLabel a.id a.label_utf8 = true
  · by_cases gb : b.description_utf8 = none ∧ b.kind = NMB_BUTTON_KIND_DEFAULT
        ∧ Windows.MatchesDefaultLabel b.id b.label_utf8 = true
    · simp only [if_pos ga, if_pos gb]
      rw [tally_two]
      exact ⟨fun h => ⟨⟨supported_checks_imp a ga, supported_checks_imp b gb⟩, h⟩,
        fun h => h.2⟩
    · simp only [if_pos ga, if_neg gb]
      constructor
      · intro h; simp at h
      · rintro ⟨⟨_, cb⟩, combo, hcombo, hperm⟩
        exact absurd (supported_checks_of b
          (catalogue_ids b.id _ combo hcombo hperm (by simp)) cb) gb
  · simp only [if_neg ga]
    constructor
    · intro h; simp at h
    · rintro ⟨⟨ca, _⟩, combo, hcombo, hperm⟩
      exact absurd (supported_checks_of a
        (catalogue_ids a.id _ combo hcombo hperm (by simp)) ca) ga

theorem steps_three (a b c : NmbButtonOption) :
    (((Windows.ButtonsSupportedByMessageBox.step a {}).bind
        (fun c1 => (Windows.ButtonsSupportedByMessageBox.step b c1).bind
          (fun c2 => (Windows.ButtonsSupportedByMessageBox.step c c2).map
            (Windows.ButtonsSupportedByMessageBox.verdict 3)))) = some true) ↔
      (∀ x ∈ [a, b, c], x.description_utf8 = none ∧ x.kind = NMB_BUTTON_KIND_DEFAULT ∧
        (x.label_utf8 = none ∨ ∃ l e, x.label_utf8 = some l ∧
          Windows.DefaultLabelForButton x.id = some e ∧
          l.text.map Windows.tolower = e.text.map Windows.tolower)) ∧
      ∃ combo ∈ [[NMB_BUTTON_ID_OK], [NMB_BUTTON_ID_OK, NMB_BUTTON_ID_CANCEL],
          [NMB_BUTTON_ID_YES, NMB_BUTTON_ID_NO], [NMB_BUTTON_ID_RETRY, NMB_BUTTON_ID_CANCEL],
          [NMB_BUTTON_ID_YES, NMB_BUTTON_ID_NO, NMB_BUTTON_ID_CANCEL],
          [NMB_BUTTON_ID_ABORT, NMB_BUTTON_ID_RETRY, NMB_BUTTON_ID_IGNORE]],
        List.Perm ([a, b, c].map (fun x => x.id)) combo := by
  simp only [supported_step_eq, List.map, List.forall_mem_cons, List.not_mem_nil,
    IsEmpty.forall_iff, implies_true, and_true]
  by_cases ga : a.description_utf8 = none ∧ a.kind = NMB_BUTTON_KIND_DEFAULT
      ∧ Windows.MatchesDefaultLabel a.id a.label_utf8 = true
  · by_cases gb : b.description_utf8 = none ∧ b.kind = NMB_BUTTON_KIND_DEFAULT
        ∧ Windows.MatchesDefaultLabel b.id b.label_utf8 = true
    · by_cases gc : c.description_utf8 = none ∧ c.kind = NMB_BUTTON_KIND_DEFAULT
          ∧ Windows.MatchesDefaultLabel c.id c.label_utf8 = true
      · simp only [if_pos ga, if_pos gb, if_pos gc]
        rw [tally_three]
        exact ⟨fun h => ⟨⟨supported_checks_imp a ga, supported_checks_imp b gb,
          supported_checks_imp c gc⟩, h⟩, fun h => h.2⟩
      · simp only [if_pos ga, if_pos gb, if_neg gc]
        constructor
        · intro h; simp at h
        · rintro ⟨⟨_, _, cc⟩, combo, hcombo, hperm⟩
          exact absurd (supported_checks_of c
            (catalogue_ids c.id _ combo hcombo hperm (by simp)) cc) gc
    · simp only [if_pos ga, if_neg gb]
      constructor
      · intro h; simp at h
      · rintro ⟨⟨_, cb, _⟩, combo, hcombo, hperm⟩
        exact absurd (supported_checks_of b
          (catalogue_ids b.id _ combo hcombo hperm (by simp)) cb) gb
  · simp only [if_neg ga]
    constructor
    · intro h; simp at h
    · rintro ⟨⟨ca, _, _⟩, combo, hcombo, hperm⟩
      exact absurd (supported_checks_of a
        (catalogue_ids a.id _ combo hcombo hperm (by simp)) ca) ga

/-- C10: `ButtonsSupportedByMessageBox` returns true for a null request, a null button
array or a zero button count. For a non-null, non-empty button array of `button_count`
elements it returns, and it returns true if and only if there are at most 3 buttons,
every button has a null description and kind default, every button's label is null or
equals the canonical label of its id up to ASCII case, and the ids are, in some order,
one of OK; OK, Cancel; Yes, No; Retry, Cancel; Yes, No, Cancel; Abort, Retry, Ignore. -/
theorem buttons_supported_iff_catalogue (o : NmbMessageBoxOptions) :
    Windows.ButtonsSupportedByMessageBox none = .ok true ∧
      ((o.buttons = none ∨ o.button_count = 0) →
        Windows.ButtonsSupportedByMessageBox (some o) = .ok true) ∧
      (∀ bs, o.buttons = some bs → bs ≠ [] → o.button_count = bs.length →
        ∃ supported : Bool, Windows.ButtonsSupportedByMessageBox (some o) = .ok supported ∧
          (supported = true ↔
            bs.length ≤ 3 ∧
            (∀ x ∈ bs, x.description_utf8 = none ∧ x.kind = NMB_BUTTON_KIND_DEFAULT ∧
              (x.label_utf8 = none ∨ ∃ l e, x.label_utf8 = some l ∧
                Windows.DefaultLabelForButton x.id = some e ∧
                l.text.map Windows.tolower = e.text.map Windows.tolower)) ∧
            ∃ combo ∈ [[NMB_BUTTON_ID_OK], [NMB_BUTTON_ID_OK, NMB_BUTTON_ID_CANCEL],
                [NMB_BUTTON_ID_YES, NMB_BUTTON_ID_NO],
                [NMB_BUTTON_ID_RETRY, NMB_BUTTON_ID_CANCEL],
                [NMB_BUTTON_ID_YES, NMB_BUTTON_ID_NO, NMB_BUTTON_ID_CANCEL],
                [NMB_BUTTON_ID_ABORT, NMB_BUTTON_ID_RETRY, NMB_BUTTON_ID_IGNORE]],
              List.Perm (bs.map (fun x => x.id)) combo)) := by
  refine ⟨rfl, ?_, ?_⟩
  · intro h
    unfold Windows.ButtonsSupportedByMessageBox
    rcases h with h | h
    · simp only [h]
    · cases hb : o.buttons with
      | none => simp only [hb]
      | some bs => simp only [hb, h, if_true]
  · intro bs hb hne hcount
    match bs, hne with
    | [a], _ =>
      refine ⟨_, supported_one o a hb hcount, ?_⟩
      rw [decide_eq_true_eq, steps_one]
      simp
    | [a, b], _ =>
      refine ⟨_, supported_two o a b hb hcount, ?_⟩
      rw [decide_eq_true_eq, steps_two]
      simp
    | [a, b, c], _ =>
      refine ⟨_, supported_three o a b c hb hcount, ?_⟩
      rw [decide_eq_true_eq, steps_three]
      simp
    | a :: b :: c :: d :: rest, _ =>
      have h3 : o.button_count > 3 := by rw [hcount]; simp
      have h0 : o.button_count ≠ 0 := by omega
      refine ⟨false, ?_, ?_⟩
      · unfold Windows.ButtonsSupportedByMessageBox
        simp only [hb, h0, h3, if_false, if_true]
      · constructor
        · intro h; cases h
        · rintro ⟨hlen, _⟩
          simp at hlen

/-! ## Theorems: ownership of the scripted input text -/

theorem android_log_trace (w : World) (m : Option String) :
    ∀ c ∈ (Android.AndroidLog w m).trace,
      c ∈ w.trace ∨ (∃ t, c = Call.android_log t) ∨ ∃ cb ud t, c = Call.log cb ud t := by
  intro c hc
  unfold Android.AndroidLog at hc
  rcases runtime_log_trace _ m c hc with h | h
  · cases m with
    | none => exact Or.inl h
    | some t =>
      simp only [World.record, List.mem_append, List.mem_singleton] at h
      rcases h with h | h
      · exact Or.inl h
      · exact Or.inr (Or.inl ⟨t, h⟩)
  · exact Or.inr (Or.inr h)

/-- The degradation report of the Android backend only logs. -/
theorem android_unsupported_trace (w : World) (o : NmbMessageBoxOptions) :
    ∀ c ∈ (Android.LogUnsupportedFeatures w (some o)).trace,
      c ∈ w.trace ∨ (∃ t, c = Call.android_log t) ∨ ∃ cb ud t, c = Call.log cb ud t :=
  android_unsupported_induct
    (fun w1 => ∀ c ∈ w1.trace,
      c ∈ w.trace ∨ (∃ t, c = Call.android_log t) ∨ ∃ cb ud t, c = Call.log cb ud t)
    w o (fun c hc => Or.inl hc)
    (fun w1 m h1 c hc => by
      rcases android_log_trace w1 m c hc with h | h
      · exact h1 c h
      · exact Or.inr h)

/-- Where the scripted input text of a harness ends up. For every valid harness with
non-null scripted input text and
status ok, on Linux, Windows and Android: when the request has an allocator, the input
text in the result is the copy `nmb_copy_string_to_allocator` makes through that
allocator (the buffer `nmb_allocate` returned, filled with the first `strlen + 1` bytes
of the text), or null with status out-of-memory when that allocation returns null; when
the request has no allocator, the result holds the harness's own `input_value_utf8`
pointer and nothing is allocated. (`harr` only excludes reading past the end of the
button array, which the Windows entry point does before it looks at the harness.) -/
theorem harness_input_ownership (w : World) (o : NmbMessageBoxOptions)
    (r : NmbMessageBoxResult) (h : NmbTestHarness) (text : CString)
    (htest : w.build.testing = true)
    (hmsg : o.message_utf8.isSome = true)
    (hsize : w.build.kMessageBoxOptionsMinSize ≤ o.struct_size)
    (habi : o.abi_version = NMB_ABI_VERSION)
    (hres : w.build.kMessageBoxResultMinSize ≤ r.struct_size)
    (harr : ∀ bs, o.buttons = some bs → o.button_count ≤ bs.length)
    (hctx : o.user_context = some h)
    (hmagic : h.magic = NMB_TEST_HARNESS_MAGIC)
    (hhsize : h.struct_size = w.build.sizeof_NmbTestHarness)
    (htext : h.input_value_utf8 = some text)
    (hok : h.result_code = NMB_OK) :
    ∀ run ∈ [Linux.nmb_show_message_box w (some o) (some r),
        Windows.nmb_show_message_box w (some o) (some r),
        Android.nmb_show_message_box w (some o) (some r)],
      ∃ R W, run = .ok (R.result_code, some R, W) ∧
        (o.allocator = none →
          R.input_value_utf8 = h.input_value_utf8 ∧ R.result_code = NMB_OK ∧
          ∀ c ∈ W.trace,
            c ∈ w.trace ∨ (∃ t, c = Call.android_log t) ∨ ∃ cb ud t, c = Call.log cb ud t) ∧
        (∀ a, o.allocator = some a →
          ((nmb_allocate w (some a) (strlen text + 1) 1).1 ≠ 0 →
            R.input_value_utf8
              = some (memcpy (nmb_allocate w (some a) (strlen text + 1) 1).1 text
                  (strlen text + 1)) ∧
            R.result_code = NMB_OK) ∧
          ((nmb_allocate w (some a) (strlen text + 1) 1).1 = 0 →
            R.input_value_utf8 = none ∧ R.result_code = NMB_E_OUT_OF_MEMORY)) := by
  intro run hrun
  simp only [List.mem_cons, List.mem_singleton, List.not_mem_nil, or_false] at hrun
  rcases hrun with rfl | rfl | rfl
  · rw [linux_show_validated w o r hmsg hsize habi hres]
    have happ := linux_harness_applied w o (baseline w.build) h hctx hmagic hhsize
    rw [htext] at happ
    cases hal : o.allocator with
    | none =>
      rw [hal] at happ
      refine ⟨_, _, linux_tiers_harnessed w _ o _ _ htest happ, ?_, ?_⟩
      · intro _
        exact ⟨htext.symm, hok, fun c hc => Or.inl hc⟩
      · intro a ha; cases ha
    | some a =>
      rw [hal] at happ
      by_cases hb : (nmb_allocate w (some a) (strlen text + 1) 1).1 = 0
      · simp only [hb, if_true] at happ
        refine ⟨_, _, linux_tiers_harnessed w _ o _ _ htest happ, ?_, ?_⟩
        · intro hn; cases hn
        · intro a' ha'
          cases ha'
          exact ⟨fun hne => absurd hb hne, fun _ => ⟨rfl, rfl⟩⟩
      · simp only [hb, if_false] at happ
        refine ⟨_, _, linux_tiers_harnessed w _ o _ _ htest happ, ?_, ?_⟩
        · intro hn; cases hn
        · intro a' ha'
          cases ha'
          exact ⟨fun _ => ⟨rfl, hok⟩, fun h0 => absurd h0 hb⟩
  · obtain ⟨b, hsup⟩ := windows_supported_ok o harr
    rw [windows_show_validated w o r b hmsg hsize habi hres hsup]
    have happ := windows_harness_applied w o (baseline w.build) h hctx hmagic hhsize
    rw [htext] at happ
    cases hal : o.allocator with
    | none =>
      rw [hal] at happ
      refine ⟨_, _, windows_tiers_harnessed w _ o b _ _ htest happ, ?_, ?_⟩
      · intro _
        exact ⟨htext.symm, hok, fun c hc => Or.inl hc⟩
      · intro a ha; cases ha
    | some a =>
      rw [hal] at happ
      by_cases hb : (nmb_allocate w (some a) (strlen text + 1) 1).1 = 0
      · simp only [hb, if_true] at happ
        refine ⟨_, _, windows_tiers_harnessed w _ o b _ _ htest happ, ?_, ?_⟩
        · intro hn; cases hn
        · intro a' ha'
          cases ha'
          exact ⟨fun hne => absurd hb hne, fun _ => ⟨rfl, rfl⟩⟩
      · simp only [hb, if_false] at happ
        refine ⟨_, _, windows_tiers_harnessed w _ o b _ _ htest happ, ?_, ?_⟩
        · intro hn; cases hn
        · intro a' ha'
          cases ha'
          exact ⟨fun _ => ⟨rfl, hok⟩, fun h0 => absurd h0 hb⟩
  · rw [android_show_validated w o r hmsg hsize habi hres]
    have hhsize2 : h.struct_size
        = (Android.LogUnsupportedFeatures w (some o)).build.sizeof_NmbTestHarness := by
      rw [android_unsupported_build]; exact hhsize
    have happ := android_harness_applied (Android.LogUnsupportedFeatures w (some o)) o
      (baseline w.build) h hctx hmagic hhsize2
    have halloc : ∀ (a : NmbAllocator) (n : Nat),
        (nmb_allocate (Android.LogUnsupportedFeatures w (some o)) (some a) n 1).1
          = (nmb_allocate w (some a) n 1).1 :=
      fun a n => nmb_allocate_fst_congr _ _ _ _ _ (android_unsupported_malloc w o)
    rw [htext] at happ
    cases hal : o.allocator with
    | none =>
      rw [hal] at happ
      simp only [hok, if_true] at happ
      refine ⟨_, _, android_tiers_harnessed w _ o _ _ htest happ, ?_, ?_⟩
      · intro _
        exact ⟨htext.symm, rfl, android_unsupported_trace w o⟩
      · intro a ha; cases ha
    | some a =>
      rw [hal] at happ
      by_cases hb : (nmb_allocate w (some a) (strlen text + 1) 1).1 = 0
      · simp only [hok, halloc, hb, if_true] at happ
        refine ⟨_, _, android_tiers_harnessed w _ o _ _ htest happ, ?_, ?_⟩
        · intro hn; cases hn
        · intro a' ha'
          cases ha'
          exact ⟨fun hne => absurd hb hne, fun _ => ⟨rfl, rfl⟩⟩
      · simp only [hok, halloc, hb, if_true, if_false] at happ
        refine ⟨_, _, android_tiers_harnessed w _ o _ _ htest happ, ?_, ?_⟩
        · intro hn; cases hn
        · intro a' ha'
          cases ha'
          exact ⟨fun _ => ⟨rfl, rfl⟩, fun h0 => absurd h0 hb⟩

theorem harness_input_ownership_witness :
    ∃ R W,
      Linux.nmb_show_message_box World.sample
          (some (sampleOptions [sampleButton 1 "OK" 1 0] (some bumpAllocator)
            (some (sampleHarness 1 0 0 NMB_OK (some (lit 0x9000 "typed"))))))
          (some sampleResult)
        = .ok (R.result_code, some R, W) ∧
      R.input_value_utf8 = some { addr := 8192, bytes := [116, 121, 112, 101, 100, 0] } ∧
      R.result_code = NMB_OK := by
  obtain ⟨R, W, hrun, _, hcopy⟩ :=
    harness_input_ownership World.sample
      (sampleOptions [sampleButton 1 "OK" 1 0] (some bumpAllocator)
        (some (sampleHarness 1 0 0 NMB_OK (some (lit 0x9000 "typed")))))
      sampleResult (sampleHarness 1 0 0 NMB_OK (some (lit 0x9000 "typed")))
      (lit 0x9000 "typed")
      (by decide) (by decide) (by decide) (by decide) (by decide)
      (by intro bs hbs; cases hbs; decide) rfl (by decide) (by decide) rfl rfl
      _ (List.mem_cons_self _ _)
  obtain ⟨hin, hrc⟩ := (hcopy bumpAllocator rfl).1 (by decide)
  refine ⟨R, W, hrun, ?_, hrc⟩
  rw [hin]
  decide

/-- C9, the failing input evaluated: a valid harness scripts status ok and an input text
stored at address 0x9000, and the request has no allocator. The call returns ok with
`input_value_utf8` holding the very pointer the harness holds, and the trace is empty:
nothing was allocated from the default heap. -/
theorem harness_input_aliased_without_allocator :
    observable (Linux.nmb_show_message_box World.sample
        (some (sampleOptions [sampleButton 1 "OK" 1 0] none
          (some (sampleHarness 1 0 0 NMB_OK (some (lit 0x9000 "typed"))))))
        (some sampleResult))
      = some (NMB_OK, some { sampleResult with
          button := 1
          input_value_utf8 :=
            (sampleHarness 1 0 0 NMB_OK (some (lit 0x9000 "typed"))).input_value_utf8 }) ∧
      finalTrace (Linux.nmb_show_message_box World.sample
        (some (sampleOptions [sampleButton 1 "OK" 1 0] none
          (some (sampleHarness 1 0 0 NMB_OK (some (lit 0x9000 "typed"))))))
        (some sampleResult)) = some [] ∧
      observable (Windows.nmb_show_message_box World.sample
        (some (sampleOptions [sampleButton 1 "OK" 1 0] none
          (some (sampleHarness 1 0 0 NMB_OK (some (lit 0x9000 "typed"))))))
        (some sampleResult))
      = some (NMB_OK, some { sampleResult with
          button := 1
          input_value_utf8 :=
            (sampleHarness 1 0 0 NMB_OK (some (lit 0x9000 "typed"))).input_value_utf8 }) ∧
      observable (Android.nmb_show_message_box World.sample
        (some (sampleOptions [sampleButton 1 "OK" 1 0] none
          (some (sampleHarness 1 0 0 NMB_OK (some (lit 0x9000 "typed"))))))
        (some sampleResult))
      = some (NMB_OK, some { sampleResult with
          button := 1
          input_value_utf8 :=
            (sampleHarness 1 0 0 NMB_OK (some (lit 0x9000 "typed"))).input_value_utf8 }) := by
  decide

/-! ## Theorems: the result invariant on the paths without a harness -/

/-- A copy that does not return ok leaves the target slot as it was. -/
theorem copy_fail_keeps_slot (w : World) (a : Option NmbAllocator) (src : Option CString)
    (old : Option CString)
    (hfail : (nmb_copy_string_to_allocator w a src (some old)).1 ≠ NMB_OK) :
    (nmb_copy_string_to_allocator w a src (some old)).2.1 = some old := by
  unfold nmb_copy_string_to_allocator at hfail ⊢
  cases src with
  | none => simp at hfail
  | some s =>
    by_cases hb : (nmb_allocate w a (strlen s + 1) 1).1 = 0
    · simp [hb]
    · simp [hb] at hfail

/-- A failing `CopyInputValue` leaves a null input null. -/
theorem linux_copy_input_fail (w : World) (o : NmbMessageBoxOptions)
    (info : Linux.GtkDialogInfo) (r : NmbMessageBoxResult)
    (hnull : r.input_value_utf8 = none)
    (hfail : (Linux.CopyInputValue w o (some info) r).1 ≠ NMB_OK) :
    (Linux.CopyInputValue w o (some info) r).2.1.input_value_utf8 = none := by
  unfold Linux.CopyInputValue at hfail ⊢
  simp only [] at hfail ⊢
  by_cases h1 : (!info.inputWidget) = true
  · rw [if_pos h1] at hfail
    exact absurd rfl hfail
  · rw [if_neg h1] at hfail ⊢
    by_cases h2 : info.inputMode = NMB_INPUT_TEXT ∨ info.inputMode = NMB_INPUT_PASSWORD
    · rw [if_pos h2] at hfail ⊢
      have hk := copy_fail_keeps_slot w o.allocator w.gtk.entry_text r.input_value_utf8 hfail
      simp only [hk, storeInput]
      exact hnull
    · rw [if_neg h2] at hfail ⊢
      by_cases h3 : info.inputMode = NMB_INPUT_COMBO
      · rw [if_pos h3] at hfail ⊢
        cases hc : w.gtk.combo_active_text with
        | none =>
          rw [hc] at hfail
        | some active =>
          rw [hc] at hfail
          have hk := copy_fail_keeps_slot w o.allocator (some active) r.input_value_utf8 hfail
          simp only [hk, storeInput]
          exact hnull
      · rw [if_neg h3] at hfail
        by_cases h4 : info.inputMode = NMB_INPUT_CHECKBOX
        · rw [if_pos h4] at hfail
          exact absurd rfl hfail
        · rw [if_neg h4] at hfail
          exact absurd rfl hfail

/-- The writes of a finished GTK session: the returned status is stored in `result_code`,
and unless it is ok the input text is null. -/
theorem linux_gtk_finish (w : World) (o : NmbMessageBoxOptions) (info : Linux.GtkDialogInfo)
    (response : Int) (r : NmbMessageBoxResult) (hnull : r.input_value_utf8 = none) :
    (Linux.ShowGtkDialog.finish w o info response r).1
        = (Linux.ShowGtkDialog.finish w o info response r).2.1.result_code ∧
      ((Linux.ShowGtkDialog.finish w o info response r).2.1.result_code ≠ NMB_OK →
        (Linux.ShowGtkDialog.finish w o info response r).2.1.input_value_utf8 = none) := by
  unfold Linux.ShowGtkDialog.finish
  simp only []
  split_ifs
  all_goals
    first
    | exact ⟨rfl, fun _ => rfl⟩
    | exact ⟨rfl, fun h => absurd rfl h⟩
    | (refine ⟨rfl, fun _ => linux_copy_input_fail _ _ _ _ hnull ?_⟩
       intro hok
       simp_all)

/-- Without a valid harness (or outside a test build) the Linux harness step changes
nothing. -/
theorem linux_harness_skipped (w : World) (o : NmbMessageBoxOptions) (r : NmbMessageBoxResult)
    (hno : ∀ h, o.user_context = some h → h.magic = NMB_TEST_HARNESS_MAGIC →
      h.struct_size = w.build.sizeof_NmbTestHarness → w.build.testing = false) :
    (if w.build.testing = true then Linux.ApplyTestHarness w (some o) (some r)
      else (false, some r, w)) = (false, some r, w) := by
  by_cases ht : w.build.testing = true
  · rw [if_pos ht]
    unfold Linux.ApplyTestHarness
    cases hc : o.user_context with
    | none => simp only [hc]
    | some h =>
      by_cases hm : h.magic = NMB_TEST_HARNESS_MAGIC
      · by_cases hs : h.struct_size = w.build.sizeof_NmbTestHarness
        · have := hno h hc hm hs
          rw [this] at ht
          cases ht
        · simp [hc, hm, hs]
      · simp [hc, hm]
  · rw [if_neg ht]

/-- A zenity fallback that accepts stores status ok. -/
theorem linux_zenity_accepted (w : World) (o : NmbMessageBoxOptions) (r : NmbMessageBoxResult)
    (hacc : (Linux.RunZenityFallback w (some o) r).1 = true) :
    (Linux.RunZenityFallback w (some o) r).2.1.result_code = NMB_OK := by
  unfold Linux.RunZenityFallback at hacc ⊢
  simp only [] at hacc ⊢
  split_ifs at hacc ⊢ <;> first | rfl | (split at hacc <;> simp at hacc)

/-- The Linux tiers when no harness applies: GTK when it is available, the zenity
fallback otherwise. -/
theorem linux_tiers_plain (w : World) (o : NmbMessageBoxOptions) (r : NmbMessageBoxResult)
    (hno : ∀ h, o.user_context = some h → h.magic = NMB_TEST_HARNESS_MAGIC →
      h.struct_size = w.build.sizeof_NmbTestHarness → w.build.testing = false) :
    Linux.nmb_show_message_box.tiers w o r
      = if (Linux.EnsureGtkInitialized w).1 = true then
          (match Linux.ShowGtkDialog (Linux.EnsureGtkInitialized w).2 o r with
            | .error e => .error e
            | .ok (rc, r1, w5) => .ok (rc, some r1, w5))
        else if (Linux.RunZenityFallback
              (nmb_runtime_log (Linux.EnsureGtkInitialized w).2
                (some "Linux: GTK unavailable, attempting zenity fallback."))
              (some o) r).1 = true then
          .ok (NMB_OK,
            some (Linux.RunZenityFallback
              (nmb_runtime_log (Linux.EnsureGtkInitialized w).2
                (some "Linux: GTK unavailable, attempting zenity fallback."))
              (some o) r).2.1,
            (Linux.RunZenityFallback
              (nmb_runtime_log (Linux.EnsureGtkInitialized w).2
                (some "Linux: GTK unavailable, attempting zenity fallback."))
              (some o) r).2.2)
        else
          .ok (NMB_E_PLATFORM_FAILURE,
            some (Linux.RunZenityFallback
              (nmb_runtime_log (Linux.EnsureGtkInitialized w).2
                (some "Linux: GTK unavailable, attempting zenity fallback."))
              (some o) r).2.1,
            nmb_runtime_log (Linux.RunZenityFallback
              (nmb_runtime_log (Linux.EnsureGtkInitialized w).2
                (some "Linux: GTK unavailable, attempting zenity fallback."))
              (some o) r).2.2
              (some "Linux: No GUI backend available for message box.")) := by
  unfold Linux.nmb_show_message_box.tiers
  simp only [linux_harness_skipped w o r hno, Option.getD_some]
  by_cases hav : (Linux.EnsureGtkInitialized w).1 = true
  · simp [hav]
  · have hav2 : (Linux.EnsureGtkInitialized w).1 = false := by
      cases hx : (Linux.EnsureGtkInitialized w).1 with
      | true => exact absurd hx hav
      | false => rfl
    simp [hav2]

/-- A GTK session that returns ran `finish` on some response. -/
theorem linux_gtk_returns (w W : World) (o : NmbMessageBoxOptions)
    (r R : NmbMessageBoxResult) (rc : Nat)
    (hrun : Linux.ShowGtkDialog w o r = .ok (rc, R, W)) :
    ∃ w2 info response, Linux.ShowGtkDialog.finish w2 o info response r = (rc, R, W) := by
  unfold Linux.ShowGtkDialog at hrun
  cases hb : Linux.ShowGtkDialog.build o with
  | error e => simp [hb] at hrun
  | ok built =>
    obtain ⟨info, armed⟩ := built
    simp only [hb] at hrun
    split at hrun
    · exact ⟨_, _, _, Except.ok.inj hrun⟩
    · by_cases ha : armed = true
      · simp only [ha, if_true] at hrun
        exact ⟨_, _, _, Except.ok.inj hrun⟩
      · simp [ha] at hrun

/-- On the Linux paths without a harness the input text is null unless the stored status
is ok. -/
theorem linux_plain_invariant (w W : World) (o : NmbMessageBoxOptions)
    (r R : NmbMessageBoxResult) (rc : Nat)
    (hmsg : o.message_utf8.isSome = true)
    (hsize : w.build.kMessageBoxOptionsMinSize ≤ o.struct_size)
    (habi : o.abi_version = NMB_ABI_VERSION)
    (hres : w.build.kMessageBoxResultMinSize ≤ r.struct_size)
    (hno : ∀ h, o.user_context = some h → h.magic = NMB_TEST_HARNESS_MAGIC →
      h.struct_size = w.build.sizeof_NmbTestHarness → w.build.testing = false)
    (hrun : Linux.nmb_show_message_box w (some o) (some r) = .ok (rc, some R, W)) :
    R.result_code ≠ NMB_OK → R.input_value_utf8 = none := by
  rw [linux_show_validated w o r hmsg hsize habi hres, linux_tiers_plain w o _ hno] at hrun
  by_cases hav : (Linux.EnsureGtkInitialized w).1 = true
  · rw [if_pos hav] at hrun
    cases hg : Linux.ShowGtkDialog (Linux.EnsureGtkInitialized w).2 o (baseline w.build) with
    | error e => simp [hg] at hrun
    | ok t =>
      obtain ⟨rc1, R1, W1⟩ := t
      simp only [hg, Except.ok.injEq, Prod.mk.injEq, Option.some.injEq] at hrun
      obtain ⟨_, hR, _⟩ := hrun
      obtain ⟨w2, info, response, hfin⟩ := linux_gtk_returns _ _ o _ _ _ hg
      have hinv := (linux_gtk_finish w2 o info response (baseline w.build) rfl).2
      rw [hfin] at hinv
      rw [← hR]
      exact hinv
  · rw [if_neg hav] at hrun
    split_ifs at hrun with hz
    · simp only [Except.ok.injEq, Prod.mk.injEq, Option.some.injEq] at hrun
      obtain ⟨_, hR, _⟩ := hrun
      intro hne
      exact absurd (hR ▸ linux_zenity_accepted _ o _ hz) hne
    · have hz2 : (Linux.RunZenityFallback
          (nmb_runtime_log (Linux.EnsureGtkInitialized w).2
            (some "Linux: GTK unavailable, attempting zenity fallback."))
          (some o) (baseline w.build)).1 = false := by
        cases hx : (Linux.RunZenityFallback
            (nmb_runtime_log (Linux.EnsureGtkInitialized w).2
              (some "Linux: GTK unavailable, attempting zenity fallback."))
            (some o) (baseline w.build)).1 with
        | true => exact absurd hx hz
        | false => rfl
      simp only [Except.ok.injEq, Prod.mk.injEq, Option.some.injEq] at hrun
      obtain ⟨_, hR, _⟩ := hrun
      intro hne
      rw [linux_zenity_declined _ o _ hz2] at hR
      exact absurd (hR ▸ rfl) hne

/-- Without a valid harness (or outside a test build) the Windows harness step changes
nothing. -/
theorem windows_harness_skipped (w : World) (o : NmbMessageBoxOptions)
    (r : NmbMessageBoxResult)
    (hno : ∀ h, o.user_context = some h → h.magic = NMB_TEST_HARNESS_MAGIC →
      h.struct_size = w.build.sizeof_NmbTestHarness → w.build.testing = false) :
    (if w.build.testing = true then Windows.ApplyTestHarness w (some o) (some r)
      else (false, some r, w)) = (false, some r, w) := by
  by_cases ht : w.build.testing = true
  · rw [if_pos ht]
    unfold Windows.ApplyTestHarness
    cases hc : o.user_context with
    | none => simp only [hc]
    | some h =>
      by_cases hm : h.magic = NMB_TEST_HARNESS_MAGIC
      · by_cases hs : h.struct_size = w.build.sizeof_NmbTestHarness
        · have := hno h hc hm hs
          rw [this] at ht
          cases ht
        · simp [hc, hm, hs]
      · simp [hc, hm]
  · rw [if_neg ht]

/-- The task dialog either fails and leaves the result untouched, or stores status ok. -/
theorem windows_task_dialog_result (w W : World) (o : NmbMessageBoxOptions)
    (r R : NmbMessageBoxResult) (rc : Nat)
    (hrun : Windows.ShowTaskDialog w o r = .ok (rc, R, W)) :
    (rc ≠ NMB_OK ∧ R = r) ∨ (rc = NMB_OK ∧ R.result_code = NMB_OK) := by
  unfold Windows.ShowTaskDialog at hrun
  simp only [] at hrun
  split_ifs at hrun
  all_goals (try split at hrun)
  all_goals
    first
    | (cases hrun; done)
    | (simp only [Except.ok.injEq, Prod.mk.injEq] at hrun
       obtain ⟨hrc, hR, _⟩ := hrun
       first
       | exact Or.inl ⟨by rw [← hrc]; decide, hR.symm⟩
       | exact Or.inr ⟨hrc.symm, by rw [← hR]⟩)

/-- The simple message box stores either a failure with button none and input null, or
status ok. -/
theorem windows_simple_result (w W : World) (o : NmbMessageBoxOptions)
    (r R : NmbMessageBoxResult) (rc : Nat)
    (hrun : Windows.ShowMessageBoxSimple w o r = .ok (rc, R, W)) :
    (R.result_code ≠ NMB_OK → R.input_value_utf8 = none) ∧
      (R.result_code ≠ NMB_OK → R.result_code ≠ NMB_E_CANCELLED →
        R.button = NMB_BUTTON_ID_NONE) := by
  unfold Windows.ShowMessageBoxSimple at hrun
  split at hrun
  · cases hrun
  · simp only [] at hrun
    split_ifs at hrun
    all_goals
      simp only [Except.ok.injEq, Prod.mk.injEq] at hrun
      obtain ⟨_, hR, _⟩ := hrun
      subst hR
      first
      | exact ⟨fun _ => rfl, fun _ _ => rfl⟩
      | exact ⟨fun h => absurd rfl h, fun h _ => absurd rfl h⟩

/-- On the Windows paths without a harness: unless the stored status is ok the input text
is null, and unless it is ok or cancelled the button is none. -/
theorem windows_plain_invariant (w W : World) (o : NmbMessageBoxOptions)
    (r R : NmbMessageBoxResult) (rc : Nat)
    (hmsg : o.message_utf8.isSome = true)
    (hsize : w.build.kMessageBoxOptionsMinSize ≤ o.struct_size)
    (habi : o.abi_version = NMB_ABI_VERSION)
    (hres : w.build.kMessageBoxResultMinSize ≤ r.struct_size)
    (hno : ∀ h, o.user_context = some h → h.magic = NMB_TEST_HARNESS_MAGIC →
      h.struct_size = w.build.sizeof_NmbTestHarness → w.build.testing = false)
    (hrun : Windows.nmb_show_message_box w (some o) (some r) = .ok (rc, some R, W)) :
    (R.result_code ≠ NMB_OK → R.input_value_utf8 = none) ∧
      (R.result_code ≠ NMB_OK → R.result_code ≠ NMB_E_CANCELLED →
        R.button = NMB_BUTTON_ID_NONE) := by
  rw [windows_show_validated_any w o r hmsg hsize habi hres] at hrun
  cases hsup : Windows.ButtonsSupportedByMessageBox (some o) with
  | error e => simp [hsup] at hrun
  | ok b =>
    simp only [hsup] at hrun
    unfold Windows.nmb_show_message_box.tiers at hrun
    simp only [windows_harness_skipped w o (baseline w.build) hno, Option.getD_some] at hrun
    simp only [Bool.false_eq_true, if_false] at hrun
    by_cases hin : (match o.input with
        | some input => input.mode != NMB_INPUT_CHECKBOX
        | none => false) = true
    · rw [if_pos hin] at hrun
      simp only [Except.ok.injEq, Prod.mk.injEq, Option.some.injEq] at hrun
      obtain ⟨_, hR, _⟩ := hrun
      subst hR
      exact ⟨fun _ => rfl, fun _ _ => rfl⟩
    · rw [if_neg hin] at hrun
      cases hreq : Windows.RequiresTaskDialog (some o) with
      | error e => simp [hreq] at hrun
      | ok req =>
        cases req with
        | false =>
          simp only [hreq] at hrun
          cases hs : Windows.ShowMessageBoxSimple w o (baseline w.build) with
          | error e => simp [hs] at hrun
          | ok t =>
            obtain ⟨rc1, R1, W1⟩ := t
            simp only [hs, Except.ok.injEq, Prod.mk.injEq, Option.some.injEq] at hrun
            obtain ⟨_, hR, _⟩ := hrun
            subst hR
            exact windows_simple_result _ _ o _ _ _ hs
        | true =>
          simp only [hreq] at hrun
          cases ht : Windows.ShowTaskDialog w o (baseline w.build) with
          | error e => simp [ht] at hrun
          | ok t =>
            obtain ⟨rc1, R1, W1⟩ := t
            simp only [ht] at hrun
            rcases windows_task_dialog_result _ _ o _ _ _ ht with ⟨hne, hR1⟩ | ⟨heq, hR1⟩
            · subst hR1
              split_ifs at hrun with h1 h2
              · exact absurd h1 hne
              · simp only [Except.ok.injEq, Prod.mk.injEq, Option.some.injEq] at hrun
                obtain ⟨_, hR, _⟩ := hrun
                subst hR
                exact ⟨fun h => absurd rfl h, fun h _ => absurd rfl h⟩
              · simp only [Except.ok.injEq, Prod.mk.injEq, Option.some.injEq] at hrun
                obtain ⟨_, hR, _⟩ := hrun
                subst hR
                exact ⟨fun _ => rfl, fun _ _ => rfl⟩
              · cases hs : Windows.ShowMessageBoxSimple
                    (nmb_runtime_log W1 (some
                      "Windows: TaskDialogIndirect unavailable, falling back to MessageBox."))
                    o (baseline w.build) with
                | error e => simp [hs] at hrun
                | ok t2 =>
                  obtain ⟨rc2, R2, W2⟩ := t2
                  simp only [hs, Except.ok.injEq, Prod.mk.injEq, Option.some.injEq] at hrun
                  obtain ⟨_, hR, _⟩ := hrun
                  subst hR
                  exact windows_simple_result _ _ o _ _ _ hs
            · simp only [heq, if_true, Except.ok.injEq, Prod.mk.injEq,
                Option.some.injEq] at hrun
              obtain ⟨_, hR, _⟩ := hrun
              subst hR
              exact ⟨fun h => absurd hR1 h, fun h _ => absurd hR1 h⟩

/-- Without a valid harness (or outside a test build) the Android harness step changes
nothing. -/
theorem android_harness_skipped (w : World) (o : NmbMessageBoxOptions)
    (r : NmbMessageBoxResult)
    (hno : ∀ h, o.user_context = some h → h.magic = NMB_TEST_HARNESS_MAGIC →
      h.struct_size = w.build.sizeof_NmbTestHarness → w.build.testing = false) :
    (if w.build.testing = true then Android.ApplyTestHarness w (some o) (some r)
      else (false, some r, w)) = (false, some r, w) := by
  by_cases ht : w.build.testing = true
  · rw [if_pos ht]
    unfold Android.ApplyTestHarness
    cases hc : o.user_context with
    | none => simp only [hc]
    | some h =>
      by_cases hm : h.magic = NMB_TEST_HARNESS_MAGIC
      · by_cases hs : h.struct_size = w.build.sizeof_NmbTestHarness
        · have := hno h hc hm hs
          rw [this] at ht
          cases ht
        · simp [hc, hm, hs]
      · simp [hc, hm]
  · rw [if_neg ht]

/-- An Android dialog without a harness leaves the result untouched, or stores status ok,
or stores status cancelled with a null input. -/
theorem android_dialog_plain (w W : World) (o : NmbMessageBoxOptions)
    (r R : NmbMessageBoxResult) (rc : Nat)
    (hno : ∀ h, o.user_context = some h → h.magic = NMB_TEST_HARNESS_MAGIC →
      h.struct_size = w.build.sizeof_NmbTestHarness → w.build.testing = false)
    (hrun : Android.ShowDialogInternal w o r = .ok (rc, R, W)) :
    R = r ∨ R.result_code = NMB_OK ∨
      (R.result_code = NMB_E_CANCELLED ∧ R.input_value_utf8 = none) := by
  unfold Android.ShowDialogInternal at hrun
  simp only [android_harness_skipped w o r hno, Option.getD_some] at hrun
  simp only [Bool.false_eq_true, if_false] at hrun
  by_cases hp : o.parent_window = 0
  · rw [if_pos hp] at hrun
    simp only [Except.ok.injEq, Prod.mk.injEq] at hrun
    exact Or.inl hrun.2.1.symm
  · rw [if_neg hp] at hrun
    cases hs : Android.ShowDialogInternal.show w o with
    | error e => simp [hs] at hrun
    | ok t =>
      cases t with
      | inl early =>
        obtain ⟨rc1, w1⟩ := early
        simp only [hs, Except.ok.injEq, Prod.mk.injEq] at hrun
        exact Or.inl hrun.2.1.symm
      | inr shown =>
        simp only [hs] at hrun
        cases hc : shown.world.android.completion with
        | none => simp [hc] at hrun
        | some completion =>
          simp only [hc, Except.ok.injEq] at hrun
          unfold Android.ShowDialogInternal.complete at hrun
          cases completion with
          | error errorCode =>
            simp only [Prod.mk.injEq] at hrun
            exact Or.inl hrun.2.1.symm
          | completed buttonId cancelled =>
            simp only [] at hrun
            split_ifs at hrun
            all_goals
              simp only [Prod.mk.injEq] at hrun
              obtain ⟨_, hR, _⟩ := hrun
              subst hR
              first
              | exact Or.inr (Or.inl rfl)
              | exact Or.inr (Or.inr ⟨rfl, rfl⟩)

/-- On the Android paths without a harness: unless the stored status is ok the input text
is null, and unless it is ok or cancelled the button is none. -/
theorem android_plain_invariant (w W : World) (o : NmbMessageBoxOptions)
    (r R : NmbMessageBoxResult) (rc : Nat)
    (hmsg : o.message_utf8.isSome = true)
    (hsize : w.build.kMessageBoxOptionsMinSize ≤ o.struct_size)
    (habi : o.abi_version = NMB_ABI_VERSION)
    (hres : w.build.kMessageBoxResultMinSize ≤ r.struct_size)
    (hno : ∀ h, o.user_context = some h → h.magic = NMB_TEST_HARNESS_MAGIC →
      h.struct_size = w.build.sizeof_NmbTestHarness → w.build.testing = false)
    (hrun : Android.nmb_show_message_box w (some o) (some r) = .ok (rc, some R, W)) :
    (R.result_code ≠ NMB_OK → R.input_value_utf8 = none) ∧
      (R.result_code ≠ NMB_OK → R.result_code ≠ NMB_E_CANCELLED →
        R.button = NMB_BUTTON_ID_NONE) := by
  rw [android_show_validated w o r hmsg hsize habi hres] at hrun
  unfold Android.nmb_show_message_box.tiers at hrun
  have hno2 : ∀ h, o.user_context = some h → h.magic = NMB_TEST_HARNESS_MAGIC →
      h.struct_size = (Android.LogUnsupportedFeatures w (some o)).build.sizeof_NmbTestHarness →
      (Android.LogUnsupportedFeatures w (some o)).build.testing = false := by
    intro h hc hm hs
    rw [android_unsupported_build] at hs ⊢
    exact hno h hc hm hs
  cases hd : Android.ShowDialogInternal (Android.LogUnsupportedFeatures w (some o)) o
      (baseline w.build) with
  | error e => simp [hd] at hrun
  | ok t =>
    obtain ⟨rc1, R1, W1⟩ := t
    simp only [hd, Except.ok.injEq, Prod.mk.injEq, Option.some.injEq] at hrun
    obtain ⟨_, hR, _⟩ := hrun
    subst hR
    rcases android_dialog_plain _ _ o _ _ _ hno2 hd with h | h | ⟨h1, h2⟩
    · subst h
      exact ⟨fun _ => rfl, fun _ _ => rfl⟩
    · exact ⟨fun hne => absurd h hne, fun hne _ => absurd h hne⟩
    · exact ⟨fun _ => h2, fun _ hne => absurd h1 hne⟩

/-- On Android the input text is null unless the stored status is ok, with or without a
harness. -/
theorem android_input_invariant (w W : World) (o : NmbMessageBoxOptions)
    (r R : NmbMessageBoxResult) (rc : Nat)
    (hmsg : o.message_utf8.isSome = true)
    (hsize : w.build.kMessageBoxOptionsMinSize ≤ o.struct_size)
    (habi : o.abi_version = NMB_ABI_VERSION)
    (hres : w.build.kMessageBoxResultMinSize ≤ r.struct_size)
    (hrun : Android.nmb_show_message_box w (some o) (some r) = .ok (rc, some R, W)) :
    R.result_code ≠ NMB_OK → R.input_value_utf8 = none := by
  by_cases hv : ∃ h, o.user_context = some h ∧ h.magic = NMB_TEST_HARNESS_MAGIC ∧
      h.struct_size = w.build.sizeof_NmbTestHarness ∧ w.build.testing = true
  · obtain ⟨h, hctx, hmagic, hhsize, htest⟩ := hv
    rw [android_show_validated w o r hmsg hsize habi hres] at hrun
    have hhsize2 : h.struct_size
        = (Android.LogUnsupportedFeatures w (some o)).build.sizeof_NmbTestHarness := by
      rw [android_unsupported_build]; exact hhsize
    have happ := android_harness_applied (Android.LogUnsupportedFeatures w (some o)) o
      (baseline w.build) h hctx hmagic hhsize2
    cases hin : h.input_value_utf8 with
    | none =>
      rw [hin] at happ
      rw [android_tiers_harnessed w _ o _ _ htest happ] at hrun
      simp only [Except.ok.injEq, Prod.mk.injEq, Option.some.injEq] at hrun
      obtain ⟨_, hR, _⟩ := hrun
      subst hR
      exact fun _ => rfl
    | some text =>
      cases hal : o.allocator with
      | none =>
        rw [hin, hal] at happ
        rw [android_tiers_harnessed w _ o _ _ htest happ] at hrun
        simp only [Except.ok.injEq, Prod.mk.injEq, Option.some.injEq] at hrun
        obtain ⟨_, hR, _⟩ := hrun
        subst hR
        intro hne
        exact if_neg hne
      | some a =>
        rw [hin, hal] at happ
        by_cases hok : h.result_code = NMB_OK
        · by_cases hb : (nmb_allocate (Android.LogUnsupportedFeatures w (some o)) (some a)
              (strlen text + 1) 1).1 = 0
          · simp only [hok, hb, if_true] at happ
            rw [android_tiers_harnessed w _ o _ _ htest happ] at hrun
            simp only [Except.ok.injEq, Prod.mk.injEq, Option.some.injEq] at hrun
            obtain ⟨_, hR, _⟩ := hrun
            subst hR
            exact fun _ => rfl
          · simp only [hok, hb, if_true, if_false] at happ
            rw [android_tiers_harnessed w _ o _ _ htest happ] at hrun
            simp only [Except.ok.injEq, Prod.mk.injEq, Option.some.injEq] at hrun
            obtain ⟨_, hR, _⟩ := hrun
            subst hR
            exact fun hne => absurd rfl hne
        · simp only [hok, if_false] at happ
          rw [android_tiers_harnessed w _ o _ _ htest happ] at hrun
          simp only [Except.ok.injEq, Prod.mk.injEq, Option.some.injEq] at hrun
          obtain ⟨_, hR, _⟩ := hrun
          subst hR
          exact fun _ => rfl
  · have hno : ∀ h, o.user_context = some h → h.magic = NMB_TEST_HARNESS_MAGIC →
        h.struct_size = w.build.sizeof_NmbTestHarness → w.build.testing = false := by
      intro h hc hm hs
      cases ht : w.build.testing with
      | false => rfl
      | true => exact absurd ⟨h, hc, hm, hs, ht⟩ hv
    exact (android_plain_invariant w W o r R rc hmsg hsize habi hres hno hrun).1

/-- C8 (as the code has it): for a call that gets past validation and is not answered by
a test harness, on return: if `result_code` is not ok then `input_value_utf8` is null
(Linux, Windows, Android), and on Windows and Android if `result_code` is neither ok nor
cancelled then `button` is none. On Android the input part holds for harnessed calls as
well. A harnessed call returns the scripted button id whatever status it scripts.
(`harr` only excludes reading past the end of the button array, which the Windows entry
point does before it looks at the harness.) -/
theorem result_invariant_outside_harness (w : World) (o : NmbMessageBoxOptions)
    (r : NmbMessageBoxResult)
    (hmsg : o.message_utf8.isSome = true)
    (hsize : w.build.kMessageBoxOptionsMinSize ≤ o.struct_size)
    (habi : o.abi_version = NMB_ABI_VERSION)
    (hres : w.build.kMessageBoxResultMinSize ≤ r.struct_size) :
    ((∀ h, o.user_context = some h → h.magic = NMB_TEST_HARNESS_MAGIC →
        h.struct_size = w.build.sizeof_NmbTestHarness → w.build.testing = false) →
      (∀ rc R W, Linux.nmb_show_message_box w (some o) (some r) = .ok (rc, some R, W) →
        (R.result_code ≠ NMB_OK → R.input_value_utf8 = none)) ∧
      (∀ rc R W, Windows.nmb_show_message_box w (some o) (some r) = .ok (rc, some R, W) →
        (R.result_code ≠ NMB_OK → R.input_value_utf8 = none) ∧
        (R.result_code ≠ NMB_OK → R.result_code ≠ NMB_E_CANCELLED →
          R.button = NMB_BUTTON_ID_NONE)) ∧
      (∀ rc R W, Android.nmb_show_message_box w (some o) (some r) = .ok (rc, some R, W) →
        (R.result_code ≠ NMB_OK → R.result_code ≠ NMB_E_CANCELLED →
          R.button = NMB_BUTTON_ID_NONE))) ∧
    (∀ rc R W, Android.nmb_show_message_box w (some o) (some r) = .ok (rc, some R, W) →
      (R.result_code ≠ NMB_OK → R.input_value_utf8 = none)) ∧
    (∀ h, w.build.testing = true → o.user_context = some h →
      h.magic = NMB_TEST_HARNESS_MAGIC → h.struct_size = w.build.sizeof_NmbTestHarness →
      (∀ bs, o.buttons = some bs → o.button_count ≤ bs.length) →
      ∀ run ∈ [Linux.nmb_show_message_box w (some o) (some r),
          Windows.nmb_show_message_box w (some o) (some r),
          Android.nmb_show_message_box w (some o) (some r)],
        ∃ R W, run = .ok (R.result_code, some R, W) ∧ R.button = h.scripted_button) := by
  refine ⟨fun hno => ⟨?_, ?_, ?_⟩, ?_, ?_⟩
  · intro rc R W hrun
    exact linux_plain_invariant w W o r R rc hmsg hsize habi hres hno hrun
  · intro rc R W hrun
    exact windows_plain_invariant w W o r R rc hmsg hsize habi hres hno hrun
  · intro rc R W hrun
    exact (android_plain_invariant w W o r R rc hmsg hsize habi hres hno hrun).2
  · intro rc R W hrun
    exact android_input_invariant w W o r R rc hmsg hsize habi hres hrun
  · intro h htest hctx hmagic hhsize harr run hmem
    simp only [List.mem_cons, List.mem_singleton, List.not_mem_nil, or_false] at hmem
    rcases hmem with rfl | rfl | rfl
    · obtain ⟨R, W, hrun, hb, _⟩ :=
        linux_harness_fields w o r h htest hmsg hsize habi hres hctx hmagic hhsize
      exact ⟨R, W, hrun, hb⟩
    · obtain ⟨R, W, hrun, hb, _⟩ :=
        windows_harness_fields w o r h htest hmsg hsize habi hres harr hctx hmagic hhsize
      exact ⟨R, W, hrun, hb⟩
    · obtain ⟨R, W, hrun, hb, _⟩ :=
        android_harness_fields w o r h htest hmsg hsize habi hres hctx hmagic hhsize
      exact ⟨R, W, hrun, hb⟩

theorem result_invariant_outside_harness_witness :
    ∃ R, observable (Windows.nmb_show_message_box World.sample
          (some (sampleOptions [sampleButton 1 "OK" 1 0] none none)) (some sampleResult))
        = some (NMB_E_PLATFORM_FAILURE, some R) ∧
      R.result_code = NMB_E_PLATFORM_FAILURE ∧ R.input_value_utf8 = none ∧
      R.button = NMB_BUTTON_ID_NONE := by
  have hobs : observable (Windows.nmb_show_message_box World.sample
      (some (sampleOptions [sampleButton 1 "OK" 1 0] none none)) (some sampleResult))
      = some (NMB_E_PLATFORM_FAILURE,
          some { sampleResult with result_code := NMB_E_PLATFORM_FAILURE }) := by decide
  have hinv := (result_invariant_outside_harness World.sample
    (sampleOptions [sampleButton 1 "OK" 1 0] none none) sampleResult
    (by decide) (by decide) (by decide) (by decide)).1
    (by intro h hc; cases hc)
  cases hrun : Windows.nmb_show_message_box World.sample
      (some (sampleOptions [sampleButton 1 "OK" 1 0] none none)) (some sampleResult) with
  | error e =>
    rw [hrun] at hobs
    cases hobs
  | ok t =>
    obtain ⟨rc, R, W⟩ := t
    rw [hrun] at hobs
    simp only [observable, Option.some.injEq, Prod.mk.injEq] at hobs
    obtain ⟨hrc, hR⟩ := hobs
    subst hrc hR
    have hJ := hinv.2.1 _ _ _ hrun
    exact ⟨_, rfl, rfl, hJ.1 (by decide), hJ.2 (by decide) (by decide)⟩

/-- C8 fails as stated: a valid harness scripts status platform-failure together with
the button id ok and an input text, and the request has no allocator. The call gets past
validation and returns with `result_code` platform-failure (neither ok nor cancelled),
`button` ok rather than none, and a non-null `input_value_utf8`. -/
theorem harness_breaks_result_invariant :
    observable (Linux.nmb_show_message_box World.sample
        (some (sampleOptions [sampleButton 1 "OK" 1 0] none
          (some (sampleHarness NMB_BUTTON_ID_OK 0 0 NMB_E_PLATFORM_FAILURE
            (some (lit 0x9000 "typed"))))))
        (some sampleResult))
      = some (NMB_E_PLATFORM_FAILURE,
          some { struct_size := 32
                 button := NMB_BUTTON_ID_OK
                 checkbox_checked := 0
                 input_value_utf8 := some (lit 0x9000 "typed")
                 was_timeout := 0
                 result_code := NMB_E_PLATFORM_FAILURE }) ∧
      NMB_E_PLATFORM_FAILURE ≠ NMB_OK ∧ NMB_E_PLATFORM_FAILURE ≠ NMB_E_CANCELLED ∧
      NMB_BUTTON_ID_OK ≠ NMB_BUTTON_ID_NONE := by
  decide

/-! ## Theorems: the simple tier of the Windows backend -/

/-- Logging appends at most log lines to the trace. -/
theorem runtime_log_appends (w : World) (m : Option String) :
    ∃ new, (nmb_runtime_log w m).trace = w.trace ++ new ∧
      ∀ c ∈ new, ∃ cb ud t, c = Call.log cb ud t := by
  unfold nmb_runtime_log
  cases m with
  | none => exact ⟨[], by simp, by simp⟩
  | some t =>
    by_cases hcb : w.s_log_callback != 0
    · refine ⟨[Call.log w.s_log_callback w.s_log_user_data t], by simp [hcb, World.record], ?_⟩
      intro c hc
      simp only [List.mem_singleton] at hc
      exact ⟨_, _, _, hc⟩
    · exact ⟨[], by simp [hcb], by simp⟩

/-- One id that is a combination of the catalogue is OK. -/
theorem perm_one (x : Nat) (combo : List Nat)
    (hc : combo ∈ [[NMB_BUTTON_ID_OK], [NMB_BUTTON_ID_OK, NMB_BUTTON_ID_CANCEL],
          [NMB_BUTTON_ID_YES, NMB_BUTTON_ID_NO], [NMB_BUTTON_ID_RETRY, NMB_BUTTON_ID_CANCEL],
          [NMB_BUTTON_ID_YES, NMB_BUTTON_ID_NO, NMB_BUTTON_ID_CANCEL],
          [NMB_BUTTON_ID_ABORT, NMB_BUTTON_ID_RETRY, NMB_BUTTON_ID_IGNORE]])
    (hp : List.Perm [x] combo) : combo = [NMB_BUTTON_ID_OK] ∧ x = NMB_BUTTON_ID_OK := by
  have hl := hp.length_eq
  simp only [List.mem_cons, List.mem_singleton, List.not_mem_nil, or_false] at hc
  rcases hc with rfl | rfl | rfl | rfl | rfl | rfl <;> simp at hl
  exact ⟨rfl, by simpa using hp⟩

/-- Two ids that are, in some order, a combination of the catalogue. -/
theorem perm_two (x y : Nat) (combo : List Nat)
    (hc : combo ∈ [[NMB_BUTTON_ID_OK], [NMB_BUTTON_ID_OK, NMB_BUTTON_ID_CANCEL],
          [NMB_BUTTON_ID_YES, NMB_BUTTON_ID_NO], [NMB_BUTTON_ID_RETRY, NMB_BUTTON_ID_CANCEL],
          [NMB_BUTTON_ID_YES, NMB_BUTTON_ID_NO, NMB_BUTTON_ID_CANCEL],
          [NMB_BUTTON_ID_ABORT, NMB_BUTTON_ID_RETRY, NMB_BUTTON_ID_IGNORE]])
    (hp : List.Perm [x, y] combo) :
    (combo = [NMB_BUTTON_ID_OK, NMB_BUTTON_ID_CANCEL] ∧ ((x = 1 ∧ y = 2) ∨ (x = 2 ∧ y = 1))) ∨
    (combo = [NMB_BUTTON_ID_YES, NMB_BUTTON_ID_NO] ∧ ((x = 3 ∧ y = 4) ∨ (x = 4 ∧ y = 3))) ∨
    (combo = [NMB_BUTTON_ID_RETRY, NMB_BUTTON_ID_CANCEL] ∧ ((x = 5 ∧ y = 2) ∨ (x = 2 ∧ y = 5))) := by
  have hl := hp.length_eq
  have hx : x ∈ combo := hp.subset (by simp)
  have hy : y ∈ combo := hp.subset (by simp)
  have hnd : (x :: [y]).Nodup ↔ combo.Nodup := hp.nodup_iff
  simp only [List.mem_cons, List.mem_singleton, List.not_mem_nil, or_false] at hc
  rcases hc with rfl | rfl | rfl | rfl | rfl | rfl <;> simp at hl
  all_goals
    simp [NMB_BUTTON_ID_OK, NMB_BUTTON_ID_CANCEL, NMB_BUTTON_ID_YES, NMB_BUTTON_ID_NO,
      NMB_BUTTON_ID_RETRY] at hx hy hnd ⊢
    omega

/-- Three ids that are, in some order, a combination of the catalogue. -/
theorem perm_three (x y z : Nat) (combo : List Nat)
    (hc : combo ∈ [[NMB_BUTTON_ID_OK], [NMB_BUTTON_ID_OK, NMB_BUTTON_ID_CANCEL],
          [NMB_BUTTON_ID_YES, NMB_BUTTON_ID_NO], [NMB_BUTTON_ID_RETRY, NMB_BUTTON_ID_CANCEL],
          [NMB_BUTTON_ID_YES, NMB_BUTTON_ID_NO, NMB_BUTTON_ID_CANCEL],
          [NMB_BUTTON_ID_ABORT, NMB_BUTTON_ID_RETRY, NMB_BUTTON_ID_IGNORE]])
    (hp : List.Perm [x, y, z] combo) :
    (combo = [NMB_BUTTON_ID_YES, NMB_BUTTON_ID_NO, NMB_BUTTON_ID_CANCEL] ∧
      x ∈ [2, 3, 4] ∧ y ∈ [2, 3, 4] ∧ z ∈ [2, 3, 4] ∧ x ≠ y ∧ x ≠ z ∧ y ≠ z) ∨
    (combo = [NMB_BUTTON_ID_ABORT, NMB_BUTTON_ID_RETRY, NMB_BUTTON_ID_IGNORE] ∧
      x ∈ [5, 7, 8] ∧ y ∈ [5, 7, 8] ∧ z ∈ [5, 7, 8] ∧ x ≠ y ∧ x ≠ z ∧ y ≠ z) := by
  have hl := hp.length_eq
  have hx : x ∈ combo := hp.subset (by simp)
  have hy : y ∈ combo := hp.subset (by simp)
  have hz : z ∈ combo := hp.subset (by simp)
  have hnd : (x :: y :: [z]).Nodup ↔ combo.Nodup := hp.nodup_iff
  simp only [List.mem_cons, List.mem_singleton, List.not_mem_nil, or_false] at hc
  rcases hc with rfl | rfl | rfl | rfl | rfl | rfl <;> simp at hl
  all_goals
    simp [NMB_BUTTON_ID_CANCEL, NMB_BUTTON_ID_YES, NMB_BUTTON_ID_NO,
      NMB_BUTTON_ID_RETRY, NMB_BUTTON_ID_ABORT, NMB_BUTTON_ID_IGNORE] at hx hy hz hnd ⊢
    omega

/-- The flag `ComposeButtonFlags` composes for one button with id OK. -/
theorem compose_one (o : NmbMessageBoxOptions) (a : NmbButtonOption)
    (hb : o.buttons = some [a]) (hc : o.button_count = 1) (ha : a.id = 1) :
    ∃ d, Windows.ComposeButtonFlags (some o) = .ok (Windows.MB_OK, d) := by
  refine ⟨if a.is_default ≠ 0 then a.id else NMB_BUTTON_ID_NONE, ?_⟩
  simp [Windows.ComposeButtonFlags, Windows.ComposeButtonFlags.loop, hb, hc, ha,
    NMB_BUTTON_ID_OK, NMB_BUTTON_ID_CANCEL, NMB_BUTTON_ID_YES, NMB_BUTTON_ID_NO,
    NMB_BUTTON_ID_RETRY, NMB_BUTTON_ID_ABORT, NMB_BUTTON_ID_IGNORE, NMB_BUTTON_ID_CONTINUE]

/-- The flag `ComposeButtonFlags` composes for two buttons whose ids are one of the three
two-button combinations, in either order. -/
theorem compose_two (o : NmbMessageBoxOptions) (a b : NmbButtonOption)
    (hb : o.buttons = some [a, b]) (hc : o.button_count = 2) :
    (((a.id = 1 ∧ b.id = 2) ∨ (a.id = 2 ∧ b.id = 1)) →
      ∃ d, Windows.ComposeButtonFlags (some o) = .ok (Windows.MB_OKCANCEL, d)) ∧
    (((a.id = 3 ∧ b.id = 4) ∨ (a.id = 4 ∧ b.id = 3)) →
      ∃ d, Windows.ComposeButtonFlags (some o) = .ok (Windows.MB_YESNO, d)) ∧
    (((a.id = 5 ∧ b.id = 2) ∨ (a.id = 2 ∧ b.id = 5)) →
      ∃ d, Windows.ComposeButtonFlags (some o) = .ok (Windows.MB_RETRYCANCEL, d)) := by
  refine ⟨?_, ?_, ?_⟩
  all_goals
    intro h
    refine ⟨if b.is_default ≠ 0 then b.id
      else if a.is_default ≠ 0 then a.id else NMB_BUTTON_ID_NONE, ?_⟩
    rcases h with ⟨ha, hb2⟩ | ⟨ha, hb2⟩ <;>
      simp [Windows.ComposeButtonFlags, Windows.ComposeButtonFlags.loop, hb, hc, ha, hb2,
        NMB_BUTTON_ID_OK, NMB_BUTTON_ID_CANCEL, NMB_BUTTON_ID_YES, NMB_BUTTON_ID_NO,
        NMB_BUTTON_ID_RETRY, NMB_BUTTON_ID_ABORT, NMB_BUTTON_ID_IGNORE, NMB_BUTTON_ID_CONTINUE]

/-- The flag `ComposeButtonFlags` composes for three buttons whose ids are one of the two
three-button combinations, in any order. -/
theorem compose_three (o : NmbMessageBoxOptions) (a b c : NmbButtonOption)
    (hb : o.buttons = some [a, b, c]) (hc : o.button_count = 3) :
    ((a.id ∈ [2, 3, 4] ∧ b.id ∈ [2, 3, 4] ∧ c.id ∈ [2, 3, 4] ∧
        a.id ≠ b.id ∧ a.id ≠ c.id ∧ b.id ≠ c.id) →
      ∃ d, Windows.ComposeButtonFlags (some o) = .ok (Windows.MB_YESNOCANCEL, d)) ∧
    ((a.id ∈ [5, 7, 8] ∧ b.id ∈ [5, 7, 8] ∧ c.id ∈ [5, 7, 8] ∧
        a.id ≠ b.id ∧ a.id ≠ c.id ∧ b.id ≠ c.id) →
      ∃ d, Windows.ComposeButtonFlags (some o) = .ok (Windows.MB_ABORTRETRYIGNORE, d)) := by
  refine ⟨?_, ?_⟩
  all_goals
    rintro ⟨hx, hy, hz, hxy, hxz, hyz⟩
    refine ⟨if c.is_default ≠ 0 then c.id
      else if b.is_default ≠ 0 then b.id
      else if a.is_default ≠ 0 then a.id else NMB_BUTTON_ID_NONE, ?_⟩
    simp only [List.mem_cons, List.mem_singleton, List.not_mem_nil, or_false] at hx hy hz
    rcases hx with hx | hx | hx <;> rcases hy with hy | hy | hy <;>
      rcases hz with hz | hz | hz <;>
      first
      | (exfalso; omega)
      | simp [Windows.ComposeButtonFlags, Windows.ComposeButtonFlags.loop, hb, hc, hx, hy, hz,
          NMB_BUTTON_ID_OK, NMB_BUTTON_ID_CANCEL, NMB_BUTTON_ID_YES, NMB_BUTTON_ID_NO,
          NMB_BUTTON_ID_RETRY, NMB_BUTTON_ID_ABORT, NMB_BUTTON_ID_IGNORE,
          NMB_BUTTON_ID_CONTINUE]

/-- The task dialog tier makes no `MessageBoxW` call, and it calls `TaskDialogIndirect`
unless it returns not-supported. -/
theorem windows_task_dialog_trace (w W : World) (o : NmbMessageBoxOptions)
    (r R : NmbMessageBoxResult) (rc : Nat)
    (hrun : Windows.ShowTaskDialog w o r = .ok (rc, R, W)) :
    ∃ new, W.trace = w.trace ++ new ∧ (∀ flags, Call.message_box flags ∉ new) ∧
      (rc ≠ NMB_E_NOT_SUPPORTED → Call.task_dialog ∈ new) := by
  have hload : ∃ n1, (Windows.LoadTaskDialog w).2.trace = w.trace ++ n1 ∧
      ∀ c ∈ n1, c = Call.load_task_dialog := by
    unfold Windows.LoadTaskDialog
    by_cases ha : w.task_dialog_attempted = true
    · exact ⟨[], by simp [ha], by simp⟩
    · exact ⟨[Call.load_task_dialog], by simp [ha, World.record], by simp⟩
  obtain ⟨n1, hn1, hall1⟩ := hload
  unfold Windows.ShowTaskDialog at hrun
  simp only [] at hrun
  by_cases hl : (Windows.LoadTaskDialog w).1 = true
  · simp only [hl, Bool.not_true, Bool.false_eq_true, if_false] at hrun
    split at hrun
    · cases hrun
    · obtain ⟨n2, hn2, hall2⟩ : ∃ n2,
          (if o.verification_text_utf8.isSome = true ∧ o.show_suppress_checkbox ≠ NMB_TRUE then
            nmb_runtime_log (Windows.LoadTaskDialog w).2 (some
              "Windows: Verification text provided but show_suppress_checkbox is false; suppressing checkbox.")
          else (Windows.LoadTaskDialog w).2).trace = (Windows.LoadTaskDialog w).2.trace ++ n2 ∧
          ∀ c ∈ n2, ∃ cb ud t, c = Call.log cb ud t := by
        split_ifs
        · exact runtime_log_appends _ _
        · exact ⟨[], by simp, by simp⟩
      have hW : W.trace = w.trace ++ (n1 ++ n2 ++ [Call.task_dialog]) := by
        generalize (if o.verification_text_utf8.isSome = true ∧
            o.show_suppress_checkbox ≠ NMB_TRUE then
            nmb_runtime_log (Windows.LoadTaskDialog w).2 (some
              "Windows: Verification text provided but show_suppress_checkbox is false; suppressing checkbox.")
          else (Windows.LoadTaskDialog w).2) = w2 at hrun hn2
        split_ifs at hrun
        all_goals
          simp only [Except.ok.injEq, Prod.mk.injEq] at hrun
          obtain ⟨_, _, hW⟩ := hrun
          rw [← hW]
          simp only [World.record, hn2, hn1, List.append_assoc]
      refine ⟨_, hW, ?_, fun _ => by simp⟩
      intro flags hmem
      simp only [List.mem_append, List.mem_singleton] at hmem
      rcases hmem with (h | h) | h
      · cases hall1 _ h
      · obtain ⟨_, _, _, h2⟩ := hall2 _ h
        cases h2
      · cases h
  · have hl2 : (Windows.LoadTaskDialog w).1 = false := by
      cases hx : (Windows.LoadTaskDialog w).1 with
      | true => exact absurd hx hl
      | false => rfl
    simp only [hl2, Bool.not_false, if_true, Except.ok.injEq, Prod.mk.injEq] at hrun
    obtain ⟨hrc, _, hW⟩ := hrun
    refine ⟨n1, by rw [← hW]; exact hn1, ?_, fun hne => absurd hrc.symm hne⟩
    intro flags hmem
    cases hall1 _ hmem

/-- The simple tier makes exactly one call, `MessageBoxW` with the composed flags. -/
theorem windows_simple_trace (w W : World) (o : NmbMessageBoxOptions)
    (r R : NmbMessageBoxResult) (rc : Nat)
    (hrun : Windows.ShowMessageBoxSimple w o r = .ok (rc, R, W)) :
    ∃ bf db, Windows.ComposeButtonFlags (some o) = .ok (bf, db) ∧
      W.trace = w.trace ++ [Call.message_box (Windows.ShowMessageBoxSimple.flags o bf db)] := by
  unfold Windows.ShowMessageBoxSimple at hrun
  cases hc : Windows.ComposeButtonFlags (some o) with
  | error e => simp [hc] at hrun
  | ok p =>
    obtain ⟨bf, db⟩ := p
    refine ⟨bf, db, rfl, ?_⟩
    simp only [hc] at hrun
    split_ifs at hrun
    all_goals
      simp only [Except.ok.injEq, Prod.mk.injEq] at hrun
      obtain ⟨_, _, hW⟩ := hrun
      rw [← hW]
      rfl

/-- A request that does not require the task dialog has a button set of the catalogue. -/
theorem windows_requires_false (o : NmbMessageBoxOptions)
    (hreq : Windows.RequiresTaskDialog (some o) = .ok false) :
    Windows.ButtonsSupportedByMessageBox (some o) = .ok true := by
  unfold Windows.RequiresTaskDialog at hreq
  cases hs : Windows.ButtonsSupportedByMessageBox (some o) with
  | error e => simp [hs] at hreq
  | ok b =>
    cases b with
    | true => rfl
    | false => simp [hs] at hreq

/-- A button set the catalogue check accepts is, in some order, one of the combinations
of `MessageBoxW`, and `ComposeButtonFlags` composes the flag of that combination. -/
theorem windows_supported_exact (o : NmbMessageBoxOptions)
    (hcount : ∀ bs, o.buttons = some bs → o.button_count = bs.length)
    (hsup : Windows.ButtonsSupportedByMessageBox (some o) = .ok true) :
    ∃ entry ∈ Windows.catalogue, List.Perm (requestedIds o) entry.1 ∧
      ∃ d, Windows.ComposeButtonFlags (some o) = .ok (entry.2, d) := by
  cases hb : o.buttons with
  | none =>
    refine ⟨([], Windows.MB_OK), by simp [Windows.catalogue], ?_, NMB_BUTTON_ID_NONE, ?_⟩
    · simp [requestedIds, hb]
    · simp [Windows.ComposeButtonFlags, hb]
  | some bs =>
    have hc := hcount bs hb
    match bs, hb, hc with
    | [], hb, hc =>
      refine ⟨([], Windows.MB_OK), by simp [Windows.catalogue], ?_, NMB_BUTTON_ID_NONE, ?_⟩
      · simp [requestedIds, hb]
      · simp [Windows.ComposeButtonFlags, hb, hc]
    | [a], hb, hc =>
      rw [supported_one o a hb hc] at hsup
      have h1 := (steps_one a).mp (by simpa using hsup)
      obtain ⟨_, combo, hcombo, hperm⟩ := h1
      obtain ⟨hcb, hid⟩ := perm_one a.id combo hcombo (by simpa using hperm)
      refine ⟨([NMB_BUTTON_ID_OK], Windows.MB_OK), by simp [Windows.catalogue], ?_,
        compose_one o a hb hc hid⟩
      simp [requestedIds, hb, hc, hid]
    | [a, b], hb, hc =>
      rw [supported_two o a b hb hc] at hsup
      have h1 := (steps_two a b).mp (by simpa using hsup)
      obtain ⟨_, combo, hcombo, hperm⟩ := h1
      have hp : List.Perm (requestedIds o) combo := by
        simpa [requestedIds, hb, hc] using hperm
      obtain ⟨h1, h2, h3⟩ := compose_two o a b hb hc
      rcases perm_two a.id b.id combo hcombo (by simpa using hperm) with
        ⟨hcb, hid⟩ | ⟨hcb, hid⟩ | ⟨hcb, hid⟩
      · exact ⟨(_, Windows.MB_OKCANCEL), by simp [Windows.catalogue], hcb ▸ hp, h1 hid⟩
      · exact ⟨(_, Windows.MB_YESNO), by simp [Windows.catalogue], hcb ▸ hp, h2 hid⟩
      · exact ⟨(_, Windows.MB_RETRYCANCEL), by simp [Windows.catalogue], hcb ▸ hp, h3 hid⟩
    | [a, b, c], hb, hc =>
      rw [supported_three o a b c hb hc] at hsup
      have h1 := (steps_three a b c).mp (by simpa using hsup)
      obtain ⟨_, combo, hcombo, hperm⟩ := h1
      have hp : List.Perm (requestedIds o) combo := by
        simpa [requestedIds, hb, hc] using hperm
      obtain ⟨h1, h2⟩ := compose_three o a b c hb hc
      rcases perm_three a.id b.id c.id combo hcombo (by simpa using hperm) with
        ⟨hcb, hid⟩ | ⟨hcb, hid⟩
      · exact ⟨(_, Windows.MB_YESNOCANCEL), by simp [Windows.catalogue], hcb ▸ hp, h1 hid⟩
      · exact ⟨(_, Windows.MB_ABORTRETRYIGNORE), by simp [Windows.catalogue], hcb ▸ hp,
          h2 hid⟩
    | a :: b :: c :: d :: rest, hb, hc =>
      have h3 : o.button_count > 3 := by rw [hc]; simp
      have h0 : o.button_count ≠ 0 := by omega
      unfold Windows.ButtonsSupportedByMessageBox at hsup
      simp [hb, h0, h3] at hsup

/-- The calls the Windows tiers make when no harness applies: `MessageBoxW` is called
only for a button set of the catalogue, with the composed flags; for any other button
set the call ends not-supported or has called `TaskDialogIndirect`. -/
theorem windows_tiers_trace (w W : World) (o : NmbMessageBoxOptions)
    (r : NmbMessageBoxResult) (R : Option NmbMessageBoxResult) (rc : Nat) (b : Bool)
    (hno : ∀ h, o.user_context = some h → h.magic = NMB_TEST_HARNESS_MAGIC →
      h.struct_size = w.build.sizeof_NmbTestHarness → w.build.testing = false)
    (hsup : Windows.ButtonsSupportedByMessageBox (some o) = .ok b)
    (hrun : Windows.nmb_show_message_box.tiers w o b r = .ok (rc, R, W)) :
    ∃ new, W.trace = w.trace ++ new ∧
      (∀ flags, Call.message_box flags ∈ new →
        b = true ∧ ∃ bf db, Windows.ComposeButtonFlags (some o) = .ok (bf, db) ∧
          flags = Windows.ShowMessageBoxSimple.flags o bf db) ∧
      (b = false → rc = NMB_E_NOT_SUPPORTED ∨ Call.task_dialog ∈ new) := by
  unfold Windows.nmb_show_message_box.tiers at hrun
  simp only [windows_harness_skipped w o r hno, Option.getD_some] at hrun
  simp only [Bool.false_eq_true, if_false] at hrun
  have hsplit : (∃ input, o.input = some input ∧ (input.mode != NMB_INPUT_CHECKBOX) = true) ∨
      (∀ input, o.input = some input → (input.mode != NMB_INPUT_CHECKBOX) = false) := by
    cases hi : o.input with
    | none => exact Or.inr (fun input h => by cases h)
    | some input =>
      cases hm : (input.mode != NMB_INPUT_CHECKBOX) with
      | true => exact Or.inl ⟨input, rfl, hm⟩
      | false => exact Or.inr (fun i2 h => by cases h; exact hm)
  rcases hsplit with ⟨input, hi, hm⟩ | hplain
  · simp only [hi, hm, if_true] at hrun
    simp only [Except.ok.injEq, Prod.mk.injEq] at hrun
    obtain ⟨hrc, _, hW⟩ := hrun
    obtain ⟨new, hnew, hall⟩ := runtime_log_appends w
      (some "Windows: Input mode not supported in simple MessageBox fallback.")
    refine ⟨new, by rw [← hW]; exact hnew, ?_, fun _ => Or.inl hrc.symm⟩
    intro flags hmem
    obtain ⟨_, _, _, h2⟩ := hall _ hmem
    cases h2
  · have hrun2 : (match Windows.RequiresTaskDialog (some o) with
        | .error e => .error e
        | .ok true =>
          match Windows.ShowTaskDialog w o r with
          | .error e => .error e
          | .ok (rc, r1, w4) =>
            if rc = NMB_OK then .ok (rc, some r1, w4)
            else if rc ≠ NMB_E_NOT_SUPPORTED then .ok (rc, some r1, w4)
            else if !b then
              .ok (NMB_E_NOT_SUPPORTED,
                some { r1 with result_code := NMB_E_NOT_SUPPORTED },
                nmb_runtime_log w4 (some
                  "Windows: TaskDialogIndirect unavailable and button configuration requires Task Dialog."))
            else
              match Windows.ShowMessageBoxSimple
                  (nmb_runtime_log w4 (some
                    "Windows: TaskDialogIndirect unavailable, falling back to MessageBox."))
                  o r1 with
              | .error e => .error e
              | .ok (rc1, r2, w5) => .ok (rc1, some r2, w5)
        | .ok false =>
          match Windows.ShowMessageBoxSimple w o r with
          | .error e => .error e
          | .ok (rc, r1, w4) => .ok (rc, some r1, w4)) = Except.ok (rc, R, W) := by
      cases hi : o.input with
      | none => simpa [hi] using hrun
      | some input => simpa [hi, hplain input hi] using hrun
    clear hrun
    rename' hrun2 => hrun
    cases hreq : Windows.RequiresTaskDialog (some o) with
    | error e => simp [hreq] at hrun
    | ok req =>
      cases req with
      | false =>
        have hb : b = true := by
          have := windows_requires_false o hreq
          rw [hsup] at this
          exact Except.ok.inj this
        simp only [hreq] at hrun
        cases hs : Windows.ShowMessageBoxSimple w o r with
        | error e => simp [hs] at hrun
        | ok t =>
          obtain ⟨rc1, R1, W1⟩ := t
          simp only [hs, Except.ok.injEq, Prod.mk.injEq] at hrun
          obtain ⟨_, _, hW⟩ := hrun
          obtain ⟨bf, db, hcomp, htr⟩ := windows_simple_trace _ _ o _ _ _ hs
          refine ⟨_, by rw [← hW]; exact htr, ?_, fun hf => by rw [hb] at hf; cases hf⟩
          intro flags hmem
          simp only [List.mem_singleton, Call.message_box.injEq] at hmem
          exact ⟨hb, bf, db, hcomp, hmem⟩
      | true =>
        simp only [hreq] at hrun
        cases ht : Windows.ShowTaskDialog w o r with
        | error e => simp [ht] at hrun
        | ok t =>
          obtain ⟨rc1, R1, W1⟩ := t
          simp only [ht] at hrun
          obtain ⟨n1, hn1, hnomb, htd⟩ := windows_task_dialog_trace _ _ o _ _ _ ht
          by_cases h1 : rc1 = NMB_OK
          · simp only [h1, if_true, Except.ok.injEq, Prod.mk.injEq] at hrun
            obtain ⟨_, _, hW⟩ := hrun
            refine ⟨n1, by rw [← hW]; exact hn1, fun flags hmem => absurd hmem (hnomb flags),
              fun _ => Or.inr (htd (by rw [h1]; decide))⟩
          · by_cases h2 : rc1 = NMB_E_NOT_SUPPORTED
            · subst h2
              have hne : ¬ (NMB_E_NOT_SUPPORTED = NMB_OK) := by decide
              simp only [hne, if_false, ne_eq, not_true_eq_false] at hrun
              cases b with
              | true =>
                simp only [Bool.not_true, Bool.false_eq_true, if_false] at hrun
                cases hs : Windows.ShowMessageBoxSimple
                    (nmb_runtime_log W1 (some
                      "Windows: TaskDialogIndirect unavailable, falling back to MessageBox."))
                    o R1 with
                | error e => simp [hs] at hrun
                | ok t2 =>
                  obtain ⟨rc2, R2, W2⟩ := t2
                  simp only [hs, Except.ok.injEq, Prod.mk.injEq] at hrun
                  obtain ⟨_, _, hW⟩ := hrun
                  obtain ⟨bf, db, hcomp, htr⟩ := windows_simple_trace _ _ o _ _ _ hs
                  obtain ⟨n2, hn2, hall2⟩ := runtime_log_appends W1
                    (some "Windows: TaskDialogIndirect unavailable, falling back to MessageBox.")
                  refine ⟨n1 ++ n2 ++ [Call.message_box
                      (Windows.ShowMessageBoxSimple.flags o bf db)], ?_, ?_,
                    fun hf => by cases hf⟩
                  · rw [← hW, htr, hn2, hn1]
                    simp only [List.append_assoc]
                  · intro flags hmem
                    simp only [List.mem_append, List.mem_singleton,
                      Call.message_box.injEq] at hmem
                    rcases hmem with (h | h) | h
                    · exact absurd h (hnomb flags)
                    · obtain ⟨_, _, _, h4⟩ := hall2 _ h
                      cases h4
                    · exact ⟨rfl, bf, db, hcomp, h⟩
              | false =>
                simp only [Bool.not_false, if_true, Except.ok.injEq, Prod.mk.injEq] at hrun
                obtain ⟨hrc, _, hW⟩ := hrun
                obtain ⟨n2, hn2, hall2⟩ := runtime_log_appends W1 (some
                  "Windows: TaskDialogIndirect unavailable and button configuration requires Task Dialog.")
                refine ⟨n1 ++ n2, ?_, ?_, fun _ => Or.inl hrc.symm⟩
                · rw [← hW, hn2, hn1]
                  simp only [List.append_assoc]
                · intro flags hmem
                  simp only [List.mem_append] at hmem
                  rcases hmem with h | h
                  · exact absurd h (hnomb flags)
                  · obtain ⟨_, _, _, h4⟩ := hall2 _ h
                    cases h4
            · rw [if_neg h1, if_pos h2] at hrun
              simp only [Except.ok.injEq, Prod.mk.injEq] at hrun
              obtain ⟨_, _, hW⟩ := hrun
              refine ⟨n1, by rw [← hW]; exact hn1,
                fun flags hmem => absurd hmem (hnomb flags), fun _ => Or.inr (htd h2)⟩

/-- The loop of the catalogue check reads only the elements it is asked to visit. -/
theorem supported_loop_take (bs : List NmbButtonOption) (m n : Nat) :
    ∀ (i : Nat) (c : Windows.ButtonCounts), i + n ≤ m →
      Windows.ButtonsSupportedByMessageBox.loop (bs.take m) n i c
        = Windows.ButtonsSupportedByMessageBox.loop bs n i c := by
  induction n with
  | zero => intro i c _; rfl
  | succ k ih =>
    intro i c hle
    have hi : i < m := by omega
    have hget : (bs.take m).get? i = bs.get? i := by
      simp [List.get?_eq_getElem?, List.getElem?_take, hi]
    unfold Windows.ButtonsSupportedByMessageBox.loop
    rw [hget]
    cases bs.get? i with
    | none => rfl
    | some b =>
      simp only []
      cases Windows.ButtonsSupportedByMessageBox.step b c with
      | none => rfl
      | some c1 => exact ih (i + 1) c1 (by omega)

/-- The loop of `ComposeButtonFlags` reads only the elements it is asked to visit. -/
theorem compose_loop_take (bs : List NmbButtonOption) (m n : Nat) :
    ∀ (i d : Nat) (f : Windows.ButtonFlags), i + n ≤ m →
      Windows.ComposeButtonFlags.loop (bs.take m) n i d f
        = Windows.ComposeButtonFlags.loop bs n i d f := by
  induction n with
  | zero => intro i d f _; rfl
  | succ k ih =>
    intro i d f hle
    have hi : i < m := by omega
    have hget : (bs.take m).get? i = bs.get? i := by
      simp [List.get?_eq_getElem?, List.getElem?_take, hi]
    unfold Windows.ComposeButtonFlags.loop
    rw [hget]
    cases bs.get? i with
    | none => rfl
    | some b => exact ih (i + 1) _ _ (by omega)

/-- A button set the catalogue check accepts is, in some order, one of the combinations
of `MessageBoxW`, and `ComposeButtonFlags` composes the flag of that combination; for
every request whose button array holds the elements it declares. -/
theorem windows_supported_exact_prefix (o : NmbMessageBoxOptions)
    (harr : ∀ bs, o.buttons = some bs → o.button_count ≤ bs.length)
    (hsup : Windows.ButtonsSupportedByMessageBox (some o) = .ok true) :
    ∃ entry ∈ Windows.catalogue, List.Perm (requestedIds o) entry.1 ∧
      ∃ d, Windows.ComposeButtonFlags (some o) = .ok (entry.2, d) := by
  cases hb : o.buttons with
  | none =>
    exact windows_supported_exact o (fun bs h => by rw [hb] at h; cases h) hsup
  | some bs =>
    have hlen := harr bs hb
    have h1 : Windows.ButtonsSupportedByMessageBox
        (some { o with buttons := some (bs.take o.button_count) })
        = Windows.ButtonsSupportedByMessageBox (some o) := by
      unfold Windows.ButtonsSupportedByMessageBox
      simp only [hb, supported_loop_take bs o.button_count o.button_count 0 {} (by omega)]
    have h2 : Windows.ComposeButtonFlags
        (some { o with buttons := some (bs.take o.button_count) })
        = Windows.ComposeButtonFlags (some o) := by
      unfold Windows.ComposeButtonFlags
      simp only [hb, compose_loop_take bs o.button_count o.button_count 0 _ {} (by omega)]
    have h3 : requestedIds { o with buttons := some (bs.take o.button_count) }
        = requestedIds o := by
      simp [requestedIds, hb, List.take_take]
    rw [← h2, ← h3]
    apply windows_supported_exact
    · intro bs2 hbs2
      simp only [Option.some.injEq] at hbs2
      rw [← hbs2, List.length_take]
      exact (Nat.min_eq_left hlen).symm
    · rw [h1]; exact hsup

/-- C11: on Windows, for every validated request that no harness answers and whose
button array, when present, holds the `button_count` elements it declares. The catalogue
check returns; when it returns true, the requested ids are, in some order, the ids of one
combination of `MessageBoxW` (none or OK; OK, Cancel; Yes, No; Retry, Cancel; Yes, No,
Cancel; Abort, Retry, Ignore) and `ComposeButtonFlags` returns the flag of exactly that
combination. Whenever the call returns, a `MessageBoxW` call among the calls it made
implies that the catalogue check returned true, and its flag word is the one built from
the composed flag; when the catalogue check returned false the call ended not-supported
or called `TaskDialogIndirect`, and made no `MessageBoxW` call. -/
theorem simple_tier_exact_combination (w : World) (o : NmbMessageBoxOptions)
    (r : NmbMessageBoxResult)
    (hmsg : o.message_utf8.isSome = true)
    (hsize : w.build.kMessageBoxOptionsMinSize ≤ o.struct_size)
    (habi : o.abi_version = NMB_ABI_VERSION)
    (hres : w.build.kMessageBoxResultMinSize ≤ r.struct_size)
    (harr : ∀ bs, o.buttons = some bs → o.button_count ≤ bs.length)
    (hno : ∀ h, o.user_context = some h → h.magic = NMB_TEST_HARNESS_MAGIC →
      h.struct_size = w.build.sizeof_NmbTestHarness → w.build.testing = false) :
    ∃ supported : Bool, Windows.ButtonsSupportedByMessageBox (some o) = .ok supported ∧
      (supported = true →
        ∃ entry ∈ Windows.catalogue, List.Perm (requestedIds o) entry.1 ∧
          ∃ d, Windows.ComposeButtonFlags (some o) = .ok (entry.2, d)) ∧
      (∀ rc R W, Windows.nmb_show_message_box w (some o) (some r) = .ok (rc, R, W) →
        ∃ new, W.trace = w.trace ++ new ∧
          (∀ flags, Call.message_box flags ∈ new →
            supported = true ∧
              ∃ bf db, Windows.ComposeButtonFlags (some o) = .ok (bf, db) ∧
                flags = Windows.ShowMessageBoxSimple.flags o bf db) ∧
          (supported = false →
            (rc = NMB_E_NOT_SUPPORTED ∨ Call.task_dialog ∈ new) ∧
              ∀ flags, Call.message_box flags ∉ new)) := by
  obtain ⟨b, hsup⟩ := windows_supported_ok o harr
  refine ⟨b, hsup, ?_, ?_⟩
  · intro hb
    subst hb
    exact windows_supported_exact_prefix o harr hsup
  · intro rc R W hrun
    rw [windows_show_validated w o r b hmsg hsize habi hres hsup] at hrun
    obtain ⟨new, hnew, hmb, htd⟩ := windows_tiers_trace w W o _ R rc b hno hsup hrun
    refine ⟨new, hnew, hmb, fun hf => ⟨htd hf, fun flags hmem => ?_⟩⟩
    have := (hmb flags hmem).1
    rw [hf] at this
    cases this

theorem simple_tier_exact_combination_witness :
    ∃ entry ∈ Windows.catalogue,
      List.Perm [NMB_BUTTON_ID_CANCEL, NMB_BUTTON_ID_RETRY] entry.1 ∧
        ∃ d, Windows.ComposeButtonFlags
            (some (sampleOptions
              [sampleButton NMB_BUTTON_ID_CANCEL "cancel" 0 1,
               sampleButton NMB_BUTTON_ID_RETRY "RETRY" 1 0] none none))
          = .ok (entry.2, d) := by
  obtain ⟨supported, hsup, hexact, _⟩ :=
    simple_tier_exact_combination World.sample
      (sampleOptions
        [sampleButton NMB_BUTTON_ID_CANCEL "cancel" 0 1,
         sampleButton NMB_BUTTON_ID_RETRY "RETRY" 1 0] none none)
      sampleResult (by decide) (by decide) (by decide) (by decide)
      (by intro bs hbs; cases hbs; decide) (by intro h hctx; cases hctx)
  have htrue : Windows.ButtonsSupportedByMessageBox
      (some (sampleOptions
        [sampleButton NMB_BUTTON_ID_CANCEL "cancel" 0 1,
         sampleButton NMB_BUTTON_ID_RETRY "RETRY" 1 0] none none)) = .ok true := rfl
  rw [htrue] at hsup
  exact hexact (Except.ok.inj hsup).symm

/-! ## Theorems: features that require the task dialog -/

/-- For secondary content, verification text, the suppress checkbox, a checkbox input, a
timeout or a disabled escape-cancel, `RequiresTaskDialog` returns true. -/
theorem windows_rich_requires_task_dialog (o : NmbMessageBoxOptions)
    (harr : ∀ bs, o.buttons = some bs → o.button_count ≤ bs.length)
    (hrich : o.secondary.isSome = true ∨ o.verification_text_utf8.isSome = true ∨
      o.show_suppress_checkbox = NMB_TRUE ∨
      (∃ input, o.input = some input ∧ input.mode = NMB_INPUT_CHECKBOX) ∨
      o.timeout_milliseconds > 0 ∨ o.allow_cancel_via_escape = NMB_FALSE) :
    Windows.RequiresTaskDialog (some o) = .ok true := by
  obtain ⟨b, hsup⟩ := windows_supported_ok o harr
  unfold Windows.RequiresTaskDialog
  simp only [hsup]
  cases b with
  | false => rfl
  | true =>
    by_cases h3 : o.button_count > 3
    · simp [h3]
    · rcases hrich with h | h | h | ⟨input, hi, hm⟩ | h | h
      · simp [h3, h]
      · simp [h3, h]
      · simp [h3, h]
      · by_cases hc : (o.verification_text_utf8.isSome || o.secondary.isSome
            || o.allow_cancel_via_escape == NMB_FALSE || o.show_suppress_checkbox == NMB_TRUE
            || decide (o.timeout_milliseconds > 0) || o.icon == NMB_ICON_SHIELD) = true
        · simp only [Bool.not_true, Bool.false_eq_true, if_false, h3, hc, if_true]
        · simp only [Bool.not_true, Bool.false_eq_true, if_false, h3, hc, hi, hm, if_true]
      · simp [h3, h]
      · simp [h3, h]

/-- A task dialog tier whose facility loads does not return not-supported. -/
theorem windows_task_dialog_loaded (w W : World) (o : NmbMessageBoxOptions)
    (r R : NmbMessageBoxResult) (rc : Nat)
    (hload : (Windows.LoadTaskDialog w).1 = true)
    (hrun : Windows.ShowTaskDialog w o r = .ok (rc, R, W)) :
    rc ≠ NMB_E_NOT_SUPPORTED := by
  unfold Windows.ShowTaskDialog at hrun
  simp only [hload, Bool.not_true, Bool.false_eq_true, if_false] at hrun
  split at hrun
  · cases hrun
  · split_ifs at hrun
    all_goals
      simp only [Except.ok.injEq, Prod.mk.injEq] at hrun
      obtain ⟨hrc, _, _⟩ := hrun
      rw [← hrc]
      decide

/-- While the task dialog facility loads, a request that requires the task dialog is
never shown by `MessageBoxW`. -/
theorem windows_rich_never_simple (w W : World) (o : NmbMessageBoxOptions)
    (r : NmbMessageBoxResult) (R : Option NmbMessageBoxResult) (rc : Nat)
    (hmsg : o.message_utf8.isSome = true)
    (hsize : w.build.kMessageBoxOptionsMinSize ≤ o.struct_size)
    (habi : o.abi_version = NMB_ABI_VERSION)
    (hres : w.build.kMessageBoxResultMinSize ≤ r.struct_size)
    (hno : ∀ h, o.user_context = some h → h.magic = NMB_TEST_HARNESS_MAGIC →
      h.struct_size = w.build.sizeof_NmbTestHarness → w.build.testing = false)
    (hreq : Windows.RequiresTaskDialog (some o) = .ok true)
    (hload : (Windows.LoadTaskDialog w).1 = true)
    (hrun : Windows.nmb_show_message_box w (some o) (some r) = .ok (rc, R, W)) :
    ∃ new, W.trace = w.trace ++ new ∧ ∀ flags, Call.message_box flags ∉ new := by
  rw [windows_show_validated_any w o r hmsg hsize habi hres] at hrun
  cases hsup : Windows.ButtonsSupportedByMessageBox (some o) with
  | error e => simp [hsup] at hrun
  | ok b =>
    simp only [hsup] at hrun
    unfold Windows.nmb_show_message_box.tiers at hrun
    simp only [windows_harness_skipped w o (baseline w.build) hno, Option.getD_some] at hrun
    simp only [Bool.false_eq_true, if_false, hreq] at hrun
    split_ifs at hrun with hin
    · simp only [Except.ok.injEq, Prod.mk.injEq] at hrun
      obtain ⟨_, _, hW⟩ := hrun
      obtain ⟨new, hnew, hall⟩ := runtime_log_appends w
        (some "Windows: Input mode not supported in simple MessageBox fallback.")
      refine ⟨new, by rw [← hW]; exact hnew, ?_⟩
      intro flags hmem
      obtain ⟨_, _, _, h2⟩ := hall _ hmem
      cases h2
    all_goals
      cases ht : Windows.ShowTaskDialog w o (baseline w.build) with
      | error e => simp [ht] at hrun
      | ok t =>
        obtain ⟨rc1, R1, W1⟩ := t
        simp only [ht] at hrun
        obtain ⟨n1, hn1, hnomb, _⟩ := windows_task_dialog_trace _ _ o _ _ _ ht
        have hne := windows_task_dialog_loaded _ _ o _ _ _ hload ht
        by_cases h1 : rc1 = NMB_OK
        · rw [if_pos h1] at hrun
          simp only [Except.ok.injEq, Prod.mk.injEq] at hrun
          obtain ⟨_, _, hW⟩ := hrun
          exact ⟨n1, by rw [← hW]; exact hn1, hnomb⟩
        · rw [if_neg h1, if_pos hne] at hrun
          simp only [Except.ok.injEq, Prod.mk.injEq] at hrun
          obtain ⟨_, _, hW⟩ := hrun
          exact ⟨n1, by rw [← hW]; exact hn1, hnomb⟩

/-- C12, the failing input evaluated: a valid request with the single button OK that
requires explicit acknowledgment and asks for nothing else. `RequiresTaskDialog` returns
false, and with the task dialog facility available (`comctl32` exports
`TaskDialogIndirect`) the call makes exactly one call, `MessageBoxW` with the flag word
`MB_OK | MB_DEFBUTTON1`: the task dialog is neither loaded nor shown. -/
theorem explicit_ack_shown_by_simple_tier :
    World.sample.task_dialog_exported = true ∧
      ((Windows.RequiresTaskDialog
          (some { sampleOptions [sampleButton NMB_BUTTON_ID_OK "OK" 1 0] none none with
            requires_explicit_ack := NMB_TRUE })).toOption = some false) ∧
      finalTrace (Windows.nmb_show_message_box World.sample
          (some { sampleOptions [sampleButton NMB_BUTTON_ID_OK "OK" 1 0] none none with
            requires_explicit_ack := NMB_TRUE })
          (some sampleResult))
        = some [Call.message_box (Windows.MB_OK ||| Windows.MB_DEFBUTTON1)] := by
  decide

/-! ## Theorems: the Linux call when no backend is available -/

/-- The zenity tier declines a request with an input spec or with more than one button
of a non-null array, and it declines when zenity is not found, cannot be spawned, or
ends without an exit status. -/
theorem linux_zenity_cannot_take (w : World) (o : NmbMessageBoxOptions)
    (r : NmbMessageBoxResult)
    (hcannot : o.input.isSome = true ∨ (o.buttons.isSome = true ∧ o.button_count > 1) ∨
      w.zenity_found = false ∨ w.spawn_ok = false ∨ w.wifexited = false) :
    (Linux.RunZenityFallback w (some o) r).1 = false := by
  unfold Linux.RunZenityFallback
  simp only []
  by_cases h1 : (o.input.isSome || (o.buttons.isSome && decide (o.button_count > 1))) = true
  · simp only [h1, if_true]
  · have hin : o.input.isSome = false := by
      cases hx : o.input.isSome with
      | true => simp [hx] at h1
      | false => rfl
    have hbt : ¬ (o.buttons.isSome = true ∧ o.button_count > 1) := by
      intro hb
      simp [hb.1, hb.2] at h1
    simp only [h1, if_false, World.record]
    rcases hcannot with h | h | h | h | h
    · rw [hin] at h; cases h
    · exact absurd h hbt
    · simp [h]
    · by_cases hz : w.zenity_found = true
      · simp only [hz, h, Bool.not_true, Bool.false_eq_true, if_false, Bool.not_false, if_true]
        split <;> rfl
      · simp [hz]
    · by_cases hz : w.zenity_found = true
      · by_cases hs : w.spawn_ok = true
        · simp [hz, hs, h]
        · simp only [hz, hs, Bool.not_true, Bool.false_eq_true, if_false, if_true]
          have hs2 : w.spawn_ok = false := by
            cases hx : w.spawn_ok with
            | true => exact absurd hx hs
            | false => rfl
          simp only [hs2, Bool.not_false, if_true]
          split <;> rfl
      · simp [hz]

/-- Logging changes nothing but the trace. -/
theorem runtime_log_fields (w : World) (m : Option String) :
    (nmb_runtime_log w m).zenity_found = w.zenity_found ∧
      (nmb_runtime_log w m).spawn_ok = w.spawn_ok ∧
      (nmb_runtime_log w m).wifexited = w.wifexited ∧
      (nmb_runtime_log w m).gtk = w.gtk ∧
      (nmb_runtime_log w m).android = w.android ∧
      (nmb_runtime_log w m).s_log_callback = w.s_log_callback ∧
      (nmb_runtime_log w m).s_log_user_data = w.s_log_user_data := by
  unfold nmb_runtime_log
  cases m with
  | none => exact ⟨rfl, rfl, rfl, rfl, rfl, rfl, rfl⟩
  | some t =>
    by_cases hc : (w.s_log_callback != 0) = true <;> simp [hc, World.record]

/-- The GTK bootstrap leaves the zenity oracles, the dialog session and the log sink as
they are. -/
theorem linux_gtk_init_fields (w : World) :
    (Linux.EnsureGtkInitialized w).2.zenity_found = w.zenity_found ∧
      (Linux.EnsureGtkInitialized w).2.spawn_ok = w.spawn_ok ∧
      (Linux.EnsureGtkInitialized w).2.wifexited = w.wifexited ∧
      (Linux.EnsureGtkInitialized w).2.gtk = w.gtk ∧
      (Linux.EnsureGtkInitialized w).2.s_log_callback = w.s_log_callback ∧
      (Linux.EnsureGtkInitialized w).2.s_log_user_data = w.s_log_user_data := by
  unfold Linux.EnsureGtkInitialized
  by_cases hi : w.gtk_initialized = true <;> simp [hi, World.record]

/-- C13 (as the code has it): on Linux, for a validated request that no harness answers,
when GTK is unavailable and the zenity tier cannot take the request (an input spec is
present, the button array is non-null with more than one button, zenity is not found, it
cannot be spawned, or it ends without an exit status), the call returns
`NMB_E_PLATFORM_FAILURE` and the result struct is the baseline. -/
theorem no_backend_is_platform_failure (w : World) (o : NmbMessageBoxOptions)
    (r : NmbMessageBoxResult)
    (hmsg : o.message_utf8.isSome = true)
    (hsize : w.build.kMessageBoxOptionsMinSize ≤ o.struct_size)
    (habi : o.abi_version = NMB_ABI_VERSION)
    (hres : w.build.kMessageBoxResultMinSize ≤ r.struct_size)
    (hno : ∀ h, o.user_context = some h → h.magic = NMB_TEST_HARNESS_MAGIC →
      h.struct_size = w.build.sizeof_NmbTestHarness → w.build.testing = false)
    (hgtk : (Linux.EnsureGtkInitialized w).1 = false)
    (hcannot : o.input.isSome = true ∨ (o.buttons.isSome = true ∧ o.button_count > 1) ∨
      w.zenity_found = false ∨ w.spawn_ok = false ∨ w.wifexited = false) :
    ∃ W, Linux.nmb_show_message_box w (some o) (some r)
        = .ok (NMB_E_PLATFORM_FAILURE, some (baseline w.build), W) ∧
      NMB_E_PLATFORM_FAILURE ≠ NMB_E_NOT_SUPPORTED := by
  rw [linux_show_validated w o r hmsg hsize habi hres, linux_tiers_plain w o _ hno]
  have hdecl : (Linux.RunZenityFallback
      (nmb_runtime_log (Linux.EnsureGtkInitialized w).2
        (some "Linux: GTK unavailable, attempting zenity fallback."))
      (some o) (baseline w.build)).1 = false := by
    apply linux_zenity_cannot_take
    obtain ⟨hz, hs, hx, _⟩ := runtime_log_fields (Linux.EnsureGtkInitialized w).2
      (some "Linux: GTK unavailable, attempting zenity fallback.")
    obtain ⟨hz2, hs2, hx2, _⟩ := linux_gtk_init_fields w
    rw [hz, hs, hx, hz2, hs2, hx2]
    exact hcannot
  have hkeep := linux_zenity_declined _ o _ hdecl
  rw [hgtk, hdecl, hkeep]
  exact ⟨_, rfl, by decide⟩

theorem no_backend_is_platform_failure_witness :
    ∃ W, Linux.nmb_show_message_box { World.sample with gtk_init_result := false }
        (some (sampleOptions
          [sampleButton NMB_BUTTON_ID_YES "Yes" 1 0, sampleButton NMB_BUTTON_ID_NO "No" 0 1]
          none none))
        (some sampleResult)
      = .ok (NMB_E_PLATFORM_FAILURE, some (baseline Build.lp64), W) ∧
      NMB_E_PLATFORM_FAILURE ≠ NMB_E_NOT_SUPPORTED :=
  no_backend_is_platform_failure { World.sample with gtk_init_result := false }
    (sampleOptions
      [sampleButton NMB_BUTTON_ID_YES "Yes" 1 0, sampleButton NMB_BUTTON_ID_NO "No" 0 1]
      none none)
    sampleResult (by decide) (by decide) (by decide) (by decide)
    (by intro h hctx; cases hctx) (by decide) (Or.inr (Or.inl (by decide)))

/-- C13 fails as stated: GTK does not come up and zenity is not installed. A valid
request with the single button OK and no harness returns `NMB_E_PLATFORM_FAILURE` (4),
not `NMB_E_NOT_SUPPORTED` (3); the probes are in the trace. -/
theorem no_backend_not_reported_unsupported :
    observable (Linux.nmb_show_message_box { World.sample with gtk_init_result := false }
        (some (sampleOptions [sampleButton NMB_BUTTON_ID_OK "OK" 1 0] none none))
        (some sampleResult))
      = some (4, some sampleResult) ∧
    finalTrace (Linux.nmb_show_message_box { World.sample with gtk_init_result := false }
        (some (sampleOptions [sampleButton NMB_BUTTON_ID_OK "OK" 1 0] none none))
        (some sampleResult))
      = some [Call.gtk_init_check, Call.find_zenity] ∧
    NMB_E_NOT_SUPPORTED = 3 := by
  decide

/-! ## Theorems: the configuration surface -/

/-- On Linux, Windows and the web backend, initialization options whose size stamp is
below the minimum or whose version stamp differs from `NMB_ABI_VERSION` are rejected with
`NMB_E_INVALID_ARGUMENT`, and the log sink stays as it was. -/
theorem initialize_rejects_mismatch (w : World) (o : NmbInitializeOptions) :
    ((o.struct_size < w.build.kInitializeOptionsMinSize ∨ o.abi_version ≠ NMB_ABI_VERSION) →
      ((Linux.nmb_initialize w (some o)).1 = NMB_E_INVALID_ARGUMENT ∧
        (Linux.nmb_initialize w (some o)).2.sink = w.sink) ∧
      ((Windows.nmb_initialize w (some o)).1 = NMB_E_INVALID_ARGUMENT ∧
        (Windows.nmb_initialize w (some o)).2.sink = w.sink)) ∧
    ((o.struct_size < w.build.sizeof_NmbInitializeOptions ∨ o.abi_version ≠ NMB_ABI_VERSION) →
      Web.nmb_initialize w (some o) = (NMB_E_INVALID_ARGUMENT, w)) := by
  have hsink : ∀ m, (nmb_runtime_log w m).sink = w.sink := by
    intro m
    obtain ⟨_, _, _, _, _, h1, h2⟩ := runtime_log_fields w m
    simp [World.sink, h1, h2]
  have hne : (NMB_E_INVALID_ARGUMENT != NMB_OK) = true := by decide
  refine ⟨fun hbad => ⟨?_, ?_⟩, fun hbad => ?_⟩
  · have hrun : ∃ m, Linux.nmb_initialize w (some o)
        = (NMB_E_INVALID_ARGUMENT, nmb_runtime_log w m) := by
      unfold Linux.nmb_initialize Linux.ValidateInitializeOptions Linux.LogInvalid
      by_cases hs : o.struct_size < w.build.kInitializeOptionsMinSize
      · exact ⟨_, by simp only [hs, if_true, hne]; rfl⟩
      · have ha : o.abi_version ≠ NMB_ABI_VERSION := hbad.resolve_left hs
        have ha2 : (o.abi_version != NMB_ABI_VERSION) = true := by simpa using ha
        exact ⟨_, by simp only [hs, if_false, ha2, if_true, hne]; rfl⟩
    obtain ⟨m, hm⟩ := hrun
    rw [hm]
    exact ⟨rfl, hsink m⟩
  · have hrun : ∃ m, Windows.nmb_initialize w (some o)
        = (NMB_E_INVALID_ARGUMENT, nmb_runtime_log w m) := by
      unfold Windows.nmb_initialize Windows.ValidateInitializeOptions Windows.LogInvalid
      by_cases hs : o.struct_size < w.build.kInitializeOptionsMinSize
      · exact ⟨_, by simp only [hs, if_true, hne]; rfl⟩
      · have ha : o.abi_version ≠ NMB_ABI_VERSION := hbad.resolve_left hs
        have ha2 : (o.abi_version != NMB_ABI_VERSION) = true := by simpa using ha
        exact ⟨_, by simp only [hs, if_false, ha2, if_true, hne]; rfl⟩
    obtain ⟨m, hm⟩ := hrun
    rw [hm]
    exact ⟨rfl, hsink m⟩
  · unfold Web.nmb_initialize
    by_cases hs : o.struct_size < w.build.sizeof_NmbInitializeOptions
    · simp only [hs, if_true]
    · have ha : o.abi_version ≠ NMB_ABI_VERSION := hbad.resolve_left hs
      have ha2 : (o.abi_version != NMB_ABI_VERSION) = true := by simpa using ha
      simp only [hs, if_false, ha2, if_true]

/-- C14, the failing input evaluated: on Android, with an empty log sink, initialization
options whose `abi_version` is 0 instead of `NMB_ABI_VERSION`, and options whose
`struct_size` is 8 instead of at least 48, are both accepted: `nmb_initialize` returns
`NMB_OK` and installs the callback and user pointer named by the options. The Linux,
Windows and web backends reject the same options with `NMB_E_INVALID_ARGUMENT`. -/
theorem android_initialize_accepts_mismatch :
    World.sample.sink = (0, 0) ∧
      (Android.nmb_initialize World.sample (some (sampleInitOptions 48 0 77 5))).1 = NMB_OK ∧
      (Android.nmb_initialize World.sample (some (sampleInitOptions 48 0 77 5))).2.sink
        = (77, 5) ∧
      (Android.nmb_initialize World.sample
        (some (sampleInitOptions 8 NMB_ABI_VERSION 77 5))).1 = NMB_OK ∧
      (Android.nmb_initialize World.sample
        (some (sampleInitOptions 8 NMB_ABI_VERSION 77 5))).2.sink = (77, 5) ∧
      (Linux.nmb_initialize World.sample (some (sampleInitOptions 48 0 77 5))).1
        = NMB_E_INVALID_ARGUMENT ∧
      (Windows.nmb_initialize World.sample
        (some (sampleInitOptions 8 NMB_ABI_VERSION 77 5))).1 = NMB_E_INVALID_ARGUMENT ∧
      (Web.nmb_initialize { World.sample with build := Build.wasm32 }
        (some (sampleInitOptions 28 0 77 5))).1 = NMB_E_INVALID_ARGUMENT := by
  decide

/-- A call that succeeds leaves in the sink the pair it installs. -/
theorem call_installs (b : Backend) (w : World) (c : ApiCall)
    (hok : (match (b.call w c).1 with
      | some rc => rc == NMB_OK
      | none => true) = true) :
    (b.call w c).2.sink = c.installed b := by
  cases c with
  | set_log cb ud => cases b <;> rfl
  | shutdown => cases b <;> rfl
  | init options =>
    cases b with
    | android => cases options <;> rfl
    | windows =>
      cases options with
      | none => rfl
      | some o =>
        simp only [Backend.call] at hok ⊢
        unfold Windows.nmb_initialize Windows.ValidateInitializeOptions Windows.LogInvalid
          at hok ⊢
        by_cases hs : o.struct_size < w.build.kInitializeOptionsMinSize
        · simp [hs, NMB_E_INVALID_ARGUMENT, NMB_OK] at hok
        · by_cases ha : (o.abi_version != NMB_ABI_VERSION) = true
          · simp [hs, ha, NMB_E_INVALID_ARGUMENT, NMB_OK] at hok
          · simp [hs, ha, NMB_OK, World.sink, nmb_runtime_set_log_callback, ApiCall.installed,
              ApiCall.named]
    | linux =>
      have hgtk : ∀ w1 : World, (Linux.EnsureGtkInitialized w1).2.sink = w1.sink := by
        intro w1
        obtain ⟨_, _, _, _, h1, h2⟩ := linux_gtk_init_fields w1
        simp [World.sink, h1, h2]
      cases options with
      | none =>
        simp only [Backend.call] at hok ⊢
        unfold Linux.nmb_initialize Linux.ValidateInitializeOptions at hok ⊢
        by_cases hav : (Linux.EnsureGtkInitialized (nmb_runtime_set_log_callback w 0 0)).1 = true
        · simp [hav, NMB_OK, hgtk]
          rfl
        · simp [hav, NMB_OK, NMB_E_PLATFORM_FAILURE] at hok
      | some o =>
        simp only [Backend.call] at hok ⊢
        unfold Linux.nmb_initialize Linux.ValidateInitializeOptions Linux.LogInvalid at hok ⊢
        by_cases hs : o.struct_size < w.build.kInitializeOptionsMinSize
        · simp [hs, NMB_E_INVALID_ARGUMENT, NMB_OK] at hok
        · by_cases ha : (o.abi_version != NMB_ABI_VERSION) = true
          · simp [hs, ha, NMB_E_INVALID_ARGUMENT, NMB_OK] at hok
          · by_cases hav : (Linux.EnsureGtkInitialized
                (nmb_runtime_set_log_callback w o.log_callback o.log_user_data)).1 = true
            · simp [hs, ha, hav, NMB_OK, hgtk]
              rfl
            · simp [hs, ha, hav, NMB_OK, NMB_E_PLATFORM_FAILURE] at hok
    | web =>
      cases options with
      | none => rfl
      | some o =>
        simp only [Backend.call] at hok ⊢
        unfold Web.nmb_initialize Web.ApplyLogCallback at hok ⊢
        by_cases hs : o.struct_size < w.build.sizeof_NmbInitializeOptions
        · simp [hs, NMB_E_INVALID_ARGUMENT, NMB_OK] at hok
        · by_cases ha : (o.abi_version != NMB_ABI_VERSION) = true
          · simp [hs, ha, NMB_E_INVALID_ARGUMENT, NMB_OK] at hok
          · by_cases hcb : o.log_callback = 0
            · cases hn : o.runtime_name_utf8 <;>
                simp [hs, ha, hcb, hn, World.sink, nmb_runtime_reset_log, World.record,
                  ApiCall.installed]
            · cases hn : o.runtime_name_utf8 <;>
                simp [hs, ha, hcb, hn, World.sink, nmb_runtime_set_log_callback, World.record,
                  ApiCall.installed, ApiCall.named]

/-- After a non-empty sequence of successful calls the sink holds what the last call
installed. -/
theorem run_installs_last (b : Backend) (rest : List ApiCall) :
    ∀ (w : World) (c : ApiCall), b.succeeds w (c :: rest) = true →
      (b.run w (c :: rest)).sink = ((c :: rest).getLast (List.cons_ne_nil c rest)).installed b := by
  induction rest with
  | nil =>
    intro w c hok
    simp only [Backend.succeeds, Bool.and_true] at hok
    exact call_installs b w c hok
  | cons d rest ih =>
    intro w c hok
    simp only [Backend.succeeds, Bool.and_eq_true] at hok
    have h2 : b.succeeds (b.call w c).2 (d :: rest) = true := by
      simp only [Backend.succeeds, Bool.and_eq_true]
      exact hok.2
    have := ih (b.call w c).2 d h2
    simpa [Backend.run, List.getLast_cons] using this

/-- C15 (as the code has it): after every sequence of `nmb_initialize`,
`nmb_set_log_callback` and `nmb_shutdown` calls in which every initialize returned ok,
the log sink holds what the most recent call installed (the initial sink when no call was
made): on Linux, Windows and Android exactly the pair the call names, empty for a
shutdown or an initialize without options (last write wins); on the web backend the same,
except that an initialize whose callback is null installs the empty sink. After a
shutdown the sink is empty. `nmb_runtime_log` appends exactly one invocation of the
current callback, with the current user pointer and the message, when the callback and
the message are non-null, and changes nothing otherwise; so after a shutdown it delivers
nothing. -/
theorem sink_holds_last_write (b : Backend) (w : World) (calls : List ApiCall)
    (hok : b.succeeds w calls = true) :
    (b.run w calls).sink
        = (match calls.getLast? with
          | some c => c.installed b
          | none => w.sink) ∧
      (b ≠ Backend.web → (b.run w calls).sink = lastWrite w.sink calls) ∧
      (b.call (b.run w calls) ApiCall.shutdown).2.sink = (0, 0) ∧
      (∀ (W : World) (text : String), W.s_log_callback ≠ 0 →
        nmb_runtime_log W (some text)
          = W.record (Call.log W.s_log_callback W.s_log_user_data text)) ∧
      (∀ (W : World) (m : Option String), (W.s_log_callback = 0 ∨ m = none) →
        nmb_runtime_log W m = W) ∧
      (∀ m, nmb_runtime_log (b.call (b.run w calls) ApiCall.shutdown).2 m
        = (b.call (b.run w calls) ApiCall.shutdown).2) := by
  have hlog0 : ∀ (W : World) (m : Option String), (W.s_log_callback = 0 ∨ m = none) →
      nmb_runtime_log W m = W := by
    intro W m h
    unfold nmb_runtime_log
    cases m with
    | none => rfl
    | some t =>
      rcases h with h | h
      · simp [h]
      · cases h
  have hshut : ∀ W : World, (b.call W ApiCall.shutdown).2.sink = (0, 0) := by
    intro W
    cases b <;> rfl
  have hmain : (b.run w calls).sink
      = (match calls.getLast? with
        | some c => c.installed b
        | none => w.sink) := by
    cases calls with
    | nil => rfl
    | cons c rest =>
      rw [run_installs_last b rest w c hok, List.getLast?_eq_getLast _ (List.cons_ne_nil c rest)]
  refine ⟨hmain, ?_, hshut _, ?_, hlog0, ?_⟩
  · intro hb
    rw [hmain]
    unfold lastWrite
    cases calls.getLast? with
    | none => rfl
    | some c =>
      cases b with
      | web => exact absurd rfl hb
      | linux => cases c <;> rfl
      | windows => cases c <;> rfl
      | android => cases c <;> rfl
  · intro W text hcb
    unfold nmb_runtime_log
    simp [hcb]
  · intro m
    apply hlog0
    left
    have := hshut (b.run w calls)
    simp only [World.sink, Prod.mk.injEq] at this
    exact this.1

theorem sink_holds_last_write_witness :
    Backend.linux.succeeds World.sample
        [ApiCall.init (some (sampleInitOptions 48 NMB_ABI_VERSION 77 5)),
          ApiCall.set_log 88 6, ApiCall.shutdown, ApiCall.set_log 99 7] = true ∧
      (Backend.linux.run World.sample
        [ApiCall.init (some (sampleInitOptions 48 NMB_ABI_VERSION 77 5)),
          ApiCall.set_log 88 6, ApiCall.shutdown, ApiCall.set_log 99 7]).sink = (99, 7) :=
  ⟨by decide,
    (sink_holds_last_write Backend.linux World.sample
      [ApiCall.init (some (sampleInitOptions 48 NMB_ABI_VERSION 77 5)),
        ApiCall.set_log 88 6, ApiCall.shutdown, ApiCall.set_log 99 7] (by decide)).1⟩

/-- C15 fails as stated: on the web backend a successful `nmb_initialize` whose options
name the pair (null callback, user pointer 5) leaves the sink (null, null), not the pair
named by this most recent call. -/
theorem web_initialize_drops_user_pointer :
    Backend.web.succeeds { World.sample with build := Build.wasm32 }
        [ApiCall.init (some (sampleInitOptions 28 NMB_ABI_VERSION 0 5))] = true ∧
      (Backend.web.run { World.sample with build := Build.wasm32 }
        [ApiCall.init (some (sampleInitOptions 28 NMB_ABI_VERSION 0 5))]).sink = (0, 0) ∧
      lastWrite ({ World.sample with build := Build.wasm32 } : World).sink
        [ApiCall.init (some (sampleInitOptions 28 NMB_ABI_VERSION 0 5))] = (0, 5) := by
  decide

/-! ## Theorems: the harness is consulted before any native facility -/

/-- An allocation appends at most one call to the trace, an allocation call. -/
theorem allocate_appends (w : World) (a : Option NmbAllocator) (n k : Nat) :
    ∃ new, (nmb_allocate w a n k).2.trace = w.trace ++ new ∧
      ∀ c ∈ new, c.isNative = false ∧ c.isLogLine = false := by
  have hd : ∃ new, (nmb_default_alloc w n).2.trace = w.trace ++ new ∧
      ∀ c ∈ new, c.isNative = false ∧ c.isLogLine = false := by
    unfold nmb_default_alloc
    by_cases hn : n = 0
    · exact ⟨[], by simp [hn], by simp⟩
    · refine ⟨[Call.heap_alloc n], by simp [hn, World.record], ?_⟩
      intro c hc
      simp only [List.mem_singleton] at hc
      subst hc
      exact ⟨rfl, rfl⟩
  unfold nmb_allocate
  cases a with
  | none => exact hd
  | some al =>
    cases hf : al.allocate with
    | none => simpa [hf] using hd
    | some f =>
      refine ⟨[Call.allocate al.user_data n k], by simp [hf, World.record], ?_⟩
      intro c hc
      simp only [List.mem_singleton] at hc
      subst hc
      exact ⟨rfl, rfl⟩

/-- The degradation report of the Android backend appends log lines only. -/
theorem android_unsupported_appends (w : World) (o : NmbMessageBoxOptions) :
    ∃ logs, (Android.LogUnsupportedFeatures w (some o)).trace = w.trace ++ logs ∧
      ∀ c ∈ logs, c.isLogLine = true :=
  android_unsupported_induct
    (fun w1 => ∃ logs, w1.trace = w.trace ++ logs ∧ ∀ c ∈ logs, c.isLogLine = true)
    w o ⟨[], by simp, by simp⟩
    (fun w1 m ⟨logs, hl, hall⟩ => by
      unfold Android.AndroidLog
      cases m with
      | none =>
        exact ⟨logs, by simpa [nmb_runtime_log] using hl, hall⟩
      | some t =>
        obtain ⟨n2, hn2, hall2⟩ := runtime_log_appends (w1.record (Call.android_log t)) (some t)
        refine ⟨logs ++ [Call.android_log t] ++ n2, ?_, ?_⟩
        · show (nmb_runtime_log (w1.record (Call.android_log t)) (some t)).trace = _
          rw [hn2]
          simp only [World.record, hl, List.append_assoc]
        · intro c hc
          simp only [List.mem_append, List.mem_singleton] at hc
          rcases hc with (h | h) | h
          · exact hall c h
          · subst h; rfl
          · obtain ⟨_, _, _, h3⟩ := hall2 c h
            subst h3; rfl)

/-- The world a harness leaves: the world it found, or that world after the one
allocation for the copy of the scripted text. -/
theorem linux_harness_world (w : World) (o : NmbMessageBoxOptions) (r : NmbMessageBoxResult)
    (h : NmbTestHarness) (hctx : o.user_context = some h)
    (hmagic : h.magic = NMB_TEST_HARNESS_MAGIC)
    (hhsize : h.struct_size = w.build.sizeof_NmbTestHarness) :
    ∃ R W, Linux.ApplyTestHarness w (some o) (some r) = (true, some R, W) ∧
      (W = w ∨ ∃ a n, W = (nmb_allocate w (some a) n 1).2) := by
  have happ := linux_harness_applied w o r h hctx hmagic hhsize
  cases hin : h.input_value_utf8 with
  | none => rw [hin] at happ; exact ⟨_, _, happ, Or.inl rfl⟩
  | some text =>
    cases hal : o.allocator with
    | none => rw [hin, hal] at happ; exact ⟨_, _, happ, Or.inl rfl⟩
    | some a =>
      rw [hin, hal] at happ
      by_cases hb : (nmb_allocate w (some a) (strlen text + 1) 1).1 = 0
      · simp only [hb, if_true] at happ
        exact ⟨_, _, happ, Or.inr ⟨a, _, rfl⟩⟩
      · simp only [hb, if_false] at happ
        exact ⟨_, _, happ, Or.inr ⟨a, _, rfl⟩⟩

/-- The world the Windows harness leaves. -/
theorem windows_harness_world (w : World) (o : NmbMessageBoxOptions)
    (r : NmbMessageBoxResult)
    (h : NmbTestHarness) (hctx : o.user_context = some h)
    (hmagic : h.magic = NMB_TEST_HARNESS_MAGIC)
    (hhsize : h.struct_size = w.build.sizeof_NmbTestHarness) :
    ∃ R W, Windows.ApplyTestHarness w (some o) (some r) = (true, some R, W) ∧
      (W = w ∨ ∃ a n, W = (nmb_allocate w (some a) n 1).2) := by
  have happ := windows_harness_applied w o r h hctx hmagic hhsize
  cases hin : h.input_value_utf8 with
  | none => rw [hin] at happ; exact ⟨_, _, happ, Or.inl rfl⟩
  | some text =>
    cases hal : o.allocator with
    | none => rw [hin, hal] at happ; exact ⟨_, _, happ, Or.inl rfl⟩
    | some a =>
      rw [hin, hal] at happ
      by_cases hb : (nmb_allocate w (some a) (strlen text + 1) 1).1 = 0
      · simp only [hb, if_true] at happ
        exact ⟨_, _, happ, Or.inr ⟨a, _, rfl⟩⟩
      · simp only [hb, if_false] at happ
        exact ⟨_, _, happ, Or.inr ⟨a, _, rfl⟩⟩

/-- The world the Android harness leaves. -/
theorem android_harness_world (w : World) (o : NmbMessageBoxOptions)
    (r : NmbMessageBoxResult)
    (h : NmbTestHarness) (hctx : o.user_context = some h)
    (hmagic : h.magic = NMB_TEST_HARNESS_MAGIC)
    (hhsize : h.struct_size = w.build.sizeof_NmbTestHarness) :
    ∃ R W, Android.ApplyTestHarness w (some o) (some r) = (true, some R, W) ∧
      (W = w ∨ ∃ a n, W = (nmb_allocate w (some a) n 1).2) := by
  have happ := android_harness_applied w o r h hctx hmagic hhsize
  cases hin : h.input_value_utf8 with
  | none => rw [hin] at happ; exact ⟨_, _, happ, Or.inl rfl⟩
  | some text =>
    cases hal : o.allocator with
    | none => rw [hin, hal] at happ; exact ⟨_, _, happ, Or.inl rfl⟩
    | some a =>
      rw [hin, hal] at happ
      by_cases hok : h.result_code = NMB_OK
      · by_cases hb : (nmb_allocate w (some a) (strlen text + 1) 1).1 = 0
        · simp only [hok, hb, if_true] at happ
          exact ⟨_, _, happ, Or.inr ⟨a, _, rfl⟩⟩
        · simp only [hok, hb, if_true, if_false] at happ
          exact ⟨_, _, happ, Or.inr ⟨a, _, rfl⟩⟩
      · simp only [hok, if_false] at happ
        exact ⟨_, _, happ, Or.inl rfl⟩

/-- What a harnessed call does to the outside. For every validated request carrying a
valid harness (in a test build), the call returns the scripted button, checkbox and
timeout flag. On Linux
and Windows the only call it makes to the outside is the allocation for the copy of the
scripted input text: no native facility is probed and no line is logged. On Android the
calls it makes are the lines of the degradation report `LogUnsupportedFeatures`, which
runs before the harness is looked at, followed by that allocation: no JNI function is
called. -/
theorem harness_answers_without_probing (w : World) (o : NmbMessageBoxOptions)
    (r : NmbMessageBoxResult) (h : NmbTestHarness)
    (htest : w.build.testing = true)
    (hmsg : o.message_utf8.isSome = true)
    (hsize : w.build.kMessageBoxOptionsMinSize ≤ o.struct_size)
    (habi : o.abi_version = NMB_ABI_VERSION)
    (hres : w.build.kMessageBoxResultMinSize ≤ r.struct_size)
    (harr : ∀ bs, o.buttons = some bs → o.button_count ≤ bs.length)
    (hctx : o.user_context = some h)
    (hmagic : h.magic = NMB_TEST_HARNESS_MAGIC)
    (hhsize : h.struct_size = w.build.sizeof_NmbTestHarness) :
    (∀ run ∈ [Linux.nmb_show_message_box w (some o) (some r),
        Windows.nmb_show_message_box w (some o) (some r)],
      ∃ R W allocs, run = .ok (R.result_code, some R, W) ∧
        R.button = h.scripted_button ∧ R.checkbox_checked = h.checkbox_checked ∧
        R.was_timeout = h.simulate_timeout ∧
        W.trace = w.trace ++ allocs ∧
        ∀ c ∈ allocs, c.isNative = false ∧ c.isLogLine = false) ∧
      ∃ R W logs allocs,
        Android.nmb_show_message_box w (some o) (some r) = .ok (R.result_code, some R, W) ∧
        R.button = h.scripted_button ∧ R.checkbox_checked = h.checkbox_checked ∧
        R.was_timeout = h.simulate_timeout ∧
        (Android.LogUnsupportedFeatures w (some o)).trace = w.trace ++ logs ∧
        W.trace = w.trace ++ logs ++ allocs ∧
        (∀ c ∈ logs, c.isLogLine = true) ∧
        ∀ c ∈ allocs, c.isNative = false ∧ c.isLogLine = false := by
  have hworld : ∀ (w0 W : World), (W = w0 ∨ ∃ a n, W = (nmb_allocate w0 (some a) n 1).2) →
      ∃ allocs, W.trace = w0.trace ++ allocs ∧
        ∀ c ∈ allocs, c.isNative = false ∧ c.isLogLine = false := by
    intro w0 W hW
    rcases hW with rfl | ⟨a, n, rfl⟩
    · exact ⟨[], by simp, by simp⟩
    · exact allocate_appends w0 (some a) n 1
  refine ⟨?_, ?_⟩
  · intro run hrun
    simp only [List.mem_cons, List.mem_singleton, List.not_mem_nil, or_false] at hrun
    rcases hrun with rfl | rfl
    · obtain ⟨R, W, happ, hW⟩ := linux_harness_world w o (baseline w.build) h hctx hmagic hhsize
      obtain ⟨R2, W2, hrun2, hb, hc, ht, _⟩ :=
        linux_harness_fields w o r h htest hmsg hsize habi hres hctx hmagic hhsize
      have hrun1 := linux_tiers_harnessed w W o _ R htest happ
      rw [linux_show_validated w o r hmsg hsize habi hres] at hrun2 ⊢
      rw [hrun1] at hrun2
      simp only [Except.ok.injEq, Prod.mk.injEq, Option.some.injEq] at hrun2
      obtain ⟨_, hR, _⟩ := hrun2
      subst hR
      obtain ⟨allocs, htr, hall⟩ := hworld w W hW
      exact ⟨R, W, allocs, hrun1, hb, hc, ht, htr, hall⟩
    · obtain ⟨b, hsup⟩ := windows_supported_ok o harr
      obtain ⟨R, W, happ, hW⟩ :=
        windows_harness_world w o (baseline w.build) h hctx hmagic hhsize
      obtain ⟨R2, W2, hrun2, hb, hc, ht, _⟩ :=
        windows_harness_fields w o r h htest hmsg hsize habi hres harr hctx hmagic hhsize
      have hrun1 := windows_tiers_harnessed w W o b _ R htest happ
      rw [windows_show_validated w o r b hmsg hsize habi hres hsup] at hrun2 ⊢
      rw [hrun1] at hrun2
      simp only [Except.ok.injEq, Prod.mk.injEq, Option.some.injEq] at hrun2
      obtain ⟨_, hR, _⟩ := hrun2
      subst hR
      obtain ⟨allocs, htr, hall⟩ := hworld w W hW
      exact ⟨R, W, allocs, hrun1, hb, hc, ht, htr, hall⟩
  · have hhsize2 : h.struct_size
        = (Android.LogUnsupportedFeatures w (some o)).build.sizeof_NmbTestHarness := by
      rw [android_unsupported_build]; exact hhsize
    obtain ⟨R, W, happ, hW⟩ :=
      android_harness_world (Android.LogUnsupportedFeatures w (some o)) o (baseline w.build) h
        hctx hmagic hhsize2
    obtain ⟨R2, W2, hrun2, hb, hc, ht, _⟩ :=
      android_harness_fields w o r h htest hmsg hsize habi hres hctx hmagic hhsize
    have hrun1 := android_tiers_harnessed w W o _ R htest happ
    rw [android_show_validated w o r hmsg hsize habi hres] at hrun2 ⊢
    rw [hrun1] at hrun2
    simp only [Except.ok.injEq, Prod.mk.injEq, Option.some.injEq] at hrun2
    obtain ⟨_, hR, _⟩ := hrun2
    subst hR
    obtain ⟨logs, hlogs, hlall⟩ := android_unsupported_appends w o
    obtain ⟨allocs, htr, hall⟩ := hworld _ W hW
    exact ⟨R, W, logs, allocs, hrun1, hb, hc, ht, hlogs, by rw [htr, hlogs], hlall, hall⟩

theorem harness_answers_without_probing_witness :
    ∃ R W allocs,
      Linux.nmb_show_message_box World.sample
          (some (sampleOptions [sampleButton 1 "OK" 1 0] (some bumpAllocator)
            (some (sampleHarness 1 0 0 NMB_OK (some (lit 0x9000 "typed"))))))
          (some sampleResult)
        = .ok (R.result_code, some R, W) ∧
      R.button = 1 ∧ R.checkbox_checked = 0 ∧ R.was_timeout = 0 ∧
      W.trace = World.sample.trace ++ allocs ∧
      ∀ c ∈ allocs, c.isNative = false ∧ c.isLogLine = false :=
  (harness_answers_without_probing World.sample
      (sampleOptions [sampleButton 1 "OK" 1 0] (some bumpAllocator)
        (some (sampleHarness 1 0 0 NMB_OK (some (lit 0x9000 "typed")))))
      sampleResult (sampleHarness 1 0 0 NMB_OK (some (lit 0x9000 "typed")))
      (by decide) (by decide) (by decide) (by decide) (by decide)
      (by intro bs hbs; cases hbs; decide) rfl (by decide) (by decide)).1
    _ (List.mem_cons_self _ _)

/-- C16, the failing input evaluated: on Android, with a log sink installed, a valid
harnessed request with a warning icon returns the scripted result, but before the harness
is looked at the degradation line for the icon is written to the system log and delivered
to the sink. -/
theorem harness_preceded_by_degradation_line :
    observable (Android.nmb_show_message_box { World.sample with s_log_callback := 77 }
        (some { sampleOptions [sampleButton 1 "OK" 1 0] none
            (some (sampleHarness 1 0 0 NMB_OK none)) with icon := NMB_ICON_WARNING })
        (some sampleResult))
      = some (NMB_OK, some { sampleResult with button := 1 }) ∧
    finalTrace (Android.nmb_show_message_box { World.sample with s_log_callback := 77 }
        (some { sampleOptions [sampleButton 1 "OK" 1 0] none
            (some (sampleHarness 1 0 0 NMB_OK none)) with icon := NMB_ICON_WARNING })
        (some sampleResult))
      = some [Call.android_log "Android: Icon hints are not currently supported.",
          Call.log 77 0 "Android: Icon hints are not currently supported."] := by
  decide

/-! ## Theorems: the degradation report of the Android backend -/

/-- A request with no text in its secondary content, no verification text, no suppress
checkbox, no input control, no icon hint and at most three buttons produces no
degradation line. -/
theorem android_unsupported_silent (w : World) (o : NmbMessageBoxOptions)
    (hsec : ∀ s, o.secondary = some s → s.informative_text_utf8 = none ∧
      s.expanded_text_utf8 = none ∧ s.footer_text_utf8 = none ∧ s.help_link_utf8 = none)
    (hver : o.verification_text_utf8 = none)
    (hsup : o.show_suppress_checkbox ≠ NMB_TRUE)
    (hin : ∀ i, o.input = some i → i.mode = NMB_INPUT_NONE)
    (hicon : o.icon = NMB_ICON_NONE)
    (hcount : o.button_count ≤ 3) :
    Android.LogUnsupportedFeatures w (some o) = w := by
  unfold Android.LogUnsupportedFeatures
  have h3 : ¬ o.button_count > 3 := by omega
  have hs2 : (o.show_suppress_checkbox == NMB_TRUE) = false := by simpa using hsup
  cases hs : o.secondary with
  | none =>
    cases hi : o.input with
    | none => simp [hs, hi, hver, hs2, hicon, h3]
    | some i => simp [hs, hi, hver, hs2, hicon, h3, hin i hi]
  | some s =>
    obtain ⟨a1, a2, a3, a4⟩ := hsec s hs
    cases hi : o.input with
    | none => simp [hs, hi, hver, hs2, hicon, h3, a1, a2, a3, a4]
    | some i => simp [hs, hi, hver, hs2, hicon, h3, hin i hi, a1, a2, a3, a4]

/-- C17, the failing input evaluated. The degradation report does not depend on the
timeout fields or on the explicit-acknowledgment flag of the request: whatever they are
set to, it writes the same lines. In particular a valid request with the single button
OK, a valid Activity handle, an auto-dismiss timeout of 250 ms on OK and explicit
acknowledgment required, made with a log sink installed, writes no line at all: the call
shows the dialog through JNI and returns ok with the pressed button, and nothing was
written to the system log or delivered to the sink. -/
theorem timeout_and_ack_not_reported :
    (∀ (w : World) (o : NmbMessageBoxOptions) (ms id ack : Nat),
      Android.LogUnsupportedFeatures w
          (some { o with
            timeout_milliseconds := ms, timeout_button_id := id, requires_explicit_ack := ack })
        = Android.LogUnsupportedFeatures w (some o)) ∧
    observable (Android.nmb_show_message_box
        { World.sample with
          s_log_callback := 77
          android := { World.sample.android with
            completion := some (AndroidCompletion.completed 1 false) } }
        (some { sampleOptions [sampleButton 1 "OK" 1 0] none none with
          parent_window := 4660
          timeout_milliseconds := 250
          timeout_button_id := NMB_BUTTON_ID_OK
          requires_explicit_ack := NMB_TRUE })
        (some sampleResult))
      = some (NMB_OK, some { sampleResult with button := 1 }) ∧
    finalTrace (Android.nmb_show_message_box
        { World.sample with
          s_log_callback := 77
          android := { World.sample.android with
            completion := some (AndroidCompletion.completed 1 false) } }
        (some { sampleOptions [sampleButton 1 "OK" 1 0] none none with
          parent_window := 4660
          timeout_milliseconds := 250
          timeout_button_id := NMB_BUTTON_ID_OK
          requires_explicit_ack := NMB_TRUE })
        (some sampleResult))
      = some [Call.jni "GetEnv", Call.jni "NewLocalRef", Call.jni "FindClass",
          Call.jni "NewObjectArray", Call.jni "NewLongArray",
          Call.jni "CallStaticVoidMethod"] := by
  refine ⟨fun w o ms id ack => rfl, ?_, ?_⟩ <;> decide

/-! ## Theorems: the ABI version -/

/-- The packing of a version is below `2^24`. -/
theorem make_version_lt (major minor patch : Nat) :
    NMB_MAKE_VERSION major minor patch < 2 ^ 24 := by
  unfold NMB_MAKE_VERSION
  have h1 : major &&& 0xFF < 2 ^ 8 := Nat.and_lt_two_pow _ (by norm_num)
  have h2 : minor &&& 0xFF < 2 ^ 8 := Nat.and_lt_two_pow _ (by norm_num)
  have h3 : patch &&& 0xFF < 2 ^ 8 := Nat.and_lt_two_pow _ (by norm_num)
  apply Nat.or_lt_two_pow
  · apply Nat.or_lt_two_pow
    · rw [Nat.shiftLeft_eq]
      omega
    · rw [Nat.shiftLeft_eq]
      omega
  · omega

/-- C18: `nmb_get_abi_version` returns `NMB_ABI_VERSION` at every state of the process
(hence after any earlier initialize, set_log_callback, show or shutdown call, and on
every call) on the Linux, Windows, Android and web backends; `NMB_ABI_VERSION` is
`NMB_MAKE_VERSION(0, 1, 0)`, which is 256; the packing of a version is
`(major & 0xFF) << 16 | (minor & 0xFF) << 8 | (patch & 0xFF)` and is below `2^24`. -/
theorem abi_version_constant :
    (∀ w : World, Linux.nmb_get_abi_version w = 256 ∧ Windows.nmb_get_abi_version w = 256 ∧
      Android.nmb_get_abi_version w = 256 ∧ Web.nmb_get_abi_version w = 256) ∧
    (∀ (b : Backend) (w : World) (calls : List ApiCall),
      Linux.nmb_get_abi_version (b.run w calls) = Linux.nmb_get_abi_version w ∧
      Windows.nmb_get_abi_version (b.run w calls) = Windows.nmb_get_abi_version w ∧
      Android.nmb_get_abi_version (b.run w calls) = Android.nmb_get_abi_version w ∧
      Web.nmb_get_abi_version (b.run w calls) = Web.nmb_get_abi_version w) ∧
    NMB_ABI_VERSION = NMB_MAKE_VERSION 0 1 0 ∧ NMB_ABI_VERSION = 256 ∧
    (∀ major minor patch : Nat,
      NMB_MAKE_VERSION major minor patch
        = (((major &&& 0xFF) <<< 16) ||| ((minor &&& 0xFF) <<< 8)) ||| (patch &&& 0xFF)) ∧
    (∀ major minor patch : Nat, NMB_MAKE_VERSION major minor patch < 2 ^ 24) ∧
    NMB_ABI_VERSION < 2 ^ 24 :=
  ⟨fun _ => ⟨rfl, rfl, rfl, rfl⟩, fun _ _ _ => ⟨rfl, rfl, rfl, rfl⟩, rfl, rfl,
    fun _ _ _ => rfl, make_version_lt, make_version_lt 0 1 0⟩

/-! ## Theorems: the Android call without an Activity -/

/-- The function `AndroidLog` appends log lines only. -/
theorem android_log_appends (w : World) (m : Option String) :
    ∃ logs, (Android.AndroidLog w m).trace = w.trace ++ logs ∧
      ∀ c ∈ logs, c.isLogLine = true := by
  unfold Android.AndroidLog
  cases m with
  | none => exact ⟨[], by simp [nmb_runtime_log], by simp⟩
  | some t =>
    obtain ⟨n2, hn2, hall2⟩ := runtime_log_appends (w.record (Call.android_log t)) (some t)
    refine ⟨[Call.android_log t] ++ n2, ?_, ?_⟩
    · show (nmb_runtime_log (w.record (Call.android_log t)) (some t)).trace = _
      rw [hn2]
      simp only [World.record, List.append_assoc]
    · intro c hc
      simp only [List.mem_append, List.mem_singleton] at hc
      rcases hc with h | h
      · subst h; rfl
      · obtain ⟨_, _, _, h3⟩ := hall2 c h
        subst h3; rfl

/-- The function `AndroidLog` leaves the JNI globals and the Java side as they are. -/
theorem android_log_host (w : World) (m : Option String) :
    (Android.AndroidLog w m).android = w.android := by
  unfold Android.AndroidLog
  cases m with
  | none => exact (runtime_log_fields w none).2.2.2.2.1
  | some t => exact (runtime_log_fields (w.record (Call.android_log t)) (some t)).2.2.2.2.1

/-- The degradation report leaves the JNI globals and the Java side as they are. -/
theorem android_unsupported_host (w : World) (o : NmbMessageBoxOptions) :
    (Android.LogUnsupportedFeatures w (some o)).android = w.android :=
  android_unsupported_induct (fun w1 => w1.android = w.android) w o rfl
    (fun w1 m h => (android_log_host w1 m).trans h)

/-- C19: on Android, for every otherwise valid request that no harness answers and whose
`parent_window` is null, `nmb_show_message_box` returns `NMB_E_INVALID_ARGUMENT` and
leaves the result at the baseline. Everything it calls is a log line (of the degradation
report and of the rejection): no JNI function is called, so no environment is acquired
and the dialog bridge is not called, and the JNI globals are as before. -/
theorem null_activity_rejected (w : World) (o : NmbMessageBoxOptions)
    (r : NmbMessageBoxResult)
    (hmsg : o.message_utf8.isSome = true)
    (hsize : w.build.kMessageBoxOptionsMinSize ≤ o.struct_size)
    (habi : o.abi_version = NMB_ABI_VERSION)
    (hres : w.build.kMessageBoxResultMinSize ≤ r.struct_size)
    (hno : ∀ h, o.user_context = some h → h.magic = NMB_TEST_HARNESS_MAGIC →
      h.struct_size = w.build.sizeof_NmbTestHarness → w.build.testing = false)
    (hnull : o.parent_window = 0) :
    ∃ W logs, Android.nmb_show_message_box w (some o) (some r)
        = .ok (NMB_E_INVALID_ARGUMENT, some (baseline w.build), W) ∧
      W.trace = w.trace ++ logs ∧
      (∀ c ∈ logs, c.isLogLine = true ∧ ∀ f, c ≠ Call.jni f) ∧
      W.android = w.android := by
  rw [android_show_validated w o r hmsg hsize habi hres]
  unfold Android.nmb_show_message_box.tiers Android.ShowDialogInternal
  have hno2 : ∀ h, o.user_context = some h → h.magic = NMB_TEST_HARNESS_MAGIC →
      h.struct_size = (Android.LogUnsupportedFeatures w (some o)).build.sizeof_NmbTestHarness →
      (Android.LogUnsupportedFeatures w (some o)).build.testing = false := by
    intro h hc hm hs
    rw [android_unsupported_build] at hs ⊢
    exact hno h hc hm hs
  simp only [android_harness_skipped _ o (baseline w.build) hno2, Option.getD_some]
  simp only [Bool.false_eq_true, if_false, hnull, if_true]
  obtain ⟨l1, hl1, hall1⟩ := android_unsupported_appends w o
  obtain ⟨l2, hl2, hall2⟩ := android_log_appends (Android.LogUnsupportedFeatures w (some o))
    (some "Android: parent_window must provide an Activity jobject handle.")
  refine ⟨_, l1 ++ l2, rfl, ?_, ?_, ?_⟩
  · rw [hl2, hl1, List.append_assoc]
  · intro c hc
    have hlog : c.isLogLine = true := by
      simp only [List.mem_append] at hc
      rcases hc with h | h
      · exact hall1 c h
      · exact hall2 c h
    refine ⟨hlog, fun f hf => ?_⟩
    subst hf
    cases hlog
  · rw [android_log_host, android_unsupported_host]

theorem null_activity_rejected_witness :
    ∃ W logs, Android.nmb_show_message_box World.sample
        (some (sampleOptions [sampleButton NMB_BUTTON_ID_OK "OK" 1 0] none none))
        (some sampleResult)
        = .ok (NMB_E_INVALID_ARGUMENT, some (baseline Build.lp64), W) ∧
      W.trace = World.sample.trace ++ logs ∧
      (∀ c ∈ logs, c.isLogLine = true ∧ ∀ f, c ≠ Call.jni f) ∧
      W.android = World.sample.android :=
  null_activity_rejected World.sample
    (sampleOptions [sampleButton NMB_BUTTON_ID_OK "OK" 1 0] none none) sampleResult
    (by decide) (by decide) (by decide) (by decide) (by intro h hctx; cases hctx) rfl

/-! ## Theorems: how a cancelled session resolves its button -/

theorem range_get_take (bs : List NmbButtonOption) (n : Nat) (hn : n ≤ bs.length) :
    (List.range n).map (fun i => bs.get? i) = (bs.take n).map some := by
  apply List.ext_get?
  intro i
  by_cases hi : i < n
  · have hi2 : i < bs.length := by omega
    simp [List.get?_eq_getElem?, hi, hi2, List.getElem?_take, List.getElem?_range]
  · have hi3 : n ≤ i := by omega
    simp [List.get?_eq_getElem?, hi, List.getElem?_eq_none, hi3, hn]

/-- The buttons `CollectButtons` collects are the rendered buttons, when the button array
holds the elements it is asked to visit. -/
theorem android_collect_rendered (o : NmbMessageBoxOptions)
    (harr : ∀ bs, o.buttons = some bs → o.button_count ≤ bs.length) :
    Android.CollectButtons (some o) = (Android.rendered o).map some := by
  unfold Android.CollectButtons Android.rendered
  cases hb : o.buttons with
  | none => simp only [hb]; rfl
  | some bs =>
    have hlen := harr bs hb
    by_cases h0 : o.button_count = 0
    · simp only [hb, h0, if_true]
      rfl
    · by_cases h3 : o.button_count > 3
      · have hm : min o.button_count 3 = 3 := by omega
        simp only [hb, h0, if_false, h3, if_true, hm]
        exact range_get_take bs 3 (by omega)
      · have hm : min o.button_count 3 = o.button_count := by omega
        simp only [hb, h0, if_false, h3, hm]
        exact range_get_take bs _ hlen

/-- The label loop over existing buttons collects their ids, unless a label fails. -/
theorem android_labels_ids (failing : Option Nat) (bs : List NmbButtonOption) :
    ∀ (i : Nat) (acc ids : List Int),
      Android.ShowDialogInternal.labels failing (bs.map some) i acc = .ok (some ids) →
      ids = acc ++ bs.map (fun b => (b.id : Int)) := by
  induction bs with
  | nil =>
    intro i acc ids h
    simp only [List.map_nil, Android.ShowDialogInternal.labels, Except.ok.injEq,
      Option.some.injEq] at h
    simp [h]
  | cons b rest ih =>
    intro i acc ids h
    simp only [List.map_cons, Android.ShowDialogInternal.labels] at h
    by_cases hf : failing = some i
    · simp [hf] at h
    · simp only [hf, if_false] at h
      have := ih (i + 1) _ ids h
      simpa using this

/-- The loop of `FindCancelIndex` over existing buttons returns the index of the first
button marked cancel, counted from `i`, or `-1` when no button is marked. -/
theorem android_cancel_index (bs : List NmbButtonOption) :
    ∀ i : Nat, ∃ k : Int, Android.FindCancelIndex.loop (bs.map some) i = .ok k ∧
      (match bs.find? (fun b => b.is_cancel == NMB_TRUE) with
        | some b => (i : Int) ≤ k ∧ k.toNat - i < bs.length ∧ bs.get? (k.toNat - i) = some b
        | none => k = -1) := by
  induction bs with
  | nil => intro i; exact ⟨-1, rfl, rfl⟩
  | cons b rest ih =>
    intro i
    simp only [List.map_cons, Android.FindCancelIndex.loop]
    by_cases hc : b.is_cancel = NMB_TRUE
    · refine ⟨(i : Int), by simp [hc], ?_⟩
      simp [List.find?, hc]
    · obtain ⟨k, hk, hspec⟩ := ih (i + 1)
      refine ⟨k, by simp [hc, hk], ?_⟩
      have hc2 : (b.is_cancel == NMB_TRUE) = false := by simpa using hc
      simp only [List.find?, hc2]
      cases hfind : rest.find? (fun b => b.is_cancel == NMB_TRUE) with
      | none =>
        rw [hfind] at hspec
        exact hspec
      | some c =>
        rw [hfind] at hspec
        obtain ⟨h1, h2, h3⟩ := hspec
        have hk1 : (i : Int) + 1 ≤ k := by exact_mod_cast h1
        have hk2 : k.toNat - i = (k.toNat - (i + 1)) + 1 := by omega
        refine ⟨by omega, ?_, ?_⟩
        · simp only [List.length_cons]; omega
        · rw [hk2]
          simpa using h3

/-- The function `AcquireEnv` leaves the JNI globals and the Java side as they are. -/
theorem android_acquire_host (w : World) :
    (Android.AcquireEnv w).2.2.android = w.android := by
  unfold Android.AcquireEnv
  simp only []
  split_ifs <;> simp [android_log_host, World.record]

/-- The function `EnsureBridge` does not touch how the dialog completes. -/
theorem android_bridge_completion (w : World) :
    (Android.EnsureBridge w).2.android.completion = w.android.completion := by
  unfold Android.EnsureBridge
  simp only []
  split_ifs <;> simp [android_log_host, World.record]

set_option maxHeartbeats 800000 in
/-- A dialog that is shown holds the ids of the rendered buttons and the index of the
first of them marked cancel, and the Java side completes it as the world says. -/
theorem android_show_shown (w0 : World) (o : NmbMessageBoxOptions) (shown : Android.Shown)
    (harr : ∀ bs, o.buttons = some bs → o.button_count ≤ bs.length)
    (h : Android.ShowDialogInternal.show w0 o = .ok (.inr shown)) :
    shown.buttonIds = (Android.rendered o).map (fun b => (b.id : Int)) ∧
      Android.FindCancelIndex ((Android.rendered o).map some) = .ok shown.cancelIndex ∧
      shown.world.android.completion = w0.android.completion := by
  unfold Android.ShowDialogInternal.show at h
  rw [android_collect_rendered o harr] at h
  simp only [] at h
  split_ifs at h
  all_goals try cases h
  all_goals
    split at h
    · cases h
    · cases h
    · rename_i ids hlab
      split at h
      · cases h
      · rename_i k hk
        first
        | (cases h; done)
        | (simp only [Except.ok.injEq, Sum.inr.injEq] at h
           subst h
           refine ⟨?_, hk, ?_⟩
           · simpa using android_labels_ids _ _ 0 [] ids hlab
           · simp [World.record, android_bridge_completion, android_acquire_host])

/-- An Android dialog that returns before it is shown does not return cancelled. -/
theorem android_show_early (w0 W : World) (o : NmbMessageBoxOptions) (rc : Nat)
    (h : Android.ShowDialogInternal.show w0 o = .ok (.inl (rc, W))) :
    rc ≠ NMB_E_CANCELLED := by
  unfold Android.ShowDialogInternal.show at h
  simp only [] at h
  split_ifs at h
  all_goals
    first
    | (simp only [Except.ok.injEq, Sum.inl.injEq, Prod.mk.injEq] at h
       rw [← h.1]; decide)
    | (split at h
       · cases h
       · simp only [Except.ok.injEq, Sum.inl.injEq, Prod.mk.injEq] at h
         rw [← h.1]; decide
       · split at h
         · cases h
         · first
           | (cases h; done)
           | (simp only [Except.ok.injEq, Sum.inl.injEq, Prod.mk.injEq] at h
              rw [← h.1]; decide))

/-- A 32-bit id survives the round trip through `jlong`. -/
theorem enum_of_id (id : Nat) (h : id < 2 ^ 32) : enumOfInt (id : Int) = id := by
  unfold enumOfInt
  have h2 : ((id : Int) % 4294967296) = (id : Int) :=
    Int.emod_eq_of_lt (by omega) (by omega)
  rw [h2]
  simp

/-- The cancelled completion of a shown Android dialog that names no button: the result
takes the id of the first rendered button marked cancel, the generic cancel id when no
rendered button is marked. -/
theorem android_cancelled_button (w W : World) (o : NmbMessageBoxOptions)
    (r R : NmbMessageBoxResult) (rc : Nat) (bid : Int)
    (hno : ∀ h, o.user_context = some h → h.magic = NMB_TEST_HARNESS_MAGIC →
      h.struct_size = w.build.sizeof_NmbTestHarness → w.build.testing = false)
    (harr : ∀ bs, o.buttons = some bs → o.button_count ≤ bs.length)
    (hcomp : w.android.completion = some (AndroidCompletion.completed bid true))
    (hnone : enumOfInt bid = NMB_BUTTON_ID_NONE)
    (hids : ∀ b ∈ Android.rendered o, b.id < 2 ^ 32)
    (hrun : Android.ShowDialogInternal w o r = .ok (rc, R, W))
    (hrc : rc = NMB_E_CANCELLED) :
    R.result_code = NMB_E_CANCELLED ∧
      R.button = (match (Android.rendered o).find? (fun b => b.is_cancel == NMB_TRUE) with
        | some b => b.id
        | none => NMB_BUTTON_ID_CANCEL) := by
  subst hrc
  unfold Android.ShowDialogInternal at hrun
  simp only [android_harness_skipped w o r hno, Option.getD_some] at hrun
  simp only [Bool.false_eq_true, if_false] at hrun
  by_cases hp : o.parent_window = 0
  · rw [if_pos hp] at hrun
    simp only [Except.ok.injEq, Prod.mk.injEq] at hrun
    exact absurd hrun.1 (by decide)
  · rw [if_neg hp] at hrun
    cases hs : Android.ShowDialogInternal.show w o with
    | error e => simp [hs] at hrun
    | ok t =>
      cases t with
      | inl early =>
        obtain ⟨rc1, w1⟩ := early
        simp only [hs, Except.ok.injEq, Prod.mk.injEq] at hrun
        exact absurd hrun.1 (android_show_early w w1 o rc1 hs)
      | inr shown =>
        obtain ⟨hidsEq, hidx, hcompl⟩ := android_show_shown w o shown harr hs
        rw [hcomp] at hcompl
        simp only [hs, hcompl, Except.ok.injEq] at hrun
        unfold Android.ShowDialogInternal.complete at hrun
        simp only [hnone, if_true, ne_eq, not_true_eq_false, if_false] at hrun
        obtain ⟨k, hk, hspec⟩ := android_cancel_index (Android.rendered o) 0
        unfold Android.FindCancelIndex at hidx
        rw [hk] at hidx
        have hkeq : shown.cancelIndex = k := (Except.ok.inj hidx).symm
        cases hfind : (Android.rendered o).find? (fun b => b.is_cancel == NMB_TRUE) with
        | none =>
          rw [hfind] at hspec
          have hneg : ¬ (shown.cancelIndex ≥ 0 ∧
              shown.cancelIndex.toNat < shown.buttonIds.length) := by
            rw [hkeq, hspec]
            intro hh
            exact absurd hh.1 (by decide)
          rw [if_neg hneg] at hrun
          simp only [Prod.mk.injEq] at hrun
          obtain ⟨_, hR, _⟩ := hrun
          subst hR
          exact ⟨rfl, rfl⟩
        | some b =>
          rw [hfind] at hspec
          obtain ⟨h1, h2, h3⟩ := hspec
          simp only [Nat.sub_zero] at h2 h3
          have hpos : shown.cancelIndex ≥ 0 ∧
              shown.cancelIndex.toNat < shown.buttonIds.length := by
            rw [hkeq, hidsEq, List.length_map]
            exact ⟨by exact_mod_cast h1, h2⟩
          rw [if_pos hpos] at hrun
          simp only [Prod.mk.injEq] at hrun
          obtain ⟨_, hR, _⟩ := hrun
          subst hR
          refine ⟨rfl, ?_⟩
          have hmem : b ∈ Android.rendered o := List.mem_of_find?_eq_some hfind
          have hget : shown.buttonIds.getD shown.cancelIndex.toNat 0 = (b.id : Int) := by
            rw [hkeq, hidsEq]
            rw [List.getD_eq_getElem?_getD, List.getElem?_map, ← List.get?_eq_getElem?, h3]
            rfl
          show enumOfInt (shown.buttonIds.getD shown.cancelIndex.toNat 0) = b.id
          rw [hget]
          exact enum_of_id b.id (hids b hmem)

/-- A GTK session that the user closes with a response no button is mapped to ends
cancelled with the generic cancel id. -/
theorem linux_close_generic (w : World) (o : NmbMessageBoxOptions) (r : NmbMessageBoxResult)
    (response : Int) (info : Linux.GtkDialogInfo) (armed : Bool)
    (hno : ∀ h, o.user_context = some h → h.magic = NMB_TEST_HARNESS_MAGIC →
      h.struct_size = w.build.sizeof_NmbTestHarness → w.build.testing = false)
    (hgtk : (Linux.EnsureGtkInitialized w).1 = true)
    (hresp : w.gtk.user_response = some response)
    (hclose : response ∈ [Linux.GTK_RESPONSE_DELETE_EVENT, Linux.GTK_RESPONSE_CANCEL,
      Linux.GTK_RESPONSE_CLOSE, Linux.GTK_RESPONSE_REJECT, Linux.GTK_RESPONSE_NONE])
    (hbuild : Linux.ShowGtkDialog.build o = .ok (info, armed))
    (hunmapped : Linux.MapButtonId info response = none) :
    ∃ R W, Linux.nmb_show_message_box.tiers w o r = .ok (NMB_E_CANCELLED, some R, W) ∧
      R.button = NMB_BUTTON_ID_CANCEL ∧ R.result_code = NMB_E_CANCELLED := by
  rw [linux_tiers_plain w o r hno, if_pos hgtk]
  have hg : (Linux.EnsureGtkInitialized w).2.gtk = w.gtk := (linux_gtk_init_fields w).2.2.2.1
  have hcl : response = Linux.GTK_RESPONSE_DELETE_EVENT ∨ response = Linux.GTK_RESPONSE_CANCEL
      ∨ response = Linux.GTK_RESPONSE_CLOSE ∨ response = Linux.GTK_RESPONSE_REJECT
      ∨ response = Linux.GTK_RESPONSE_NONE := by
    simpa using hclose
  unfold Linux.ShowGtkDialog
  simp only [hbuild]
  have hur : ∀ w1 : World, w1.gtk = w.gtk →
      (w1.record Call.gtk_dialog_run).gtk.user_response = some response := by
    intro w1 h1
    simp [World.record, h1, hresp]
  cases armed with
  | false =>
    simp only [Bool.false_eq_true, if_false, hur _ hg]
    unfold Linux.ShowGtkDialog.finish
    simp only [hunmapped, Option.isNone_none, true_and, hcl, if_true]
    exact ⟨_, _, rfl, rfl, rfl⟩
  | true =>
    simp only [if_true]
    have h2 : ((Linux.EnsureGtkInitialized w).2.record
        (Call.g_timeout_add o.timeout_milliseconds info.timeoutResponse)).gtk = w.gtk := by
      simp [World.record, hg]
    simp only [hur _ h2]
    unfold Linux.ShowGtkDialog.finish
    simp only [hunmapped, Option.isNone_none, true_and, hcl, if_true]
    exact ⟨_, _, rfl, rfl, rfl⟩

/-- C20 (failing input): a valid request with the buttons Yes and No, of which No is
marked `is_cancel`. On Linux, with GTK available, the user closes the dialog through the
window manager (`GTK_RESPONSE_DELETE_EVENT`, which no button is mapped to): the call
returns cancelled with the generic cancel id `NMB_BUTTON_ID_CANCEL` (2), not with the id
of the marked button No (4). On Android the same request, reported cancelled with no
button id, returns cancelled with the id of the marked button No. -/
theorem gtk_close_ignores_marked_cancel :
    observable (Linux.nmb_show_message_box
        { World.sample with
          gtk := { World.sample.gtk with
            user_response := some Linux.GTK_RESPONSE_DELETE_EVENT } }
        (some (sampleOptions
          [sampleButton NMB_BUTTON_ID_YES "Yes" 1 0, sampleButton NMB_BUTTON_ID_NO "No" 0 1]
          none none))
        (some sampleResult))
      = some (NMB_E_CANCELLED, some { sampleResult with
          button := NMB_BUTTON_ID_CANCEL, result_code := NMB_E_CANCELLED }) ∧
    (sampleButton NMB_BUTTON_ID_NO "No" 0 1).is_cancel = NMB_TRUE ∧
    NMB_BUTTON_ID_CANCEL ≠ NMB_BUTTON_ID_NO ∧
    observable (Android.nmb_show_message_box
        { World.sample with
          android := { World.sample.android with
            completion := some (AndroidCompletion.completed 0 true) } }
        (some { sampleOptions
            [sampleButton NMB_BUTTON_ID_YES "Yes" 1 0, sampleButton NMB_BUTTON_ID_NO "No" 0 1]
            none none with parent_window := 4660 })
        (some sampleResult))
      = some (NMB_E_CANCELLED, some { sampleResult with
          button := NMB_BUTTON_ID_NO, result_code := NMB_E_CANCELLED }) := by
  decide

/-! ## Theorems: the exit codes of the zenity tier -/

/-- A zenity fallback that finds zenity, spawns it and sees it exit accepts the request
and writes the ok id for exit code 0, the cancel id for every other exit code, and
status ok. -/
theorem linux_zenity_exit (w : World) (o : NmbMessageBoxOptions) (r : NmbMessageBoxResult)
    (hinput : o.input = none)
    (hbuttons : o.buttons = none ∨ o.button_count ≤ 1)
    (hfound : w.zenity_found = true) (hspawn : w.spawn_ok = true)
    (hexit : w.wifexited = true) :
    (Linux.RunZenityFallback w (some o) r).1 = true ∧
      (Linux.RunZenityFallback w (some o) r).2.1
        = { r with
            button := if w.wexitstatus = 0 then NMB_BUTTON_ID_OK else NMB_BUTTON_ID_CANCEL
            checkbox_checked := NMB_FALSE
            input_value_utf8 := none
            was_timeout := NMB_FALSE
            result_code := NMB_OK } := by
  have hb : (o.buttons.isSome && decide (o.button_count > 1)) = false := by
    rcases hbuttons with h | h
    · simp [h]
    · have : ¬ o.button_count > 1 := by omega
      simp [this]
  unfold Linux.RunZenityFallback
  simp [hinput, hb, World.record, hfound, hspawn, hexit]

/-- C21 (failing input): the sample request on a host where GTK is unavailable and zenity
shows the request and exits with code 1. The call returns status ok and stores status ok,
with the cancel id as the button; the claim has it return cancelled with a cancelled
result. The GTK tier of the same backend, when the user dismisses the same request
(`GTK_RESPONSE_DELETE_EVENT`), returns cancelled and stores cancelled with the same
button. -/
theorem zenity_nonzero_exit_reports_ok :
    observable (Linux.nmb_show_message_box
        { World.sample with
          gtk_init_result := false
          zenity_found := true
          spawn_ok := true
          wifexited := true
          wexitstatus := 1 }
        (some (sampleOptions [] none none)) (some sampleResult))
      = some (NMB_OK,
          some { baseline Build.lp64 with
            button := NMB_BUTTON_ID_CANCEL
            result_code := NMB_OK }) ∧
    NMB_OK ≠ NMB_E_CANCELLED ∧
    observable (Linux.nmb_show_message_box
        (World.gtkAnswers Linux.GTK_RESPONSE_DELETE_EVENT)
        (some (sampleOptions [] none none)) (some sampleResult))
      = some (NMB_E_CANCELLED,
          some { baseline Build.lp64 with
            button := NMB_BUTTON_ID_CANCEL
            result_code := NMB_E_CANCELLED }) := by
  decide

/-! ## Theorems: response codes that name no button -/

/-- A GTK session that does not take the cancel path stores the status of the input copy,
made on the result that holds the mapped button (none when no button is mapped). -/
theorem linux_finish_other (w : World) (o : NmbMessageBoxOptions)
    (info : Linux.GtkDialogInfo) (response : Int) (r : NmbMessageBoxResult)
    (hcl : ¬ ((Linux.MapButtonId info response).isNone = true ∧
      (response = Linux.GTK_RESPONSE_DELETE_EVENT ∨
        response = Linux.GTK_RESPONSE_CANCEL ∨ response = Linux.GTK_RESPONSE_CLOSE ∨
        response = Linux.GTK_RESPONSE_REJECT ∨ response = Linux.GTK_RESPONSE_NONE))) :
    ∃ r2 : NmbMessageBoxResult,
      r2.button = (Linux.MapButtonId info response).getD NMB_BUTTON_ID_NONE ∧
      r2.input_value_utf8 = r.input_value_utf8 ∧
      r2.was_timeout = (if info.timedOut then NMB_TRUE else NMB_FALSE) ∧
      Linux.ShowGtkDialog.finish w o info response r
        = ((Linux.CopyInputValue w o (some info) r2).1,
            { (Linux.CopyInputValue w o (some info) r2).2.1 with
              result_code := (Linux.CopyInputValue w o (some info) r2).1 },
            (Linux.CopyInputValue w o (some info) r2).2.2) := by
  refine ⟨{ (if info.verification then
        { r with
          checkbox_checked := if w.gtk.verification_active then NMB_TRUE else NMB_FALSE }
      else r) with
      was_timeout := (if info.timedOut then NMB_TRUE else NMB_FALSE)
      button := (Linux.MapButtonId info response).getD NMB_BUTTON_ID_NONE }, rfl, ?_, rfl, ?_⟩
  · simp only []
    split_ifs <;> rfl
  · unfold Linux.ShowGtkDialog.finish
    simp only []
    rw [if_neg hcl]
    generalize Linux.CopyInputValue w o (some info) _ = c
    obtain ⟨rc, R, W⟩ := c
    by_cases h : rc = NMB_OK
    · simp [h]
    · simp [h]

/-- The button loop of `ShowGtkDialog` returns when the array holds the elements it
visits, and appends one pair per element: the response code `GTK_RESPONSE_NONE - k - 1`
with the id of element `k`. -/
theorem linux_add_buttons (bs : List NmbButtonOption) (n : Nat) :
    ∀ (i : Nat) (acc : List (Int × Nat)), i + n ≤ bs.length →
      ∃ m, Linux.addButtons bs n i acc = .ok (acc ++ m) ∧ m.length = n ∧
        ∀ k, k < n → ∃ b, bs.get? (i + k) = some b ∧
          m.get? k = some (Linux.GTK_RESPONSE_NONE - ((i + k : Nat) : Int) - 1, b.id) := by
  induction n with
  | zero =>
    intro i acc _
    exact ⟨[], by simp [Linux.addButtons], rfl, fun k hk => absurd hk (Nat.not_lt_zero k)⟩
  | succ n ih =>
    intro i acc hle
    have hi : i < bs.length := by omega
    obtain ⟨m, hm, hlen, hget⟩ :=
      ih (i + 1) (acc ++ [(Linux.GTK_RESPONSE_NONE - (i : Int) - 1, (bs.get ⟨i, hi⟩).id)])
        (by omega)
    refine ⟨(Linux.GTK_RESPONSE_NONE - (i : Int) - 1, (bs.get ⟨i, hi⟩).id) :: m, ?_, ?_, ?_⟩
    · unfold Linux.addButtons
      rw [List.get?_eq_get hi]
      simp only []
      rw [hm, List.append_assoc]
      rfl
    · simp [hlen]
    · intro k hk
      cases k with
      | zero => exact ⟨bs.get ⟨i, hi⟩, by simp [List.get?_eq_get hi], rfl⟩
      | succ j =>
        obtain ⟨b, hb, hmj⟩ := hget j (by omega)
        refine ⟨b, ?_, ?_⟩
        · rw [← hb]
          congr 1
          omega
        · rw [List.get?_cons_succ, hmj]
          congr 3
          omega

/-- The construction phase of `ShowGtkDialog` as a function of the dialog info it holds
when it reaches the buttons: that info has the dialog set, an empty button map and a clear
timeout flag. -/
theorem linux_build_from_widgets (o : NmbMessageBoxOptions) :
    ∃ info0 : Linux.GtkDialogInfo,
      info0.dialog = true ∧ info0.buttonMap = [] ∧ info0.timedOut = false ∧
      Linux.ShowGtkDialog.build o
        = (match (match o.buttons with
              | some buttons =>
                if o.button_count > 0 then
                  Linux.addButtons buttons o.button_count 0 info0.buttonMap
                else .ok (info0.buttonMap ++ [(Linux.GTK_RESPONSE_OK, NMB_BUTTON_ID_OK)])
              | none => .ok (info0.buttonMap ++ [(Linux.GTK_RESPONSE_OK, NMB_BUTTON_ID_OK)]))
            with
          | .error e => .error e
          | .ok buttonMap =>
            let info := { info0 with buttonMap := buttonMap }
            let info :=
              { info with requiresExplicitAck := o.requires_explicit_ack = NMB_TRUE }
            let info := { info with
              allowClose := o.allow_cancel_via_escape = NMB_TRUE && !info.requiresExplicitAck }
            let mappedResponse :=
              if o.timeout_milliseconds > 0 ∧ o.timeout_button_id ≠ NMB_BUTTON_ID_NONE then
                Linux.timeoutLookup info.buttonMap o.timeout_button_id
              else 0
            let armed : Bool :=
              o.timeout_milliseconds > 0 ∧ o.timeout_button_id ≠ NMB_BUTTON_ID_NONE
                ∧ mappedResponse ≠ 0
            let info := if armed then { info with timeoutResponse := mappedResponse } else info
            .ok (info, armed)) := by
  refine ⟨_, ?_, ?_, ?_, rfl⟩
  all_goals
    cases o.input with
    | none => simp only []; split_ifs <;> rfl
    | some input => simp only []; split_ifs <;> rfl

/-- The construction phase of `ShowGtkDialog` returns for every request whose button
array, when present, holds at least `button_count` elements. It leaves the dialog set and
the timeout flag clear, stores the close policy, maps button `k` of a requested list to
the response code `GTK_RESPONSE_NONE - k - 1` and the implicit OK button to
`GTK_RESPONSE_OK`, and arms the timer exactly when the timeout is positive, the timeout
button is not none and the lookup of its id in the button map finds a response. -/
theorem linux_build_spec (o : NmbMessageBoxOptions)
    (harr : ∀ bs, o.buttons = some bs → o.button_count ≤ bs.length) :
    ∃ info armed, Linux.ShowGtkDialog.build o = .ok (info, armed) ∧
      info.dialog = true ∧ info.timedOut = false ∧
      info.requiresExplicitAck = decide (o.requires_explicit_ack = NMB_TRUE) ∧
      info.allowClose
        = (decide (o.allow_cancel_via_escape = NMB_TRUE)
            && !decide (o.requires_explicit_ack = NMB_TRUE)) ∧
      (∀ bs, o.buttons = some bs → 0 < o.button_count →
        info.buttonMap.length = o.button_count ∧
          ∀ k, k < o.button_count → ∃ b, bs.get? k = some b ∧
            info.buttonMap.get? k
              = some (Linux.GTK_RESPONSE_NONE - (k : Int) - 1, b.id)) ∧
      ((o.buttons = none ∨ o.button_count = 0) →
        info.buttonMap = [(Linux.GTK_RESPONSE_OK, NMB_BUTTON_ID_OK)]) ∧
      (armed = true ↔ (0 < o.timeout_milliseconds ∧ o.timeout_button_id ≠ NMB_BUTTON_ID_NONE ∧
        Linux.timeoutLookup info.buttonMap o.timeout_button_id ≠ 0)) ∧
      (armed = true →
        info.timeoutResponse = Linux.timeoutLookup info.buttonMap o.timeout_button_id) := by
  have hbuilt : ∃ m : List (Int × Nat),
      (match o.buttons with
        | some buttons =>
          if o.button_count > 0 then Linux.addButtons buttons o.button_count 0 []
          else .ok ([] ++ [(Linux.GTK_RESPONSE_OK, NMB_BUTTON_ID_OK)])
        | none => .ok ([] ++ [(Linux.GTK_RESPONSE_OK, NMB_BUTTON_ID_OK)])) = Except.ok m ∧
      (∀ bs, o.buttons = some bs → 0 < o.button_count →
        m.length = o.button_count ∧
          ∀ k, k < o.button_count → ∃ b, bs.get? k = some b ∧
            m.get? k = some (Linux.GTK_RESPONSE_NONE - (k : Int) - 1, b.id)) ∧
      ((o.buttons = none ∨ o.button_count = 0) →
        m = [(Linux.GTK_RESPONSE_OK, NMB_BUTTON_ID_OK)]) := by
    cases hb : o.buttons with
    | none =>
      exact ⟨_, rfl, fun bs h => (by cases h), fun _ => rfl⟩
    | some bs =>
      by_cases h0 : o.button_count > 0
      · obtain ⟨m, hm, hlen, hget⟩ :=
          linux_add_buttons bs o.button_count 0 [] (by simpa using harr bs hb)
        refine ⟨m, by simpa [h0] using hm, ?_, ?_⟩
        · intro bs2 hbs2 _
          cases hbs2
          refine ⟨hlen, fun k hk => ?_⟩
          obtain ⟨b, hb1, hb2⟩ := hget k hk
          exact ⟨b, by simpa using hb1, by simpa using hb2⟩
        · intro h
          rcases h with h | h
          · cases h
          · omega
      · simp only [if_neg h0]
        exact ⟨_, rfl, fun bs2 _ hpos => absurd hpos h0, fun _ => rfl⟩
  obtain ⟨m, hm, hreq, himp⟩ := hbuilt
  obtain ⟨info0, hd, hbm, hto, heq⟩ := linux_build_from_widgets o
  rw [heq, hbm, hm]
  simp only []
  by_cases hT : o.timeout_milliseconds > 0 ∧ o.timeout_button_id ≠ NMB_BUTTON_ID_NONE
  · by_cases hL : Linux.timeoutLookup m o.timeout_button_id = 0
    · have hA : decide (o.timeout_milliseconds > 0 ∧ o.timeout_button_id ≠ NMB_BUTTON_ID_NONE ∧
          (if o.timeout_milliseconds > 0 ∧ o.timeout_button_id ≠ NMB_BUTTON_ID_NONE then
            Linux.timeoutLookup m o.timeout_button_id else 0) ≠ 0) = false := by
        simp [hT, hL]
      rw [hA]
      refine ⟨_, _, rfl, hd, hto, rfl, rfl, hreq, himp, ?_, ?_⟩
      · simp [hL]
      · intro h
        cases h
    · have hA : decide (o.timeout_milliseconds > 0 ∧ o.timeout_button_id ≠ NMB_BUTTON_ID_NONE ∧
          (if o.timeout_milliseconds > 0 ∧ o.timeout_button_id ≠ NMB_BUTTON_ID_NONE then
            Linux.timeoutLookup m o.timeout_button_id else 0) ≠ 0) = true := by
        simp [hT, hL]
      rw [hA, if_pos hT]
      refine ⟨_, _, rfl, hd, hto, rfl, rfl, hreq, himp, ?_, ?_⟩
      · simp only [if_true, true_iff]
        exact ⟨hT.1, hT.2, hL⟩
      · intro _
        rfl
  · have hA : decide (o.timeout_milliseconds > 0 ∧ o.timeout_button_id ≠ NMB_BUTTON_ID_NONE ∧
        (if o.timeout_milliseconds > 0 ∧ o.timeout_button_id ≠ NMB_BUTTON_ID_NONE then
          Linux.timeoutLookup m o.timeout_button_id else 0) ≠ 0) = false := by
      rw [decide_eq_false_iff_not]
      intro h
      exact hT ⟨h.1, h.2.1⟩
    rw [hA]
    refine ⟨_, _, rfl, hd, hto, rfl, rfl, hreq, himp, ?_, ?_⟩
    · constructor
      · intro h
        cases h
      · intro h
        exact absurd ⟨h.1, h.2.1⟩ hT
    · intro h
      cases h

/-- The timeout lookup returns the response of the first pair with the timeout button id,
and `0` when no pair has that id. -/
theorem linux_timeout_lookup_first (m : List (Int × Nat)) (tid : Nat) :
    (∃ pre p post, m = pre ++ p :: post ∧ p.2 = tid ∧ (∀ q ∈ pre, q.2 ≠ tid) ∧
        Linux.timeoutLookup m tid = p.1) ∨
      ((∀ q ∈ m, q.2 ≠ tid) ∧ Linux.timeoutLookup m tid = 0) := by
  induction m with
  | nil => exact Or.inr ⟨fun q hq => (by cases hq), rfl⟩
  | cons x xs ih =>
    by_cases hx : x.2 = tid
    · refine Or.inl ⟨[], x, xs, rfl, hx, fun q hq => (by cases hq), ?_⟩
      unfold Linux.timeoutLookup
      simp [List.find?, hx]
    · have hb : (x.2 == tid) = false := by simpa using hx
      have hstep : Linux.timeoutLookup (x :: xs) tid = Linux.timeoutLookup xs tid := by
        unfold Linux.timeoutLookup
        simp [List.find?, hb]
      rcases ih with ⟨pre, p, post, hm, hp, hpre, hl⟩ | ⟨hall, hl⟩
      · refine Or.inl ⟨x :: pre, p, post, by rw [hm]; rfl, hp, ?_, by rw [hstep, hl]⟩
        intro q hq
        rcases List.mem_cons.mp hq with h | h
        · rw [h]; exact hx
        · exact hpre q h
      · refine Or.inr ⟨?_, by rw [hstep, hl]⟩
        intro q hq
        rcases List.mem_cons.mp hq with h | h
        · rw [h]; exact hx
        · exact hall q h

/-- Copying a string appends at most an allocation call to the trace. -/
theorem copy_string_appends (w : World) (a : Option NmbAllocator) (src : Option CString)
    (target : Option (Option CString)) :
    ∃ new, (nmb_copy_string_to_allocator w a src target).2.2.trace = w.trace ++ new ∧
      ∀ c ∈ new, c.isNative = false ∧ c.isLogLine = false := by
  unfold nmb_copy_string_to_allocator
  cases target with
  | none => exact ⟨[], (List.append_nil _).symm, fun c hc => (by cases hc)⟩
  | some old =>
    cases src with
    | none => exact ⟨[], (List.append_nil _).symm, fun c hc => (by cases hc)⟩
    | some s =>
      obtain ⟨new, hnew, hall⟩ := allocate_appends w a (strlen s + 1) 1
      refine ⟨new, ?_, hall⟩
      simp only []
      split_ifs <;> exact hnew

/-- The input copy of a GTK session appends at most an allocation call to the trace. -/
theorem linux_copy_input_appends (w : World) (o : NmbMessageBoxOptions)
    (info : Linux.GtkDialogInfo) (r : NmbMessageBoxResult) :
    ∃ new, (Linux.CopyInputValue w o (some info) r).2.2.trace = w.trace ++ new ∧
      ∀ c ∈ new, c.isNative = false ∧ c.isLogLine = false := by
  unfold Linux.CopyInputValue
  simp only []
  split_ifs
  all_goals first
    | exact copy_string_appends w o.allocator _ _
    | (cases hc : w.gtk.combo_active_text <;>
        first
          | exact copy_string_appends w o.allocator _ _
          | exact ⟨[], (List.append_nil _).symm, fun c hc => (by cases hc)⟩)

/-- The phase of a GTK session after `gtk_dialog_run` appends at most an allocation call
to the trace. -/
theorem linux_finish_appends (w : World) (o : NmbMessageBoxOptions)
    (info : Linux.GtkDialogInfo) (response : Int) (r : NmbMessageBoxResult) :
    ∃ new, (Linux.ShowGtkDialog.finish w o info response r).2.2.trace = w.trace ++ new ∧
      ∀ c ∈ new, c.isNative = false ∧ c.isLogLine = false := by
  by_cases hcl : (Linux.MapButtonId info response).isNone = true ∧
      (response = Linux.GTK_RESPONSE_DELETE_EVENT ∨
        response = Linux.GTK_RESPONSE_CANCEL ∨ response = Linux.GTK_RESPONSE_CLOSE ∨
        response = Linux.GTK_RESPONSE_REJECT ∨ response = Linux.GTK_RESPONSE_NONE)
  · refine ⟨[], ?_, fun c hc => (by cases hc)⟩
    unfold Linux.ShowGtkDialog.finish
    simp only []
    rw [if_pos hcl]
    simp
  · obtain ⟨r2, -, -, -, heq⟩ := linux_finish_other w o info response r hcl
    rw [heq]
    exact linux_copy_input_appends w o info r2

/-- Every response code in the button map of a constructed dialog is negative, and it
fits the C type `int` when the request has fewer than `2 ^ 31` buttons. -/
theorem linux_build_codes (o : NmbMessageBoxOptions) (info : Linux.GtkDialogInfo)
    (hcount : o.button_count < 2 ^ 31)
    (hreq : ∀ bs, o.buttons = some bs → 0 < o.button_count →
      info.buttonMap.length = o.button_count ∧
        ∀ k, k < o.button_count → ∃ b, bs.get? k = some b ∧
          info.buttonMap.get? k = some (Linux.GTK_RESPONSE_NONE - (k : Int) - 1, b.id))
    (himp : (o.buttons = none ∨ o.button_count = 0) →
      info.buttonMap = [(Linux.GTK_RESPONSE_OK, NMB_BUTTON_ID_OK)]) :
    ∀ p ∈ info.buttonMap, -(2 : Int) ^ 31 ≤ p.1 ∧ p.1 < 0 := by
  intro p hp
  by_cases hno : o.buttons = none ∨ o.button_count = 0
  · rw [himp hno] at hp
    simp only [List.mem_singleton] at hp
    rw [hp]
    decide
  · cases hb : o.buttons with
    | none => exact absurd (Or.inl hb) hno
    | some bs =>
      have hpos : 0 < o.button_count := by
        rcases Nat.eq_zero_or_pos o.button_count with h | h
        · exact absurd (Or.inr h) hno
        · exact h
      obtain ⟨hlen, hget⟩ := hreq bs hb hpos
      obtain ⟨k, hk⟩ := List.mem_iff_get?.mp hp
      have hklt : k < info.buttonMap.length := by
        rcases Nat.lt_or_ge k info.buttonMap.length with h | h
        · exact h
        · rw [List.get?_eq_none.mpr h] at hk
          cases hk
      obtain ⟨b, -, hkb⟩ := hget k (by omega)
      rw [hkb] at hk
      cases hk
      simp only [Linux.GTK_RESPONSE_NONE]
      constructor <;> omega

/-- A GTK session that returns has armed the timer when the construction phase says so,
then run the dialog; what follows are the response the timer callback synthesizes (when
the user left the dialog alone) and allocation calls. -/
theorem linux_gtk_trace (w W : World) (o : NmbMessageBoxOptions)
    (r R : NmbMessageBoxResult) (rc : Nat) (info : Linux.GtkDialogInfo) (armed : Bool)
    (hbuild : Linux.ShowGtkDialog.build o = .ok (info, armed))
    (hdialog : info.dialog = true)
    (hrun : Linux.ShowGtkDialog w o r = .ok (rc, R, W)) :
    ∃ new, (∀ c ∈ new, c.isNative = false ∧ c.isLogLine = false) ∧
      W.trace = w.trace
        ++ (if armed then [Call.g_timeout_add o.timeout_milliseconds info.timeoutResponse]
            else [])
        ++ Call.gtk_dialog_run
          :: ((if armed = true ∧ w.gtk.user_response = none then
                [Call.gtk_dialog_response info.timeoutResponse]
              else []) ++ new) := by
  unfold Linux.ShowGtkDialog at hrun
  simp only [hbuild] at hrun
  have hgtk : ∀ c, (w.record c).gtk = w.gtk := fun _ => rfl
  have htr : ∀ (v : World) c, (v.record c).trace = v.trace ++ [c] := fun _ _ => rfl
  cases armed with
  | false =>
    simp only [Bool.false_eq_true, if_false, hgtk] at hrun
    cases hu : w.gtk.user_response with
    | none => simp [hu] at hrun
    | some resp =>
      simp only [hu, Except.ok.injEq] at hrun
      obtain ⟨new, hnew, hall⟩ :=
        linux_finish_appends (w.record Call.gtk_dialog_run) o info resp r
      rw [hrun] at hnew
      refine ⟨new, hall, ?_⟩
      simp only at hnew
      rw [hnew, htr]
      simp
  | true =>
    simp only [if_true] at hrun
    have hgtk2 : ∀ c d, ((w.record c).record d).gtk = w.gtk := fun _ _ => rfl
    simp only [hgtk2] at hrun
    cases hu : w.gtk.user_response with
    | none =>
      simp only [hu, Except.ok.injEq] at hrun
      have hcb : Linux.TimeoutCallback
          ((w.record (Call.g_timeout_add o.timeout_milliseconds info.timeoutResponse)).record
            Call.gtk_dialog_run) (some info)
          = (Linux.G_SOURCE_REMOVE, some { info with timedOut := true },
              ((w.record (Call.g_timeout_add o.timeout_milliseconds
                info.timeoutResponse)).record Call.gtk_dialog_run).record
                (Call.gtk_dialog_response info.timeoutResponse)) := by
        unfold Linux.TimeoutCallback
        simp [hdialog]
      rw [hcb] at hrun
      obtain ⟨new, hnew, hall⟩ :=
        linux_finish_appends
          (((w.record (Call.g_timeout_add o.timeout_milliseconds
            info.timeoutResponse)).record Call.gtk_dialog_run).record
            (Call.gtk_dialog_response info.timeoutResponse))
          o { info with timedOut := true } info.timeoutResponse r
      simp only [Option.getD_some] at hrun
      rw [hrun] at hnew
      refine ⟨new, hall, ?_⟩
      simp only at hnew
      rw [hnew, htr, htr, htr]
      simp
    | some resp =>
      simp only [hu, Except.ok.injEq] at hrun
      obtain ⟨new, hnew, hall⟩ :=
        linux_finish_appends
          ((w.record (Call.g_timeout_add o.timeout_milliseconds
            info.timeoutResponse)).record Call.gtk_dialog_run) o info resp r
      rw [hrun] at hnew
      refine ⟨new, hall, ?_⟩
      simp only at hnew
      rw [hnew, htr, htr]
      simp

/-- C23: for a request whose button array, when present, holds its `button_count`
elements (fewer than `2 ^ 31`, so that the index fits the C type `int`). The GTK
dialog renders button `k` of a requested list with the response code
`GTK_RESPONSE_NONE - k - 1`, and the implicit OK button with `GTK_RESPONSE_OK` when no
button is requested. The timer is armed exactly when the timeout is positive, the
timeout button id is not none, and a rendered button has that id. When it is armed, the
response the timer callback hands to `gtk_dialog_response` is the response code of the
first rendered button with that id, and a session that returns has called `g_timeout_add`
with that response before it ran the dialog; when it is not armed, a session that returns
has not called `g_timeout_add` at all. -/
theorem timer_armed_iff_rendered (w : World) (o : NmbMessageBoxOptions)
    (r : NmbMessageBoxResult)
    (harr : ∀ bs, o.buttons = some bs → o.button_count ≤ bs.length)
    (hcount : o.button_count < 2 ^ 31) :
    ∃ info armed, Linux.ShowGtkDialog.build o = .ok (info, armed) ∧
      (∀ bs, o.buttons = some bs → 0 < o.button_count →
        info.buttonMap.length = o.button_count ∧
          ∀ k, k < o.button_count → ∃ b, bs.get? k = some b ∧
            info.buttonMap.get? k
              = some (Linux.GTK_RESPONSE_NONE - (k : Int) - 1, b.id)) ∧
      ((o.buttons = none ∨ o.button_count = 0) →
        info.buttonMap = [(Linux.GTK_RESPONSE_OK, NMB_BUTTON_ID_OK)]) ∧
      (∀ p ∈ info.buttonMap, -(2 : Int) ^ 31 ≤ p.1 ∧ p.1 < 0) ∧
      (armed = true ↔ (0 < o.timeout_milliseconds ∧ o.timeout_button_id ≠ NMB_BUTTON_ID_NONE ∧
        ∃ p ∈ info.buttonMap, p.2 = o.timeout_button_id)) ∧
      (armed = true →
        ∃ pre p post, info.buttonMap = pre ++ p :: post ∧ p.2 = o.timeout_button_id ∧
          (∀ q ∈ pre, q.2 ≠ o.timeout_button_id) ∧
          (Linux.TimeoutCallback w (some info)).2.2.trace
            = w.trace ++ [Call.gtk_dialog_response p.1] ∧
          ∀ rc R W, Linux.ShowGtkDialog w o r = .ok (rc, R, W) →
            ∃ rest, W.trace = w.trace ++ Call.g_timeout_add o.timeout_milliseconds p.1
              :: Call.gtk_dialog_run :: rest) ∧
      (armed = false →
        ∀ rc R W, Linux.ShowGtkDialog w o r = .ok (rc, R, W) →
          ∃ rest, W.trace = w.trace ++ Call.gtk_dialog_run :: rest ∧
            ∀ c ∈ rest, c.isNative = false) := by
  obtain ⟨info, armed, hb, hd, -, -, -, hreq, himp, harm, hresp⟩ := linux_build_spec o harr
  have hcodes := linux_build_codes o info hcount hreq himp
  have hlook := linux_timeout_lookup_first info.buttonMap o.timeout_button_id
  refine ⟨info, armed, hb, hreq, himp, hcodes, ?_, ?_, ?_⟩
  · rw [harm]
    constructor
    · rintro ⟨h1, h2, h3⟩
      refine ⟨h1, h2, ?_⟩
      rcases hlook with ⟨pre, p, post, hm, hp, -, -⟩ | ⟨-, h0⟩
      · exact ⟨p, by rw [hm]; simp, hp⟩
      · exact absurd h0 h3
    · rintro ⟨h1, h2, p, hpm, hp⟩
      refine ⟨h1, h2, ?_⟩
      rcases hlook with ⟨pre, q, post, hm, -, -, hl⟩ | ⟨hall, -⟩
      · rw [hl]
        have hq : q ∈ info.buttonMap := by rw [hm]; simp
        have := (hcodes q hq).2
        omega
      · exact absurd hp (hall p hpm)
  · intro ha
    have h3 := (harm.mp ha).2.2
    rcases hlook with ⟨pre, p, post, hm, hp, hpre, hl⟩ | ⟨-, h0⟩
    · have htr : info.timeoutResponse = p.1 := by rw [hresp ha, hl]
      refine ⟨pre, p, post, hm, hp, hpre, ?_, ?_⟩
      · unfold Linux.TimeoutCallback
        simp [hd, htr, World.record]
      · intro rc R W hrun
        obtain ⟨new, -, htrace⟩ := linux_gtk_trace w W o r R rc info armed hb hd hrun
        rw [ha, htr] at htrace
        refine ⟨(if true = true ∧ w.gtk.user_response = none then
            [Call.gtk_dialog_response p.1] else []) ++ new, ?_⟩
        rw [htrace]
        simp
    · exact absurd h0 h3
  · intro ha rc R W hrun
    obtain ⟨new, hall, htrace⟩ := linux_gtk_trace w W o r R rc info armed hb hd hrun
    rw [ha] at htrace
    refine ⟨new, by rw [htrace]; simp, fun c hc => (hall c hc).1⟩

/-- The request with the buttons Yes and No holds the two elements it announces. -/
theorem yes_no_timed_valid :
    ∀ bs, yesNoTimedOptions.buttons = some bs → yesNoTimedOptions.button_count ≤ bs.length := by
  intro bs hb
  cases hb
  exact Nat.le_refl _

/-- C23 (witness): the sample request with the buttons Yes and No and a timeout of five
seconds that resolves to No. -/
theorem timer_armed_iff_rendered_witness :
    ∃ info armed, Linux.ShowGtkDialog.build yesNoTimedOptions = .ok (info, armed) ∧
      (∀ bs, yesNoTimedOptions.buttons = some bs → 0 < yesNoTimedOptions.button_count →
        info.buttonMap.length = yesNoTimedOptions.button_count ∧
          ∀ k, k < yesNoTimedOptions.button_count → ∃ b, bs.get? k = some b ∧
            info.buttonMap.get? k
              = some (Linux.GTK_RESPONSE_NONE - (k : Int) - 1, b.id)) ∧
      ((yesNoTimedOptions.buttons = none ∨ yesNoTimedOptions.button_count = 0) →
        info.buttonMap = [(Linux.GTK_RESPONSE_OK, NMB_BUTTON_ID_OK)]) ∧
      (∀ p ∈ info.buttonMap, -(2 : Int) ^ 31 ≤ p.1 ∧ p.1 < 0) ∧
      (armed = true ↔
        (0 < yesNoTimedOptions.timeout_milliseconds ∧
          yesNoTimedOptions.timeout_button_id ≠ NMB_BUTTON_ID_NONE ∧
          ∃ p ∈ info.buttonMap, p.2 = yesNoTimedOptions.timeout_button_id)) ∧
      (armed = true →
        ∃ pre p post, info.buttonMap = pre ++ p :: post ∧
          p.2 = yesNoTimedOptions.timeout_button_id ∧
          (∀ q ∈ pre, q.2 ≠ yesNoTimedOptions.timeout_button_id) ∧
          (Linux.TimeoutCallback World.sample (some info)).2.2.trace
            = World.sample.trace ++ [Call.gtk_dialog_response p.1] ∧
          ∀ rc R W,
            Linux.ShowGtkDialog World.sample yesNoTimedOptions sampleResult = .ok (rc, R, W) →
            ∃ rest, W.trace = World.sample.trace
              ++ Call.g_timeout_add yesNoTimedOptions.timeout_milliseconds p.1
                :: Call.gtk_dialog_run :: rest) ∧
      (armed = false →
        ∀ rc R W,
          Linux.ShowGtkDialog World.sample yesNoTimedOptions sampleResult = .ok (rc, R, W) →
          ∃ rest, W.trace = World.sample.trace ++ Call.gtk_dialog_run :: rest ∧
            ∀ c ∈ rest, c.isNative = false) :=
  timer_armed_iff_rendered World.sample yesNoTimedOptions sampleResult yes_no_timed_valid
    (by decide)

/-! ## Theorems: the lifetime of the GTK timer -/

/-- C24 (failing input): the sample request with a timeout of five seconds that resolves
to the implicit OK button. When the user presses OK before the timeout, the session
returns ok with the timer armed and never disarmed: the trace ends with `gtk_dialog_run`,
and one timeout source, whose callback holds the address of the local dialog info, is
still attached when the call has returned. Only when the user leaves the dialog alone
does the source go, because its callback has run. -/
theorem gtk_timer_left_armed :
    observable (Linux.nmb_show_message_box (World.gtkAnswers Linux.GTK_RESPONSE_OK)
        (some (sampleTimedOptions [] 5000 NMB_BUTTON_ID_OK)) (some sampleResult))
      = some (NMB_OK, some { baseline Build.lp64 with button := NMB_BUTTON_ID_OK }) ∧
    finalTrace (Linux.nmb_show_message_box (World.gtkAnswers Linux.GTK_RESPONSE_OK)
        (some (sampleTimedOptions [] 5000 NMB_BUTTON_ID_OK)) (some sampleResult))
      = some [Call.gtk_init_check, Call.g_timeout_add 5000 Linux.GTK_RESPONSE_OK,
          Call.gtk_dialog_run] ∧
    (finalTrace (Linux.nmb_show_message_box (World.gtkAnswers Linux.GTK_RESPONSE_OK)
        (some (sampleTimedOptions [] 5000 NMB_BUTTON_ID_OK)) (some sampleResult))).map
      armedTimers = some 1 ∧
    finalTrace (Linux.nmb_show_message_box World.sample
        (some (sampleTimedOptions [] 5000 NMB_BUTTON_ID_OK)) (some sampleResult))
      = some [Call.gtk_init_check, Call.g_timeout_add 5000 Linux.GTK_RESPONSE_OK,
          Call.gtk_dialog_run, Call.gtk_dialog_response Linux.GTK_RESPONSE_OK] ∧
    (finalTrace (Linux.nmb_show_message_box World.sample
        (some (sampleTimedOptions [] 5000 NMB_BUTTON_ID_OK)) (some sampleResult))).map
      armedTimers = some 0 := by
  decide

/-! ## Theorems: the response codes of the GTK buttons -/

/-- C25 (failing input): the sample request with the three buttons Yes, No and Help. The
dialog gives them the response codes -2, -3 and -4, which are `GTK_RESPONSE_REJECT`,
`GTK_RESPONSE_ACCEPT` and `GTK_RESPONSE_DELETE_EVENT`; when the user closes the window,
the delete-event response is mapped to the Help button and the call returns ok with the
Help id, not cancelled. -/
theorem close_code_assigned_to_button :
    (Linux.ShowGtkDialog.build yesNoHelpOptions).toOption.map (fun p => p.1.buttonMap)
      = some [(Linux.GTK_RESPONSE_REJECT, NMB_BUTTON_ID_YES),
          (Linux.GTK_RESPONSE_ACCEPT, NMB_BUTTON_ID_NO),
          (Linux.GTK_RESPONSE_DELETE_EVENT, NMB_BUTTON_ID_HELP)] ∧
    observable (Linux.nmb_show_message_box
        (World.gtkAnswers Linux.GTK_RESPONSE_DELETE_EVENT)
        (some yesNoHelpOptions) (some sampleResult))
      = some (NMB_OK, some { baseline Build.lp64 with button := NMB_BUTTON_ID_HELP }) := by
  decide

/-- The function `MapButtonId` finds no id for a response that is the code of no pair, and
it finds the id of a pair whose code no earlier pair has. -/
theorem linux_map_button_spec (info : Linux.GtkDialogInfo) :
    (∀ c, (∀ p ∈ info.buttonMap, p.1 ≠ c) → Linux.MapButtonId info c = none) ∧
      (∀ pre p post, info.buttonMap = pre ++ p :: post → (∀ q ∈ pre, q.1 ≠ p.1) →
        Linux.MapButtonId info p.1 = some p.2) := by
  constructor
  · intro c hc
    unfold Linux.MapButtonId
    have hnone : info.buttonMap.find? (fun pair => pair.1 == c) = none := by
      rw [List.find?_eq_none]
      intro p hp
      simpa using hc p hp
    rw [hnone]
  · intro pre p post hm hpre
    unfold Linux.MapButtonId
    have hsome : info.buttonMap.find? (fun pair => pair.1 == p.1) = some p := by
      rw [hm, List.find?_append]
      have hnone : pre.find? (fun pair => pair.1 == p.1) = none := by
        rw [List.find?_eq_none]
        intro q hq
        simpa using hpre q hq
      rw [hnone]
      simp [List.find?]
    rw [hsome]

/-- The entries of a list at two different positions, as a split of the list around the
later one. -/
theorem list_split_at {α : Type} (m : List α) (k : Nat) (p : α) (hk : m.get? k = some p) :
    ∃ pre post, m = pre ++ p :: post ∧ pre.length = k ∧
      ∀ q ∈ pre, ∃ j, j < k ∧ m.get? j = some q := by
  have hlt : k < m.length := by
    rcases Nat.lt_or_ge k m.length with h | h
    · exact h
    · rw [List.get?_eq_none.mpr h] at hk
      cases hk
  refine ⟨m.take k, m.drop (k + 1), ?_, ?_, ?_⟩
  · have hget : m.get ⟨k, hlt⟩ = p := by
      rw [List.get?_eq_get hlt] at hk
      exact Option.some.inj hk
    rw [← hget]
    have := List.take_append_drop k m
    rw [List.get_eq_getElem, ← List.drop_eq_getElem_cons hlt]
    exact this.symm
  · simp [Nat.min_eq_left (Nat.le_of_lt hlt)]
  · intro q hq
    obtain ⟨j, hj⟩ := List.mem_iff_get?.mp hq
    have hjlt : j < (m.take k).length := by
      rcases Nat.lt_or_ge j (m.take k).length with h | h
      · exact h
      · rw [List.get?_eq_none.mpr h] at hj
        cases hj
    have hjk : j < k := by
      simp at hjlt
      omega
    refine ⟨j, hjk, ?_⟩
    rw [← hj]
    simp [List.get?_eq_getElem?, List.getElem?_take, hjk]

/-- The response codes in the button map of a constructed dialog are pairwise different. -/
theorem linux_build_distinct (o : NmbMessageBoxOptions) (info : Linux.GtkDialogInfo)
    (hreq : ∀ bs, o.buttons = some bs → 0 < o.button_count →
      info.buttonMap.length = o.button_count ∧
        ∀ k, k < o.button_count → ∃ b, bs.get? k = some b ∧
          info.buttonMap.get? k = some (Linux.GTK_RESPONSE_NONE - (k : Int) - 1, b.id))
    (himp : (o.buttons = none ∨ o.button_count = 0) →
      info.buttonMap = [(Linux.GTK_RESPONSE_OK, NMB_BUTTON_ID_OK)]) :
    ∀ i j p q, info.buttonMap.get? i = some p → info.buttonMap.get? j = some q → i ≠ j →
      p.1 ≠ q.1 := by
  intro i j p q hi hj hij
  have hlt : ∀ (k : Nat) (x : Int × Nat), info.buttonMap.get? k = some x →
      k < info.buttonMap.length := by
    intro k x hk
    rcases Nat.lt_or_ge k info.buttonMap.length with h | h
    · exact h
    · rw [List.get?_eq_none.mpr h] at hk
      cases hk
  have hil := hlt i p hi
  have hjl := hlt j q hj
  by_cases hno : o.buttons = none ∨ o.button_count = 0
  · rw [himp hno] at hil hjl
    simp only [List.length_singleton] at hil hjl
    omega
  · cases hb : o.buttons with
    | none => exact absurd (Or.inl hb) hno
    | some bs =>
      have hpos : 0 < o.button_count := by
        rcases Nat.eq_zero_or_pos o.button_count with h | h
        · exact absurd (Or.inr h) hno
        · exact h
      obtain ⟨hlen, hget⟩ := hreq bs hb hpos
      obtain ⟨b1, -, h1⟩ := hget i (by omega)
      obtain ⟨b2, -, h2⟩ := hget j (by omega)
      rw [h1] at hi
      rw [h2] at hj
      cases hi
      cases hj
      simp only [Linux.GTK_RESPONSE_NONE]
      omega

/-- C26: for a request whose button array, when present, holds its `button_count`
elements (fewer than `2 ^ 31`, so that the index fits the C type `int`). The GTK dialog
gives button `k` of a requested list the response code `GTK_RESPONSE_NONE - k - 1`, and
`MapButtonId` on that code finds exactly the id of button `k`; with no requested button
the map holds the implicit OK button and `MapButtonId` on `GTK_RESPONSE_OK` finds the ok
id. Every response code fits the type `int`, the codes of two different rendered buttons
differ, and `MapButtonId` finds nothing for a code that no rendered button has. -/
theorem response_codes_distinct_and_mapped (o : NmbMessageBoxOptions)
    (harr : ∀ bs, o.buttons = some bs → o.button_count ≤ bs.length)
    (hcount : o.button_count < 2 ^ 31) :
    ∃ info armed, Linux.ShowGtkDialog.build o = .ok (info, armed) ∧
      (∀ bs, o.buttons = some bs → 0 < o.button_count →
        info.buttonMap.length = o.button_count ∧
          ∀ k, k < o.button_count → ∃ b, bs.get? k = some b ∧
            info.buttonMap.get? k
              = some (Linux.GTK_RESPONSE_NONE - (k : Int) - 1, b.id) ∧
            Linux.MapButtonId info (Linux.GTK_RESPONSE_NONE - (k : Int) - 1) = some b.id) ∧
      ((o.buttons = none ∨ o.button_count = 0) →
        info.buttonMap = [(Linux.GTK_RESPONSE_OK, NMB_BUTTON_ID_OK)] ∧
          Linux.MapButtonId info Linux.GTK_RESPONSE_OK = some NMB_BUTTON_ID_OK) ∧
      (∀ p ∈ info.buttonMap, -(2 : Int) ^ 31 ≤ p.1 ∧ p.1 < 0) ∧
      (∀ i j p q, info.buttonMap.get? i = some p → info.buttonMap.get? j = some q → i ≠ j →
        p.1 ≠ q.1) ∧
      (∀ c, (∀ p ∈ info.buttonMap, p.1 ≠ c) → Linux.MapButtonId info c = none) := by
  obtain ⟨info, armed, hb, -, -, -, -, hreq, himp, -, -⟩ := linux_build_spec o harr
  have hdist := linux_build_distinct o info hreq himp
  obtain ⟨hnone, hsome⟩ := linux_map_button_spec info
  refine ⟨info, armed, hb, ?_, ?_, linux_build_codes o info hcount hreq himp, hdist, hnone⟩
  · intro bs hbs hpos
    obtain ⟨hlen, hget⟩ := hreq bs hbs hpos
    refine ⟨hlen, fun k hk => ?_⟩
    obtain ⟨b, hb1, hb2⟩ := hget k hk
    refine ⟨b, hb1, hb2, ?_⟩
    obtain ⟨pre, post, hm, -, hpre⟩ := list_split_at info.buttonMap k _ hb2
    refine hsome pre _ post hm ?_
    intro q hq
    obtain ⟨j, hjk, hj⟩ := hpre q hq
    exact hdist j k q _ hj hb2 (by omega)
  · intro hno
    refine ⟨himp hno, ?_⟩
    exact hsome [] (Linux.GTK_RESPONSE_OK, NMB_BUTTON_ID_OK) [] (himp hno)
      (fun q hq => (by cases hq))

/-- C26 (witness): the sample request with the buttons Yes and No. -/
theorem response_codes_distinct_and_mapped_witness :
    ∃ info armed, Linux.ShowGtkDialog.build yesNoTimedOptions = .ok (info, armed) ∧
      (∀ bs, yesNoTimedOptions.buttons = some bs → 0 < yesNoTimedOptions.button_count →
        info.buttonMap.length = yesNoTimedOptions.button_count ∧
          ∀ k, k < yesNoTimedOptions.button_count → ∃ b, bs.get? k = some b ∧
            info.buttonMap.get? k
              = some (Linux.GTK_RESPONSE_NONE - (k : Int) - 1, b.id) ∧
            Linux.MapButtonId info (Linux.GTK_RESPONSE_NONE - (k : Int) - 1) = some b.id) ∧
      ((yesNoTimedOptions.buttons = none ∨ yesNoTimedOptions.button_count = 0) →
        info.buttonMap = [(Linux.GTK_RESPONSE_OK, NMB_BUTTON_ID_OK)] ∧
          Linux.MapButtonId info Linux.GTK_RESPONSE_OK = some NMB_BUTTON_ID_OK) ∧
      (∀ p ∈ info.buttonMap, -(2 : Int) ^ 31 ≤ p.1 ∧ p.1 < 0) ∧
      (∀ i j p q, info.buttonMap.get? i = some p → info.buttonMap.get? j = some q → i ≠ j →
        p.1 ≠ q.1) ∧
      (∀ c, (∀ p ∈ info.buttonMap, p.1 ≠ c) → Linux.MapButtonId info c = none) :=
  response_codes_distinct_and_mapped yesNoTimedOptions yes_no_timed_valid (by decide)

/-! ## Theorems: window close and Escape in the GTK session -/

/-- C27: for a request whose button array, when present, holds its `button_count`
elements. With the dialog info the GTK session connects its handlers to, the
delete-event handler stops a window close exactly when `allow_cancel_via_escape` is not
true or `requires_explicit_ack` is true, the key-press handler stops the Escape key under
exactly the same condition, and the key-press handler stops no other key. -/
theorem close_and_escape_suppressed_iff (o : NmbMessageBoxOptions)
    (harr : ∀ bs, o.buttons = some bs → o.button_count ≤ bs.length) :
    ∃ info armed, Linux.ShowGtkDialog.build o = .ok (info, armed) ∧
      (Linux.OnDeleteEvent (some info) = true ↔
        (o.allow_cancel_via_escape ≠ NMB_TRUE ∨ o.requires_explicit_ack = NMB_TRUE)) ∧
      (Linux.OnKeyPress (some info) (some Linux.GDK_KEY_Escape) = true ↔
        (o.allow_cancel_via_escape ≠ NMB_TRUE ∨ o.requires_explicit_ack = NMB_TRUE)) ∧
      (∀ keyval, keyval ≠ Linux.GDK_KEY_Escape →
        Linux.OnKeyPress (some info) (some keyval) = false) := by
  obtain ⟨info, armed, hb, -, -, hack, hallow, -, -, -, -⟩ := linux_build_spec o harr
  refine ⟨info, armed, hb, ?_, ?_, ?_⟩
  · unfold Linux.OnDeleteEvent
    simp only [hallow]
    by_cases h1 : o.allow_cancel_via_escape = NMB_TRUE <;>
      by_cases h2 : o.requires_explicit_ack = NMB_TRUE <;> simp [h1, h2]
  · unfold Linux.OnKeyPress
    simp only [hallow, hack, if_true]
    by_cases h1 : o.allow_cancel_via_escape = NMB_TRUE <;>
      by_cases h2 : o.requires_explicit_ack = NMB_TRUE <;> simp [h1, h2]
  · intro keyval hk
    unfold Linux.OnKeyPress
    simp only [if_neg hk]

/-- C27 (witness): the sample request with the buttons Yes and No, which allows
cancelling with Escape and requires no explicit acknowledgement. -/
theorem close_and_escape_suppressed_iff_witness :
    ∃ info armed, Linux.ShowGtkDialog.build yesNoTimedOptions = .ok (info, armed) ∧
      (Linux.OnDeleteEvent (some info) = true ↔
        (yesNoTimedOptions.allow_cancel_via_escape ≠ NMB_TRUE ∨
          yesNoTimedOptions.requires_explicit_ack = NMB_TRUE)) ∧
      (Linux.OnKeyPress (some info) (some Linux.GDK_KEY_Escape) = true ↔
        (yesNoTimedOptions.allow_cancel_via_escape ≠ NMB_TRUE ∨
          yesNoTimedOptions.requires_explicit_ack = NMB_TRUE)) ∧
      (∀ keyval, keyval ≠ Linux.GDK_KEY_Escape →
        Linux.OnKeyPress (some info) (some keyval) = false) :=
  close_and_escape_suppressed_iff yesNoTimedOptions yes_no_timed_valid

/-! ## Theorems: the returned status and the stored status -/

/-- The Linux harness step that does not apply leaves the result struct as it was. -/
theorem linux_harness_declined (w : World) (o : NmbMessageBoxOptions)
    (r : NmbMessageBoxResult)
    (h : (Linux.ApplyTestHarness w (some o) (some r)).1 = false) :
    (Linux.ApplyTestHarness w (some o) (some r)).2.1 = some r := by
  unfold Linux.ApplyTestHarness at h ⊢
  cases hc : o.user_context with
  | none => simp [hc]
  | some hs =>
    simp only [hc] at h ⊢
    split_ifs at h ⊢
    all_goals first
      | rfl
      | (cases hi : hs.input_value_utf8 <;> cases ha : o.allocator <;>
          simp only [hi, ha] at h <;> (try split_ifs at h) <;> simp at h)

/-- The Windows harness step that does not apply leaves the result struct as it was. -/
theorem windows_harness_declined (w : World) (o : NmbMessageBoxOptions)
    (r : NmbMessageBoxResult)
    (h : (Windows.ApplyTestHarness w (some o) (some r)).1 = false) :
    (Windows.ApplyTestHarness w (some o) (some r)).2.1 = some r := by
  unfold Windows.ApplyTestHarness at h ⊢
  cases hc : o.user_context with
  | none => simp [hc]
  | some hs =>
    simp only [hc] at h ⊢
    split_ifs at h ⊢
    all_goals first
      | rfl
      | (cases hi : hs.input_value_utf8 <;> cases ha : o.allocator <;>
          simp only [hi, ha] at h <;> (try split_ifs at h) <;> simp at h)

/-- The Android harness step that does not apply leaves the result struct as it was. -/
theorem android_harness_declined (w : World) (o : NmbMessageBoxOptions)
    (r : NmbMessageBoxResult)
    (h : (Android.ApplyTestHarness w (some o) (some r)).1 = false) :
    (Android.ApplyTestHarness w (some o) (some r)).2.1 = some r := by
  unfold Android.ApplyTestHarness at h ⊢
  cases hc : o.user_context with
  | none => simp [hc]
  | some hs =>
    simp only [hc] at h ⊢
    split_ifs at h ⊢
    all_goals first
      | rfl
      | (cases hi : hs.input_value_utf8 <;> cases ha : o.allocator <;>
          simp only [hi, ha] at h <;> (try split_ifs at h) <;> simp at h)

/-- The Linux tiers return the stored status, or they return platform failure and leave
the result struct as it was. -/
theorem linux_tiers_status (w W : World) (o : NmbMessageBoxOptions)
    (r R : NmbMessageBoxResult) (rc : Nat) (hnull : r.input_value_utf8 = none)
    (hrun : Linux.nmb_show_message_box.tiers w o r = .ok (rc, some R, W)) :
    rc = R.result_code ∨ (rc = NMB_E_PLATFORM_FAILURE ∧ R = r) := by
  unfold Linux.nmb_show_message_box.tiers at hrun
  generalize hh : (if w.build.testing = true then Linux.ApplyTestHarness w (some o) (some r)
    else (false, some r, w)) = t at hrun
  obtain ⟨applied, after, w3⟩ := t
  have hafter : applied = false → after = some r := by
    intro ha
    subst ha
    by_cases ht : w.build.testing = true
    · rw [if_pos ht] at hh
      have := linux_harness_declined w o r (by rw [hh])
      rw [hh] at this
      exact this
    · rw [if_neg ht] at hh
      simp only [Prod.mk.injEq, true_and] at hh
      exact hh.1.symm
  cases applied with
  | true =>
    simp only [if_true, Except.ok.injEq, Prod.mk.injEq, Option.some.injEq] at hrun
    obtain ⟨h1, h2, -⟩ := hrun
    left
    rw [← h1, ← h2]
  | false =>
    rw [hafter rfl] at hrun
    simp only [Option.getD_some, Bool.false_eq_true, if_false] at hrun
    by_cases hav : (Linux.EnsureGtkInitialized w3).1 = true
    · simp only [hav, Bool.not_true, Bool.false_eq_true, if_false] at hrun
      cases hg : Linux.ShowGtkDialog (Linux.EnsureGtkInitialized w3).2 o r with
      | error e => simp [hg] at hrun
      | ok t =>
        obtain ⟨rc1, R1, W1⟩ := t
        simp only [hg, Except.ok.injEq, Prod.mk.injEq, Option.some.injEq] at hrun
        obtain ⟨h1, h2, -⟩ := hrun
        obtain ⟨w2, info, response, hfin⟩ := linux_gtk_returns _ W1 o r R1 rc1 hg
        have := (linux_gtk_finish w2 o info response r hnull).1
        rw [hfin] at this
        left
        rw [← h1, ← h2]
        exact this
    · have hav2 : (Linux.EnsureGtkInitialized w3).1 = false := by
        simpa using hav
      simp only [hav2, Bool.not_false, if_true] at hrun
      by_cases hz : (Linux.RunZenityFallback
          (nmb_runtime_log (Linux.EnsureGtkInitialized w3).2
            (some "Linux: GTK unavailable, attempting zenity fallback."))
          (some o) r).1 = true
      · simp only [hz, if_true, Except.ok.injEq, Prod.mk.injEq, Option.some.injEq] at hrun
        obtain ⟨h1, h2, -⟩ := hrun
        left
        rw [← h1, ← h2]
        exact (linux_zenity_accepted _ o r hz).symm
      · have hz2 : (Linux.RunZenityFallback
            (nmb_runtime_log (Linux.EnsureGtkInitialized w3).2
              (some "Linux: GTK unavailable, attempting zenity fallback."))
            (some o) r).1 = false := by
          simpa using hz
        simp only [hz2, Bool.false_eq_true, if_false, Except.ok.injEq, Prod.mk.injEq,
          Option.some.injEq] at hrun
        obtain ⟨h1, h2, -⟩ := hrun
        right
        exact ⟨h1.symm, by rw [← h2]; exact linux_zenity_declined _ o r hz2⟩

/-- The world in which `TaskDialogIndirect` is called has the dialog session of the world
`ShowTaskDialog` started in. -/
theorem windows_task_dialog_session (w : World) (m : Option String) :
    ((Windows.LoadTaskDialog w).2.record Call.task_dialog).win = w.win ∧
      ((nmb_runtime_log (Windows.LoadTaskDialog w).2 m).record Call.task_dialog).win
        = w.win := by
  have hload : (Windows.LoadTaskDialog w).2.win = w.win := by
    unfold Windows.LoadTaskDialog
    split_ifs <;> rfl
  have hlog : (nmb_runtime_log (Windows.LoadTaskDialog w).2 m).win
      = (Windows.LoadTaskDialog w).2.win := by
    unfold nmb_runtime_log
    cases m with
    | none => rfl
    | some t => simp only []; split_ifs <;> rfl
  exact ⟨hload, hlog.trans hload⟩

/-- The task dialog returns not supported and leaves the result struct as it was, or
`TaskDialogIndirect` fails and it returns platform failure and leaves the result struct
as it was, or it returns ok and stores status ok. -/
theorem windows_task_dialog_outcome (w W : World) (o : NmbMessageBoxOptions)
    (r R : NmbMessageBoxResult) (rc : Nat)
    (hrun : Windows.ShowTaskDialog w o r = .ok (rc, R, W)) :
    (rc = NMB_E_NOT_SUPPORTED ∧ R = r) ∨
      (rc = NMB_E_PLATFORM_FAILURE ∧ R = r ∧ w.win.task_dialog_failed = true) ∨
      (rc = NMB_OK ∧ R.result_code = NMB_OK) := by
  have hsess := windows_task_dialog_session w
  unfold Windows.ShowTaskDialog at hrun
  simp only [] at hrun
  split_ifs at hrun
  all_goals first
    | (simp only [Except.ok.injEq, Prod.mk.injEq] at hrun
       obtain ⟨h1, h2, -⟩ := hrun
       exact Or.inl ⟨h1.symm, h2.symm⟩)
    | (cases hb : Windows.ShowTaskDialog.readButtons o.buttons o.button_count 0 with
       | error e => simp [hb] at hrun
       | ok u =>
         simp only [hb] at hrun
         try split_ifs at hrun
         all_goals
           simp only [Except.ok.injEq, Prod.mk.injEq] at hrun
           obtain ⟨h1, h2, -⟩ := hrun
           first
             | (refine Or.inr (Or.inl ⟨h1.symm, h2.symm, ?_⟩)
                rename_i hf
                first
                  | (rw [(hsess _).2] at hf; exact hf)
                  | (rw [(hsess none).1] at hf; exact hf))
             | exact Or.inr (Or.inr ⟨h1.symm, by rw [← h2]⟩))

/-- The simple message box returns the status it stores. -/
theorem windows_simple_status (w W : World) (o : NmbMessageBoxOptions)
    (r R : NmbMessageBoxResult) (rc : Nat)
    (hrun : Windows.ShowMessageBoxSimple w o r = .ok (rc, R, W)) :
    rc = R.result_code := by
  unfold Windows.ShowMessageBoxSimple at hrun
  cases hc : Windows.ComposeButtonFlags (some o) with
  | error e => simp [hc] at hrun
  | ok p =>
    obtain ⟨bf, db⟩ := p
    simp only [hc] at hrun
    split_ifs at hrun
    all_goals
      simp only [Except.ok.injEq, Prod.mk.injEq] at hrun
      obtain ⟨h1, h2, -⟩ := hrun
      rw [← h1, ← h2]

/-- The world the Windows harness step leaves when it does not apply is the world it
found. -/
theorem windows_harness_declined_world (w : World) (o : NmbMessageBoxOptions)
    (r : NmbMessageBoxResult)
    (h : (Windows.ApplyTestHarness w (some o) (some r)).1 = false) :
    (Windows.ApplyTestHarness w (some o) (some r)).2.2 = w := by
  unfold Windows.ApplyTestHarness at h ⊢
  cases hc : o.user_context with
  | none => simp [hc]
  | some hs =>
    simp only [hc] at h ⊢
    split_ifs at h ⊢
    all_goals first
      | rfl
      | (cases hi : hs.input_value_utf8 <;> cases ha : o.allocator <;>
          simp only [hi, ha] at h <;> (try split_ifs at h) <;> simp at h)

/-- The Windows tiers return the stored status, or no harness applied, `TaskDialogIndirect`
failed, and they return platform failure and leave the result struct as it was. -/
theorem windows_tiers_outcome (w W : World) (o : NmbMessageBoxOptions) (b : Bool)
    (r R : NmbMessageBoxResult) (rc : Nat)
    (hrun : Windows.nmb_show_message_box.tiers w o b r = .ok (rc, some R, W)) :
    rc = R.result_code ∨
      (rc = NMB_E_PLATFORM_FAILURE ∧ R = r ∧ w.win.task_dialog_failed = true ∧
        (if w.build.testing = true then Windows.ApplyTestHarness w (some o) (some r)
          else (false, some r, w)).1 = false) := by
  unfold Windows.nmb_show_message_box.tiers at hrun
  generalize hh : (if w.build.testing = true then Windows.ApplyTestHarness w (some o) (some r)
    else (false, some r, w)) = t at hrun
  obtain ⟨applied, after, w3⟩ := t
  have hafter : applied = false → after = some r := by
    intro ha
    subst ha
    by_cases ht : w.build.testing = true
    · rw [if_pos ht] at hh
      have := windows_harness_declined w o r (by rw [hh])
      rw [hh] at this
      exact this
    · rw [if_neg ht] at hh
      simp only [Prod.mk.injEq, true_and] at hh
      exact hh.1.symm
  have hworld : applied = false → w3 = w := by
    intro ha
    subst ha
    by_cases ht : w.build.testing = true
    · rw [if_pos ht] at hh
      have := windows_harness_declined_world w o r (by rw [hh])
      rw [hh] at this
      exact this
    · rw [if_neg ht] at hh
      simp only [Prod.mk.injEq, true_and] at hh
      exact hh.2.symm
  cases applied with
  | true =>
    simp only [if_true, Except.ok.injEq, Prod.mk.injEq, Option.some.injEq] at hrun
    obtain ⟨h1, h2, -⟩ := hrun
    left
    rw [← h1, ← h2]
  | false =>
    rw [hafter rfl] at hrun
    simp only [Option.getD_some, Bool.false_eq_true, if_false] at hrun
    cases b <;>
      simp only [Bool.not_true, Bool.not_false, Bool.false_eq_true, if_false, if_true]
        at hrun <;>
      (split_ifs at hrun
       · simp only [Except.ok.injEq, Prod.mk.injEq, Option.some.injEq] at hrun
         obtain ⟨h1, h2, -⟩ := hrun
         left
         rw [← h1, ← h2]
       · cases hq : Windows.RequiresTaskDialog (some o) with
         | error e => simp [hq] at hrun
         | ok req =>
           cases req with
           | false =>
             simp only [hq] at hrun
             cases hs : Windows.ShowMessageBoxSimple w3 o r with
             | error e => simp [hs] at hrun
             | ok t =>
               obtain ⟨rc1, R1, W1⟩ := t
               simp only [hs, Except.ok.injEq, Prod.mk.injEq, Option.some.injEq] at hrun
               obtain ⟨h1, h2, -⟩ := hrun
               left
               rw [← h1, ← h2]
               exact windows_simple_status w3 W1 o r R1 rc1 hs
           | true =>
             simp only [hq] at hrun
             cases ht : Windows.ShowTaskDialog w3 o r with
             | error e => simp [ht] at hrun
             | ok t =>
               obtain ⟨rc1, R1, W1⟩ := t
               simp only [ht] at hrun
               rcases windows_task_dialog_outcome w3 W1 o r R1 rc1 ht with
                 ⟨hrc, hR⟩ | ⟨hrc, hR, hfail⟩ | ⟨hrc, hR⟩
               · subst hrc
                 subst hR
                 have hne : ¬ (NMB_E_NOT_SUPPORTED = NMB_OK) := by decide
                 simp only [hne, if_false, ne_eq, not_true_eq_false] at hrun
                 first
                   | (simp only [Except.ok.injEq, Prod.mk.injEq, Option.some.injEq] at hrun
                      obtain ⟨h1, h2, -⟩ := hrun
                      left
                      rw [← h1, ← h2])
                   | (cases hs : Windows.ShowMessageBoxSimple
                        (nmb_runtime_log W1 (some
                          "Windows: TaskDialogIndirect unavailable, falling back to MessageBox."))
                        o R1 with
                      | error e => simp [hs] at hrun
                      | ok t2 =>
                        obtain ⟨rc2, R2, W2⟩ := t2
                        simp only [hs, Except.ok.injEq, Prod.mk.injEq, Option.some.injEq]
                          at hrun
                        obtain ⟨h1, h2, -⟩ := hrun
                        left
                        rw [← h1, ← h2]
                        exact windows_simple_status _ W2 o R1 R2 rc2 hs)
               · subst hrc
                 subst hR
                 have hne : ¬ (NMB_E_PLATFORM_FAILURE = NMB_OK) := by decide
                 have hne2 : NMB_E_PLATFORM_FAILURE ≠ NMB_E_NOT_SUPPORTED := by decide
                 simp only [hne, if_false, hne2, ne_eq, not_false_eq_true, if_true,
                   Except.ok.injEq, Prod.mk.injEq, Option.some.injEq] at hrun
                 obtain ⟨h1, h2, -⟩ := hrun
                 right
                 exact ⟨h1.symm, h2.symm, by rw [← hworld rfl]; exact hfail, rfl⟩
               · subst hrc
                 simp only [if_true, Except.ok.injEq, Prod.mk.injEq, Option.some.injEq]
                   at hrun
                 obtain ⟨h1, h2, -⟩ := hrun
                 left
                 rw [← h1, ← h2, hR])

/-- The Android dialog returns the stored status, or it leaves the result struct as it
was. -/
theorem android_dialog_status (w W : World) (o : NmbMessageBoxOptions)
    (r R : NmbMessageBoxResult) (rc : Nat)
    (hrun : Android.ShowDialogInternal w o r = .ok (rc, R, W)) :
    rc = R.result_code ∨ R = r := by
  unfold Android.ShowDialogInternal at hrun
  generalize hh : (if w.build.testing = true then Android.ApplyTestHarness w (some o) (some r)
    else (false, some r, w)) = t at hrun
  obtain ⟨applied, after, w3⟩ := t
  have hafter : applied = false → after = some r := by
    intro ha
    subst ha
    by_cases ht : w.build.testing = true
    · rw [if_pos ht] at hh
      have := android_harness_declined w o r (by rw [hh])
      rw [hh] at this
      exact this
    · rw [if_neg ht] at hh
      simp only [Prod.mk.injEq, true_and] at hh
      exact hh.1.symm
  cases applied with
  | true =>
    simp only [if_true, Except.ok.injEq, Prod.mk.injEq] at hrun
    obtain ⟨h1, h2, -⟩ := hrun
    left
    rw [← h1, ← h2]
  | false =>
    rw [hafter rfl] at hrun
    simp only [Option.getD_some, Bool.false_eq_true, if_false] at hrun
    by_cases hp : o.parent_window = 0
    · rw [if_pos hp] at hrun
      simp only [Except.ok.injEq, Prod.mk.injEq] at hrun
      exact Or.inr hrun.2.1.symm
    · rw [if_neg hp] at hrun
      cases hs : Android.ShowDialogInternal.show w3 o with
      | error e => simp [hs] at hrun
      | ok res =>
        cases res with
        | inl early =>
          obtain ⟨rc1, W1⟩ := early
          simp only [hs, Except.ok.injEq, Prod.mk.injEq] at hrun
          exact Or.inr hrun.2.1.symm
        | inr shown =>
          simp only [hs] at hrun
          cases hc : shown.world.android.completion with
          | none => simp [hc] at hrun
          | some completion =>
            simp only [hc, Except.ok.injEq] at hrun
            unfold Android.ShowDialogInternal.complete at hrun
            cases completion with
            | error code =>
              simp only [Prod.mk.injEq] at hrun
              exact Or.inr hrun.2.1.symm
            | completed bid cancelled =>
              simp only [] at hrun
              split_ifs at hrun
              all_goals
                simp only [Prod.mk.injEq] at hrun
                obtain ⟨h1, h2, -⟩ := hrun
                left
                rw [← h1, ← h2]

/-- The web entry point past its validation returns the status it stores. -/
theorem web_show_status (w W : World) (o : NmbMessageBoxOptions)
    (r R : NmbMessageBoxResult) (rc : Nat)
    (hopt : Web.ValidateMessageBoxOptions w (some o) = NMB_OK)
    (hres : Web.ValidateMessageBoxResult w (some r) = NMB_OK)
    (hrun : Web.nmb_show_message_box w (some o) (some r) = .ok (rc, some R, W)) :
    rc = R.result_code := by
  unfold Web.nmb_show_message_box at hrun
  simp only [hopt, hres, bne_self_eq_false, Bool.false_eq_true, if_false] at hrun
  split at hrun
  · cases hrun
  · rename_i count hcount
    split_ifs at hrun
    all_goals first
      | (simp only [Except.ok.injEq, Prod.mk.injEq, Option.some.injEq] at hrun
         obtain ⟨h1, h2, -⟩ := hrun
         rw [← h1, ← h2])
      | (cases hi : (w.record (Call.wasm_dispatch count)).web.input with
         | none =>
           simp only [hi, Except.ok.injEq, Prod.mk.injEq, Option.some.injEq] at hrun
           obtain ⟨h1, h2, -⟩ := hrun
           rw [← h1, ← h2]
         | some text =>
           simp only [hi] at hrun
           split_ifs at hrun
           all_goals
             simp only [Except.ok.injEq, Prod.mk.injEq, Option.some.injEq] at hrun
             obtain ⟨h1, h2, -⟩ := hrun
             rw [← h1, ← h2])

/-- C28 (counterexample): two calls that pass validation and fail before a backend writes
to the result. On Linux GTK is unavailable and zenity, though installed, declines a request
with two buttons: the call returns platform failure. On Android no Java VM is registered:
the call returns platform failure. In both the result struct is the baseline, whose stored
status is ok. -/
theorem failure_status_not_stored :
    observable (Linux.nmb_show_message_box
        { World.sample with
          gtk_init_result := false
          zenity_found := true
          spawn_ok := true
          wifexited := true }
        (some (sampleOptions
          [sampleButton NMB_BUTTON_ID_YES "Yes" 1 0, sampleButton NMB_BUTTON_ID_NO "No" 0 1]
          none none))
        (some sampleResult))
      = some (NMB_E_PLATFORM_FAILURE, some (baseline Build.lp64)) ∧
    observable (Android.nmb_show_message_box
        { World.sample with android := { World.sample.android with g_javaVm := false } }
        (some { sampleOptions [] none none with parent_window := 77 }) (some sampleResult))
      = some (NMB_E_PLATFORM_FAILURE, some (baseline Build.lp64)) ∧
    (baseline Build.lp64).result_code = NMB_OK ∧
    NMB_E_PLATFORM_FAILURE ≠ NMB_OK := by
  decide

/-- C28 (as the code has it): for a call that passes validation, on every path that
returns. On Linux the returned status is the stored one, or the call returns platform
failure and the result is the baseline (no GUI backend). On Windows the returned status is
the stored one on every path on which `TaskDialogIndirect` does not fail. On Android the
returned status is the stored one, or the call returns a failure and the result is the
baseline (a failure before the dialog is shown, or an error the Java side reports). On the
web the returned status is always the stored one. On Linux, Windows and Android a valid
harness in a test build always makes the returned status the stored one. -/
theorem returned_status_stored_or_baseline (w : World) (o : NmbMessageBoxOptions)
    (r : NmbMessageBoxResult)
    (hmsg : o.message_utf8.isSome = true)
    (hsize : w.build.kMessageBoxOptionsMinSize ≤ o.struct_size)
    (habi : o.abi_version = NMB_ABI_VERSION)
    (hres : w.build.kMessageBoxResultMinSize ≤ r.struct_size) :
    (∀ rc R W, Linux.nmb_show_message_box w (some o) (some r) = .ok (rc, some R, W) →
      rc = R.result_code ∨ (rc = NMB_E_PLATFORM_FAILURE ∧ R = baseline w.build)) ∧
    (w.win.task_dialog_failed = false →
      ∀ rc R W, Windows.nmb_show_message_box w (some o) (some r) = .ok (rc, some R, W) →
        rc = R.result_code) ∧
    (∀ rc R W, Android.nmb_show_message_box w (some o) (some r) = .ok (rc, some R, W) →
      rc = R.result_code ∨ (rc ≠ NMB_OK ∧ R = baseline w.build)) ∧
    (Web.ValidateMessageBoxOptions w (some o) = NMB_OK →
      Web.ValidateMessageBoxResult w (some r) = NMB_OK →
      ∀ rc R W, Web.nmb_show_message_box w (some o) (some r) = .ok (rc, some R, W) →
        rc = R.result_code) ∧
    (∀ h, o.user_context = some h → h.magic = NMB_TEST_HARNESS_MAGIC →
      h.struct_size = w.build.sizeof_NmbTestHarness → w.build.testing = true →
      ∀ run ∈ [Linux.nmb_show_message_box w (some o) (some r),
          Windows.nmb_show_message_box w (some o) (some r),
          Android.nmb_show_message_box w (some o) (some r)],
        ∀ rc R W, run = .ok (rc, some R, W) → rc = R.result_code) := by
  refine ⟨?_, ?_, ?_, ?_, ?_⟩
  · intro rc R W hrun
    rw [linux_show_validated w o r hmsg hsize habi hres] at hrun
    exact linux_tiers_status w W o (baseline w.build) R rc rfl hrun
  · intro hnofail rc R W hrun
    rw [windows_show_validated_any w o r hmsg hsize habi hres] at hrun
    cases hs : Windows.ButtonsSupportedByMessageBox (some o) with
    | error e => simp [hs] at hrun
    | ok b =>
      simp only [hs] at hrun
      rcases windows_tiers_outcome w W o b (baseline w.build) R rc hrun with h | h
      · exact h
      · rw [hnofail] at h
        exact absurd h.2.2.1 (by decide)
  · intro rc R W hrun
    rw [android_show_validated w o r hmsg hsize habi hres] at hrun
    unfold Android.nmb_show_message_box.tiers at hrun
    cases hd : Android.ShowDialogInternal (Android.LogUnsupportedFeatures w (some o)) o
        (baseline w.build) with
    | error e => simp [hd] at hrun
    | ok t =>
      obtain ⟨rc1, R1, W1⟩ := t
      simp only [hd, Except.ok.injEq, Prod.mk.injEq, Option.some.injEq] at hrun
      obtain ⟨h1, h2, -⟩ := hrun
      subst h1
      subst h2
      rcases android_dialog_status _ W1 o (baseline w.build) R1 rc1 hd with h | h
      · exact Or.inl h
      · by_cases hok : rc1 = NMB_OK
        · left
          rw [hok, h]
          rfl
        · exact Or.inr ⟨hok, h⟩
  · intro hvo hvr rc R W hrun
    exact web_show_status w W o r R rc hvo hvr hrun
  · intro h hctx hmagic hhsize htest run hmem rc R W hrun
    simp only [List.mem_cons, List.mem_singleton, List.not_mem_nil, or_false] at hmem
    rcases hmem with rfl | rfl | rfl
    · obtain ⟨R0, W0, h0, -⟩ :=
        linux_harness_fields w o r h htest hmsg hsize habi hres hctx hmagic hhsize
      rw [h0] at hrun
      simp only [Except.ok.injEq, Prod.mk.injEq, Option.some.injEq] at hrun
      rw [← hrun.1, ← hrun.2.1]
    · rw [windows_show_validated_any w o r hmsg hsize habi hres] at hrun
      cases hs : Windows.ButtonsSupportedByMessageBox (some o) with
      | error e => simp [hs] at hrun
      | ok b =>
        simp only [hs] at hrun
        obtain ⟨R0, W0, happ, -⟩ :=
          windows_harness_world w o (baseline w.build) h hctx hmagic hhsize
        rw [windows_tiers_harnessed w W0 o b _ R0 htest happ] at hrun
        simp only [Except.ok.injEq, Prod.mk.injEq, Option.some.injEq] at hrun
        rw [← hrun.1, ← hrun.2.1]
    · obtain ⟨R0, W0, h0, -⟩ :=
        android_harness_fields w o r h htest hmsg hsize habi hres hctx hmagic hhsize
      rw [h0] at hrun
      simp only [Except.ok.injEq, Prod.mk.injEq, Option.some.injEq] at hrun
      rw [← hrun.1, ← hrun.2.1]

/-- C28 (witness): four runs of the sample request. Answered with OK in the GTK dialog,
the returned status is the stored one. With GTK unavailable and zenity declining two
buttons, the call returns platform failure and the result is the baseline. With a timeout
on Windows and a task dialog that does not fail, the returned status is the stored one.
With a harness that scripts status 5, the returned status is the stored one. -/
theorem returned_status_stored_or_baseline_witness :
    (∃ R W, Linux.nmb_show_message_box (World.gtkAnswers Linux.GTK_RESPONSE_OK)
        (some (sampleOptions [] none none)) (some sampleResult) = .ok (NMB_OK, some R, W) ∧
      (NMB_OK = R.result_code ∨
        (NMB_OK = NMB_E_PLATFORM_FAILURE ∧
          R = baseline (World.gtkAnswers Linux.GTK_RESPONSE_OK).build))) ∧
    (∃ R W, Linux.nmb_show_message_box
        { World.sample with
          gtk_init_result := false
          zenity_found := true
          spawn_ok := true
          wifexited := true }
        (some (sampleOptions
          [sampleButton NMB_BUTTON_ID_YES "Yes" 1 0, sampleButton NMB_BUTTON_ID_NO "No" 0 1]
          none none))
        (some sampleResult) = .ok (NMB_E_PLATFORM_FAILURE, some R, W) ∧
      (NMB_E_PLATFORM_FAILURE = R.result_code ∨
        (NMB_E_PLATFORM_FAILURE = NMB_E_PLATFORM_FAILURE ∧ R = baseline Build.lp64))) ∧
    (∃ R W, Windows.nmb_show_message_box World.sample
        (some (sampleTimedOptions [] 5000 NMB_BUTTON_ID_NONE)) (some sampleResult)
          = .ok (NMB_OK, some R, W) ∧
      NMB_OK = R.result_code) ∧
    (∃ R W, Linux.nmb_show_message_box World.sample
        (some (sampleOptions [sampleButton 3 "Yes" 1 0] none
          (some (sampleHarness 3 1 1 5 none))))
        (some sampleResult) = .ok (5, some R, W) ∧
      5 = R.result_code) :=
  ⟨⟨_, _, rfl,
      (returned_status_stored_or_baseline (World.gtkAnswers Linux.GTK_RESPONSE_OK)
        (sampleOptions [] none none) sampleResult rfl (by decide) rfl (by decide)).1
        NMB_OK _ _ rfl⟩,
    ⟨_, _, rfl,
      (returned_status_stored_or_baseline
        { World.sample with
          gtk_init_result := false
          zenity_found := true
          spawn_ok := true
          wifexited := true }
        (sampleOptions
          [sampleButton NMB_BUTTON_ID_YES "Yes" 1 0, sampleButton NMB_BUTTON_ID_NO "No" 0 1]
          none none)
        sampleResult rfl (by decide) rfl (by decide)).1 NMB_E_PLATFORM_FAILURE _ _ rfl⟩,
    ⟨_, _, rfl,
      (returned_status_stored_or_baseline World.sample (sampleTimedOptions [] 5000 NMB_BUTTON_ID_NONE) sampleResult
        rfl (by decide) rfl (by decide)).2.1 rfl NMB_OK _ _ rfl⟩,
    ⟨_, _, rfl,
      (returned_status_stored_or_baseline World.sample
        (sampleOptions [sampleButton 3 "Yes" 1 0] none (some (sampleHarness 3 1 1 5 none)))
        sampleResult rfl (by decide) rfl (by decide)).2.2.2.2
        (sampleHarness 3 1 1 5 none) rfl (by decide) (by decide) (by decide)
        _ (List.mem_cons_self _ _) 5 _ _ rfl⟩⟩

/-- The Windows path that the statement of C28 leaves out: the request has a timeout, so
it takes the task dialog, and `TaskDialogIndirect` fails. The call returns platform failure
and the result is the baseline, whose stored status is ok. The other failure exits of the
Windows backend store the status they return: a `MessageBoxW` that returns 0 with last
error 5 returns and stores platform failure. -/
theorem windows_task_dialog_failure_not_stored :
    observable (Windows.nmb_show_message_box
        { World.sample with win := { World.sample.win with task_dialog_failed := true } }
        (some (sampleTimedOptions [] 5000 NMB_BUTTON_ID_NONE)) (some sampleResult))
      = some (NMB_E_PLATFORM_FAILURE, some (baseline Build.lp64)) ∧
    (baseline Build.lp64).result_code = NMB_OK ∧
    observable (Windows.nmb_show_message_box
        { World.sample with
          win := { World.sample.win with message_box_response := 0, last_error := 5 } }
        (some (sampleOptions [] none none)) (some sampleResult))
      = some (NMB_E_PLATFORM_FAILURE,
          some { baseline Build.lp64 with result_code := NMB_E_PLATFORM_FAILURE }) := by
  decide

/-! ## Theorems: a null button array with a positive count -/

/-- C29 (failing input): a validated request with a null button array and a button count
of four. On Windows the count alone requires the task dialog, and the button loop of
`ShowTaskDialog` reads `options->buttons[0]` through the null pointer: the call does not
return. The same request is shown with the implicit OK button on Linux and on Android,
and the web backend rejects it as an invalid argument. -/
theorem task_dialog_reads_null_buttons :
    Windows.nmb_show_message_box World.sample
        (some { sampleOptions [] none none with buttons := none, button_count := 4 })
        (some sampleResult)
      = .error Stop.invalid_read ∧
    observable (Linux.nmb_show_message_box (World.gtkAnswers Linux.GTK_RESPONSE_OK)
        (some { sampleOptions [] none none with buttons := none, button_count := 4 })
        (some sampleResult))
      = some (NMB_OK, some { baseline Build.lp64 with button := NMB_BUTTON_ID_OK }) ∧
    observable (Android.nmb_show_message_box
        { World.sample with
          android := { World.sample.android with
            completion := some (.completed 1 false) } }
        (some { sampleOptions [] none none with
          buttons := none
          button_count := 4
          parent_window := 77 })
        (some sampleResult))
      = some (NMB_OK, some { baseline Build.lp64 with button := NMB_BUTTON_ID_OK }) ∧
    observable (Web.nmb_show_message_box World.sample
        (some { sampleOptions [] none none with buttons := none, button_count := 4 })
        (some sampleResult))
      = some (NMB_E_INVALID_ARGUMENT, some sampleResult) := by
  refine ⟨rfl, ?_, ?_, ?_⟩ <;> decide

/-! ## Theorems: the default button of the simple message box -/

/-- C30 (failing input): the simple message box of the sample request with the buttons
Yes and No. With Yes marked default the flags carry `MB_DEFBUTTON3`, not
`MB_DEFBUTTON1`, although Yes is the first button of the Yes/No box; with No marked
default they carry `MB_DEFBUTTON3` as well, not `MB_DEFBUTTON2`. The flag is chosen from
the button id alone. -/
theorem default_flag_ignores_position :
    finalTrace (Windows.nmb_show_message_box (World.messageBoxReturns Windows.IDYES)
        (some (sampleOptions
          [sampleButton NMB_BUTTON_ID_YES "Yes" 1 0, sampleButton NMB_BUTTON_ID_NO "No" 0 0]
          none none))
        (some sampleResult))
      = some [Call.message_box (Windows.MB_YESNO ||| Windows.MB_DEFBUTTON3)] ∧
    finalTrace (Windows.nmb_show_message_box (World.messageBoxReturns Windows.IDYES)
        (some (sampleOptions
          [sampleButton NMB_BUTTON_ID_YES "Yes" 0 0, sampleButton NMB_BUTTON_ID_NO "No" 1 0]
          none none))
        (some sampleResult))
      = some [Call.message_box (Windows.MB_YESNO ||| Windows.MB_DEFBUTTON3)] ∧
    Windows.MB_YESNO ||| Windows.MB_DEFBUTTON3 ≠ Windows.MB_YESNO ||| Windows.MB_DEFBUTTON1 ∧
    Windows.MB_YESNO ||| Windows.MB_DEFBUTTON3
      ≠ Windows.MB_YESNO ||| Windows.MB_DEFBUTTON2 := by
  decide

end NativeMessageBox
